import Mathlib

/-!
# Venus wire codec: `vn_protocol_renderer_structs.h`

A shallow embedding of the generated struct encoders, decoders and handle
passes of `vn_protocol_renderer_structs.h`.

The generated functions are built on the byte-cursor, marker, arena and
registry helpers of `vn_protocol_renderer_types.h`, `vn_protocol_renderer_handles.h`
and the command-stream layer. Those helpers are not among the sources; each of
them is modelled from the specification and says so in its doc comment. The
struct functions themselves are transcribed from the header, statement by
statement: a C out-parameter `val` becomes an argument and a component of the
result, the encoder and decoder are passed as explicit state.
-/

namespace Venus

/-! ## Bytes and scalars on the wire -/

/-- One byte of the stream. -/
abbrev Byte := Fin 256

/-- The `n` low bytes of `v`, least significant first. -/
def leBytes : Nat → Nat → List Byte
  | 0, _ => []
  | n + 1, v => ⟨v % 256, Nat.mod_lt _ (by decide)⟩ :: leBytes n (v / 256)

/-- The number that a run of bytes carries, least significant byte first. -/
def leValue : List Byte → Nat
  | [] => 0
  | b :: bs => b.val + 256 * leValue bs

/-- The two's complement bit pattern of a 32-bit signed value. -/
def int32Bits (v : Int) : Nat := (v % 4294967296).toNat

/-- The signed value of a 32-bit pattern. -/
def int32OfBits (n : Nat) : Int :=
  if n < 2147483648 then (n : Int) else (n : Int) - 4294967296

/-! ## Encoder state and primitives -/

/-- The encoder: the bytes written so far. -/
structure vn_cs_encoder where
  buf : List Byte
  deriving DecidableEq, Repr

/-- Modelled from the spec: the scalar writer behind every `vn_encode_<scalar>`
(the command-stream layer is not among the sources). §4.1: `encode_scalar(v)`
appends `sizeof(v)` bytes in the agreed wire order and never fails; the wire
order is taken little-endian. -/
def vn_cs_encoder_write (enc : vn_cs_encoder) (size : Nat) (v : Nat) : vn_cs_encoder :=
  { buf := enc.buf ++ leBytes size v }

/-- Modelled from the spec: `vn_encode_uint32_t` of the missing types header, a
4-byte scalar write (§3 Scalar, §4.1 `encode_scalar`). -/
def vn_encode_uint32_t (enc : vn_cs_encoder) (v : Nat) : vn_cs_encoder :=
  vn_cs_encoder_write enc 4 v

/-- Modelled from the spec: `vn_encode_uint64_t` of the missing types header, an
8-byte scalar write (§4.1 `encode_scalar`). -/
def vn_encode_uint64_t (enc : vn_cs_encoder) (v : Nat) : vn_cs_encoder :=
  vn_cs_encoder_write enc 8 v

/-- Modelled from the spec: `vn_encode_int32_t` of the missing types header, a
4-byte scalar write of the two's complement pattern (§4.1 `encode_scalar`). -/
def vn_encode_int32_t (enc : vn_cs_encoder) (v : Int) : vn_cs_encoder :=
  vn_cs_encoder_write enc 4 (int32Bits v)

/-- Modelled from the spec: `vn_encode_VkFlags` of the missing types header;
`VkFlags` is a 32-bit scalar (§3 Scalar). -/
def vn_encode_VkFlags (enc : vn_cs_encoder) (v : Nat) : vn_cs_encoder :=
  vn_encode_uint32_t enc v

/-- Modelled from the spec: `vn_encode_VkBool32` of the missing types header;
boolean-as-integer, a 32-bit scalar (§3 Scalar). -/
def vn_encode_VkBool32 (enc : vn_cs_encoder) (v : Nat) : vn_cs_encoder :=
  vn_encode_uint32_t enc v

/-- Modelled from the spec: `vn_encode_VkDeviceSize` of the missing types header;
`VkDeviceSize` is a 64-bit scalar (§3 Scalar). -/
def vn_encode_VkDeviceSize (enc : vn_cs_encoder) (v : Nat) : vn_cs_encoder :=
  vn_encode_uint64_t enc v

/-- Modelled from the spec: `vn_encode_VkStructureType` of the missing types
header; enumeration-as-integer, written as a 32-bit signed scalar (§3 Scalar). -/
def vn_encode_VkStructureType (enc : vn_cs_encoder) (v : Int) : vn_cs_encoder :=
  vn_encode_int32_t enc v

/-- Modelled from the spec: `vn_encode_VkComponentSwizzle` of the missing types
header; enumeration-as-integer, written as a 32-bit signed scalar (§3 Scalar). -/
def vn_encode_VkComponentSwizzle (enc : vn_cs_encoder) (v : Int) : vn_cs_encoder :=
  vn_encode_int32_t enc v

/-- Width in bytes of the boolean-like token that opens a size or pointer marker,
and of the count that follows a present size marker. -/
def MARKER_SIZE : Nat := 8

/-- Modelled from the spec: `vn_encode_array_size` of the missing types header.
§4.1 `encode_array_var`: appends a size marker for `n`, and even `n = 0` is
"present, empty"; §6: the marker is a boolean-like token followed, only when
present, by the count. -/
def vn_encode_array_size (enc : vn_cs_encoder) (n : Nat) : vn_cs_encoder :=
  vn_cs_encoder_write (vn_cs_encoder_write enc MARKER_SIZE 1) MARKER_SIZE n

/-- Modelled from the spec: `vn_encode_simple_pointer` of the missing types
header. §4.1/§6: a "present" or "absent" pointer marker, one boolean-like token;
the argument says whether the C pointer is non-null. -/
def vn_encode_simple_pointer (enc : vn_cs_encoder) (present : Bool) : vn_cs_encoder :=
  vn_cs_encoder_write enc MARKER_SIZE (if present then 1 else 0)

/-- Modelled from the spec: the element loop behind the missing
`vn_encode_char_array` and its siblings. §3 Fixed array / §4.1
`encode_array_fixed`: `n` consecutive encoded elements of `size` bytes each,
read from the array in index order. -/
def vn_encode_scalar_array (size : Nat) : Nat → List Nat → vn_cs_encoder → vn_cs_encoder
  | 0, _, enc => enc
  | n + 1, vals, enc =>
    vn_encode_scalar_array size n vals.tail (vn_cs_encoder_write enc size (vals.headD 0))

/-- Modelled from the spec: `vn_encode_char_array` of the missing types header;
`count` consecutive one-byte elements (§4.1 `encode_array_fixed`). -/
def vn_encode_char_array (enc : vn_cs_encoder) (val : List Nat) (count : Nat) : vn_cs_encoder :=
  vn_encode_scalar_array 1 count val enc

/-! ## Decoder state and primitives -/

/-- Modelled from the spec: the decode-side arena (§2, §6 `allocate`): a bump
allocator with a fixed capacity; `used` bytes have been handed out in `allocs`
allocations. -/
structure Arena where
  capacity : Nat
  used : Nat
  allocs : Nat
  deriving DecidableEq, Repr

/-- Categories of handles that the decoders of this file look up. -/
inductive VkObjectType
  | sampler
  | imageView
  | buffer
  | bufferView
  | descriptorSet
  | samplerYcbcrConversion
  deriving DecidableEq, Repr

/-- The decoder: the bytes from the cursor to the end of the stream, the sticky
fatal flag, the arena of the decode scope, and the session's object registry as
a table of (category, wire id, local reference). -/
structure vn_cs_decoder where
  cur : List Byte
  fatal : Bool
  arena : Arena
  objects : List (VkObjectType × Nat × Nat)
  deriving DecidableEq, Repr

/-- Modelled from the spec: `vn_cs_decoder_set_fatal` of the missing
command-stream layer; §4.2: the only transition is ok → fatal. -/
def vn_cs_decoder_set_fatal (dec : vn_cs_decoder) : vn_cs_decoder :=
  { dec with fatal := true }

/-- Modelled from the spec: the scalar reader behind every `vn_decode_<scalar>`
(the command-stream layer is not among the sources). §4.2 `decode_scalar`: reads
`size` bytes; if the cursor is exhausted, sets fatal and the output is
zero-filled. §3: once fatal is set all subsequent reads are no-ops returning
zeroed data. -/
def vn_cs_decoder_read (dec : vn_cs_decoder) (size : Nat) : vn_cs_decoder × Nat :=
  if dec.fatal then (dec, 0)
  else if dec.cur.length < size then (vn_cs_decoder_set_fatal dec, 0)
  else ({ dec with cur := dec.cur.drop size }, leValue (dec.cur.take size))

/-- Modelled from the spec: the non-consuming reader of the missing
command-stream layer (§4.2 `peek_array_size`: no side effects); it yields zero
when fatal is set or fewer than `size` bytes remain. -/
def vn_cs_decoder_peek (dec : vn_cs_decoder) (size : Nat) : Nat :=
  if dec.fatal then 0
  else if dec.cur.length < size then 0
  else leValue (dec.cur.take size)

/-- Modelled from the spec: `vn_decode_uint32_t` of the missing types header
(§4.2 `decode_scalar`, 4 bytes). -/
def vn_decode_uint32_t (dec : vn_cs_decoder) : vn_cs_decoder × Nat :=
  vn_cs_decoder_read dec 4

/-- Modelled from the spec: `vn_decode_uint64_t` of the missing types header
(§4.2 `decode_scalar`, 8 bytes). -/
def vn_decode_uint64_t (dec : vn_cs_decoder) : vn_cs_decoder × Nat :=
  vn_cs_decoder_read dec 8

/-- Modelled from the spec: `vn_decode_int32_t` of the missing types header
(§4.2 `decode_scalar`, 4 bytes read as a signed value). -/
def vn_decode_int32_t (dec : vn_cs_decoder) : vn_cs_decoder × Int :=
  let r := vn_cs_decoder_read dec 4
  (r.1, int32OfBits r.2)

/-- Modelled from the spec: `vn_decode_size_t` of the missing types header; a
`size_t` travels as a 64-bit scalar (§4.2 `decode_scalar`). -/
def vn_decode_size_t (dec : vn_cs_decoder) : vn_cs_decoder × Nat :=
  vn_decode_uint64_t dec

/-- Modelled from the spec: `vn_decode_float` of the missing types header; the
32-bit pattern of the float is read verbatim (§3 Scalar). -/
def vn_decode_float (dec : vn_cs_decoder) : vn_cs_decoder × Nat :=
  vn_cs_decoder_read dec 4

/-- Modelled from the spec: `vn_decode_VkFlags` of the missing types header, a
32-bit scalar. -/
def vn_decode_VkFlags (dec : vn_cs_decoder) : vn_cs_decoder × Nat :=
  vn_decode_uint32_t dec

/-- Modelled from the spec: `vn_decode_VkFlags64` of the missing types header, a
64-bit scalar. -/
def vn_decode_VkFlags64 (dec : vn_cs_decoder) : vn_cs_decoder × Nat :=
  vn_decode_uint64_t dec

/-- Modelled from the spec: `vn_decode_VkDeviceSize` of the missing types header,
a 64-bit scalar. -/
def vn_decode_VkDeviceSize (dec : vn_cs_decoder) : vn_cs_decoder × Nat :=
  vn_decode_uint64_t dec

/-- Modelled from the spec: `vn_decode_VkStructureType` of the missing types
header; enumeration-as-integer, a 32-bit signed scalar. -/
def vn_decode_VkStructureType (dec : vn_cs_decoder) : vn_cs_decoder × Int :=
  vn_decode_int32_t dec

/-- Modelled from the spec: `vn_decode_VkComponentSwizzle` of the missing types
header; enumeration-as-integer. -/
def vn_decode_VkComponentSwizzle (dec : vn_cs_decoder) : vn_cs_decoder × Int :=
  vn_decode_int32_t dec

/-- Modelled from the spec: `vn_decode_VkSemaphoreType` of the missing types
header; enumeration-as-integer. -/
def vn_decode_VkSemaphoreType (dec : vn_cs_decoder) : vn_cs_decoder × Int :=
  vn_decode_int32_t dec

/-- Modelled from the spec: `vn_decode_VkImageLayout` of the missing types
header; enumeration-as-integer. -/
def vn_decode_VkImageLayout (dec : vn_cs_decoder) : vn_cs_decoder × Int :=
  vn_decode_int32_t dec

/-- Modelled from the spec: `vn_decode_VkDescriptorType` of the missing types
header; enumeration-as-integer. -/
def vn_decode_VkDescriptorType (dec : vn_cs_decoder) : vn_cs_decoder × Int :=
  vn_decode_int32_t dec

/-- Modelled from the spec: `vn_peek_array_size` of the missing types header.
§4.2 `peek_array_size`: a non-consuming check of whether the next size marker
indicates "present". -/
def vn_peek_array_size (dec : vn_cs_decoder) : Bool :=
  vn_cs_decoder_peek dec MARKER_SIZE != 0

/-- Modelled from the spec: `vn_decode_array_size_unchecked` of the missing types
header: consumes the size marker (§6: the token and, only when present, the
count) and returns the count, zero for an absent marker, with no bound check. -/
def vn_decode_array_size_unchecked (dec : vn_cs_decoder) : vn_cs_decoder × Nat :=
  let r := vn_cs_decoder_read dec MARKER_SIZE
  if r.2 = 0 then (r.1, 0) else vn_cs_decoder_read r.1 MARKER_SIZE

/-- Modelled from the spec: `vn_decode_array_size` of the missing types header.
§4.2 `decode_array_size(max)`: consumes the size marker, returns count K; sets
fatal if K exceeds `max`. -/
def vn_decode_array_size (dec : vn_cs_decoder) (max : Nat) : vn_cs_decoder × Nat :=
  let r := vn_decode_array_size_unchecked dec
  if max < r.2 then (vn_cs_decoder_set_fatal r.1, r.2) else r

/-- Modelled from the spec: `vn_decode_simple_pointer` of the missing types
header. §4.2 `decode_pnext_temp`: reads one "pointer present?" marker. -/
def vn_decode_simple_pointer (dec : vn_cs_decoder) : vn_cs_decoder × Bool :=
  let r := vn_cs_decoder_read dec MARKER_SIZE
  (r.1, r.2 != 0)

/-- Modelled from the spec: `vn_cs_decoder_alloc_temp` of the missing
command-stream layer. §4.2/§6: the arena's `allocate`; exhaustion sets fatal and
returns a null pointer. The boolean says whether the pointer is non-null. -/
def vn_cs_decoder_alloc_temp (dec : vn_cs_decoder) (size : Nat) : vn_cs_decoder × Bool :=
  if dec.arena.used + size ≤ dec.arena.capacity then
    ({ dec with arena := { dec.arena with used := dec.arena.used + size,
                                          allocs := dec.arena.allocs + 1 } }, true)
  else (vn_cs_decoder_set_fatal dec, false)

/-- Modelled from the spec: `vn_cs_decoder_alloc_temp_array` of the missing
command-stream layer. §4.2 `decode_array_var`: allocates `count` elements of
`size` bytes from the arena. -/
def vn_cs_decoder_alloc_temp_array (dec : vn_cs_decoder) (size count : Nat) :
    vn_cs_decoder × Bool :=
  vn_cs_decoder_alloc_temp dec (size * count)

/-- The element loop `for (i = 0; i < count; i++) decode(dec, &array[i])` of the
generated decoders; `init` is the content of a fresh array element. -/
def vn_decode_array {α : Type} (elem : vn_cs_decoder → α → vn_cs_decoder × α) (init : α) :
    Nat → vn_cs_decoder → vn_cs_decoder × List α
  | 0, dec => (dec, [])
  | n + 1, dec =>
    let r := elem dec init
    let rs := vn_decode_array elem init n r.1
    (rs.1, r.2 :: rs.2)

/-- Modelled from the spec: the element loop behind the missing scalar array
readers (`vn_decode_uint32_t_array`, `vn_decode_char_array`, ...). §4.2
`decode_array_var`: decodes each element in place, `count` scalars of `size`
bytes in index order. -/
def vn_decode_scalar_array (size : Nat) (count : Nat) (dec : vn_cs_decoder) :
    vn_cs_decoder × List Nat :=
  vn_decode_array (fun d _ => vn_cs_decoder_read d size) 0 count dec

/-- Storing `new` at the front of the C array `old`: elements past the written
ones keep their value. -/
def storeArray {α : Type} (old new : List α) : List α :=
  new ++ old.drop new.length

/-- Modelled from the spec: `vn_decode_char_array` of the missing types header;
`count` one-byte elements stored at the front of `val`. -/
def vn_decode_char_array (dec : vn_cs_decoder) (val : List Nat) (count : Nat) :
    vn_cs_decoder × List Nat :=
  let r := vn_decode_scalar_array 1 count dec
  (r.1, storeArray val r.2)

/-- Modelled from the spec: `vn_decode_blob_array` of the missing types header;
`count` raw bytes. -/
def vn_decode_blob_array (dec : vn_cs_decoder) (count : Nat) : vn_cs_decoder × List Nat :=
  vn_decode_scalar_array 1 count dec

/-- Modelled from the spec: `vn_decode_uint32_t_array` of the missing types
header; `count` 4-byte elements. -/
def vn_decode_uint32_t_array (dec : vn_cs_decoder) (count : Nat) : vn_cs_decoder × List Nat :=
  vn_decode_scalar_array 4 count dec

/-- Modelled from the spec: `vn_decode_int32_t_array` of the missing types
header; `count` 4-byte elements, kept as 32-bit patterns. -/
def vn_decode_int32_t_array (dec : vn_cs_decoder) (count : Nat) : vn_cs_decoder × List Nat :=
  vn_decode_scalar_array 4 count dec

/-- Modelled from the spec: `vn_decode_float_array` of the missing types header;
`count` 4-byte elements, kept as 32-bit patterns. -/
def vn_decode_float_array (dec : vn_cs_decoder) (count : Nat) : vn_cs_decoder × List Nat :=
  vn_decode_scalar_array 4 count dec

/-- Modelled from the spec: `vn_decode_VkFormat_array` of the missing types
header; `count` enumeration-as-integer elements. -/
def vn_decode_VkFormat_array (dec : vn_cs_decoder) (count : Nat) : vn_cs_decoder × List Int :=
  vn_decode_array (fun d _ => vn_decode_int32_t d) 0 count dec

/-- Modelled from the spec: `vn_decode_VkDescriptorType_array` of the missing
types header; `count` enumeration-as-integer elements. -/
def vn_decode_VkDescriptorType_array (dec : vn_cs_decoder) (count : Nat) :
    vn_cs_decoder × List Int :=
  vn_decode_array (fun d _ => vn_decode_int32_t d) 0 count dec

/-- Modelled from the spec: the registry's `lookup(handle_category, wire_id)`
(§6), an external collaborator: the local reference registered for the wire id,
if any. -/
def vn_cs_decoder_lookup_object (dec : vn_cs_decoder) (type : VkObjectType) (id : Nat) :
    Option Nat :=
  (dec.objects.find? (fun e => decide (e.1 = type ∧ e.2.1 = id))).map (fun e => e.2.2)

/-- Modelled from the spec: the body shared by the `vn_decode_<Handle>_lookup`
functions of the missing handles header. §4.4 `lookup`: reads the 64-bit wire id
and resolves it; fails (sets fatal) if it does not resolve in the registry. A
null handle is `none`. -/
def vn_decode_handle_lookup (dec : vn_cs_decoder) (type : VkObjectType) :
    vn_cs_decoder × Option Nat :=
  let r := vn_cs_decoder_read dec 8
  if r.1.fatal then (r.1, none)
  else
    match vn_cs_decoder_lookup_object r.1 type r.2 with
    | some ref => (r.1, some ref)
    | none => (vn_cs_decoder_set_fatal r.1, none)

/-- Modelled from the spec: `vn_decode_VkSampler_lookup` of the missing handles header. -/
def vn_decode_VkSampler_lookup (dec : vn_cs_decoder) : vn_cs_decoder × Option Nat :=
  vn_decode_handle_lookup dec VkObjectType.sampler

/-- Modelled from the spec: `vn_decode_VkImageView_lookup` of the missing handles header. -/
def vn_decode_VkImageView_lookup (dec : vn_cs_decoder) : vn_cs_decoder × Option Nat :=
  vn_decode_handle_lookup dec VkObjectType.imageView

/-- Modelled from the spec: `vn_decode_VkBuffer_lookup` of the missing handles header. -/
def vn_decode_VkBuffer_lookup (dec : vn_cs_decoder) : vn_cs_decoder × Option Nat :=
  vn_decode_handle_lookup dec VkObjectType.buffer

/-- Modelled from the spec: `vn_decode_VkBufferView_lookup` of the missing handles header. -/
def vn_decode_VkBufferView_lookup (dec : vn_cs_decoder) : vn_cs_decoder × Option Nat :=
  vn_decode_handle_lookup dec VkObjectType.bufferView

/-- Modelled from the spec: `vn_decode_VkDescriptorSet_lookup` of the missing handles header. -/
def vn_decode_VkDescriptorSet_lookup (dec : vn_cs_decoder) : vn_cs_decoder × Option Nat :=
  vn_decode_handle_lookup dec VkObjectType.descriptorSet

/-- Modelled from the spec: `vn_decode_VkSamplerYcbcrConversion_lookup` of the
missing handles header. -/
def vn_decode_VkSamplerYcbcrConversion_lookup (dec : vn_cs_decoder) :
    vn_cs_decoder × Option Nat :=
  vn_decode_handle_lookup dec VkObjectType.samplerYcbcrConversion

/-! ## Constants of the Vulkan headers -/

/-- Modelled from the spec: a compile-time array length of the Vulkan headers,
which are not among the sources (§3 Fixed array: the length is known at compile
time); the number is the one of the Vulkan registry. -/
def VK_MAX_EXTENSION_NAME_SIZE : Nat := 256

/-- Modelled from the spec: a compile-time array length of the Vulkan headers,
which are not among the sources (§3 Fixed array); the number is the one of the
Vulkan registry. -/
def VK_MAX_DESCRIPTION_SIZE : Nat := 256

/-- Modelled from the spec: the type tag of `VkShaderModuleCreateInfo` (§3: each
chain-capable Struct has a compile-time identity); the Vulkan headers are not
among the sources, the number is the one of the Vulkan registry. -/
def VK_STRUCTURE_TYPE_SHADER_MODULE_CREATE_INFO : Int := 16

/-- Modelled from the spec: the type tag of `VkWriteDescriptorSet` (§3 type tag);
number of the Vulkan registry. -/
def VK_STRUCTURE_TYPE_WRITE_DESCRIPTOR_SET : Int := 35

/-- Modelled from the spec: the type tag of `VkMemoryDedicatedRequirements` (§3
type tag); number of the Vulkan registry. -/
def VK_STRUCTURE_TYPE_MEMORY_DEDICATED_REQUIREMENTS : Int := 1000127000

/-- Modelled from the spec: the type tag of `VkWriteDescriptorSetInlineUniformBlock`
(§3 type tag); number of the Vulkan registry. -/
def VK_STRUCTURE_TYPE_WRITE_DESCRIPTOR_SET_INLINE_UNIFORM_BLOCK : Int := 1000138002

/-- Modelled from the spec: the type tag of `VkMemoryRequirements2` (§3 type
tag); number of the Vulkan registry. -/
def VK_STRUCTURE_TYPE_MEMORY_REQUIREMENTS_2 : Int := 1000146003

/-- Modelled from the spec: the type tag of `VkImageFormatListCreateInfo` (§3
type tag); number of the Vulkan registry. -/
def VK_STRUCTURE_TYPE_IMAGE_FORMAT_LIST_CREATE_INFO : Int := 1000147000

/-- Modelled from the spec: the type tag of `VkSamplerYcbcrConversionInfo` (§3
type tag); number of the Vulkan registry. -/
def VK_STRUCTURE_TYPE_SAMPLER_YCBCR_CONVERSION_INFO : Int := 1000156001

/-- Modelled from the spec: the type tag of `VkSemaphoreTypeCreateInfo` (§3 type
tag); number of the Vulkan registry. -/
def VK_STRUCTURE_TYPE_SEMAPHORE_TYPE_CREATE_INFO : Int := 1000207002

/-- Modelled from the spec: the type tag of `VkImageStencilUsageCreateInfo` (§3
type tag); number of the Vulkan registry. -/
def VK_STRUCTURE_TYPE_IMAGE_STENCIL_USAGE_CREATE_INFO : Int := 1000246000

/-- Modelled from the spec: the type tag of `VkMemoryBarrier2` (§3 type tag);
number of the Vulkan registry. -/
def VK_STRUCTURE_TYPE_MEMORY_BARRIER_2 : Int := 1000314000

/-- Modelled from the spec: the type tag of `VkMutableDescriptorTypeCreateInfoEXT`
(§3 type tag); number of the Vulkan registry. -/
def VK_STRUCTURE_TYPE_MUTABLE_DESCRIPTOR_TYPE_CREATE_INFO_EXT : Int := 1000351002

/-! ## Structs without a chain -/

/-- `VkExtent3D`: three `uint32_t`. -/
structure VkExtent3D where
  width : Nat
  height : Nat
  depth : Nat
  deriving DecidableEq, Repr, Inhabited

/-- `VkLayerProperties`. -/
structure VkLayerProperties where
  layerName : List Nat
  specVersion : Nat
  implementationVersion : Nat
  description : List Nat
  deriving DecidableEq, Repr, Inhabited

/-- `VkExtensionProperties`. -/
structure VkExtensionProperties where
  extensionName : List Nat
  specVersion : Nat
  deriving DecidableEq, Repr, Inhabited

/-- `VkMemoryRequirements`: two `VkDeviceSize` and a `uint32_t`. -/
structure VkMemoryRequirements where
  size : Nat
  alignment : Nat
  memoryTypeBits : Nat
  deriving DecidableEq, Repr, Inhabited

/-- `VkSparseImageFormatProperties`. -/
structure VkSparseImageFormatProperties where
  aspectMask : Nat
  imageGranularity : VkExtent3D
  flags : Nat
  deriving DecidableEq, Repr, Inhabited

/-- `VkImageSubresource`. -/
structure VkImageSubresource where
  aspectMask : Nat
  mipLevel : Nat
  arrayLayer : Nat
  deriving DecidableEq, Repr, Inhabited

/-- `VkOffset3D`: three `int32_t`. -/
structure VkOffset3D where
  x : Int
  y : Int
  z : Int
  deriving DecidableEq, Repr, Inhabited

/-- `VkComponentMapping`: four `VkComponentSwizzle`. -/
structure VkComponentMapping where
  r : Int
  g : Int
  b : Int
  a : Int
  deriving DecidableEq, Repr, Inhabited

/-- `VkImageSubresourceRange`. -/
structure VkImageSubresourceRange where
  aspectMask : Nat
  baseMipLevel : Nat
  levelCount : Nat
  baseArrayLayer : Nat
  layerCount : Nat
  deriving DecidableEq, Repr, Inhabited

/-- `VkViewport`: six floats, kept as their 32-bit patterns. -/
structure VkViewport where
  x : Nat
  y : Nat
  width : Nat
  height : Nat
  minDepth : Nat
  maxDepth : Nat
  deriving DecidableEq, Repr, Inhabited

/-- `VkOffset2D`: two `int32_t`. -/
structure VkOffset2D where
  x : Int
  y : Int
  deriving DecidableEq, Repr, Inhabited

/-- `VkExtent2D`: two `uint32_t`. -/
structure VkExtent2D where
  width : Nat
  height : Nat
  deriving DecidableEq, Repr, Inhabited

/-- `VkRect2D`. -/
structure VkRect2D where
  offset : VkOffset2D
  extent : VkExtent2D
  deriving DecidableEq, Repr, Inhabited

/-- `VkClearColorValue`: a union of `float32[4]`, `int32[4]` and `uint32[4]` over
the same storage, kept as the 32-bit patterns of its four words. -/
structure VkClearColorValue where
  words : List Nat
  deriving DecidableEq, Repr, Inhabited

/-- `VkMutableDescriptorTypeListEXT`; a null `pDescriptorTypes` is `none`. -/
structure VkMutableDescriptorTypeListEXT where
  descriptorTypeCount : Nat
  pDescriptorTypes : Option (List Int)
  deriving DecidableEq, Repr, Inhabited

/-- `VkDescriptorImageInfo`; a null handle is `none`. -/
structure VkDescriptorImageInfo where
  sampler : Option Nat
  imageView : Option Nat
  imageLayout : Int
  deriving DecidableEq, Repr, Inhabited

/-- `VkDescriptorBufferInfo`; a null handle is `none`. -/
structure VkDescriptorBufferInfo where
  buffer : Option Nat
  offset : Nat
  range : Nat
  deriving DecidableEq, Repr, Inhabited

/-! ## Extension chains -/

/-- What a record of an extension chain holds after its `{sType, pNext}` header:
the shapes the chain walkers of this file cast a link to, or anything else. -/
inductive VkRecordBody
  | writeDescriptorSetInlineUniformBlock (dataSize : Nat) (pData : Option (List Nat))
  | memoryDedicatedRequirements (prefersDedicatedAllocation requiresDedicatedAllocation : Nat)
  | writeDescriptorSet (dstSet : Option Nat) (dstBinding dstArrayElement descriptorCount : Nat)
      (descriptorType : Int) (pImageInfo : Option (List VkDescriptorImageInfo))
      (pBufferInfo : Option (List VkDescriptorBufferInfo))
      (pTexelBufferView : Option (List (Option Nat)))
  | other (words : List Nat)
  deriving DecidableEq, Repr, Inhabited

/-- One link of an extension chain seen through the common `{sType, pNext}`
prefix. A chain is the list of its links: the `pNext` of a link is the tail of
the list, a null `pNext` the empty list. -/
structure VkBaseOutStructure where
  sType : Int
  body : VkRecordBody
  deriving DecidableEq, Repr, Inhabited

/-- The read-only view of a chain link (`const` in C). -/
abbrev VkBaseInStructure := VkBaseOutStructure

/-! ## Chain-capable structs -/

/-- `VkSemaphoreTypeCreateInfo`. -/
structure VkSemaphoreTypeCreateInfo where
  sType : Int
  pNext : List VkBaseOutStructure
  semaphoreType : Int
  initialValue : Nat
  deriving DecidableEq, Repr, Inhabited

/-- `VkImageFormatListCreateInfo`; a null `pViewFormats` is `none`. -/
structure VkImageFormatListCreateInfo where
  sType : Int
  pNext : List VkBaseOutStructure
  viewFormatCount : Nat
  pViewFormats : Option (List Int)
  deriving DecidableEq, Repr, Inhabited

/-- `VkImageStencilUsageCreateInfo`. -/
structure VkImageStencilUsageCreateInfo where
  sType : Int
  pNext : List VkBaseOutStructure
  stencilUsage : Nat
  deriving DecidableEq, Repr, Inhabited

/-- `VkSamplerYcbcrConversionInfo`; a null handle is `none`. -/
structure VkSamplerYcbcrConversionInfo where
  sType : Int
  pNext : List VkBaseOutStructure
  conversion : Option Nat
  deriving DecidableEq, Repr, Inhabited

/-- `VkShaderModuleCreateInfo`; a null `pCode` is `none`. -/
structure VkShaderModuleCreateInfo where
  sType : Int
  pNext : List VkBaseOutStructure
  flags : Nat
  codeSize : Nat
  pCode : Option (List Nat)
  deriving DecidableEq, Repr, Inhabited

/-- `VkMutableDescriptorTypeCreateInfoEXT`. -/
structure VkMutableDescriptorTypeCreateInfoEXT where
  sType : Int
  pNext : List VkBaseOutStructure
  mutableDescriptorTypeListCount : Nat
  pMutableDescriptorTypeLists : Option (List VkMutableDescriptorTypeListEXT)
  deriving DecidableEq, Repr, Inhabited

/-- `VkWriteDescriptorSetInlineUniformBlock`; a null `pData` is `none`. -/
structure VkWriteDescriptorSetInlineUniformBlock where
  sType : Int
  pNext : List VkBaseOutStructure
  dataSize : Nat
  pData : Option (List Nat)
  deriving DecidableEq, Repr, Inhabited

/-- `VkWriteDescriptorSet`; null pointers and null handles are `none`. -/
structure VkWriteDescriptorSet where
  sType : Int
  pNext : List VkBaseOutStructure
  dstSet : Option Nat
  dstBinding : Nat
  dstArrayElement : Nat
  descriptorCount : Nat
  descriptorType : Int
  pImageInfo : Option (List VkDescriptorImageInfo)
  pBufferInfo : Option (List VkDescriptorBufferInfo)
  pTexelBufferView : Option (List (Option Nat))
  deriving DecidableEq, Repr, Inhabited

/-- `VkMemoryDedicatedRequirements`. -/
structure VkMemoryDedicatedRequirements where
  sType : Int
  pNext : List VkBaseOutStructure
  prefersDedicatedAllocation : Nat
  requiresDedicatedAllocation : Nat
  deriving DecidableEq, Repr, Inhabited

/-- `VkMemoryRequirements2`. -/
structure VkMemoryRequirements2 where
  sType : Int
  pNext : List VkBaseOutStructure
  memoryRequirements : VkMemoryRequirements
  deriving DecidableEq, Repr, Inhabited

/-- `VkMemoryBarrier2`: four `VkFlags64`. -/
structure VkMemoryBarrier2 where
  sType : Int
  pNext : List VkBaseOutStructure
  srcStageMask : Nat
  srcAccessMask : Nat
  dstStageMask : Nat
  dstAccessMask : Nat
  deriving DecidableEq, Repr, Inhabited

/-- The cast `(VkMemoryDedicatedRequirements *)pnext` of a chain link followed by
`next`; a link of another shape shows unspecified (here zero) field values. -/
def VkBaseOutStructure.asMemoryDedicatedRequirements (link : VkBaseOutStructure)
    (next : List VkBaseOutStructure) : VkMemoryDedicatedRequirements :=
  match link.body with
  | VkRecordBody.memoryDedicatedRequirements p r =>
    { sType := link.sType, pNext := next,
      prefersDedicatedAllocation := p, requiresDedicatedAllocation := r }
  | _ =>
    { sType := link.sType, pNext := next,
      prefersDedicatedAllocation := 0, requiresDedicatedAllocation := 0 }

/-- The chain that starts at a `VkMemoryDedicatedRequirements` record: the record
as a link, followed by its `pNext`. -/
def VkMemoryDedicatedRequirements.toChain (v : VkMemoryDedicatedRequirements) :
    List VkBaseOutStructure :=
  { sType := v.sType,
    body := VkRecordBody.memoryDedicatedRequirements v.prefersDedicatedAllocation
      v.requiresDedicatedAllocation } :: v.pNext

/-- The chain that starts at a `VkWriteDescriptorSetInlineUniformBlock` record:
the record as a link, followed by its `pNext`. -/
def VkWriteDescriptorSetInlineUniformBlock.toChain
    (v : VkWriteDescriptorSetInlineUniformBlock) : List VkBaseOutStructure :=
  { sType := v.sType,
    body := VkRecordBody.writeDescriptorSetInlineUniformBlock v.dataSize v.pData } :: v.pNext

/-- Sizes, in bytes, of the C types whose storage the decoders take from the
arena (`sizeof` on an LP64 target; the Vulkan headers are not among the
sources). -/
def sizeof_VkFormat : Nat := 4

/-- See `sizeof_VkFormat`. -/
def sizeof_uint32_t : Nat := 4

/-- See `sizeof_VkFormat`. -/
def sizeof_VkDescriptorType : Nat := 4

/-- See `sizeof_VkFormat`. -/
def sizeof_VkMutableDescriptorTypeListEXT : Nat := 16

/-- See `sizeof_VkFormat`. -/
def sizeof_VkDescriptorImageInfo : Nat := 24

/-- See `sizeof_VkFormat`. -/
def sizeof_VkDescriptorBufferInfo : Nat := 24

/-- See `sizeof_VkFormat`. -/
def sizeof_VkBufferView : Nat := 8

/-- See `sizeof_VkFormat`. -/
def sizeof_VkWriteDescriptorSetInlineUniformBlock : Nat := 32

/-- See `sizeof_VkFormat`. -/
def sizeof_VkMemoryDedicatedRequirements : Nat := 24

/-! ## struct VkExtent3D -/

/-- `vn_encode_VkExtent3D`. -/
def vn_encode_VkExtent3D (enc : vn_cs_encoder) (val : VkExtent3D) : vn_cs_encoder :=
  let enc := vn_encode_uint32_t enc val.width
  let enc := vn_encode_uint32_t enc val.height
  vn_encode_uint32_t enc val.depth

/-- `vn_decode_VkExtent3D_temp`. -/
def vn_decode_VkExtent3D_temp (dec : vn_cs_decoder) (val : VkExtent3D) :
    vn_cs_decoder × VkExtent3D :=
  let r1 := vn_decode_uint32_t dec
  let val := { val with width := r1.2 }
  let r2 := vn_decode_uint32_t r1.1
  let val := { val with height := r2.2 }
  let r3 := vn_decode_uint32_t r2.1
  (r3.1, { val with depth := r3.2 })

/-- `vn_decode_VkExtent3D_partial_temp`: every field is skipped, nothing is read. -/
def vn_decode_VkExtent3D_partial_temp (dec : vn_cs_decoder) (val : VkExtent3D) :
    vn_cs_decoder × VkExtent3D :=
  (dec, val)

/-! ## struct VkLayerProperties -/

/-- `vn_encode_VkLayerProperties`. -/
def vn_encode_VkLayerProperties (enc : vn_cs_encoder) (val : VkLayerProperties) :
    vn_cs_encoder :=
  let enc := vn_encode_array_size enc VK_MAX_EXTENSION_NAME_SIZE
  let enc := vn_encode_char_array enc val.layerName VK_MAX_EXTENSION_NAME_SIZE
  let enc := vn_encode_uint32_t enc val.specVersion
  let enc := vn_encode_uint32_t enc val.implementationVersion
  let enc := vn_encode_array_size enc VK_MAX_DESCRIPTION_SIZE
  vn_encode_char_array enc val.description VK_MAX_DESCRIPTION_SIZE

/-- `vn_decode_VkLayerProperties_partial_temp`: every field is skipped. -/
def vn_decode_VkLayerProperties_partial_temp (dec : vn_cs_decoder) (val : VkLayerProperties) :
    vn_cs_decoder × VkLayerProperties :=
  (dec, val)

/-! ## struct VkExtensionProperties -/

/-- `vn_encode_VkExtensionProperties`. -/
def vn_encode_VkExtensionProperties (enc : vn_cs_encoder) (val : VkExtensionProperties) :
    vn_cs_encoder :=
  let enc := vn_encode_array_size enc VK_MAX_EXTENSION_NAME_SIZE
  let enc := vn_encode_char_array enc val.extensionName VK_MAX_EXTENSION_NAME_SIZE
  vn_encode_uint32_t enc val.specVersion

/-- `vn_decode_VkExtensionProperties_temp`. -/
def vn_decode_VkExtensionProperties_temp (dec : vn_cs_decoder) (val : VkExtensionProperties) :
    vn_cs_decoder × VkExtensionProperties :=
  let a := vn_decode_array_size dec VK_MAX_EXTENSION_NAME_SIZE
  let array_size := a.2
  let c := vn_decode_char_array a.1 val.extensionName array_size
  let val := { val with extensionName := c.2 }
  let r := vn_decode_uint32_t c.1
  (r.1, { val with specVersion := r.2 })

/-- `vn_decode_VkExtensionProperties_partial_temp`: every field is skipped. -/
def vn_decode_VkExtensionProperties_partial_temp (dec : vn_cs_decoder)
    (val : VkExtensionProperties) : vn_cs_decoder × VkExtensionProperties :=
  (dec, val)

/-! ## struct VkMemoryRequirements -/

/-- `vn_encode_VkMemoryRequirements`. -/
def vn_encode_VkMemoryRequirements (enc : vn_cs_encoder) (val : VkMemoryRequirements) :
    vn_cs_encoder :=
  let enc := vn_encode_VkDeviceSize enc val.size
  let enc := vn_encode_VkDeviceSize enc val.alignment
  vn_encode_uint32_t enc val.memoryTypeBits

/-- `vn_decode_VkMemoryRequirements_partial_temp`: every field is skipped. -/
def vn_decode_VkMemoryRequirements_partial_temp (dec : vn_cs_decoder)
    (val : VkMemoryRequirements) : vn_cs_decoder × VkMemoryRequirements :=
  (dec, val)

/-! ## struct VkSparseImageFormatProperties -/

/-- `vn_encode_VkSparseImageFormatProperties`. -/
def vn_encode_VkSparseImageFormatProperties (enc : vn_cs_encoder)
    (val : VkSparseImageFormatProperties) : vn_cs_encoder :=
  let enc := vn_encode_VkFlags enc val.aspectMask
  let enc := vn_encode_VkExtent3D enc val.imageGranularity
  vn_encode_VkFlags enc val.flags

/-- `vn_decode_VkSparseImageFormatProperties_partial_temp`: `aspectMask` and
`flags` are skipped, `imageGranularity` goes through its own partial decoder. -/
def vn_decode_VkSparseImageFormatProperties_partial_temp (dec : vn_cs_decoder)
    (val : VkSparseImageFormatProperties) : vn_cs_decoder × VkSparseImageFormatProperties :=
  let r := vn_decode_VkExtent3D_partial_temp dec val.imageGranularity
  (r.1, { val with imageGranularity := r.2 })

/-! ## struct VkImageSubresource, struct VkOffset3D -/

/-- `vn_decode_VkImageSubresource_temp`. -/
def vn_decode_VkImageSubresource_temp (dec : vn_cs_decoder) (val : VkImageSubresource) :
    vn_cs_decoder × VkImageSubresource :=
  let r1 := vn_decode_VkFlags dec
  let val := { val with aspectMask := r1.2 }
  let r2 := vn_decode_uint32_t r1.1
  let val := { val with mipLevel := r2.2 }
  let r3 := vn_decode_uint32_t r2.1
  (r3.1, { val with arrayLayer := r3.2 })

/-- `vn_decode_VkOffset3D_temp`. -/
def vn_decode_VkOffset3D_temp (dec : vn_cs_decoder) (val : VkOffset3D) :
    vn_cs_decoder × VkOffset3D :=
  let r1 := vn_decode_int32_t dec
  let val := { val with x := r1.2 }
  let r2 := vn_decode_int32_t r1.1
  let val := { val with y := r2.2 }
  let r3 := vn_decode_int32_t r2.1
  (r3.1, { val with z := r3.2 })

/-! ## struct VkComponentMapping, struct VkImageSubresourceRange, struct VkViewport -/

/-- `vn_encode_VkComponentMapping`. -/
def vn_encode_VkComponentMapping (enc : vn_cs_encoder) (val : VkComponentMapping) :
    vn_cs_encoder :=
  let enc := vn_encode_VkComponentSwizzle enc val.r
  let enc := vn_encode_VkComponentSwizzle enc val.g
  let enc := vn_encode_VkComponentSwizzle enc val.b
  vn_encode_VkComponentSwizzle enc val.a

/-- `vn_decode_VkComponentMapping_temp`. -/
def vn_decode_VkComponentMapping_temp (dec : vn_cs_decoder) (val : VkComponentMapping) :
    vn_cs_decoder × VkComponentMapping :=
  let r1 := vn_decode_VkComponentSwizzle dec
  let val := { val with r := r1.2 }
  let r2 := vn_decode_VkComponentSwizzle r1.1
  let val := { val with g := r2.2 }
  let r3 := vn_decode_VkComponentSwizzle r2.1
  let val := { val with b := r3.2 }
  let r4 := vn_decode_VkComponentSwizzle r3.1
  (r4.1, { val with a := r4.2 })

/-- `vn_decode_VkComponentMapping_partial_temp`: every field is skipped. -/
def vn_decode_VkComponentMapping_partial_temp (dec : vn_cs_decoder) (val : VkComponentMapping) :
    vn_cs_decoder × VkComponentMapping :=
  (dec, val)

/-- `vn_decode_VkImageSubresourceRange_temp`. -/
def vn_decode_VkImageSubresourceRange_temp (dec : vn_cs_decoder)
    (val : VkImageSubresourceRange) : vn_cs_decoder × VkImageSubresourceRange :=
  let r1 := vn_decode_VkFlags dec
  let val := { val with aspectMask := r1.2 }
  let r2 := vn_decode_uint32_t r1.1
  let val := { val with baseMipLevel := r2.2 }
  let r3 := vn_decode_uint32_t r2.1
  let val := { val with levelCount := r3.2 }
  let r4 := vn_decode_uint32_t r3.1
  let val := { val with baseArrayLayer := r4.2 }
  let r5 := vn_decode_uint32_t r4.1
  (r5.1, { val with layerCount := r5.2 })

/-- `vn_decode_VkViewport_temp`. -/
def vn_decode_VkViewport_temp (dec : vn_cs_decoder) (val : VkViewport) :
    vn_cs_decoder × VkViewport :=
  let r1 := vn_decode_float dec
  let val := { val with x := r1.2 }
  let r2 := vn_decode_float r1.1
  let val := { val with y := r2.2 }
  let r3 := vn_decode_float r2.1
  let val := { val with width := r3.2 }
  let r4 := vn_decode_float r3.1
  let val := { val with height := r4.2 }
  let r5 := vn_decode_float r4.1
  let val := { val with minDepth := r5.2 }
  let r6 := vn_decode_float r5.1
  (r6.1, { val with maxDepth := r6.2 })

/-! ## struct VkOffset2D, struct VkExtent2D, struct VkRect2D -/

/-- `vn_encode_VkOffset2D`. -/
def vn_encode_VkOffset2D (enc : vn_cs_encoder) (val : VkOffset2D) : vn_cs_encoder :=
  let enc := vn_encode_int32_t enc val.x
  vn_encode_int32_t enc val.y

/-- `vn_decode_VkOffset2D_temp`. -/
def vn_decode_VkOffset2D_temp (dec : vn_cs_decoder) (val : VkOffset2D) :
    vn_cs_decoder × VkOffset2D :=
  let r1 := vn_decode_int32_t dec
  let val := { val with x := r1.2 }
  let r2 := vn_decode_int32_t r1.1
  (r2.1, { val with y := r2.2 })

/-- `vn_decode_VkOffset2D_partial_temp`: every field is skipped. -/
def vn_decode_VkOffset2D_partial_temp (dec : vn_cs_decoder) (val : VkOffset2D) :
    vn_cs_decoder × VkOffset2D :=
  (dec, val)

/-- `vn_encode_VkExtent2D`. -/
def vn_encode_VkExtent2D (enc : vn_cs_encoder) (val : VkExtent2D) : vn_cs_encoder :=
  let enc := vn_encode_uint32_t enc val.width
  vn_encode_uint32_t enc val.height

/-- `vn_decode_VkExtent2D_temp`. -/
def vn_decode_VkExtent2D_temp (dec : vn_cs_decoder) (val : VkExtent2D) :
    vn_cs_decoder × VkExtent2D :=
  let r1 := vn_decode_uint32_t dec
  let val := { val with width := r1.2 }
  let r2 := vn_decode_uint32_t r1.1
  (r2.1, { val with height := r2.2 })

/-- `vn_decode_VkExtent2D_partial_temp`: every field is skipped. -/
def vn_decode_VkExtent2D_partial_temp (dec : vn_cs_decoder) (val : VkExtent2D) :
    vn_cs_decoder × VkExtent2D :=
  (dec, val)

/-- `vn_encode_VkRect2D`. -/
def vn_encode_VkRect2D (enc : vn_cs_encoder) (val : VkRect2D) : vn_cs_encoder :=
  let enc := vn_encode_VkOffset2D enc val.offset
  vn_encode_VkExtent2D enc val.extent

/-- `vn_decode_VkRect2D_temp`. -/
def vn_decode_VkRect2D_temp (dec : vn_cs_decoder) (val : VkRect2D) :
    vn_cs_decoder × VkRect2D :=
  let r1 := vn_decode_VkOffset2D_temp dec val.offset
  let val := { val with offset := r1.2 }
  let r2 := vn_decode_VkExtent2D_temp r1.1 val.extent
  (r2.1, { val with extent := r2.2 })

/-- `vn_decode_VkRect2D_partial_temp`. -/
def vn_decode_VkRect2D_partial_temp (dec : vn_cs_decoder) (val : VkRect2D) :
    vn_cs_decoder × VkRect2D :=
  let r1 := vn_decode_VkOffset2D_partial_temp dec val.offset
  let val := { val with offset := r1.2 }
  let r2 := vn_decode_VkExtent2D_partial_temp r1.1 val.extent
  (r2.1, { val with extent := r2.2 })

/-! ## union VkClearColorValue -/

/-- `vn_decode_VkClearColorValue_temp`: the three arms write the same storage,
through `float32`, `int32` or `uint32`. -/
def vn_decode_VkClearColorValue_temp (dec : vn_cs_decoder) (val : VkClearColorValue) :
    vn_cs_decoder × VkClearColorValue :=
  let t := vn_decode_uint32_t dec
  let tag := t.2
  if tag = 0 then
    let a := vn_decode_array_size t.1 4
    let e := vn_decode_float_array a.1 a.2
    (e.1, { val with words := storeArray val.words e.2 })
  else if tag = 1 then
    let a := vn_decode_array_size t.1 4
    let e := vn_decode_int32_t_array a.1 a.2
    (e.1, { val with words := storeArray val.words e.2 })
  else if tag = 2 then
    let a := vn_decode_array_size t.1 4
    let e := vn_decode_uint32_t_array a.1 a.2
    (e.1, { val with words := storeArray val.words e.2 })
  else
    (vn_cs_decoder_set_fatal t.1, val)

/-! ## struct VkDescriptorImageInfo, struct VkDescriptorBufferInfo -/

/-- `vn_decode_VkDescriptorImageInfo_temp`. -/
def vn_decode_VkDescriptorImageInfo_temp (dec : vn_cs_decoder) (val : VkDescriptorImageInfo) :
    vn_cs_decoder × VkDescriptorImageInfo :=
  let r1 := vn_decode_VkSampler_lookup dec
  let val := { val with sampler := r1.2 }
  let r2 := vn_decode_VkImageView_lookup r1.1
  let val := { val with imageView := r2.2 }
  let r3 := vn_decode_VkImageLayout r2.1
  (r3.1, { val with imageLayout := r3.2 })

/-- `vn_decode_VkDescriptorBufferInfo_temp`. -/
def vn_decode_VkDescriptorBufferInfo_temp (dec : vn_cs_decoder) (val : VkDescriptorBufferInfo) :
    vn_cs_decoder × VkDescriptorBufferInfo :=
  let r1 := vn_decode_VkBuffer_lookup dec
  let val := { val with buffer := r1.2 }
  let r2 := vn_decode_VkDeviceSize r1.1
  let val := { val with offset := r2.2 }
  let r3 := vn_decode_VkDeviceSize r2.1
  (r3.1, { val with range := r3.2 })

/-! ## struct VkMutableDescriptorTypeListEXT -/

/-- `vn_decode_VkMutableDescriptorTypeListEXT_temp`. -/
def vn_decode_VkMutableDescriptorTypeListEXT_temp (dec : vn_cs_decoder)
    (val : VkMutableDescriptorTypeListEXT) : vn_cs_decoder × VkMutableDescriptorTypeListEXT :=
  let r := vn_decode_uint32_t dec
  let val := { val with descriptorTypeCount := r.2 }
  if vn_peek_array_size r.1 then
    let a := vn_decode_array_size r.1 val.descriptorTypeCount
    let array_size := a.2
    let p := vn_cs_decoder_alloc_temp_array a.1 sizeof_VkDescriptorType array_size
    if !p.2 then (p.1, { val with pDescriptorTypes := none })
    else
      let e := vn_decode_VkDescriptorType_array p.1 array_size
      (e.1, { val with pDescriptorTypes := some e.2 })
  else
    let a := vn_decode_array_size r.1 val.descriptorTypeCount
    (a.1, { val with pDescriptorTypes := none })

/-! ## struct VkSemaphoreTypeCreateInfo chain -/

/-- `vn_decode_VkSemaphoreTypeCreateInfo_pnext_temp`: no known/supported struct. -/
def vn_decode_VkSemaphoreTypeCreateInfo_pnext_temp (dec : vn_cs_decoder) :
    vn_cs_decoder × List VkBaseOutStructure :=
  let r := vn_decode_simple_pointer dec
  if r.2 then (vn_cs_decoder_set_fatal r.1, []) else (r.1, [])

/-- `vn_decode_VkSemaphoreTypeCreateInfo_self_temp`. -/
def vn_decode_VkSemaphoreTypeCreateInfo_self_temp (dec : vn_cs_decoder)
    (val : VkSemaphoreTypeCreateInfo) : vn_cs_decoder × VkSemaphoreTypeCreateInfo :=
  let r1 := vn_decode_VkSemaphoreType dec
  let val := { val with semaphoreType := r1.2 }
  let r2 := vn_decode_uint64_t r1.1
  (r2.1, { val with initialValue := r2.2 })

/-- `vn_decode_VkSemaphoreTypeCreateInfo_temp`. -/
def vn_decode_VkSemaphoreTypeCreateInfo_temp (dec : vn_cs_decoder)
    (val : VkSemaphoreTypeCreateInfo) : vn_cs_decoder × VkSemaphoreTypeCreateInfo :=
  let s := vn_decode_VkStructureType dec
  let stype := s.2
  let dec := if stype ≠ VK_STRUCTURE_TYPE_SEMAPHORE_TYPE_CREATE_INFO
    then vn_cs_decoder_set_fatal s.1 else s.1
  let val := { val with sType := stype }
  let p := vn_decode_VkSemaphoreTypeCreateInfo_pnext_temp dec
  let val := { val with pNext := p.2 }
  vn_decode_VkSemaphoreTypeCreateInfo_self_temp p.1 val

/-! ## struct VkImageFormatListCreateInfo chain -/

/-- `vn_decode_VkImageFormatListCreateInfo_pnext_temp`: no known/supported struct. -/
def vn_decode_VkImageFormatListCreateInfo_pnext_temp (dec : vn_cs_decoder) :
    vn_cs_decoder × List VkBaseOutStructure :=
  let r := vn_decode_simple_pointer dec
  if r.2 then (vn_cs_decoder_set_fatal r.1, []) else (r.1, [])

/-- `vn_decode_VkImageFormatListCreateInfo_self_temp`. -/
def vn_decode_VkImageFormatListCreateInfo_self_temp (dec : vn_cs_decoder)
    (val : VkImageFormatListCreateInfo) : vn_cs_decoder × VkImageFormatListCreateInfo :=
  let r := vn_decode_uint32_t dec
  let val := { val with viewFormatCount := r.2 }
  if vn_peek_array_size r.1 then
    let a := vn_decode_array_size r.1 val.viewFormatCount
    let array_size := a.2
    let p := vn_cs_decoder_alloc_temp_array a.1 sizeof_VkFormat array_size
    if !p.2 then (p.1, { val with pViewFormats := none })
    else
      let e := vn_decode_VkFormat_array p.1 array_size
      (e.1, { val with pViewFormats := some e.2 })
  else
    let a := vn_decode_array_size r.1 val.viewFormatCount
    (a.1, { val with pViewFormats := none })

/-- `vn_decode_VkImageFormatListCreateInfo_temp`. -/
def vn_decode_VkImageFormatListCreateInfo_temp (dec : vn_cs_decoder)
    (val : VkImageFormatListCreateInfo) : vn_cs_decoder × VkImageFormatListCreateInfo :=
  let s := vn_decode_VkStructureType dec
  let stype := s.2
  let dec := if stype ≠ VK_STRUCTURE_TYPE_IMAGE_FORMAT_LIST_CREATE_INFO
    then vn_cs_decoder_set_fatal s.1 else s.1
  let val := { val with sType := stype }
  let p := vn_decode_VkImageFormatListCreateInfo_pnext_temp dec
  let val := { val with pNext := p.2 }
  vn_decode_VkImageFormatListCreateInfo_self_temp p.1 val

/-! ## struct VkImageStencilUsageCreateInfo chain -/

/-- `vn_decode_VkImageStencilUsageCreateInfo_pnext_temp`: no known/supported struct. -/
def vn_decode_VkImageStencilUsageCreateInfo_pnext_temp (dec : vn_cs_decoder) :
    vn_cs_decoder × List VkBaseOutStructure :=
  let r := vn_decode_simple_pointer dec
  if r.2 then (vn_cs_decoder_set_fatal r.1, []) else (r.1, [])

/-- `vn_decode_VkImageStencilUsageCreateInfo_self_temp`. -/
def vn_decode_VkImageStencilUsageCreateInfo_self_temp (dec : vn_cs_decoder)
    (val : VkImageStencilUsageCreateInfo) : vn_cs_decoder × VkImageStencilUsageCreateInfo :=
  let r := vn_decode_VkFlags dec
  (r.1, { val with stencilUsage := r.2 })

/-- `vn_decode_VkImageStencilUsageCreateInfo_temp`. -/
def vn_decode_VkImageStencilUsageCreateInfo_temp (dec : vn_cs_decoder)
    (val : VkImageStencilUsageCreateInfo) : vn_cs_decoder × VkImageStencilUsageCreateInfo :=
  let s := vn_decode_VkStructureType dec
  let stype := s.2
  let dec := if stype ≠ VK_STRUCTURE_TYPE_IMAGE_STENCIL_USAGE_CREATE_INFO
    then vn_cs_decoder_set_fatal s.1 else s.1
  let val := { val with sType := stype }
  let p := vn_decode_VkImageStencilUsageCreateInfo_pnext_temp dec
  let val := { val with pNext := p.2 }
  vn_decode_VkImageStencilUsageCreateInfo_self_temp p.1 val

/-! ## struct VkSamplerYcbcrConversionInfo chain -/

/-- `vn_decode_VkSamplerYcbcrConversionInfo_pnext_temp`: no known/supported struct. -/
def vn_decode_VkSamplerYcbcrConversionInfo_pnext_temp (dec : vn_cs_decoder) :
    vn_cs_decoder × List VkBaseOutStructure :=
  let r := vn_decode_simple_pointer dec
  if r.2 then (vn_cs_decoder_set_fatal r.1, []) else (r.1, [])

/-- `vn_decode_VkSamplerYcbcrConversionInfo_self_temp`. -/
def vn_decode_VkSamplerYcbcrConversionInfo_self_temp (dec : vn_cs_decoder)
    (val : VkSamplerYcbcrConversionInfo) : vn_cs_decoder × VkSamplerYcbcrConversionInfo :=
  let r := vn_decode_VkSamplerYcbcrConversion_lookup dec
  (r.1, { val with conversion := r.2 })

/-- `vn_decode_VkSamplerYcbcrConversionInfo_temp`. -/
def vn_decode_VkSamplerYcbcrConversionInfo_temp (dec : vn_cs_decoder)
    (val : VkSamplerYcbcrConversionInfo) : vn_cs_decoder × VkSamplerYcbcrConversionInfo :=
  let s := vn_decode_VkStructureType dec
  let stype := s.2
  let dec := if stype ≠ VK_STRUCTURE_TYPE_SAMPLER_YCBCR_CONVERSION_INFO
    then vn_cs_decoder_set_fatal s.1 else s.1
  let val := { val with sType := stype }
  let p := vn_decode_VkSamplerYcbcrConversionInfo_pnext_temp dec
  let val := { val with pNext := p.2 }
  vn_decode_VkSamplerYcbcrConversionInfo_self_temp p.1 val

/-! ## struct VkShaderModuleCreateInfo chain -/

/-- `vn_decode_VkShaderModuleCreateInfo_pnext_temp`: no known/supported struct. -/
def vn_decode_VkShaderModuleCreateInfo_pnext_temp (dec : vn_cs_decoder) :
    vn_cs_decoder × List VkBaseOutStructure :=
  let r := vn_decode_simple_pointer dec
  if r.2 then (vn_cs_decoder_set_fatal r.1, []) else (r.1, [])

/-- `vn_decode_VkShaderModuleCreateInfo_self_temp`. -/
def vn_decode_VkShaderModuleCreateInfo_self_temp (dec : vn_cs_decoder)
    (val : VkShaderModuleCreateInfo) : vn_cs_decoder × VkShaderModuleCreateInfo :=
  let r1 := vn_decode_VkFlags dec
  let val := { val with flags := r1.2 }
  let r2 := vn_decode_size_t r1.1
  let val := { val with codeSize := r2.2 }
  if vn_peek_array_size r2.1 then
    let a := vn_decode_array_size r2.1 (val.codeSize / 4)
    let array_size := a.2
    let p := vn_cs_decoder_alloc_temp_array a.1 sizeof_uint32_t array_size
    if !p.2 then (p.1, { val with pCode := none })
    else
      let e := vn_decode_uint32_t_array p.1 array_size
      (e.1, { val with pCode := some e.2 })
  else
    let a := vn_decode_array_size r2.1 (val.codeSize / 4)
    (a.1, { val with pCode := none })

/-- `vn_decode_VkShaderModuleCreateInfo_temp`. -/
def vn_decode_VkShaderModuleCreateInfo_temp (dec : vn_cs_decoder)
    (val : VkShaderModuleCreateInfo) : vn_cs_decoder × VkShaderModuleCreateInfo :=
  let s := vn_decode_VkStructureType dec
  let stype := s.2
  let dec := if stype ≠ VK_STRUCTURE_TYPE_SHADER_MODULE_CREATE_INFO
    then vn_cs_decoder_set_fatal s.1 else s.1
  let val := { val with sType := stype }
  let p := vn_decode_VkShaderModuleCreateInfo_pnext_temp dec
  let val := { val with pNext := p.2 }
  vn_decode_VkShaderModuleCreateInfo_self_temp p.1 val

/-! ## struct VkMutableDescriptorTypeCreateInfoEXT chain -/

/-- `vn_decode_VkMutableDescriptorTypeCreateInfoEXT_pnext_temp`: no known/supported
struct. -/
def vn_decode_VkMutableDescriptorTypeCreateInfoEXT_pnext_temp (dec : vn_cs_decoder) :
    vn_cs_decoder × List VkBaseOutStructure :=
  let r := vn_decode_simple_pointer dec
  if r.2 then (vn_cs_decoder_set_fatal r.1, []) else (r.1, [])

/-- `vn_decode_VkMutableDescriptorTypeCreateInfoEXT_self_temp`; `iter_count` is a
`uint32_t`. -/
def vn_decode_VkMutableDescriptorTypeCreateInfoEXT_self_temp (dec : vn_cs_decoder)
    (val : VkMutableDescriptorTypeCreateInfoEXT) :
    vn_cs_decoder × VkMutableDescriptorTypeCreateInfoEXT :=
  let r := vn_decode_uint32_t dec
  let val := { val with mutableDescriptorTypeListCount := r.2 }
  if vn_peek_array_size r.1 then
    let a := vn_decode_array_size r.1 val.mutableDescriptorTypeListCount
    let iter_count := a.2 % 4294967296
    let p := vn_cs_decoder_alloc_temp_array a.1 sizeof_VkMutableDescriptorTypeListEXT iter_count
    if !p.2 then (p.1, { val with pMutableDescriptorTypeLists := none })
    else
      let e := vn_decode_array vn_decode_VkMutableDescriptorTypeListEXT_temp default
        iter_count p.1
      (e.1, { val with pMutableDescriptorTypeLists := some e.2 })
  else
    let a := vn_decode_array_size r.1 val.mutableDescriptorTypeListCount
    (a.1, { val with pMutableDescriptorTypeLists := none })

/-- `vn_decode_VkMutableDescriptorTypeCreateInfoEXT_temp`. -/
def vn_decode_VkMutableDescriptorTypeCreateInfoEXT_temp (dec : vn_cs_decoder)
    (val : VkMutableDescriptorTypeCreateInfoEXT) :
    vn_cs_decoder × VkMutableDescriptorTypeCreateInfoEXT :=
  let s := vn_decode_VkStructureType dec
  let stype := s.2
  let dec := if stype ≠ VK_STRUCTURE_TYPE_MUTABLE_DESCRIPTOR_TYPE_CREATE_INFO_EXT
    then vn_cs_decoder_set_fatal s.1 else s.1
  let val := { val with sType := stype }
  let p := vn_decode_VkMutableDescriptorTypeCreateInfoEXT_pnext_temp dec
  let val := { val with pNext := p.2 }
  vn_decode_VkMutableDescriptorTypeCreateInfoEXT_self_temp p.1 val

/-! ## struct VkWriteDescriptorSetInlineUniformBlock chain -/

/-- `vn_decode_VkWriteDescriptorSetInlineUniformBlock_pnext_temp`: no
known/supported struct. -/
def vn_decode_VkWriteDescriptorSetInlineUniformBlock_pnext_temp (dec : vn_cs_decoder) :
    vn_cs_decoder × List VkBaseOutStructure :=
  let r := vn_decode_simple_pointer dec
  if r.2 then (vn_cs_decoder_set_fatal r.1, []) else (r.1, [])

/-- `vn_decode_VkWriteDescriptorSetInlineUniformBlock_self_temp`. -/
def vn_decode_VkWriteDescriptorSetInlineUniformBlock_self_temp (dec : vn_cs_decoder)
    (val : VkWriteDescriptorSetInlineUniformBlock) :
    vn_cs_decoder × VkWriteDescriptorSetInlineUniformBlock :=
  let r := vn_decode_uint32_t dec
  let val := { val with dataSize := r.2 }
  if vn_peek_array_size r.1 then
    let a := vn_decode_array_size r.1 val.dataSize
    let array_size := a.2
    let p := vn_cs_decoder_alloc_temp a.1 array_size
    if !p.2 then (p.1, { val with pData := none })
    else
      let e := vn_decode_blob_array p.1 array_size
      (e.1, { val with pData := some e.2 })
  else
    let a := vn_decode_array_size r.1 val.dataSize
    (a.1, { val with pData := none })

/-- `vn_decode_VkWriteDescriptorSetInlineUniformBlock_temp`. -/
def vn_decode_VkWriteDescriptorSetInlineUniformBlock_temp (dec : vn_cs_decoder)
    (val : VkWriteDescriptorSetInlineUniformBlock) :
    vn_cs_decoder × VkWriteDescriptorSetInlineUniformBlock :=
  let s := vn_decode_VkStructureType dec
  let stype := s.2
  let dec := if stype ≠ VK_STRUCTURE_TYPE_WRITE_DESCRIPTOR_SET_INLINE_UNIFORM_BLOCK
    then vn_cs_decoder_set_fatal s.1 else s.1
  let val := { val with sType := stype }
  let p := vn_decode_VkWriteDescriptorSetInlineUniformBlock_pnext_temp dec
  let val := { val with pNext := p.2 }
  vn_decode_VkWriteDescriptorSetInlineUniformBlock_self_temp p.1 val

/-! ## struct VkWriteDescriptorSet chain -/

/-- The body of `vn_decode_VkWriteDescriptorSet_pnext_temp` with a bound on the
depth of its recursion. Every recursive call follows a present pointer marker
read from the stream, so `fuel` above the number of remaining bytes is never
used up. The record taken from the arena starts with unspecified content,
modelled as zero; `dataSize` and `pData` are then written by the self
decoder. -/
def vn_decode_VkWriteDescriptorSet_pnext_temp_fuel :
    Nat → vn_cs_decoder → vn_cs_decoder × List VkBaseOutStructure
  | 0, dec => (dec, [])
  | fuel + 1, dec =>
    let m := vn_decode_simple_pointer dec
    if !m.2 then (m.1, [])
    else
      let s := vn_decode_VkStructureType m.1
      let stype := s.2
      if stype = VK_STRUCTURE_TYPE_WRITE_DESCRIPTOR_SET_INLINE_UNIFORM_BLOCK then
        let a := vn_cs_decoder_alloc_temp s.1 sizeof_VkWriteDescriptorSetInlineUniformBlock
        if a.2 then
          let n := vn_decode_VkWriteDescriptorSet_pnext_temp_fuel fuel a.1
          let v := vn_decode_VkWriteDescriptorSetInlineUniformBlock_self_temp n.1
            { sType := stype, pNext := n.2, dataSize := 0, pData := none }
          (v.1, v.2.toChain)
        else (a.1, [])
      else
        (vn_cs_decoder_set_fatal s.1, [])

/-- `vn_decode_VkWriteDescriptorSet_pnext_temp`. -/
def vn_decode_VkWriteDescriptorSet_pnext_temp (dec : vn_cs_decoder) :
    vn_cs_decoder × List VkBaseOutStructure :=
  vn_decode_VkWriteDescriptorSet_pnext_temp_fuel (dec.cur.length + 1) dec

/-- `vn_decode_VkWriteDescriptorSet_self_temp`, from `pTexelBufferView` on. -/
def vn_decode_VkWriteDescriptorSet_self_temp_pTexelBufferView (dec : vn_cs_decoder)
    (val : VkWriteDescriptorSet) : vn_cs_decoder × VkWriteDescriptorSet :=
  if vn_peek_array_size dec then
    let a := vn_decode_array_size dec val.descriptorCount
    let iter_count := a.2 % 4294967296
    let p := vn_cs_decoder_alloc_temp_array a.1 sizeof_VkBufferView iter_count
    if !p.2 then (p.1, { val with pTexelBufferView := none })
    else
      let e := vn_decode_array (fun d _ => vn_decode_VkBufferView_lookup d) none iter_count p.1
      (e.1, { val with pTexelBufferView := some e.2 })
  else
    let a := vn_decode_array_size_unchecked dec
    (a.1, { val with pTexelBufferView := none })

/-- `vn_decode_VkWriteDescriptorSet_self_temp`, from `pBufferInfo` on. -/
def vn_decode_VkWriteDescriptorSet_self_temp_pBufferInfo (dec : vn_cs_decoder)
    (val : VkWriteDescriptorSet) : vn_cs_decoder × VkWriteDescriptorSet :=
  if vn_peek_array_size dec then
    let a := vn_decode_array_size dec val.descriptorCount
    let iter_count := a.2 % 4294967296
    let p := vn_cs_decoder_alloc_temp_array a.1 sizeof_VkDescriptorBufferInfo iter_count
    if !p.2 then (p.1, { val with pBufferInfo := none })
    else
      let e := vn_decode_array vn_decode_VkDescriptorBufferInfo_temp default iter_count p.1
      vn_decode_VkWriteDescriptorSet_self_temp_pTexelBufferView e.1
        { val with pBufferInfo := some e.2 }
  else
    let a := vn_decode_array_size_unchecked dec
    vn_decode_VkWriteDescriptorSet_self_temp_pTexelBufferView a.1
      { val with pBufferInfo := none }

/-- `vn_decode_VkWriteDescriptorSet_self_temp`, from `pImageInfo` on. -/
def vn_decode_VkWriteDescriptorSet_self_temp_pImageInfo (dec : vn_cs_decoder)
    (val : VkWriteDescriptorSet) : vn_cs_decoder × VkWriteDescriptorSet :=
  if vn_peek_array_size dec then
    let a := vn_decode_array_size dec val.descriptorCount
    let iter_count := a.2 % 4294967296
    let p := vn_cs_decoder_alloc_temp_array a.1 sizeof_VkDescriptorImageInfo iter_count
    if !p.2 then (p.1, { val with pImageInfo := none })
    else
      let e := vn_decode_array vn_decode_VkDescriptorImageInfo_temp default iter_count p.1
      vn_decode_VkWriteDescriptorSet_self_temp_pBufferInfo e.1
        { val with pImageInfo := some e.2 }
  else
    let a := vn_decode_array_size_unchecked dec
    vn_decode_VkWriteDescriptorSet_self_temp_pBufferInfo a.1
      { val with pImageInfo := none }

/-- `vn_decode_VkWriteDescriptorSet_self_temp`; the three array blocks, each with
its early `return`, are the three continuations above. -/
def vn_decode_VkWriteDescriptorSet_self_temp (dec : vn_cs_decoder)
    (val : VkWriteDescriptorSet) : vn_cs_decoder × VkWriteDescriptorSet :=
  let r1 := vn_decode_VkDescriptorSet_lookup dec
  let val := { val with dstSet := r1.2 }
  let r2 := vn_decode_uint32_t r1.1
  let val := { val with dstBinding := r2.2 }
  let r3 := vn_decode_uint32_t r2.1
  let val := { val with dstArrayElement := r3.2 }
  let r4 := vn_decode_uint32_t r3.1
  let val := { val with descriptorCount := r4.2 }
  let r5 := vn_decode_VkDescriptorType r4.1
  let val := { val with descriptorType := r5.2 }
  vn_decode_VkWriteDescriptorSet_self_temp_pImageInfo r5.1 val

/-- `vn_decode_VkWriteDescriptorSet_temp`. -/
def vn_decode_VkWriteDescriptorSet_temp (dec : vn_cs_decoder) (val : VkWriteDescriptorSet) :
    vn_cs_decoder × VkWriteDescriptorSet :=
  let s := vn_decode_VkStructureType dec
  let stype := s.2
  let dec := if stype ≠ VK_STRUCTURE_TYPE_WRITE_DESCRIPTOR_SET
    then vn_cs_decoder_set_fatal s.1 else s.1
  let val := { val with sType := stype }
  let p := vn_decode_VkWriteDescriptorSet_pnext_temp dec
  let val := { val with pNext := p.2 }
  vn_decode_VkWriteDescriptorSet_self_temp p.1 val

/-! ## struct VkMemoryDedicatedRequirements chain -/

/-- `vn_encode_VkMemoryDedicatedRequirements_pnext`: no known/supported struct,
whatever the chain `val` is. -/
def vn_encode_VkMemoryDedicatedRequirements_pnext (enc : vn_cs_encoder)
    (_val : List VkBaseInStructure) : vn_cs_encoder :=
  vn_encode_simple_pointer enc false

/-- `vn_encode_VkMemoryDedicatedRequirements_self`. -/
def vn_encode_VkMemoryDedicatedRequirements_self (enc : vn_cs_encoder)
    (val : VkMemoryDedicatedRequirements) : vn_cs_encoder :=
  let enc := vn_encode_VkBool32 enc val.prefersDedicatedAllocation
  vn_encode_VkBool32 enc val.requiresDedicatedAllocation

/-- `vn_encode_VkMemoryDedicatedRequirements`; the `assert` on `val->sType` is a
precondition of the caller and writes nothing: the tag written is the constant. -/
def vn_encode_VkMemoryDedicatedRequirements (enc : vn_cs_encoder)
    (val : VkMemoryDedicatedRequirements) : vn_cs_encoder :=
  let enc := vn_encode_VkStructureType enc VK_STRUCTURE_TYPE_MEMORY_DEDICATED_REQUIREMENTS
  let enc := vn_encode_VkMemoryDedicatedRequirements_pnext enc val.pNext
  vn_encode_VkMemoryDedicatedRequirements_self enc val

/-- `vn_decode_VkMemoryDedicatedRequirements_pnext_partial_temp`: no
known/supported struct. -/
def vn_decode_VkMemoryDedicatedRequirements_pnext_partial_temp (dec : vn_cs_decoder) :
    vn_cs_decoder × List VkBaseOutStructure :=
  let r := vn_decode_simple_pointer dec
  if r.2 then (vn_cs_decoder_set_fatal r.1, []) else (r.1, [])

/-- `vn_decode_VkMemoryDedicatedRequirements_self_partial_temp`: every field is
skipped. -/
def vn_decode_VkMemoryDedicatedRequirements_self_partial_temp (dec : vn_cs_decoder)
    (val : VkMemoryDedicatedRequirements) : vn_cs_decoder × VkMemoryDedicatedRequirements :=
  (dec, val)

/-- `vn_decode_VkMemoryDedicatedRequirements_partial_temp`. -/
def vn_decode_VkMemoryDedicatedRequirements_partial_temp (dec : vn_cs_decoder)
    (val : VkMemoryDedicatedRequirements) : vn_cs_decoder × VkMemoryDedicatedRequirements :=
  let s := vn_decode_VkStructureType dec
  let stype := s.2
  let dec := if stype ≠ VK_STRUCTURE_TYPE_MEMORY_DEDICATED_REQUIREMENTS
    then vn_cs_decoder_set_fatal s.1 else s.1
  let val := { val with sType := stype }
  let p := vn_decode_VkMemoryDedicatedRequirements_pnext_partial_temp dec
  let val := { val with pNext := p.2 }
  vn_decode_VkMemoryDedicatedRequirements_self_partial_temp p.1 val

/-! ## struct VkMemoryRequirements2 chain -/

/-- `vn_encode_VkMemoryRequirements2_pnext`: the `while` loop walks the chain; at
a `VK_STRUCTURE_TYPE_MEMORY_DEDICATED_REQUIREMENTS` link it writes the marker
and the tag, encodes the rest of the chain by a recursive call, writes the
link's own fields and returns; at any other link it goes on to the next one;
at the end of the chain it writes the absent marker. -/
def vn_encode_VkMemoryRequirements2_pnext (enc : vn_cs_encoder) :
    List VkBaseInStructure → vn_cs_encoder
  | [] => vn_encode_simple_pointer enc false
  | pnext :: next =>
    if pnext.sType = VK_STRUCTURE_TYPE_MEMORY_DEDICATED_REQUIREMENTS then
      let enc := vn_encode_simple_pointer enc true
      let enc := vn_encode_VkStructureType enc pnext.sType
      let enc := vn_encode_VkMemoryRequirements2_pnext enc next
      vn_encode_VkMemoryDedicatedRequirements_self enc
        (pnext.asMemoryDedicatedRequirements next)
    else
      vn_encode_VkMemoryRequirements2_pnext enc next

/-- `vn_encode_VkMemoryRequirements2_self`. -/
def vn_encode_VkMemoryRequirements2_self (enc : vn_cs_encoder) (val : VkMemoryRequirements2) :
    vn_cs_encoder :=
  vn_encode_VkMemoryRequirements enc val.memoryRequirements

/-- `vn_encode_VkMemoryRequirements2`; the `assert` on `val->sType` is a
precondition of the caller and writes nothing: the tag written is the constant. -/
def vn_encode_VkMemoryRequirements2 (enc : vn_cs_encoder) (val : VkMemoryRequirements2) :
    vn_cs_encoder :=
  let enc := vn_encode_VkStructureType enc VK_STRUCTURE_TYPE_MEMORY_REQUIREMENTS_2
  let enc := vn_encode_VkMemoryRequirements2_pnext enc val.pNext
  vn_encode_VkMemoryRequirements2_self enc val

/-- The body of `vn_decode_VkMemoryRequirements2_pnext_partial_temp` with a bound
on the depth of its recursion. Every recursive call follows a present pointer
marker read from the stream, so `fuel` above the number of remaining bytes is
never used up. The record taken from the arena starts with unspecified content,
modelled as zero. -/
def vn_decode_VkMemoryRequirements2_pnext_partial_temp_fuel :
    Nat → vn_cs_decoder → vn_cs_decoder × List VkBaseOutStructure
  | 0, dec => (dec, [])
  | fuel + 1, dec =>
    let m := vn_decode_simple_pointer dec
    if !m.2 then (m.1, [])
    else
      let s := vn_decode_VkStructureType m.1
      let stype := s.2
      if stype = VK_STRUCTURE_TYPE_MEMORY_DEDICATED_REQUIREMENTS then
        let a := vn_cs_decoder_alloc_temp s.1 sizeof_VkMemoryDedicatedRequirements
        if a.2 then
          let n := vn_decode_VkMemoryRequirements2_pnext_partial_temp_fuel fuel a.1
          let v := vn_decode_VkMemoryDedicatedRequirements_self_partial_temp n.1
            { sType := stype, pNext := n.2,
              prefersDedicatedAllocation := 0, requiresDedicatedAllocation := 0 }
          (v.1, v.2.toChain)
        else (a.1, [])
      else
        (vn_cs_decoder_set_fatal s.1, [])

/-- `vn_decode_VkMemoryRequirements2_pnext_partial_temp`. -/
def vn_decode_VkMemoryRequirements2_pnext_partial_temp (dec : vn_cs_decoder) :
    vn_cs_decoder × List VkBaseOutStructure :=
  vn_decode_VkMemoryRequirements2_pnext_partial_temp_fuel (dec.cur.length + 1) dec

/-- `vn_decode_VkMemoryRequirements2_self_partial_temp`. -/
def vn_decode_VkMemoryRequirements2_self_partial_temp (dec : vn_cs_decoder)
    (val : VkMemoryRequirements2) : vn_cs_decoder × VkMemoryRequirements2 :=
  let r := vn_decode_VkMemoryRequirements_partial_temp dec val.memoryRequirements
  (r.1, { val with memoryRequirements := r.2 })

/-- `vn_decode_VkMemoryRequirements2_partial_temp`. -/
def vn_decode_VkMemoryRequirements2_partial_temp (dec : vn_cs_decoder)
    (val : VkMemoryRequirements2) : vn_cs_decoder × VkMemoryRequirements2 :=
  let s := vn_decode_VkStructureType dec
  let stype := s.2
  let dec := if stype ≠ VK_STRUCTURE_TYPE_MEMORY_REQUIREMENTS_2
    then vn_cs_decoder_set_fatal s.1 else s.1
  let val := { val with sType := stype }
  let p := vn_decode_VkMemoryRequirements2_pnext_partial_temp dec
  let val := { val with pNext := p.2 }
  vn_decode_VkMemoryRequirements2_self_partial_temp p.1 val

/-! ## struct VkMemoryBarrier2 chain -/

/-- `vn_decode_VkMemoryBarrier2_pnext_temp`: no known/supported struct. -/
def vn_decode_VkMemoryBarrier2_pnext_temp (dec : vn_cs_decoder) :
    vn_cs_decoder × List VkBaseOutStructure :=
  let r := vn_decode_simple_pointer dec
  if r.2 then (vn_cs_decoder_set_fatal r.1, []) else (r.1, [])

/-- `vn_decode_VkMemoryBarrier2_self_temp`. -/
def vn_decode_VkMemoryBarrier2_self_temp (dec : vn_cs_decoder) (val : VkMemoryBarrier2) :
    vn_cs_decoder × VkMemoryBarrier2 :=
  let r1 := vn_decode_VkFlags64 dec
  let val := { val with srcStageMask := r1.2 }
  let r2 := vn_decode_VkFlags64 r1.1
  let val := { val with srcAccessMask := r2.2 }
  let r3 := vn_decode_VkFlags64 r2.1
  let val := { val with dstStageMask := r3.2 }
  let r4 := vn_decode_VkFlags64 r3.1
  (r4.1, { val with dstAccessMask := r4.2 })

/-- `vn_decode_VkMemoryBarrier2_temp`. -/
def vn_decode_VkMemoryBarrier2_temp (dec : vn_cs_decoder) (val : VkMemoryBarrier2) :
    vn_cs_decoder × VkMemoryBarrier2 :=
  let s := vn_decode_VkStructureType dec
  let stype := s.2
  let dec := if stype ≠ VK_STRUCTURE_TYPE_MEMORY_BARRIER_2
    then vn_cs_decoder_set_fatal s.1 else s.1
  let val := { val with sType := stype }
  let p := vn_decode_VkMemoryBarrier2_pnext_temp dec
  let val := { val with pNext := p.2 }
  vn_decode_VkMemoryBarrier2_self_temp p.1 val

/-! ## Value domains of the C types -/

/-- A value fits a `uint32_t`. -/
def isUint32 (v : Nat) : Prop := v < 4294967296

/-- A value fits a `uint64_t`. -/
def isUint64 (v : Nat) : Prop := v < 18446744073709551616

/-- A value fits an `int32_t` (also every enumeration). -/
def isInt32 (v : Int) : Prop := -2147483648 ≤ v ∧ v < 2147483648

/-- A `char[n]` array: `n` elements, each one byte. -/
def isCharArray (n : Nat) (l : List Nat) : Prop := l.length = n ∧ ∀ c ∈ l, c < 256

/-- The fields of a `VkExtent3D` are `uint32_t`. -/
def VkExtent3D.valid (v : VkExtent3D) : Prop :=
  isUint32 v.width ∧ isUint32 v.height ∧ isUint32 v.depth

/-- The fields of a `VkOffset2D` are `int32_t`. -/
def VkOffset2D.valid (v : VkOffset2D) : Prop := isInt32 v.x ∧ isInt32 v.y

/-- The fields of a `VkExtent2D` are `uint32_t`. -/
def VkExtent2D.valid (v : VkExtent2D) : Prop := isUint32 v.width ∧ isUint32 v.height

/-- The fields of a `VkRect2D` are in their types. -/
def VkRect2D.valid (v : VkRect2D) : Prop := v.offset.valid ∧ v.extent.valid

/-- The fields of a `VkComponentMapping` are enumerations. -/
def VkComponentMapping.valid (v : VkComponentMapping) : Prop :=
  isInt32 v.r ∧ isInt32 v.g ∧ isInt32 v.b ∧ isInt32 v.a

/-- The fields of a `VkExtensionProperties`: `char[VK_MAX_EXTENSION_NAME_SIZE]`
and a `uint32_t`. -/
def VkExtensionProperties.valid (v : VkExtensionProperties) : Prop :=
  isCharArray VK_MAX_EXTENSION_NAME_SIZE v.extensionName ∧ isUint32 v.specVersion

instance (v : Nat) : Decidable (isUint32 v) := by unfold isUint32; infer_instance
instance (v : Nat) : Decidable (isUint64 v) := by unfold isUint64; infer_instance
instance (v : Int) : Decidable (isInt32 v) := by unfold isInt32; infer_instance
instance (n : Nat) (l : List Nat) : Decidable (isCharArray n l) := by
  unfold isCharArray; infer_instance
instance (v : VkExtent3D) : Decidable v.valid := by unfold VkExtent3D.valid; infer_instance
instance (v : VkOffset2D) : Decidable v.valid := by unfold VkOffset2D.valid; infer_instance
instance (v : VkExtent2D) : Decidable v.valid := by unfold VkExtent2D.valid; infer_instance
instance (v : VkRect2D) : Decidable v.valid := by unfold VkRect2D.valid; infer_instance
instance (v : VkComponentMapping) : Decidable v.valid := by
  unfold VkComponentMapping.valid; infer_instance
instance (v : VkExtensionProperties) : Decidable v.valid := by
  unfold VkExtensionProperties.valid; infer_instance

/-! ## Wire images used to state the theorems -/

/-- The bytes of `n` consecutive scalars of `size` bytes each, taken from `vals`
in index order: what `vn_encode_scalar_array` appends. -/
def scalarArrayBytes (size : Nat) : Nat → List Nat → List Byte
  | 0, _ => []
  | n + 1, vals => leBytes size (vals.headD 0) ++ scalarArrayBytes size n vals.tail

/-- The links of a chain that `vn_encode_VkMemoryRequirements2_pnext` recognises:
those tagged `VK_STRUCTURE_TYPE_MEMORY_DEDICATED_REQUIREMENTS`, in chain order. -/
def recognisedLinks (c : List VkBaseInStructure) : List VkBaseInStructure :=
  c.filter (fun l => decide (l.sType = VK_STRUCTURE_TYPE_MEMORY_DEDICATED_REQUIREMENTS))

/-- The markers and tags that `vn_encode_VkMemoryRequirements2_pnext` writes for a
chain: a present marker and the tag for each recognised link, in chain order,
then one absent marker. -/
def pnextMarkerBytes : List VkBaseInStructure → List Byte
  | [] => leBytes 8 0
  | l :: next =>
    if l.sType = VK_STRUCTURE_TYPE_MEMORY_DEDICATED_REQUIREMENTS then
      leBytes 8 1 ++ (leBytes 4 (int32Bits l.sType) ++ pnextMarkerBytes next)
    else pnextMarkerBytes next

/-- The field values that `vn_encode_VkMemoryRequirements2_pnext` writes for a
chain: the own fields of each recognised link, the last link first. -/
def pnextFieldBytes : List VkBaseInStructure → List Byte
  | [] => []
  | l :: next =>
    if l.sType = VK_STRUCTURE_TYPE_MEMORY_DEDICATED_REQUIREMENTS then
      pnextFieldBytes next ++
        (vn_encode_VkMemoryDedicatedRequirements_self ⟨[]⟩
          (l.asMemoryDedicatedRequirements next)).buf
    else pnextFieldBytes next

/-! ## The handle pass -/

/-- Modelled from the spec: `vn_replace_VkSampler_handle` of the missing handles
header. §4.4 `replace(&field)`: rewrites a handle field in place from its wire
identifier to a local reference. The rewriting belongs to the session and is
taken as the parameter `rep`, by handle category. -/
def vn_replace_VkSampler_handle (rep : VkObjectType → Option Nat → Option Nat)
    (val : Option Nat) : Option Nat :=
  rep VkObjectType.sampler val

/-- Modelled from the spec: `vn_replace_VkImageView_handle` of the missing handles
header (§4.4 `replace`); see `vn_replace_VkSampler_handle`. -/
def vn_replace_VkImageView_handle (rep : VkObjectType → Option Nat → Option Nat)
    (val : Option Nat) : Option Nat :=
  rep VkObjectType.imageView val

/-- Modelled from the spec: `vn_replace_VkBuffer_handle` of the missing handles
header (§4.4 `replace`); see `vn_replace_VkSampler_handle`. -/
def vn_replace_VkBuffer_handle (rep : VkObjectType → Option Nat → Option Nat)
    (val : Option Nat) : Option Nat :=
  rep VkObjectType.buffer val

/-- Modelled from the spec: `vn_replace_VkBufferView_handle` of the missing handles
header (§4.4 `replace`); see `vn_replace_VkSampler_handle`. -/
def vn_replace_VkBufferView_handle (rep : VkObjectType → Option Nat → Option Nat)
    (val : Option Nat) : Option Nat :=
  rep VkObjectType.bufferView val

/-- Modelled from the spec: `vn_replace_VkDescriptorSet_handle` of the missing
handles header (§4.4 `replace`); see `vn_replace_VkSampler_handle`. -/
def vn_replace_VkDescriptorSet_handle (rep : VkObjectType → Option Nat → Option Nat)
    (val : Option Nat) : Option Nat :=
  rep VkObjectType.descriptorSet val

/-- The loop `for (i = 0; i < count; i++) replace(&array[i])` of the generated
handle passes on an array of `arr.length` elements. An index at or past the
end of the array is outside the array in C; nothing is rewritten there. -/
def vn_replace_array {α : Type} (f : α → α) : Nat → List α → List α
  | 0, arr => arr
  | _ + 1, [] => []
  | n + 1, x :: xs => f x :: vn_replace_array f n xs

/-- `vn_replace_VkDescriptorImageInfo_handle`. -/
def vn_replace_VkDescriptorImageInfo_handle (rep : VkObjectType → Option Nat → Option Nat)
    (val : VkDescriptorImageInfo) : VkDescriptorImageInfo :=
  let val := { val with sampler := vn_replace_VkSampler_handle rep val.sampler }
  { val with imageView := vn_replace_VkImageView_handle rep val.imageView }

/-- `vn_replace_VkDescriptorBufferInfo_handle`. -/
def vn_replace_VkDescriptorBufferInfo_handle (rep : VkObjectType → Option Nat → Option Nat)
    (val : VkDescriptorBufferInfo) : VkDescriptorBufferInfo :=
  { val with buffer := vn_replace_VkBuffer_handle rep val.buffer }

/-- `vn_replace_VkWriteDescriptorSetInlineUniformBlock_handle_self`: every field is
skipped. -/
def vn_replace_VkWriteDescriptorSetInlineUniformBlock_handle_self
    (val : VkWriteDescriptorSetInlineUniformBlock) : VkWriteDescriptorSetInlineUniformBlock :=
  val

/-- `vn_replace_VkWriteDescriptorSet_handle_self`: `dstSet`, then each of the three
arrays when its pointer is non-null, with `i` running below `descriptorCount`. -/
def vn_replace_VkWriteDescriptorSet_handle_self (rep : VkObjectType → Option Nat → Option Nat)
    (val : VkWriteDescriptorSet) : VkWriteDescriptorSet :=
  let val := { val with dstSet := vn_replace_VkDescriptorSet_handle rep val.dstSet }
  let val := { val with
    pImageInfo := val.pImageInfo.map
      (vn_replace_array (vn_replace_VkDescriptorImageInfo_handle rep) val.descriptorCount) }
  let val := { val with
    pBufferInfo := val.pBufferInfo.map
      (vn_replace_array (vn_replace_VkDescriptorBufferInfo_handle rep) val.descriptorCount) }
  { val with
    pTexelBufferView := val.pTexelBufferView.map
      (vn_replace_array (vn_replace_VkBufferView_handle rep) val.descriptorCount) }

/-- The loop `for (i = 0; i < count; i++) replace(&array[i])` of the generated
handle passes with the access `array[i]` as a partial lookup: `none` when an
index is at or past the end of the `arr.length` elements that the pointer holds,
which is an access outside the array in C. -/
def vn_replace_array_checked {α : Type} (f : α → α) : Nat → List α → Option (List α)
  | 0, arr => some arr
  | _ + 1, [] => none
  | n + 1, x :: xs => (vn_replace_array_checked f n xs).map (fun r => f x :: r)

/-- One `if (val->p) { for (...) replace(&val->p[i]); }` block of a handle pass,
with the loop as `vn_replace_array_checked`: a null pointer is left alone. -/
def vn_replace_pointer_checked {α : Type} (f : α → α) (count : Nat) :
    Option (List α) → Option (Option (List α))
  | none => some none
  | some arr => (vn_replace_array_checked f count arr).map some

/-- `vn_replace_VkWriteDescriptorSet_handle_self` with the array accesses of its
three loops as partial lookups: `dstSet`, then each of the three arrays when its
pointer is non-null, with `i` running below `descriptorCount`; `none` when a
loop reaches an element outside its array. -/
def vn_replace_VkWriteDescriptorSet_handle_self_checked
    (rep : VkObjectType → Option Nat → Option Nat) (val : VkWriteDescriptorSet) :
    Option VkWriteDescriptorSet :=
  let val := { val with dstSet := vn_replace_VkDescriptorSet_handle rep val.dstSet }
  match vn_replace_pointer_checked (vn_replace_VkDescriptorImageInfo_handle rep)
      val.descriptorCount val.pImageInfo with
  | none => none
  | some pImageInfo =>
    let val := { val with pImageInfo := pImageInfo }
    match vn_replace_pointer_checked (vn_replace_VkDescriptorBufferInfo_handle rep)
        val.descriptorCount val.pBufferInfo with
    | none => none
    | some pBufferInfo =>
      let val := { val with pBufferInfo := pBufferInfo }
      match vn_replace_pointer_checked (vn_replace_VkBufferView_handle rep)
          val.descriptorCount val.pTexelBufferView with
      | none => none
      | some pTexelBufferView => some { val with pTexelBufferView := pTexelBufferView }

/-- One iteration of the loop of `vn_replace_VkWriteDescriptorSet_handle` on a link
`pnext` followed by `next`: the `switch` on `pnext->sType` with the cast of each
arm. A link tagged for a cast whose record has another shape is outside the C
types; it is left as it is. -/
def vn_replace_VkWriteDescriptorSet_handle_link (rep : VkObjectType → Option Nat → Option Nat)
    (pnext : VkBaseOutStructure) (next : List VkBaseOutStructure) : VkBaseOutStructure :=
  if pnext.sType = VK_STRUCTURE_TYPE_WRITE_DESCRIPTOR_SET then
    match pnext.body with
    | VkRecordBody.writeDescriptorSet ds b ae dc dt pi pb pt =>
      let v := vn_replace_VkWriteDescriptorSet_handle_self rep
        { sType := pnext.sType, pNext := next, dstSet := ds, dstBinding := b,
          dstArrayElement := ae, descriptorCount := dc, descriptorType := dt,
          pImageInfo := pi, pBufferInfo := pb, pTexelBufferView := pt }
      { sType := v.sType,
        body := VkRecordBody.writeDescriptorSet v.dstSet v.dstBinding v.dstArrayElement
          v.descriptorCount v.descriptorType v.pImageInfo v.pBufferInfo v.pTexelBufferView }
    | _ => pnext
  else if pnext.sType = VK_STRUCTURE_TYPE_WRITE_DESCRIPTOR_SET_INLINE_UNIFORM_BLOCK then
    match pnext.body with
    | VkRecordBody.writeDescriptorSetInlineUniformBlock dataSize pData =>
      let v := vn_replace_VkWriteDescriptorSetInlineUniformBlock_handle_self
        { sType := pnext.sType, pNext := next, dataSize := dataSize, pData := pData }
      { sType := v.sType,
        body := VkRecordBody.writeDescriptorSetInlineUniformBlock v.dataSize v.pData }
    | _ => pnext
  else
    pnext

/-- The loop of `vn_replace_VkWriteDescriptorSet_handle` from a link of the chain
to its end: `switch`, then `pnext = pnext->pNext`, while `pnext` is non-null. -/
def vn_replace_VkWriteDescriptorSet_handle_chain
    (rep : VkObjectType → Option Nat → Option Nat) :
    List VkBaseOutStructure → List VkBaseOutStructure
  | [] => []
  | pnext :: next =>
    vn_replace_VkWriteDescriptorSet_handle_link rep pnext next ::
      vn_replace_VkWriteDescriptorSet_handle_chain rep next

/-- `vn_replace_VkWriteDescriptorSet_handle`: the `do ... while` loop starts at
`val` itself, whose record is a `VkWriteDescriptorSet` whatever its tag says
(under the inline uniform block tag the self pass skips every field), and goes
on through the chain `val->pNext`. -/
def vn_replace_VkWriteDescriptorSet_handle (rep : VkObjectType → Option Nat → Option Nat)
    (val : VkWriteDescriptorSet) : VkWriteDescriptorSet :=
  let val :=
    if val.sType = VK_STRUCTURE_TYPE_WRITE_DESCRIPTOR_SET then
      vn_replace_VkWriteDescriptorSet_handle_self rep val
    else val
  { val with pNext := vn_replace_VkWriteDescriptorSet_handle_chain rep val.pNext }

/-! ## The handle pass over the structs without handles -/

/-- `vn_replace_VkExtent3D_handle`: every field is skipped. -/
def vn_replace_VkExtent3D_handle (val : VkExtent3D) : VkExtent3D :=
  val

/-- `vn_replace_VkComponentMapping_handle`: every field is skipped. -/
def vn_replace_VkComponentMapping_handle (val : VkComponentMapping) : VkComponentMapping :=
  val

/-- `vn_replace_VkOffset2D_handle`: every field is skipped. -/
def vn_replace_VkOffset2D_handle (val : VkOffset2D) : VkOffset2D :=
  val

/-- `vn_replace_VkExtent2D_handle`: every field is skipped. -/
def vn_replace_VkExtent2D_handle (val : VkExtent2D) : VkExtent2D :=
  val

/-- `vn_replace_VkRect2D_handle`. -/
def vn_replace_VkRect2D_handle (val : VkRect2D) : VkRect2D :=
  let val := { val with offset := vn_replace_VkOffset2D_handle val.offset }
  { val with extent := vn_replace_VkExtent2D_handle val.extent }

/-- `vn_replace_VkMutableDescriptorTypeListEXT_handle`: every field is skipped. -/
def vn_replace_VkMutableDescriptorTypeListEXT_handle (val : VkMutableDescriptorTypeListEXT) :
    VkMutableDescriptorTypeListEXT :=
  val

/-- A `case` of a handle pass whose self pass writes no field, taken on a chain link
through the cast `(T *)pnext`: the record behind the link is left as it is. -/
def vn_replace_link_skipped (pnext : VkBaseOutStructure) : VkBaseOutStructure :=
  pnext

/-- `vn_replace_VkSemaphoreTypeCreateInfo_handle_self`: every field is skipped. -/
def vn_replace_VkSemaphoreTypeCreateInfo_handle_self (val : VkSemaphoreTypeCreateInfo) :
    VkSemaphoreTypeCreateInfo :=
  val

/-- The loop of `vn_replace_VkSemaphoreTypeCreateInfo_handle` from a link of the chain to
its end: the `switch` on `pnext->sType`, then `pnext = pnext->pNext`, while
`pnext` is non-null. -/
def vn_replace_VkSemaphoreTypeCreateInfo_handle_chain :
    List VkBaseOutStructure → List VkBaseOutStructure
  | [] => []
  | pnext :: next =>
    (if pnext.sType = VK_STRUCTURE_TYPE_SEMAPHORE_TYPE_CREATE_INFO then
        vn_replace_link_skipped pnext
      else pnext) ::
      vn_replace_VkSemaphoreTypeCreateInfo_handle_chain next

/-- `vn_replace_VkSemaphoreTypeCreateInfo_handle`: the `do ... while` loop starts at `val`
itself and goes on through the chain `val->pNext`. -/
def vn_replace_VkSemaphoreTypeCreateInfo_handle (val : VkSemaphoreTypeCreateInfo) :
    VkSemaphoreTypeCreateInfo :=
  let val :=
    if val.sType = VK_STRUCTURE_TYPE_SEMAPHORE_TYPE_CREATE_INFO then
      vn_replace_VkSemaphoreTypeCreateInfo_handle_self val
    else val
  { val with pNext := vn_replace_VkSemaphoreTypeCreateInfo_handle_chain val.pNext }

/-- `vn_replace_VkImageFormatListCreateInfo_handle_self`: every field is skipped. -/
def vn_replace_VkImageFormatListCreateInfo_handle_self (val : VkImageFormatListCreateInfo) :
    VkImageFormatListCreateInfo :=
  val

/-- The loop of `vn_replace_VkImageFormatListCreateInfo_handle` from a link of the chain to
its end: the `switch` on `pnext->sType`, then `pnext = pnext->pNext`, while
`pnext` is non-null. -/
def vn_replace_VkImageFormatListCreateInfo_handle_chain :
    List VkBaseOutStructure → List VkBaseOutStructure
  | [] => []
  | pnext :: next =>
    (if pnext.sType = VK_STRUCTURE_TYPE_IMAGE_FORMAT_LIST_CREATE_INFO then
        vn_replace_link_skipped pnext
      else pnext) ::
      vn_replace_VkImageFormatListCreateInfo_handle_chain next

/-- `vn_replace_VkImageFormatListCreateInfo_handle`: the `do ... while` loop starts at `val`
itself and goes on through the chain `val->pNext`. -/
def vn_replace_VkImageFormatListCreateInfo_handle (val : VkImageFormatListCreateInfo) :
    VkImageFormatListCreateInfo :=
  let val :=
    if val.sType = VK_STRUCTURE_TYPE_IMAGE_FORMAT_LIST_CREATE_INFO then
      vn_replace_VkImageFormatListCreateInfo_handle_self val
    else val
  { val with pNext := vn_replace_VkImageFormatListCreateInfo_handle_chain val.pNext }

/-- `vn_replace_VkImageStencilUsageCreateInfo_handle_self`: every field is skipped. -/
def vn_replace_VkImageStencilUsageCreateInfo_handle_self (val : VkImageStencilUsageCreateInfo) :
    VkImageStencilUsageCreateInfo :=
  val

/-- The loop of `vn_replace_VkImageStencilUsageCreateInfo_handle` from a link of the chain to
its end: the `switch` on `pnext->sType`, then `pnext = pnext->pNext`, while
`pnext` is non-null. -/
def vn_replace_VkImageStencilUsageCreateInfo_handle_chain :
    List VkBaseOutStructure → List VkBaseOutStructure
  | [] => []
  | pnext :: next =>
    (if pnext.sType = VK_STRUCTURE_TYPE_IMAGE_STENCIL_USAGE_CREATE_INFO then
        vn_replace_link_skipped pnext
      else pnext) ::
      vn_replace_VkImageStencilUsageCreateInfo_handle_chain next

/-- `vn_replace_VkImageStencilUsageCreateInfo_handle`: the `do ... while` loop starts at `val`
itself and goes on through the chain `val->pNext`. -/
def vn_replace_VkImageStencilUsageCreateInfo_handle (val : VkImageStencilUsageCreateInfo) :
    VkImageStencilUsageCreateInfo :=
  let val :=
    if val.sType = VK_STRUCTURE_TYPE_IMAGE_STENCIL_USAGE_CREATE_INFO then
      vn_replace_VkImageStencilUsageCreateInfo_handle_self val
    else val
  { val with pNext := vn_replace_VkImageStencilUsageCreateInfo_handle_chain val.pNext }

/-- `vn_replace_VkShaderModuleCreateInfo_handle_self`: every field is skipped. -/
def vn_replace_VkShaderModuleCreateInfo_handle_self (val : VkShaderModuleCreateInfo) :
    VkShaderModuleCreateInfo :=
  val

/-- The loop of `vn_replace_VkShaderModuleCreateInfo_handle` from a link of the chain to
its end: the `switch` on `pnext->sType`, then `pnext = pnext->pNext`, while
`pnext` is non-null. -/
def vn_replace_VkShaderModuleCreateInfo_handle_chain :
    List VkBaseOutStructure → List VkBaseOutStructure
  | [] => []
  | pnext :: next =>
    (if pnext.sType = VK_STRUCTURE_TYPE_SHADER_MODULE_CREATE_INFO then
        vn_replace_link_skipped pnext
      else pnext) ::
      vn_replace_VkShaderModuleCreateInfo_handle_chain next

/-- `vn_replace_VkShaderModuleCreateInfo_handle`: the `do ... while` loop starts at `val`
itself and goes on through the chain `val->pNext`. -/
def vn_replace_VkShaderModuleCreateInfo_handle (val : VkShaderModuleCreateInfo) :
    VkShaderModuleCreateInfo :=
  let val :=
    if val.sType = VK_STRUCTURE_TYPE_SHADER_MODULE_CREATE_INFO then
      vn_replace_VkShaderModuleCreateInfo_handle_self val
    else val
  { val with pNext := vn_replace_VkShaderModuleCreateInfo_handle_chain val.pNext }

/-- `vn_replace_VkMutableDescriptorTypeCreateInfoEXT_handle_self`: the scalar fields are
skipped; the loop over a non-null `pMutableDescriptorTypeLists` runs `i` below
`mutableDescriptorTypeListCount`. -/
def vn_replace_VkMutableDescriptorTypeCreateInfoEXT_handle_self
    (val : VkMutableDescriptorTypeCreateInfoEXT) : VkMutableDescriptorTypeCreateInfoEXT :=
  { val with
    pMutableDescriptorTypeLists := val.pMutableDescriptorTypeLists.map
      (vn_replace_array vn_replace_VkMutableDescriptorTypeListEXT_handle
        val.mutableDescriptorTypeListCount) }

/-- The loop of `vn_replace_VkMutableDescriptorTypeCreateInfoEXT_handle` from a link of the chain to
its end: the `switch` on `pnext->sType`, then `pnext = pnext->pNext`, while
`pnext` is non-null. -/
def vn_replace_VkMutableDescriptorTypeCreateInfoEXT_handle_chain :
    List VkBaseOutStructure → List VkBaseOutStructure
  | [] => []
  | pnext :: next =>
    (if pnext.sType = VK_STRUCTURE_TYPE_MUTABLE_DESCRIPTOR_TYPE_CREATE_INFO_EXT then
        vn_replace_link_skipped pnext
      else pnext) ::
      vn_replace_VkMutableDescriptorTypeCreateInfoEXT_handle_chain next

/-- `vn_replace_VkMutableDescriptorTypeCreateInfoEXT_handle`: the `do ... while` loop
starts at `val`
itself and goes on through the chain `val->pNext`. -/
def vn_replace_VkMutableDescriptorTypeCreateInfoEXT_handle
    (val : VkMutableDescriptorTypeCreateInfoEXT) :
    VkMutableDescriptorTypeCreateInfoEXT :=
  let val :=
    if val.sType = VK_STRUCTURE_TYPE_MUTABLE_DESCRIPTOR_TYPE_CREATE_INFO_EXT then
      vn_replace_VkMutableDescriptorTypeCreateInfoEXT_handle_self val
    else val
  { val with pNext := vn_replace_VkMutableDescriptorTypeCreateInfoEXT_handle_chain val.pNext }

/-- The loop of `vn_replace_VkWriteDescriptorSetInlineUniformBlock_handle` from a link
of the chain to
its end: the `switch` on `pnext->sType`, then `pnext = pnext->pNext`, while
`pnext` is non-null. -/
def vn_replace_VkWriteDescriptorSetInlineUniformBlock_handle_chain :
    List VkBaseOutStructure → List VkBaseOutStructure
  | [] => []
  | pnext :: next =>
    (if pnext.sType = VK_STRUCTURE_TYPE_WRITE_DESCRIPTOR_SET_INLINE_UNIFORM_BLOCK then
        vn_replace_link_skipped pnext
      else pnext) ::
      vn_replace_VkWriteDescriptorSetInlineUniformBlock_handle_chain next

/-- `vn_replace_VkWriteDescriptorSetInlineUniformBlock_handle`: the `do ... while` loop
starts at `val`
itself and goes on through the chain `val->pNext`. -/
def vn_replace_VkWriteDescriptorSetInlineUniformBlock_handle
    (val : VkWriteDescriptorSetInlineUniformBlock) :
    VkWriteDescriptorSetInlineUniformBlock :=
  let val :=
    if val.sType = VK_STRUCTURE_TYPE_WRITE_DESCRIPTOR_SET_INLINE_UNIFORM_BLOCK then
      vn_replace_VkWriteDescriptorSetInlineUniformBlock_handle_self val
    else val
  { val with pNext := vn_replace_VkWriteDescriptorSetInlineUniformBlock_handle_chain val.pNext }

/-- `vn_replace_VkMemoryBarrier2_handle_self`: every field is skipped. -/
def vn_replace_VkMemoryBarrier2_handle_self (val : VkMemoryBarrier2) :
    VkMemoryBarrier2 :=
  val

/-- The loop of `vn_replace_VkMemoryBarrier2_handle` from a link of the chain to
its end: the `switch` on `pnext->sType`, then `pnext = pnext->pNext`, while
`pnext` is non-null. -/
def vn_replace_VkMemoryBarrier2_handle_chain :
    List VkBaseOutStructure → List VkBaseOutStructure
  | [] => []
  | pnext :: next =>
    (if pnext.sType = VK_STRUCTURE_TYPE_MEMORY_BARRIER_2 then
        vn_replace_link_skipped pnext
      else pnext) ::
      vn_replace_VkMemoryBarrier2_handle_chain next

/-- `vn_replace_VkMemoryBarrier2_handle`: the `do ... while` loop starts at `val`
itself and goes on through the chain `val->pNext`. -/
def vn_replace_VkMemoryBarrier2_handle (val : VkMemoryBarrier2) :
    VkMemoryBarrier2 :=
  let val :=
    if val.sType = VK_STRUCTURE_TYPE_MEMORY_BARRIER_2 then
      vn_replace_VkMemoryBarrier2_handle_self val
    else val
  { val with pNext := vn_replace_VkMemoryBarrier2_handle_chain val.pNext }

/-! ## Parts and layouts used to state the theorems -/

/-- The leading statements of `vn_decode_VkWriteDescriptorSet_self_temp`, up to
`descriptorType`: the decoder and the destination with which the `pImageInfo`
block starts. -/
def vn_decode_VkWriteDescriptorSet_self_temp_scalars (dec : vn_cs_decoder)
    (val : VkWriteDescriptorSet) : vn_cs_decoder × VkWriteDescriptorSet :=
  let r1 := vn_decode_VkDescriptorSet_lookup dec
  let val := { val with dstSet := r1.2 }
  let r2 := vn_decode_uint32_t r1.1
  let val := { val with dstBinding := r2.2 }
  let r3 := vn_decode_uint32_t r2.1
  let val := { val with dstArrayElement := r3.2 }
  let r4 := vn_decode_uint32_t r3.1
  let val := { val with descriptorCount := r4.2 }
  let r5 := vn_decode_VkDescriptorType r4.1
  (r5.1, { val with descriptorType := r5.2 })

/-- The layout that §4.1 `encode_struct` describes for `VkMemoryRequirements2`: the
type tag, then the struct's own fields, and only then the extension chain. -/
def encode_VkMemoryRequirements2_fields_then_chain (enc : vn_cs_encoder)
    (val : VkMemoryRequirements2) : vn_cs_encoder :=
  let enc := vn_encode_VkStructureType enc VK_STRUCTURE_TYPE_MEMORY_REQUIREMENTS_2
  let enc := vn_encode_VkMemoryRequirements2_self enc val
  vn_encode_VkMemoryRequirements2_pnext enc val.pNext

/-- The own fields of a `VkWriteDescriptorSetInlineUniformBlock` link on the wire:
`dataSize`, then the size marker of `pData` (absent for a null pointer), then
the bytes of `pData`. -/
def inlineUniformBlockFieldBytes : VkRecordBody → List Byte
  | VkRecordBody.writeDescriptorSetInlineUniformBlock dataSize (some data) =>
    leBytes 4 dataSize ++ (leBytes 8 1 ++ (leBytes 8 data.length ++
      scalarArrayBytes 1 data.length data))
  | VkRecordBody.writeDescriptorSetInlineUniformBlock dataSize none =>
    leBytes 4 dataSize ++ leBytes 8 0
  | _ => []

/-- The head of a wire chain: a present marker and the tag for each link, in
order, then one absent marker. -/
def wireChainMarkerBytes : List VkBaseOutStructure → List Byte
  | [] => leBytes 8 0
  | l :: next => leBytes 8 1 ++ (leBytes 4 (int32Bits l.sType) ++ wireChainMarkerBytes next)

/-- The tail of a wire chain of inline uniform blocks: the own fields of each
link, the last link first. -/
def wireChainFieldBytes : List VkBaseOutStructure → List Byte
  | [] => []
  | l :: next => wireChainFieldBytes next ++ inlineUniformBlockFieldBytes l.body

/-- A link that `vn_decode_VkWriteDescriptorSet_pnext_temp` recognises and whose
fields are well-formed on the wire: the inline uniform block tag, a `uint32_t`
`dataSize`, and a `pData` that is null or holds at most `dataSize` bytes. -/
def wellFormedInlineUniformBlock (l : VkBaseOutStructure) : Prop :=
  l.sType = VK_STRUCTURE_TYPE_WRITE_DESCRIPTOR_SET_INLINE_UNIFORM_BLOCK ∧
  match l.body with
  | VkRecordBody.writeDescriptorSetInlineUniformBlock dataSize (some data) =>
    isUint32 dataSize ∧ data.length ≤ dataSize ∧ ∀ b ∈ data, b < 256
  | VkRecordBody.writeDescriptorSetInlineUniformBlock dataSize none => isUint32 dataSize
  | _ => False

/-- The bytes that decoding a chain of inline uniform blocks takes from the arena:
one record per link and the storage of each non-null `pData`. -/
def inlineUniformBlockArenaBytes : List VkBaseOutStructure → Nat
  | [] => 0
  | l :: next =>
    (sizeof_VkWriteDescriptorSetInlineUniformBlock +
      match l.body with
      | VkRecordBody.writeDescriptorSetInlineUniformBlock _ (some data) => data.length
      | _ => 0) + inlineUniformBlockArenaBytes next

/-- The number of allocations that decoding a chain of inline uniform blocks
makes: one per link and one per non-null `pData`. -/
def inlineUniformBlockArenaAllocs : List VkBaseOutStructure → Nat
  | [] => 0
  | l :: next =>
    (1 + match l.body with
      | VkRecordBody.writeDescriptorSetInlineUniformBlock _ (some _) => 1
      | _ => 0) + inlineUniformBlockArenaAllocs next

/-- The layout that §3 "Fixed array" describes for `VkExtensionProperties`: the
elements of `extensionName` with no size marker before them, then `specVersion`. -/
def encode_VkExtensionProperties_elements_only (enc : vn_cs_encoder)
    (val : VkExtensionProperties) : vn_cs_encoder :=
  let enc := vn_encode_char_array enc val.extensionName VK_MAX_EXTENSION_NAME_SIZE
  vn_encode_uint32_t enc val.specVersion

/-- The layout that §3 "Fixed array" describes for `VkLayerProperties`: the elements
of `layerName`, the two versions, and the elements of `description`, with no
size marker before either array. -/
def encode_VkLayerProperties_elements_only (enc : vn_cs_encoder) (val : VkLayerProperties) :
    vn_cs_encoder :=
  let enc := vn_encode_char_array enc val.layerName VK_MAX_EXTENSION_NAME_SIZE
  let enc := vn_encode_uint32_t enc val.specVersion
  let enc := vn_encode_uint32_t enc val.implementationVersion
  vn_encode_char_array enc val.description VK_MAX_DESCRIPTION_SIZE

/-- The body of `vn_decode_VkWriteDescriptorSet_pnext_temp` with the depth of its
recursion counted: `depth` is the number of nested calls still allowed, and the
result is `none` when a call would go deeper. -/
def vn_decode_VkWriteDescriptorSet_pnext_temp_bounded :
    Nat → vn_cs_decoder → Option (vn_cs_decoder × List VkBaseOutStructure)
  | 0, _ => none
  | depth + 1, dec =>
    let m := vn_decode_simple_pointer dec
    if !m.2 then some (m.1, [])
    else
      let s := vn_decode_VkStructureType m.1
      let stype := s.2
      if stype = VK_STRUCTURE_TYPE_WRITE_DESCRIPTOR_SET_INLINE_UNIFORM_BLOCK then
        let a := vn_cs_decoder_alloc_temp s.1 sizeof_VkWriteDescriptorSetInlineUniformBlock
        if a.2 then
          match vn_decode_VkWriteDescriptorSet_pnext_temp_bounded depth a.1 with
          | none => none
          | some n =>
            let v := vn_decode_VkWriteDescriptorSetInlineUniformBlock_self_temp n.1
              { sType := stype, pNext := n.2, dataSize := 0, pData := none }
            some (v.1, v.2.toChain)
        else some (a.1, [])
      else
        some (vn_cs_decoder_set_fatal s.1, [])

/-- `vn_decode_VkWriteDescriptorSet_temp` with the depth of the chain decoder's
recursion counted; the loops of the self decoder are `for` loops over a count
read beforehand. -/
def vn_decode_VkWriteDescriptorSet_temp_bounded (depth : Nat) (dec : vn_cs_decoder)
    (val : VkWriteDescriptorSet) : Option (vn_cs_decoder × VkWriteDescriptorSet) :=
  let s := vn_decode_VkStructureType dec
  let stype := s.2
  let dec := if stype ≠ VK_STRUCTURE_TYPE_WRITE_DESCRIPTOR_SET
    then vn_cs_decoder_set_fatal s.1 else s.1
  let val := { val with sType := stype }
  match vn_decode_VkWriteDescriptorSet_pnext_temp_bounded depth dec with
  | none => none
  | some p =>
    let val := { val with pNext := p.2 }
    some (vn_decode_VkWriteDescriptorSet_self_temp p.1 val)

end Venus

/-!
# Category registration: `ctrace.cc`

A shallow embedding of `ctrace_register_categories` and of the globals it
writes. The C++ types of the perfetto SDK (`perfetto::Category`, the category
registry) are declared in headers that are not among the sources; only the
members that `ctrace.cc` touches appear here. An access outside an array is
undefined behaviour in C++; the functions below return `none` there.
-/

namespace Ctrace

/-- A `const char*`: null, or the characters of the string it points to, without
the terminating NUL. -/
abbrev CString := Option (List Nat)

/-- `struct ctrace_category` of `ctrace.h`. A function pointer is null or the
number of a function; `tags` is the array `const char* tags[4]`. -/
structure ctrace_category where
  client_index : Nat
  instances_callback : Option Nat
  name : CString
  description : CString
  tags : List CString
  deriving DecidableEq, Repr, Inhabited

/-- The members of `perfetto::Category` that `ctrace_register_categories` assigns.
`tags` is a `std::array`; `tags.size()` is the length of the list. -/
structure Category where
  name : CString
  instances_callback : Option Nat
  client_index : Nat
  description : CString
  tags : List CString
  deriving DecidableEq, Repr, Inhabited

/-- `kMaxCategories`. -/
def kMaxCategories : Nat := 255

/-- The globals of `ctrace.cc` that `ctrace_register_categories` reads and writes:
`g_num_categories`, the array `g_categories[kMaxCategories]`, and the count held
by `kCategoryRegistry`. -/
structure Globals where
  g_num_categories : Nat
  g_categories : List Category
  registry_count : Nat
  deriving DecidableEq, Repr

/-- `kCategoryRegistry.SetCount(n)`: the registry class is declared in a header
that is not among the sources; the setter stores `n` as the registry's count. -/
def SetCount (g : Globals) (n : Nat) : Globals :=
  { g with registry_count := n }

/-- The inner loop `for (i = 0; i < cat.tags.size(); i++) cat.tags[i] = c_cat->tags[i]`
from index `i` on, with `n` iterations left; `none` when `c_cat->tags[i]` is
outside the array of the argument. -/
def copy_tags (c_tags : List CString) : Nat → Nat → List CString → Option (List CString)
  | 0, _, tags => some tags
  | n + 1, i, tags =>
    match c_tags[i]? with
    | none => none
    | some t => copy_tags c_tags n (i + 1) (tags.set i t)

/-- The loop `for (count = 0; count < max; ++count)` of
`ctrace_register_categories` from index `count` on, with `n` iterations left.
`none` when `c_cats[count]` is outside the caller's array or
`g_categories[g_num_categories++]` is outside `g_categories`. -/
def register_loop (c_cats : List ctrace_category) : Nat → Nat → Globals → Option Globals
  | 0, _, g => some g
  | n + 1, count, g =>
    match c_cats[count]? with
    | none => none
    | some c_cat =>
      let idx := g.g_num_categories
      let g := { g with g_num_categories := g.g_num_categories + 1 }
      match g.g_categories[idx]? with
      | none => none
      | some cat =>
        let cat := { cat with name := c_cat.name }
        let cat := { cat with instances_callback := c_cat.instances_callback }
        let cat := { cat with client_index := c_cat.client_index }
        let cat := { cat with description := c_cat.description }
        match copy_tags c_cat.tags cat.tags.length 0 cat.tags with
        | none => none
        | some tags =>
          register_loop c_cats n (count + 1)
            { g with g_categories := g.g_categories.set idx { cat with tags := tags } }

/-- `ctrace_register_categories`: the calls are serialised by the mutex, so a call
is a function of the globals; the result is the new globals and the returned
`base`. -/
def ctrace_register_categories (g : Globals) (c_cats : List ctrace_category) (max : Nat) :
    Option (Globals × Nat) :=
  let base := g.g_num_categories
  match register_loop c_cats max 0 g with
  | none => none
  | some g => some (SetCount g g.g_num_categories, base)

/-- The globals at program start: no category registered and `kMaxCategories` slots
holding `empty`, the default-constructed `EmptyCategory`; `count` is the count
with which `kCategoryRegistry` is constructed. -/
def initial (empty : Category) (count : Nat) : Globals :=
  { g_num_categories := 0, g_categories := List.replicate kMaxCategories empty,
    registry_count := count }

/-! ## Category lookup by name: `ctrace.h` -/

/-- `string_eq` of `ctrace.h`. A `const char*` is the list of the characters from the
pointer to the end of the array it points into; reading `*a` or `*b` past that
end gives `none`. -/
def string_eq : List Nat → List Nat → Option Bool
  | x :: a, y :: b =>
    if x ≠ y then some false
    else if x = 0 ∨ y = 0 then some (x == y)
    else string_eq a b
  | _, _ => none

/-- The memory behind a `const char*` of the embedding: the characters and the
terminating NUL; a null pointer has none. -/
def chars (s : CString) : List Nat :=
  match s with
  | some l => l ++ [0]
  | none => []

/-- The body of `idx_for_category_name_impl` with a bound `fuel` on the depth of its
recursion (`none` when it is used up). `asserts` says whether `assert` is
compiled in; a failed assertion and a read of `catlist[index]` outside the list
give `none`. `max - 1` is computed in `size_t`. -/
def idx_for_category_name_impl_fuel (asserts : Bool) (name : CString) (max : Nat)
    (catlist : List ctrace_category) : Nat → Nat → Option Nat
  | 0, _ => none
  | fuel + 1, index =>
    if asserts && !decide (index < max) then none
    else if index ≥ max then some ((max + 18446744073709551615) % 18446744073709551616)
    else
      match catlist[index]? with
      | none => none
      | some c =>
        match string_eq (chars c.name) (chars name) with
        | none => none
        | some true => some index
        | some false =>
          idx_for_category_name_impl_fuel asserts name max catlist fuel (index + 1)

/-- `idx_for_category_name_impl`: every call increases `index` and the recursion
stops at `index >= max`, so `max - index + 1` nested calls are enough. -/
def idx_for_category_name_impl (asserts : Bool) (name : CString) (index max : Nat)
    (catlist : List ctrace_category) : Option Nat :=
  idx_for_category_name_impl_fuel asserts name max catlist (max - index + 1) index

/-- `idx_for_category_name`. -/
def idx_for_category_name (asserts : Bool) (name : CString) (max : Nat)
    (catlist : List ctrace_category) : Option Nat :=
  idx_for_category_name_impl asserts name 0 max catlist

end Ctrace

namespace Venus

/-! ## Bytes and scalar reads -/

theorem leBytes_length (n v : Nat) : (leBytes n v).length = n := by
  induction n generalizing v with
  | zero => rfl
  | succ n ih => simp [leBytes, ih]

theorem leValue_leBytes (n v : Nat) : leValue (leBytes n v) = v % 256 ^ n := by
  induction n generalizing v with
  | zero => simp [leBytes, leValue, Nat.mod_one]
  | succ n ih =>
    simp only [leBytes, leValue, ih]
    rw [Nat.pow_succ, Nat.mul_comm (256 ^ n) 256, Nat.mod_mul]

theorem int32OfBits_int32Bits (v : Int) (h : isInt32 v) :
    int32OfBits (int32Bits v % 4294967296) = v := by
  unfold isInt32 at h
  unfold int32OfBits int32Bits
  split <;> omega

/-- Reading `n` bytes in the ok state with the cursor at the `n` bytes of `v`
yields `v` (reduced to `n` bytes) and leaves the cursor right after them. -/
theorem read_leBytes (n v : Nat) (rest : List Byte) (a : Arena)
    (o : List (VkObjectType × Nat × Nat)) :
    vn_cs_decoder_read ⟨leBytes n v ++ rest, false, a, o⟩ n
      = (⟨rest, false, a, o⟩, v % 256 ^ n) := by
  have hl := leBytes_length n v
  simp [vn_cs_decoder_read, hl, leValue_leBytes]

theorem write_buf (enc : vn_cs_encoder) (n v : Nat) :
    (vn_cs_encoder_write enc n v).buf = enc.buf ++ leBytes n v := rfl

theorem decode_uint32_t_bytes (v : Nat) (hv : isUint32 v) (rest : List Byte) (a : Arena)
    (o : List (VkObjectType × Nat × Nat)) :
    vn_decode_uint32_t ⟨leBytes 4 v ++ rest, false, a, o⟩ = (⟨rest, false, a, o⟩, v) := by
  unfold isUint32 at hv
  have e : v % 256 ^ 4 = v := Nat.mod_eq_of_lt (by norm_num; exact hv)
  simp only [vn_decode_uint32_t, read_leBytes, e]

theorem decode_int32_t_bytes (v : Int) (hv : isInt32 v) (rest : List Byte) (a : Arena)
    (o : List (VkObjectType × Nat × Nat)) :
    vn_decode_int32_t ⟨leBytes 4 (int32Bits v) ++ rest, false, a, o⟩
      = (⟨rest, false, a, o⟩, v) := by
  have e : int32OfBits (int32Bits v % 256 ^ 4) = v := by
    have := int32OfBits_int32Bits v hv
    norm_num at this ⊢
    exact this
  simp only [vn_decode_int32_t, read_leBytes, e]

theorem encode_scalar_array_buf (size n : Nat) (vals : List Nat) (enc : vn_cs_encoder) :
    (vn_encode_scalar_array size n vals enc).buf = enc.buf ++ scalarArrayBytes size n vals := by
  induction n generalizing vals enc with
  | zero => simp [vn_encode_scalar_array, scalarArrayBytes]
  | succ n ih => simp [vn_encode_scalar_array, scalarArrayBytes, ih, write_buf]

theorem decode_scalar_array_bytes (size n : Nat) (vals : List Nat) (hl : vals.length = n)
    (hv : ∀ c ∈ vals, c < 256 ^ size) (rest : List Byte) (a : Arena)
    (o : List (VkObjectType × Nat × Nat)) :
    vn_decode_scalar_array size n ⟨scalarArrayBytes size n vals ++ rest, false, a, o⟩
      = (⟨rest, false, a, o⟩, vals) := by
  induction n generalizing vals with
  | zero =>
    have : vals = [] := List.length_eq_zero.mp hl
    subst this
    simp [vn_decode_scalar_array, vn_decode_array, scalarArrayBytes]
  | succ n ih =>
    match vals, hl with
    | c :: cs, hl =>
      have hc : c < 256 ^ size := hv c (List.mem_cons_self _ _)
      have hcs : ∀ x ∈ cs, x < 256 ^ size := fun x hx => hv x (List.mem_cons_of_mem _ hx)
      have hl2 : cs.length = n := by simpa using hl
      have ih2 := ih cs hl2 hcs
      simp only [vn_decode_scalar_array] at ih2 ⊢
      simp only [scalarArrayBytes, vn_decode_array, List.tail_cons, List.headD_cons,
        List.append_assoc, read_leBytes, ih2, Nat.mod_eq_of_lt hc]

/-- A present size marker with a count within the bound is consumed whole and
its count returned. -/
theorem decode_array_size_present (n max : Nat) (hn : isUint64 n) (hmax : n ≤ max)
    (rest : List Byte) (a : Arena) (o : List (VkObjectType × Nat × Nat)) :
    vn_decode_array_size ⟨leBytes 8 1 ++ (leBytes 8 n ++ rest), false, a, o⟩ max
      = (⟨rest, false, a, o⟩, n) := by
  unfold isUint64 at hn
  have e1 : (1 : Nat) % 256 ^ 8 = 1 := by norm_num
  have e2 : n % 256 ^ 8 = n := Nat.mod_eq_of_lt (by norm_num; exact hn)
  simp only [vn_decode_array_size, vn_decode_array_size_unchecked, MARKER_SIZE, read_leBytes,
    e1, e2, Nat.one_ne_zero, if_false, Nat.not_lt.mpr hmax]

/-! ## What the encoders append -/

theorem encode_VkExtent3D_buf (enc : vn_cs_encoder) (x : VkExtent3D) :
    (vn_encode_VkExtent3D enc x).buf
      = enc.buf ++ (leBytes 4 x.width ++ (leBytes 4 x.height ++ leBytes 4 x.depth)) := by
  simp [vn_encode_VkExtent3D, vn_encode_uint32_t, write_buf]

theorem encode_VkOffset2D_buf (enc : vn_cs_encoder) (x : VkOffset2D) :
    (vn_encode_VkOffset2D enc x).buf
      = enc.buf ++ (leBytes 4 (int32Bits x.x) ++ leBytes 4 (int32Bits x.y)) := by
  simp [vn_encode_VkOffset2D, vn_encode_int32_t, write_buf]

theorem encode_VkExtent2D_buf (enc : vn_cs_encoder) (x : VkExtent2D) :
    (vn_encode_VkExtent2D enc x).buf
      = enc.buf ++ (leBytes 4 x.width ++ leBytes 4 x.height) := by
  simp [vn_encode_VkExtent2D, vn_encode_uint32_t, write_buf]

theorem encode_VkRect2D_buf (enc : vn_cs_encoder) (x : VkRect2D) :
    (vn_encode_VkRect2D enc x).buf
      = enc.buf ++ (leBytes 4 (int32Bits x.offset.x) ++ (leBytes 4 (int32Bits x.offset.y) ++
          (leBytes 4 x.extent.width ++ leBytes 4 x.extent.height))) := by
  simp [vn_encode_VkRect2D, encode_VkOffset2D_buf, encode_VkExtent2D_buf]

theorem encode_VkComponentMapping_buf (enc : vn_cs_encoder) (x : VkComponentMapping) :
    (vn_encode_VkComponentMapping enc x).buf
      = enc.buf ++ (leBytes 4 (int32Bits x.r) ++ (leBytes 4 (int32Bits x.g) ++
          (leBytes 4 (int32Bits x.b) ++ leBytes 4 (int32Bits x.a)))) := by
  simp [vn_encode_VkComponentMapping, vn_encode_VkComponentSwizzle, vn_encode_int32_t, write_buf]

theorem encode_VkExtensionProperties_buf (enc : vn_cs_encoder) (x : VkExtensionProperties) :
    (vn_encode_VkExtensionProperties enc x).buf = enc.buf ++ (leBytes 8 1 ++ (leBytes 8 256 ++
      (scalarArrayBytes 1 256 x.extensionName ++ leBytes 4 x.specVersion))) := by
  simp [vn_encode_VkExtensionProperties, vn_encode_array_size, vn_encode_char_array,
    vn_encode_uint32_t, MARKER_SIZE, VK_MAX_EXTENSION_NAME_SIZE, write_buf,
    encode_scalar_array_buf]

/-! ## C1, C2: round trips -/

/-- C1. For every value of `VkExtent3D`, `VkOffset2D`, `VkExtent2D`, `VkRect2D` and
`VkComponentMapping` (fields within their C types), the type's
`vn_decode_*_temp`, run in the ok state on the bytes its `vn_encode_*` writes
for the value (followed by any `rest`), returns the value field by field, leaves
the cursor exactly after the written bytes, and leaves fatal clear (arena and
registry untouched), whatever the destination held before. -/
theorem C1_roundtrip_plain_structs
    (e3 e3' : VkExtent3D) (o2 o2' : VkOffset2D) (e2 e2' : VkExtent2D) (r2 r2' : VkRect2D)
    (cm cm' : VkComponentMapping)
    (he3 : e3.valid) (ho2 : o2.valid) (he2 : e2.valid) (hr2 : r2.valid) (hcm : cm.valid)
    (rest : List Byte) (a : Arena) (o : List (VkObjectType × Nat × Nat)) :
    vn_decode_VkExtent3D_temp ⟨(vn_encode_VkExtent3D ⟨[]⟩ e3).buf ++ rest, false, a, o⟩ e3'
        = (⟨rest, false, a, o⟩, e3) ∧
    vn_decode_VkOffset2D_temp ⟨(vn_encode_VkOffset2D ⟨[]⟩ o2).buf ++ rest, false, a, o⟩ o2'
        = (⟨rest, false, a, o⟩, o2) ∧
    vn_decode_VkExtent2D_temp ⟨(vn_encode_VkExtent2D ⟨[]⟩ e2).buf ++ rest, false, a, o⟩ e2'
        = (⟨rest, false, a, o⟩, e2) ∧
    vn_decode_VkRect2D_temp ⟨(vn_encode_VkRect2D ⟨[]⟩ r2).buf ++ rest, false, a, o⟩ r2'
        = (⟨rest, false, a, o⟩, r2) ∧
    vn_decode_VkComponentMapping_temp
        ⟨(vn_encode_VkComponentMapping ⟨[]⟩ cm).buf ++ rest, false, a, o⟩ cm'
        = (⟨rest, false, a, o⟩, cm) := by
  obtain ⟨h1, h2, h3⟩ := he3
  obtain ⟨h4, h5⟩ := ho2
  obtain ⟨h6, h7⟩ := he2
  obtain ⟨⟨h8, h9⟩, h10, h11⟩ := hr2
  obtain ⟨h12, h13, h14, h15⟩ := hcm
  refine ⟨?_, ?_, ?_, ?_, ?_⟩
  · simp only [encode_VkExtent3D_buf, List.nil_append, List.append_assoc,
      vn_decode_VkExtent3D_temp, decode_uint32_t_bytes _ h1, decode_uint32_t_bytes _ h2,
      decode_uint32_t_bytes _ h3]
  · simp only [encode_VkOffset2D_buf, List.nil_append, List.append_assoc,
      vn_decode_VkOffset2D_temp, decode_int32_t_bytes _ h4, decode_int32_t_bytes _ h5]
  · simp only [encode_VkExtent2D_buf, List.nil_append, List.append_assoc,
      vn_decode_VkExtent2D_temp, decode_uint32_t_bytes _ h6, decode_uint32_t_bytes _ h7]
  · simp only [encode_VkRect2D_buf, List.nil_append, List.append_assoc,
      vn_decode_VkRect2D_temp, vn_decode_VkOffset2D_temp, vn_decode_VkExtent2D_temp,
      decode_int32_t_bytes _ h8, decode_int32_t_bytes _ h9,
      decode_uint32_t_bytes _ h10, decode_uint32_t_bytes _ h11]
  · simp only [encode_VkComponentMapping_buf, List.nil_append, List.append_assoc,
      vn_decode_VkComponentMapping_temp, vn_decode_VkComponentSwizzle,
      decode_int32_t_bytes _ h12, decode_int32_t_bytes _ h13,
      decode_int32_t_bytes _ h14, decode_int32_t_bytes _ h15]

/-- Witness of C1: an extent 1×2×3, an offset (-1, 7), an extent 640×480, the
rectangle made of them and a swizzle mapping, decoded with two bytes following
in the stream. -/
theorem C1_roundtrip_plain_structs_witness :
    vn_decode_VkExtent3D_temp
        ⟨(vn_encode_VkExtent3D ⟨[]⟩ ⟨1, 2, 3⟩).buf ++ [7, 9], false, ⟨64, 0, 0⟩, []⟩ ⟨0, 0, 0⟩
        = (⟨[7, 9], false, ⟨64, 0, 0⟩, []⟩, ⟨1, 2, 3⟩) ∧
    vn_decode_VkOffset2D_temp
        ⟨(vn_encode_VkOffset2D ⟨[]⟩ ⟨-1, 7⟩).buf ++ [7, 9], false, ⟨64, 0, 0⟩, []⟩ ⟨0, 0⟩
        = (⟨[7, 9], false, ⟨64, 0, 0⟩, []⟩, ⟨-1, 7⟩) ∧
    vn_decode_VkExtent2D_temp
        ⟨(vn_encode_VkExtent2D ⟨[]⟩ ⟨640, 480⟩).buf ++ [7, 9], false, ⟨64, 0, 0⟩, []⟩ ⟨0, 0⟩
        = (⟨[7, 9], false, ⟨64, 0, 0⟩, []⟩, ⟨640, 480⟩) ∧
    vn_decode_VkRect2D_temp
        ⟨(vn_encode_VkRect2D ⟨[]⟩ ⟨⟨-1, 7⟩, ⟨640, 480⟩⟩).buf ++ [7, 9], false, ⟨64, 0, 0⟩, []⟩
          ⟨⟨0, 0⟩, ⟨0, 0⟩⟩
        = (⟨[7, 9], false, ⟨64, 0, 0⟩, []⟩, ⟨⟨-1, 7⟩, ⟨640, 480⟩⟩) ∧
    vn_decode_VkComponentMapping_temp
        ⟨(vn_encode_VkComponentMapping ⟨[]⟩ ⟨0, 1, 2, 6⟩).buf ++ [7, 9], false, ⟨64, 0, 0⟩, []⟩
          ⟨0, 0, 0, 0⟩
        = (⟨[7, 9], false, ⟨64, 0, 0⟩, []⟩, ⟨0, 1, 2, 6⟩) :=
  C1_roundtrip_plain_structs ⟨1, 2, 3⟩ ⟨0, 0, 0⟩ ⟨-1, 7⟩ ⟨0, 0⟩ ⟨640, 480⟩ ⟨0, 0⟩
    ⟨⟨-1, 7⟩, ⟨640, 480⟩⟩ ⟨⟨0, 0⟩, ⟨0, 0⟩⟩ ⟨0, 1, 2, 6⟩ ⟨0, 0, 0, 0⟩
    (by decide) (by decide) (by decide) (by decide) (by decide) [7, 9] ⟨64, 0, 0⟩ []

/-- C2. For every `VkExtensionProperties` value (a `char[VK_MAX_EXTENSION_NAME_SIZE]`
name and a `uint32_t` version), `vn_decode_VkExtensionProperties_temp`, run in
the ok state on the bytes `vn_encode_VkExtensionProperties` writes for it, yields
the same `VK_MAX_EXTENSION_NAME_SIZE` characters of `extensionName` and the same
`specVersion`, leaves the cursor exactly after the written bytes, and leaves
fatal clear. -/
theorem C2_roundtrip_VkExtensionProperties (x v0 : VkExtensionProperties) (hx : x.valid)
    (rest : List Byte) (a : Arena) (o : List (VkObjectType × Nat × Nat)) :
    (vn_decode_VkExtensionProperties_temp
      ⟨(vn_encode_VkExtensionProperties ⟨[]⟩ x).buf ++ rest, false, a, o⟩ v0).1
        = ⟨rest, false, a, o⟩ ∧
    (vn_decode_VkExtensionProperties_temp
      ⟨(vn_encode_VkExtensionProperties ⟨[]⟩ x).buf ++ rest, false, a, o⟩ v0).2.extensionName.take
        VK_MAX_EXTENSION_NAME_SIZE = x.extensionName ∧
    (vn_decode_VkExtensionProperties_temp
      ⟨(vn_encode_VkExtensionProperties ⟨[]⟩ x).buf ++ rest, false, a, o⟩ v0).2.specVersion
        = x.specVersion := by
  obtain ⟨⟨hlen, hch⟩, hs⟩ := hx
  unfold isUint32 at hs
  simp only [VK_MAX_EXTENSION_NAME_SIZE] at hlen
  have hch2 : ∀ c ∈ x.extensionName, c < 256 ^ 1 := by simpa using hch
  have h64 : isUint64 256 := by unfold isUint64; norm_num
  simp only [encode_VkExtensionProperties_buf, List.nil_append, List.append_assoc,
    vn_decode_VkExtensionProperties_temp, VK_MAX_EXTENSION_NAME_SIZE,
    decode_array_size_present 256 256 h64 (Nat.le_refl _), vn_decode_char_array,
    decode_scalar_array_bytes 1 256 x.extensionName hlen hch2, vn_decode_uint32_t,
    read_leBytes]
  simp [storeArray, hlen, Nat.mod_eq_of_lt hs]

/-- Witness of C2: the name made of 256 characters 'A' with version 3, decoded into
a zeroed destination with one byte following in the stream. -/
theorem C2_roundtrip_VkExtensionProperties_witness :
    (vn_decode_VkExtensionProperties_temp
      ⟨(vn_encode_VkExtensionProperties ⟨[]⟩ ⟨List.replicate 256 65, 3⟩).buf ++ [5],
        false, ⟨0, 0, 0⟩, []⟩ ⟨List.replicate 256 0, 0⟩).1 = ⟨[5], false, ⟨0, 0, 0⟩, []⟩ ∧
    (vn_decode_VkExtensionProperties_temp
      ⟨(vn_encode_VkExtensionProperties ⟨[]⟩ ⟨List.replicate 256 65, 3⟩).buf ++ [5],
        false, ⟨0, 0, 0⟩, []⟩ ⟨List.replicate 256 0, 0⟩).2.extensionName.take
        VK_MAX_EXTENSION_NAME_SIZE = List.replicate 256 65 ∧
    (vn_decode_VkExtensionProperties_temp
      ⟨(vn_encode_VkExtensionProperties ⟨[]⟩ ⟨List.replicate 256 65, 3⟩).buf ++ [5],
        false, ⟨0, 0, 0⟩, []⟩ ⟨List.replicate 256 0, 0⟩).2.specVersion = 3 :=
  C2_roundtrip_VkExtensionProperties ⟨List.replicate 256 65, 3⟩ ⟨List.replicate 256 0, 0⟩
    ⟨⟨List.length_replicate 256 65, by
      intro c hc
      rw [List.eq_of_mem_replicate hc]
      decide⟩, by decide⟩
    [5] ⟨0, 0, 0⟩ []

/-! ## The fatal state: every read is a no-op -/

theorem set_fatal_of_fatal (dec : vn_cs_decoder)
    (h : dec.fatal = true) :
    vn_cs_decoder_set_fatal dec = dec := by
  cases dec; simp_all [vn_cs_decoder_set_fatal]

theorem ite_set_fatal_of_fatal (c : Prop) [Decidable c] (dec : vn_cs_decoder)
    (h : dec.fatal = true) : (if c then vn_cs_decoder_set_fatal dec else dec) = dec := by
  split
  · exact set_fatal_of_fatal dec h
  · rfl

theorem read_of_fatal (dec : vn_cs_decoder) (n : Nat) (h : dec.fatal = true) :
    vn_cs_decoder_read dec n = (dec, 0) := by
  simp [vn_cs_decoder_read, h]

theorem peek_of_fatal (dec : vn_cs_decoder) (n : Nat) (h : dec.fatal = true) :
    vn_cs_decoder_peek dec n = 0 := by
  simp [vn_cs_decoder_peek, h]

theorem handle_lookup_of_fatal (dec : vn_cs_decoder) (h : dec.fatal = true) (t : VkObjectType) :
    vn_decode_handle_lookup dec t = (dec, none) := by
  simp [vn_decode_handle_lookup, read_of_fatal, h]

theorem array_size_unchecked_of_fatal (dec : vn_cs_decoder)
    (h : dec.fatal = true) :
    vn_decode_array_size_unchecked dec = (dec, 0) := by
  simp [vn_decode_array_size_unchecked, read_of_fatal, h]

theorem array_size_of_fatal (dec : vn_cs_decoder) (h : dec.fatal = true) (max : Nat) :
    vn_decode_array_size dec max = (dec, 0) := by
  simp [vn_decode_array_size, array_size_unchecked_of_fatal, h]

theorem peek_array_size_of_fatal (dec : vn_cs_decoder)
    (h : dec.fatal = true) :
    vn_peek_array_size dec = false := by
  simp [vn_peek_array_size, peek_of_fatal, h]

theorem simple_pointer_of_fatal (dec : vn_cs_decoder)
    (h : dec.fatal = true) :
    vn_decode_simple_pointer dec = (dec, false) := by
  simp [vn_decode_simple_pointer, read_of_fatal, h]

theorem int32_t_of_fatal (dec : vn_cs_decoder)
    (h : dec.fatal = true) :
    vn_decode_int32_t dec = (dec, 0) := by
  simp [vn_decode_int32_t, read_of_fatal, h, int32OfBits]

theorem decode_array_zero {α : Type} (elem : vn_cs_decoder → α → vn_cs_decoder × α) (init : α)
    (dec : vn_cs_decoder) : vn_decode_array elem init 0 dec = (dec, []) := rfl

theorem scalar_array_zero (size : Nat) (dec : vn_cs_decoder) :
    vn_decode_scalar_array size 0 dec = (dec, []) := rfl

theorem vn_decode_VkWriteDescriptorSet_pnext_temp_fuel_of_fatal (dec : vn_cs_decoder)
    (h : dec.fatal = true) (fuel : Nat) :
    vn_decode_VkWriteDescriptorSet_pnext_temp_fuel fuel dec = (dec, []) := by
  cases fuel with
  | zero => rfl
  | succ n => simp [vn_decode_VkWriteDescriptorSet_pnext_temp_fuel, simple_pointer_of_fatal, h]

theorem vn_decode_VkMemoryRequirements2_pnext_partial_temp_fuel_of_fatal (dec : vn_cs_decoder)
    (h : dec.fatal = true) (fuel : Nat) :
    vn_decode_VkMemoryRequirements2_pnext_partial_temp_fuel fuel dec = (dec, []) := by
  cases fuel with
  | zero => rfl
  | succ n =>
    simp [vn_decode_VkMemoryRequirements2_pnext_partial_temp_fuel, simple_pointer_of_fatal, h]

theorem vn_decode_VkSemaphoreTypeCreateInfo_pnext_temp_of_fatal (dec : vn_cs_decoder)
    (h : dec.fatal = true) :
    vn_decode_VkSemaphoreTypeCreateInfo_pnext_temp dec = (dec, []) := by
  simp [vn_decode_VkSemaphoreTypeCreateInfo_pnext_temp, simple_pointer_of_fatal,
    set_fatal_of_fatal, h]

theorem vn_decode_VkImageFormatListCreateInfo_pnext_temp_of_fatal (dec : vn_cs_decoder)
    (h : dec.fatal = true) :
    vn_decode_VkImageFormatListCreateInfo_pnext_temp dec = (dec, []) := by
  simp [vn_decode_VkImageFormatListCreateInfo_pnext_temp, simple_pointer_of_fatal,
    set_fatal_of_fatal, h]

theorem vn_decode_VkImageStencilUsageCreateInfo_pnext_temp_of_fatal (dec : vn_cs_decoder)
    (h : dec.fatal = true) :
    vn_decode_VkImageStencilUsageCreateInfo_pnext_temp dec = (dec, []) := by
  simp [vn_decode_VkImageStencilUsageCreateInfo_pnext_temp, simple_pointer_of_fatal,
    set_fatal_of_fatal, h]

theorem vn_decode_VkSamplerYcbcrConversionInfo_pnext_temp_of_fatal (dec : vn_cs_decoder)
    (h : dec.fatal = true) :
    vn_decode_VkSamplerYcbcrConversionInfo_pnext_temp dec = (dec, []) := by
  simp [vn_decode_VkSamplerYcbcrConversionInfo_pnext_temp, simple_pointer_of_fatal,
    set_fatal_of_fatal, h]

theorem vn_decode_VkShaderModuleCreateInfo_pnext_temp_of_fatal (dec : vn_cs_decoder)
    (h : dec.fatal = true) :
    vn_decode_VkShaderModuleCreateInfo_pnext_temp dec = (dec, []) := by
  simp [vn_decode_VkShaderModuleCreateInfo_pnext_temp, simple_pointer_of_fatal,
    set_fatal_of_fatal, h]

theorem vn_decode_VkMutableDescriptorTypeCreateInfoEXT_pnext_temp_of_fatal (dec : vn_cs_decoder)
    (h : dec.fatal = true) :
    vn_decode_VkMutableDescriptorTypeCreateInfoEXT_pnext_temp dec = (dec, []) := by
  simp [vn_decode_VkMutableDescriptorTypeCreateInfoEXT_pnext_temp, simple_pointer_of_fatal,
    set_fatal_of_fatal, h]

theorem vn_decode_VkWriteDescriptorSetInlineUniformBlock_pnext_temp_of_fatal (dec : vn_cs_decoder)
    (h : dec.fatal = true) :
    vn_decode_VkWriteDescriptorSetInlineUniformBlock_pnext_temp dec = (dec, []) := by
  simp [vn_decode_VkWriteDescriptorSetInlineUniformBlock_pnext_temp, simple_pointer_of_fatal,
    set_fatal_of_fatal, h]

theorem vn_decode_VkWriteDescriptorSet_pnext_temp_of_fatal (dec : vn_cs_decoder)
    (h : dec.fatal = true) :
    vn_decode_VkWriteDescriptorSet_pnext_temp dec = (dec, []) := by
  simp [vn_decode_VkWriteDescriptorSet_pnext_temp,
    vn_decode_VkWriteDescriptorSet_pnext_temp_fuel_of_fatal, h]

theorem vn_decode_VkMemoryDedicatedRequirements_pnext_partial_temp_of_fatal (dec : vn_cs_decoder)
    (h : dec.fatal = true) :
    vn_decode_VkMemoryDedicatedRequirements_pnext_partial_temp dec = (dec, []) := by
  simp [vn_decode_VkMemoryDedicatedRequirements_pnext_partial_temp, simple_pointer_of_fatal,
    set_fatal_of_fatal, h]

theorem vn_decode_VkMemoryRequirements2_pnext_partial_temp_of_fatal (dec : vn_cs_decoder)
    (h : dec.fatal = true) :
    vn_decode_VkMemoryRequirements2_pnext_partial_temp dec = (dec, []) := by
  simp [vn_decode_VkMemoryRequirements2_pnext_partial_temp,
    vn_decode_VkMemoryRequirements2_pnext_partial_temp_fuel_of_fatal, h]

theorem vn_decode_VkMemoryBarrier2_pnext_temp_of_fatal (dec : vn_cs_decoder)
    (h : dec.fatal = true) :
    vn_decode_VkMemoryBarrier2_pnext_temp dec = (dec, []) := by
  simp [vn_decode_VkMemoryBarrier2_pnext_temp, simple_pointer_of_fatal, set_fatal_of_fatal, h]

theorem vn_decode_VkExtent3D_temp_of_fatal (dec : vn_cs_decoder)
    (h : dec.fatal = true) (v : VkExtent3D) :
    (vn_decode_VkExtent3D_temp dec v).1 = dec := by
  simp [vn_decode_VkExtent3D_temp, vn_decode_uint32_t, read_of_fatal, h]

theorem vn_decode_VkExtent3D_partial_temp_of_fatal (dec : vn_cs_decoder)
    (_h : dec.fatal = true) (v : VkExtent3D) :
    (vn_decode_VkExtent3D_partial_temp dec v).1 = dec := by
  simp [vn_decode_VkExtent3D_partial_temp]

theorem vn_decode_VkLayerProperties_partial_temp_of_fatal (dec : vn_cs_decoder)
    (_h : dec.fatal = true) (v : VkLayerProperties) :
    (vn_decode_VkLayerProperties_partial_temp dec v).1 = dec := by
  simp [vn_decode_VkLayerProperties_partial_temp]

theorem vn_decode_VkExtensionProperties_temp_of_fatal (dec : vn_cs_decoder)
    (h : dec.fatal = true) (v : VkExtensionProperties) :
    (vn_decode_VkExtensionProperties_temp dec v).1 = dec := by
  simp [vn_decode_VkExtensionProperties_temp, array_size_of_fatal, vn_decode_char_array,
    scalar_array_zero, vn_decode_uint32_t, read_of_fatal, h]

theorem vn_decode_VkExtensionProperties_partial_temp_of_fatal (dec : vn_cs_decoder)
    (_h : dec.fatal = true) (v : VkExtensionProperties) :
    (vn_decode_VkExtensionProperties_partial_temp dec v).1 = dec := by
  simp [vn_decode_VkExtensionProperties_partial_temp]

theorem vn_decode_VkMemoryRequirements_partial_temp_of_fatal (dec : vn_cs_decoder)
    (_h : dec.fatal = true) (v : VkMemoryRequirements) :
    (vn_decode_VkMemoryRequirements_partial_temp dec v).1 = dec := by
  simp [vn_decode_VkMemoryRequirements_partial_temp]

theorem vn_decode_VkSparseImageFormatProperties_partial_temp_of_fatal (dec : vn_cs_decoder)
    (_h : dec.fatal = true) (v : VkSparseImageFormatProperties) :
    (vn_decode_VkSparseImageFormatProperties_partial_temp dec v).1 = dec := by
  simp [vn_decode_VkSparseImageFormatProperties_partial_temp, vn_decode_VkExtent3D_partial_temp]

theorem vn_decode_VkImageSubresource_temp_of_fatal (dec : vn_cs_decoder)
    (h : dec.fatal = true) (v : VkImageSubresource) :
    (vn_decode_VkImageSubresource_temp dec v).1 = dec := by
  simp [vn_decode_VkImageSubresource_temp, vn_decode_VkFlags, vn_decode_uint32_t, read_of_fatal, h]

theorem vn_decode_VkOffset3D_temp_of_fatal (dec : vn_cs_decoder)
    (h : dec.fatal = true) (v : VkOffset3D) :
    (vn_decode_VkOffset3D_temp dec v).1 = dec := by
  simp [vn_decode_VkOffset3D_temp, int32_t_of_fatal, h]

theorem vn_decode_VkSemaphoreTypeCreateInfo_self_temp_of_fatal (dec : vn_cs_decoder)
    (h : dec.fatal = true) (v : VkSemaphoreTypeCreateInfo) :
    (vn_decode_VkSemaphoreTypeCreateInfo_self_temp dec v).1 = dec := by
  simp [vn_decode_VkSemaphoreTypeCreateInfo_self_temp, vn_decode_VkSemaphoreType,
    int32_t_of_fatal, vn_decode_uint64_t, read_of_fatal, h]

theorem vn_decode_VkSemaphoreTypeCreateInfo_temp_of_fatal (dec : vn_cs_decoder)
    (h : dec.fatal = true) (v : VkSemaphoreTypeCreateInfo) :
    (vn_decode_VkSemaphoreTypeCreateInfo_temp dec v).1 = dec := by
  simp [vn_decode_VkSemaphoreTypeCreateInfo_temp, vn_decode_VkStructureType, int32_t_of_fatal,
    set_fatal_of_fatal, vn_decode_VkSemaphoreTypeCreateInfo_pnext_temp_of_fatal,
    vn_decode_VkSemaphoreTypeCreateInfo_self_temp_of_fatal, h]

theorem vn_decode_VkImageFormatListCreateInfo_self_temp_of_fatal (dec : vn_cs_decoder)
    (h : dec.fatal = true) (v : VkImageFormatListCreateInfo) :
    (vn_decode_VkImageFormatListCreateInfo_self_temp dec v).1 = dec := by
  simp [vn_decode_VkImageFormatListCreateInfo_self_temp, vn_decode_uint32_t, read_of_fatal,
    peek_array_size_of_fatal, array_size_of_fatal, vn_decode_VkFormat_array, decode_array_zero,
    int32_t_of_fatal, h]

theorem vn_decode_VkImageFormatListCreateInfo_temp_of_fatal (dec : vn_cs_decoder)
    (h : dec.fatal = true) (v : VkImageFormatListCreateInfo) :
    (vn_decode_VkImageFormatListCreateInfo_temp dec v).1 = dec := by
  simp [vn_decode_VkImageFormatListCreateInfo_temp, vn_decode_VkStructureType, int32_t_of_fatal,
    set_fatal_of_fatal, vn_decode_VkImageFormatListCreateInfo_pnext_temp_of_fatal,
    vn_decode_VkImageFormatListCreateInfo_self_temp_of_fatal, h]

theorem vn_decode_VkImageStencilUsageCreateInfo_self_temp_of_fatal (dec : vn_cs_decoder)
    (h : dec.fatal = true) (v : VkImageStencilUsageCreateInfo) :
    (vn_decode_VkImageStencilUsageCreateInfo_self_temp dec v).1 = dec := by
  simp [vn_decode_VkImageStencilUsageCreateInfo_self_temp, vn_decode_VkFlags, vn_decode_uint32_t,
    read_of_fatal, h]

theorem vn_decode_VkImageStencilUsageCreateInfo_temp_of_fatal (dec : vn_cs_decoder)
    (h : dec.fatal = true) (v : VkImageStencilUsageCreateInfo) :
    (vn_decode_VkImageStencilUsageCreateInfo_temp dec v).1 = dec := by
  simp [vn_decode_VkImageStencilUsageCreateInfo_temp, vn_decode_VkStructureType, int32_t_of_fatal,
    set_fatal_of_fatal, vn_decode_VkImageStencilUsageCreateInfo_pnext_temp_of_fatal,
    vn_decode_VkImageStencilUsageCreateInfo_self_temp_of_fatal, h]

theorem vn_decode_VkComponentMapping_temp_of_fatal (dec : vn_cs_decoder)
    (h : dec.fatal = true) (v : VkComponentMapping) :
    (vn_decode_VkComponentMapping_temp dec v).1 = dec := by
  simp [vn_decode_VkComponentMapping_temp, vn_decode_VkComponentSwizzle, int32_t_of_fatal, h]

theorem vn_decode_VkComponentMapping_partial_temp_of_fatal (dec : vn_cs_decoder)
    (_h : dec.fatal = true) (v : VkComponentMapping) :
    (vn_decode_VkComponentMapping_partial_temp dec v).1 = dec := by
  simp [vn_decode_VkComponentMapping_partial_temp]

theorem vn_decode_VkImageSubresourceRange_temp_of_fatal (dec : vn_cs_decoder)
    (h : dec.fatal = true) (v : VkImageSubresourceRange) :
    (vn_decode_VkImageSubresourceRange_temp dec v).1 = dec := by
  simp [vn_decode_VkImageSubresourceRange_temp, vn_decode_VkFlags, vn_decode_uint32_t,
    read_of_fatal, h]

theorem vn_decode_VkSamplerYcbcrConversionInfo_self_temp_of_fatal (dec : vn_cs_decoder)
    (h : dec.fatal = true) (v : VkSamplerYcbcrConversionInfo) :
    (vn_decode_VkSamplerYcbcrConversionInfo_self_temp dec v).1 = dec := by
  simp [vn_decode_VkSamplerYcbcrConversionInfo_self_temp,
    vn_decode_VkSamplerYcbcrConversion_lookup, handle_lookup_of_fatal, h]

theorem vn_decode_VkSamplerYcbcrConversionInfo_temp_of_fatal (dec : vn_cs_decoder)
    (h : dec.fatal = true) (v : VkSamplerYcbcrConversionInfo) :
    (vn_decode_VkSamplerYcbcrConversionInfo_temp dec v).1 = dec := by
  simp [vn_decode_VkSamplerYcbcrConversionInfo_temp, vn_decode_VkStructureType, int32_t_of_fatal,
    set_fatal_of_fatal, vn_decode_VkSamplerYcbcrConversionInfo_pnext_temp_of_fatal,
    vn_decode_VkSamplerYcbcrConversionInfo_self_temp_of_fatal, h]

theorem vn_decode_VkShaderModuleCreateInfo_self_temp_of_fatal (dec : vn_cs_decoder)
    (h : dec.fatal = true) (v : VkShaderModuleCreateInfo) :
    (vn_decode_VkShaderModuleCreateInfo_self_temp dec v).1 = dec := by
  simp [vn_decode_VkShaderModuleCreateInfo_self_temp, vn_decode_VkFlags, vn_decode_uint32_t,
    read_of_fatal, vn_decode_size_t, vn_decode_uint64_t, peek_array_size_of_fatal,
    array_size_of_fatal, vn_decode_uint32_t_array, scalar_array_zero, h]

theorem vn_decode_VkShaderModuleCreateInfo_temp_of_fatal (dec : vn_cs_decoder)
    (h : dec.fatal = true) (v : VkShaderModuleCreateInfo) :
    (vn_decode_VkShaderModuleCreateInfo_temp dec v).1 = dec := by
  simp [vn_decode_VkShaderModuleCreateInfo_temp, vn_decode_VkStructureType, int32_t_of_fatal,
    set_fatal_of_fatal, vn_decode_VkShaderModuleCreateInfo_pnext_temp_of_fatal,
    vn_decode_VkShaderModuleCreateInfo_self_temp_of_fatal, h]

theorem vn_decode_VkViewport_temp_of_fatal (dec : vn_cs_decoder)
    (h : dec.fatal = true) (v : VkViewport) :
    (vn_decode_VkViewport_temp dec v).1 = dec := by
  simp [vn_decode_VkViewport_temp, vn_decode_float, read_of_fatal, h]

theorem vn_decode_VkOffset2D_temp_of_fatal (dec : vn_cs_decoder)
    (h : dec.fatal = true) (v : VkOffset2D) :
    (vn_decode_VkOffset2D_temp dec v).1 = dec := by
  simp [vn_decode_VkOffset2D_temp, int32_t_of_fatal, h]

theorem vn_decode_VkOffset2D_partial_temp_of_fatal (dec : vn_cs_decoder)
    (_h : dec.fatal = true) (v : VkOffset2D) :
    (vn_decode_VkOffset2D_partial_temp dec v).1 = dec := by
  simp [vn_decode_VkOffset2D_partial_temp]

theorem vn_decode_VkExtent2D_temp_of_fatal (dec : vn_cs_decoder)
    (h : dec.fatal = true) (v : VkExtent2D) :
    (vn_decode_VkExtent2D_temp dec v).1 = dec := by
  simp [vn_decode_VkExtent2D_temp, vn_decode_uint32_t, read_of_fatal, h]

theorem vn_decode_VkExtent2D_partial_temp_of_fatal (dec : vn_cs_decoder)
    (_h : dec.fatal = true) (v : VkExtent2D) :
    (vn_decode_VkExtent2D_partial_temp dec v).1 = dec := by
  simp [vn_decode_VkExtent2D_partial_temp]

theorem vn_decode_VkRect2D_temp_of_fatal (dec : vn_cs_decoder)
    (h : dec.fatal = true) (v : VkRect2D) :
    (vn_decode_VkRect2D_temp dec v).1 = dec := by
  simp [vn_decode_VkRect2D_temp, vn_decode_VkOffset2D_temp_of_fatal,
    vn_decode_VkExtent2D_temp_of_fatal, h]

theorem vn_decode_VkRect2D_partial_temp_of_fatal (dec : vn_cs_decoder)
    (_h : dec.fatal = true) (v : VkRect2D) :
    (vn_decode_VkRect2D_partial_temp dec v).1 = dec := by
  simp [vn_decode_VkRect2D_partial_temp, vn_decode_VkOffset2D_partial_temp,
    vn_decode_VkExtent2D_partial_temp]

theorem vn_decode_VkClearColorValue_temp_of_fatal (dec : vn_cs_decoder)
    (h : dec.fatal = true) (v : VkClearColorValue) :
    (vn_decode_VkClearColorValue_temp dec v).1 = dec := by
  simp [vn_decode_VkClearColorValue_temp, vn_decode_uint32_t, read_of_fatal, array_size_of_fatal,
    vn_decode_float_array, scalar_array_zero, vn_decode_int32_t_array, vn_decode_uint32_t_array,
    set_fatal_of_fatal, h]

theorem vn_decode_VkMutableDescriptorTypeListEXT_temp_of_fatal (dec : vn_cs_decoder)
    (h : dec.fatal = true) (v : VkMutableDescriptorTypeListEXT) :
    (vn_decode_VkMutableDescriptorTypeListEXT_temp dec v).1 = dec := by
  simp [vn_decode_VkMutableDescriptorTypeListEXT_temp, vn_decode_uint32_t, read_of_fatal,
    peek_array_size_of_fatal, array_size_of_fatal, vn_decode_VkDescriptorType_array,
    decode_array_zero, int32_t_of_fatal, h]

theorem vn_decode_VkMutableDescriptorTypeCreateInfoEXT_self_temp_of_fatal (dec : vn_cs_decoder)
    (h : dec.fatal = true) (v : VkMutableDescriptorTypeCreateInfoEXT) :
    (vn_decode_VkMutableDescriptorTypeCreateInfoEXT_self_temp dec v).1 = dec := by
  simp [vn_decode_VkMutableDescriptorTypeCreateInfoEXT_self_temp, vn_decode_uint32_t,
    read_of_fatal, peek_array_size_of_fatal, array_size_of_fatal, decode_array_zero,
    vn_decode_VkMutableDescriptorTypeListEXT_temp_of_fatal, h]

theorem vn_decode_VkMutableDescriptorTypeCreateInfoEXT_temp_of_fatal (dec : vn_cs_decoder)
    (h : dec.fatal = true) (v : VkMutableDescriptorTypeCreateInfoEXT) :
    (vn_decode_VkMutableDescriptorTypeCreateInfoEXT_temp dec v).1 = dec := by
  simp [vn_decode_VkMutableDescriptorTypeCreateInfoEXT_temp, vn_decode_VkStructureType,
    int32_t_of_fatal, set_fatal_of_fatal,
    vn_decode_VkMutableDescriptorTypeCreateInfoEXT_pnext_temp_of_fatal,
    vn_decode_VkMutableDescriptorTypeCreateInfoEXT_self_temp_of_fatal, h]

theorem vn_decode_VkDescriptorImageInfo_temp_of_fatal (dec : vn_cs_decoder)
    (h : dec.fatal = true) (v : VkDescriptorImageInfo) :
    (vn_decode_VkDescriptorImageInfo_temp dec v).1 = dec := by
  simp [vn_decode_VkDescriptorImageInfo_temp, vn_decode_VkSampler_lookup, handle_lookup_of_fatal,
    vn_decode_VkImageView_lookup, vn_decode_VkImageLayout, int32_t_of_fatal, h]

theorem vn_decode_VkDescriptorBufferInfo_temp_of_fatal (dec : vn_cs_decoder)
    (h : dec.fatal = true) (v : VkDescriptorBufferInfo) :
    (vn_decode_VkDescriptorBufferInfo_temp dec v).1 = dec := by
  simp [vn_decode_VkDescriptorBufferInfo_temp, vn_decode_VkBuffer_lookup, handle_lookup_of_fatal,
    vn_decode_VkDeviceSize, vn_decode_uint64_t, read_of_fatal, h]

theorem vn_decode_VkWriteDescriptorSetInlineUniformBlock_self_temp_of_fatal (dec : vn_cs_decoder)
    (h : dec.fatal = true) (v : VkWriteDescriptorSetInlineUniformBlock) :
    (vn_decode_VkWriteDescriptorSetInlineUniformBlock_self_temp dec v).1 = dec := by
  simp [vn_decode_VkWriteDescriptorSetInlineUniformBlock_self_temp, vn_decode_uint32_t,
    read_of_fatal, peek_array_size_of_fatal, array_size_of_fatal, vn_decode_blob_array,
    scalar_array_zero, h]

theorem vn_decode_VkWriteDescriptorSetInlineUniformBlock_temp_of_fatal (dec : vn_cs_decoder)
    (h : dec.fatal = true) (v : VkWriteDescriptorSetInlineUniformBlock) :
    (vn_decode_VkWriteDescriptorSetInlineUniformBlock_temp dec v).1 = dec := by
  simp [vn_decode_VkWriteDescriptorSetInlineUniformBlock_temp, vn_decode_VkStructureType,
    int32_t_of_fatal, set_fatal_of_fatal,
    vn_decode_VkWriteDescriptorSetInlineUniformBlock_pnext_temp_of_fatal,
    vn_decode_VkWriteDescriptorSetInlineUniformBlock_self_temp_of_fatal, h]

theorem vn_decode_VkWriteDescriptorSet_self_temp_of_fatal (dec : vn_cs_decoder)
    (h : dec.fatal = true) (v : VkWriteDescriptorSet) :
    (vn_decode_VkWriteDescriptorSet_self_temp dec v).1 = dec := by
  simp [vn_decode_VkWriteDescriptorSet_self_temp, vn_decode_VkDescriptorSet_lookup,
    handle_lookup_of_fatal, vn_decode_uint32_t, read_of_fatal, vn_decode_VkDescriptorType,
    int32_t_of_fatal, vn_decode_VkWriteDescriptorSet_self_temp_pImageInfo,
    peek_array_size_of_fatal, array_size_of_fatal, decode_array_zero,
    vn_decode_VkDescriptorImageInfo_temp_of_fatal,
    vn_decode_VkWriteDescriptorSet_self_temp_pBufferInfo,
    vn_decode_VkDescriptorBufferInfo_temp_of_fatal,
    vn_decode_VkWriteDescriptorSet_self_temp_pTexelBufferView, vn_decode_VkBufferView_lookup,
    array_size_unchecked_of_fatal, h]

theorem vn_decode_VkWriteDescriptorSet_temp_of_fatal (dec : vn_cs_decoder)
    (h : dec.fatal = true) (v : VkWriteDescriptorSet) :
    (vn_decode_VkWriteDescriptorSet_temp dec v).1 = dec := by
  simp [vn_decode_VkWriteDescriptorSet_temp, vn_decode_VkStructureType, int32_t_of_fatal,
    set_fatal_of_fatal, vn_decode_VkWriteDescriptorSet_pnext_temp_of_fatal,
    vn_decode_VkWriteDescriptorSet_self_temp_of_fatal, h]

theorem vn_decode_VkMemoryDedicatedRequirements_self_partial_temp_of_fatal (dec : vn_cs_decoder)
    (_h : dec.fatal = true) (v : VkMemoryDedicatedRequirements) :
    (vn_decode_VkMemoryDedicatedRequirements_self_partial_temp dec v).1 = dec := by
  simp [vn_decode_VkMemoryDedicatedRequirements_self_partial_temp]

theorem vn_decode_VkMemoryDedicatedRequirements_partial_temp_of_fatal (dec : vn_cs_decoder)
    (h : dec.fatal = true) (v : VkMemoryDedicatedRequirements) :
    (vn_decode_VkMemoryDedicatedRequirements_partial_temp dec v).1 = dec := by
  simp [vn_decode_VkMemoryDedicatedRequirements_partial_temp, vn_decode_VkStructureType,
    int32_t_of_fatal, set_fatal_of_fatal,
    vn_decode_VkMemoryDedicatedRequirements_pnext_partial_temp_of_fatal,
    vn_decode_VkMemoryDedicatedRequirements_self_partial_temp_of_fatal, h]

theorem vn_decode_VkMemoryRequirements2_self_partial_temp_of_fatal (dec : vn_cs_decoder)
    (_h : dec.fatal = true) (v : VkMemoryRequirements2) :
    (vn_decode_VkMemoryRequirements2_self_partial_temp dec v).1 = dec := by
  simp [vn_decode_VkMemoryRequirements2_self_partial_temp,
    vn_decode_VkMemoryRequirements_partial_temp]

theorem vn_decode_VkMemoryRequirements2_partial_temp_of_fatal (dec : vn_cs_decoder)
    (h : dec.fatal = true) (v : VkMemoryRequirements2) :
    (vn_decode_VkMemoryRequirements2_partial_temp dec v).1 = dec := by
  simp [vn_decode_VkMemoryRequirements2_partial_temp, vn_decode_VkStructureType, int32_t_of_fatal,
    set_fatal_of_fatal, vn_decode_VkMemoryRequirements2_pnext_partial_temp_of_fatal,
    vn_decode_VkMemoryRequirements2_self_partial_temp_of_fatal, h]

theorem vn_decode_VkMemoryBarrier2_self_temp_of_fatal (dec : vn_cs_decoder)
    (h : dec.fatal = true) (v : VkMemoryBarrier2) :
    (vn_decode_VkMemoryBarrier2_self_temp dec v).1 = dec := by
  simp [vn_decode_VkMemoryBarrier2_self_temp, vn_decode_VkFlags64, vn_decode_uint64_t,
    read_of_fatal, h]

theorem vn_decode_VkMemoryBarrier2_temp_of_fatal (dec : vn_cs_decoder)
    (h : dec.fatal = true) (v : VkMemoryBarrier2) :
    (vn_decode_VkMemoryBarrier2_temp dec v).1 = dec := by
  simp [vn_decode_VkMemoryBarrier2_temp, vn_decode_VkStructureType, int32_t_of_fatal,
    set_fatal_of_fatal, vn_decode_VkMemoryBarrier2_pnext_temp_of_fatal,
    vn_decode_VkMemoryBarrier2_self_temp_of_fatal, h]

/-! ## C3: the partial decoders against the materialising ones -/

theorem read_cur_suffix (dec : vn_cs_decoder) (n : Nat) :
    (vn_cs_decoder_read dec n).1.cur <:+ dec.cur := by
  unfold vn_cs_decoder_read
  split
  · exact List.suffix_refl _
  · split
    · exact List.suffix_refl _
    · exact List.drop_suffix _ _

theorem int32_t_cur_suffix (dec : vn_cs_decoder) :
    (vn_decode_int32_t dec).1.cur <:+ dec.cur := read_cur_suffix dec 4

theorem decode_array_cur_suffix {α : Type} (elem : vn_cs_decoder → α → vn_cs_decoder × α)
    (init : α) (helem : ∀ d v, (elem d v).1.cur <:+ d.cur) (n : Nat) (dec : vn_cs_decoder) :
    (vn_decode_array elem init n dec).1.cur <:+ dec.cur := by
  induction n generalizing dec with
  | zero => exact List.suffix_refl _
  | succ n ih =>
    simp only [vn_decode_array]
    exact (ih _).trans (helem _ _)

theorem array_size_cur_suffix (dec : vn_cs_decoder) (max : Nat) :
    (vn_decode_array_size dec max).1.cur <:+ dec.cur := by
  have hu : (vn_decode_array_size_unchecked dec).1.cur <:+ dec.cur := by
    unfold vn_decode_array_size_unchecked
    simp only
    split
    · exact read_cur_suffix _ _
    · exact (read_cur_suffix _ _).trans (read_cur_suffix _ _)
  unfold vn_decode_array_size
  simp only
  split
  · exact hu
  · exact hu

theorem VkExtent3D_temp_cur_suffix (dec : vn_cs_decoder) (v : VkExtent3D) :
    (vn_decode_VkExtent3D_temp dec v).1.cur <:+ dec.cur :=
  ((read_cur_suffix _ 4).trans (read_cur_suffix _ 4)).trans (read_cur_suffix _ 4)

theorem VkOffset2D_temp_cur_suffix (dec : vn_cs_decoder) (v : VkOffset2D) :
    (vn_decode_VkOffset2D_temp dec v).1.cur <:+ dec.cur :=
  (read_cur_suffix _ 4).trans (read_cur_suffix _ 4)

theorem VkExtent2D_temp_cur_suffix (dec : vn_cs_decoder) (v : VkExtent2D) :
    (vn_decode_VkExtent2D_temp dec v).1.cur <:+ dec.cur :=
  (read_cur_suffix _ 4).trans (read_cur_suffix _ 4)

theorem VkRect2D_temp_cur_suffix (dec : vn_cs_decoder) (v : VkRect2D) :
    (vn_decode_VkRect2D_temp dec v).1.cur <:+ dec.cur := by
  simp only [vn_decode_VkRect2D_temp]
  exact (VkExtent2D_temp_cur_suffix _ _).trans (VkOffset2D_temp_cur_suffix _ _)

theorem VkComponentMapping_temp_cur_suffix (dec : vn_cs_decoder) (v : VkComponentMapping) :
    (vn_decode_VkComponentMapping_temp dec v).1.cur <:+ dec.cur :=
  (((read_cur_suffix _ 4).trans (read_cur_suffix _ 4)).trans (read_cur_suffix _ 4)).trans
    (read_cur_suffix _ 4)

theorem VkExtensionProperties_temp_cur_suffix (dec : vn_cs_decoder) (v : VkExtensionProperties) :
    (vn_decode_VkExtensionProperties_temp dec v).1.cur <:+ dec.cur := by
  simp only [vn_decode_VkExtensionProperties_temp, vn_decode_char_array, vn_decode_uint32_t,
    vn_decode_scalar_array]
  exact ((read_cur_suffix _ 4).trans
    (decode_array_cur_suffix _ _ (fun d _ => read_cur_suffix d 1) _ _)).trans
    (array_size_cur_suffix _ _)

/-- C3 (as amended). For every struct type offering both decoders (`VkExtent3D`,
`VkExtensionProperties`, `VkComponentMapping`, `VkOffset2D`, `VkExtent2D`,
`VkRect2D`), every decoder state and every byte sequence: `vn_decode_*_partial_temp`
returns the decoder and the destination exactly as they were, so it consumes no
byte; the bytes left after `vn_decode_*_temp` are a suffix of the bytes left
after the partial decoder, that is, skipping never consumes more than
materialising, and the two cursors agree only where the materialising decoder
consumes nothing. -/
theorem C3_partial_decoders_consume_nothing (dec : vn_cs_decoder)
    (e3 : VkExtent3D) (ep : VkExtensionProperties) (cm : VkComponentMapping) (o2 : VkOffset2D)
    (e2 : VkExtent2D) (r2 : VkRect2D) :
    (vn_decode_VkExtent3D_partial_temp dec e3 = (dec, e3) ∧
      (vn_decode_VkExtent3D_temp dec e3).1.cur
        <:+ (vn_decode_VkExtent3D_partial_temp dec e3).1.cur) ∧
    (vn_decode_VkExtensionProperties_partial_temp dec ep = (dec, ep) ∧
      (vn_decode_VkExtensionProperties_temp dec ep).1.cur
        <:+ (vn_decode_VkExtensionProperties_partial_temp dec ep).1.cur) ∧
    (vn_decode_VkComponentMapping_partial_temp dec cm = (dec, cm) ∧
      (vn_decode_VkComponentMapping_temp dec cm).1.cur
        <:+ (vn_decode_VkComponentMapping_partial_temp dec cm).1.cur) ∧
    (vn_decode_VkOffset2D_partial_temp dec o2 = (dec, o2) ∧
      (vn_decode_VkOffset2D_temp dec o2).1.cur
        <:+ (vn_decode_VkOffset2D_partial_temp dec o2).1.cur) ∧
    (vn_decode_VkExtent2D_partial_temp dec e2 = (dec, e2) ∧
      (vn_decode_VkExtent2D_temp dec e2).1.cur
        <:+ (vn_decode_VkExtent2D_partial_temp dec e2).1.cur) ∧
    (vn_decode_VkRect2D_partial_temp dec r2 = (dec, r2) ∧
      (vn_decode_VkRect2D_temp dec r2).1.cur
        <:+ (vn_decode_VkRect2D_partial_temp dec r2).1.cur) :=
  ⟨⟨rfl, VkExtent3D_temp_cur_suffix dec e3⟩,
   ⟨rfl, VkExtensionProperties_temp_cur_suffix dec ep⟩,
   ⟨rfl, VkComponentMapping_temp_cur_suffix dec cm⟩,
   ⟨rfl, VkOffset2D_temp_cur_suffix dec o2⟩,
   ⟨rfl, VkExtent2D_temp_cur_suffix dec e2⟩,
   ⟨rfl, VkRect2D_temp_cur_suffix dec r2⟩⟩

/-- Counterexample to C3 as stated: on the twelve bytes of the extent 1×2×3,
`vn_decode_VkExtent3D_partial_temp` leaves all twelve bytes after the cursor
while `vn_decode_VkExtent3D_temp` leaves none. -/
theorem C3_counterexample :
    (vn_decode_VkExtent3D_partial_temp
      ⟨[1, 0, 0, 0, 2, 0, 0, 0, 3, 0, 0, 0], false, ⟨0, 0, 0⟩, []⟩ ⟨0, 0, 0⟩).1.cur.length = 12 ∧
    (vn_decode_VkExtent3D_temp
      ⟨[1, 0, 0, 0, 2, 0, 0, 0, 3, 0, 0, 0], false, ⟨0, 0, 0⟩, []⟩ ⟨0, 0, 0⟩).1.cur.length = 0 ∧
    (vn_decode_VkExtent3D_partial_temp
      ⟨[1, 0, 0, 0, 2, 0, 0, 0, 3, 0, 0, 0], false, ⟨0, 0, 0⟩, []⟩ ⟨0, 0, 0⟩).1.cur
      ≠ (vn_decode_VkExtent3D_temp
      ⟨[1, 0, 0, 0, 2, 0, 0, 0, 3, 0, 0, 0], false, ⟨0, 0, 0⟩, []⟩ ⟨0, 0, 0⟩).1.cur := by
  decide

/-! ## C4: encoders whose only decoder is the partial one -/

theorem encode_simple_pointer_buf (enc : vn_cs_encoder) (p : Bool) :
    (vn_encode_simple_pointer enc p).buf = enc.buf ++ leBytes 8 (if p then 1 else 0) := rfl

theorem encode_VkStructureType_buf (enc : vn_cs_encoder) (v : Int) :
    (vn_encode_VkStructureType enc v).buf = enc.buf ++ leBytes 4 (int32Bits v) := rfl

theorem encode_VkMemoryRequirements_buf (enc : vn_cs_encoder) (x : VkMemoryRequirements) :
    (vn_encode_VkMemoryRequirements enc x).buf
      = enc.buf ++ (leBytes 8 x.size ++ (leBytes 8 x.alignment ++ leBytes 4 x.memoryTypeBits)) := by
  simp [vn_encode_VkMemoryRequirements, vn_encode_VkDeviceSize, vn_encode_uint64_t,
    vn_encode_uint32_t, write_buf]

theorem encode_VkMemoryDedicatedRequirements_self_buf (enc : vn_cs_encoder)
    (x : VkMemoryDedicatedRequirements) :
    (vn_encode_VkMemoryDedicatedRequirements_self enc x).buf
      = enc.buf ++ (leBytes 4 x.prefersDedicatedAllocation
          ++ leBytes 4 x.requiresDedicatedAllocation) := by
  simp [vn_encode_VkMemoryDedicatedRequirements_self, vn_encode_VkBool32, vn_encode_uint32_t,
    write_buf]

theorem encode_VkMemoryDedicatedRequirements_self_append (enc : vn_cs_encoder)
    (x : VkMemoryDedicatedRequirements) :
    (vn_encode_VkMemoryDedicatedRequirements_self enc x).buf
      = enc.buf ++ (vn_encode_VkMemoryDedicatedRequirements_self ⟨[]⟩ x).buf := by
  simp [encode_VkMemoryDedicatedRequirements_self_buf]

theorem encode_VkMemoryRequirements2_pnext_buf (enc : vn_cs_encoder)
    (c : List VkBaseInStructure) :
    (vn_encode_VkMemoryRequirements2_pnext enc c).buf
      = enc.buf ++ (pnextMarkerBytes c ++ pnextFieldBytes c) := by
  induction c generalizing enc with
  | nil => simp [vn_encode_VkMemoryRequirements2_pnext, pnextMarkerBytes, pnextFieldBytes,
      encode_simple_pointer_buf]
  | cons l next ih =>
    by_cases h : l.sType = VK_STRUCTURE_TYPE_MEMORY_DEDICATED_REQUIREMENTS
    · simp only [vn_encode_VkMemoryRequirements2_pnext, pnextMarkerBytes, pnextFieldBytes, h,
        if_true]
      rw [encode_VkMemoryDedicatedRequirements_self_append, ih]
      simp [encode_simple_pointer_buf, encode_VkStructureType_buf]
    · simp only [vn_encode_VkMemoryRequirements2_pnext, pnextMarkerBytes, pnextFieldBytes, h,
        if_false]
      exact ih enc

theorem simple_pointer_present (rest : List Byte) (a : Arena)
    (o : List (VkObjectType × Nat × Nat)) :
    vn_decode_simple_pointer ⟨leBytes 8 1 ++ rest, false, a, o⟩
      = (⟨rest, false, a, o⟩, true) := by
  simp [vn_decode_simple_pointer, MARKER_SIZE, read_leBytes]

theorem simple_pointer_absent (rest : List Byte) (a : Arena)
    (o : List (VkObjectType × Nat × Nat)) :
    vn_decode_simple_pointer ⟨leBytes 8 0 ++ rest, false, a, o⟩
      = (⟨rest, false, a, o⟩, false) := by
  simp [vn_decode_simple_pointer, MARKER_SIZE, read_leBytes]

theorem isInt32_MEMORY_DEDICATED_REQUIREMENTS :
    isInt32 VK_STRUCTURE_TYPE_MEMORY_DEDICATED_REQUIREMENTS := by
  unfold isInt32 VK_STRUCTURE_TYPE_MEMORY_DEDICATED_REQUIREMENTS; decide

/-- The chain that the partial chain decoder of `VkMemoryRequirements2` builds from the
markers written for `c`. -/
theorem decode_VkMemoryRequirements2_pnext_markers (c : List VkBaseInStructure) (fuel : Nat)
    (hfuel : (recognisedLinks c).length < fuel) (rest : List Byte) (a : Arena)
    (hroom : a.used + sizeof_VkMemoryDedicatedRequirements * (recognisedLinks c).length
      ≤ a.capacity)
    (o : List (VkObjectType × Nat × Nat)) :
    vn_decode_VkMemoryRequirements2_pnext_partial_temp_fuel fuel
        ⟨pnextMarkerBytes c ++ rest, false, a, o⟩
      = (⟨rest, false,
          ⟨a.capacity,
            a.used + sizeof_VkMemoryDedicatedRequirements * (recognisedLinks c).length,
            a.allocs + (recognisedLinks c).length⟩, o⟩,
         (recognisedLinks c).map
           (fun l => ⟨l.sType, VkRecordBody.memoryDedicatedRequirements 0 0⟩)) := by
  induction c generalizing fuel a with
  | nil =>
    cases fuel with
    | zero => simp [recognisedLinks] at hfuel
    | succ n =>
      simp [vn_decode_VkMemoryRequirements2_pnext_partial_temp_fuel, pnextMarkerBytes,
        simple_pointer_absent, recognisedLinks]
  | cons l next ih =>
    by_cases h : l.sType = VK_STRUCTURE_TYPE_MEMORY_DEDICATED_REQUIREMENTS
    · have hr : recognisedLinks (l :: next) = l :: recognisedLinks next := by
        simp [recognisedLinks, h]
      rw [hr] at hfuel hroom ⊢
      simp only [List.length_cons] at hfuel hroom
      cases fuel with
      | zero => omega
      | succ n =>
        have hn : (recognisedLinks next).length < n := by omega
        have hs : sizeof_VkMemoryDedicatedRequirements = 24 := rfl
        rw [hs] at hroom
        have hroom1 : a.used + 24 ≤ a.capacity := by omega
        have ih2 := ih n hn ⟨a.capacity, a.used + 24, a.allocs + 1⟩ (by rw [hs]; simp only; omega)
        simp only [pnextMarkerBytes, h, if_true, List.append_assoc,
          vn_decode_VkMemoryRequirements2_pnext_partial_temp_fuel, simple_pointer_present,
          vn_decode_VkStructureType,
          decode_int32_t_bytes _ isInt32_MEMORY_DEDICATED_REQUIREMENTS,
          vn_cs_decoder_alloc_temp, hs, hroom1, Bool.not_true, ih2,
          vn_decode_VkMemoryDedicatedRequirements_self_partial_temp,
          VkMemoryDedicatedRequirements.toChain, List.map_cons, List.length_cons]
        simp only [Bool.false_eq_true, if_false, if_true, Prod.mk.injEq, List.cons.injEq,
          vn_cs_decoder.mk.injEq, Arena.mk.injEq, and_true, true_and]
        constructor <;> omega
    · have hr : recognisedLinks (l :: next) = recognisedLinks next := by
        simp [recognisedLinks, h]
      rw [hr] at hfuel hroom ⊢
      simp only [pnextMarkerBytes, h, if_false]
      exact ih fuel hfuel a hroom

theorem isInt32_MEMORY_REQUIREMENTS_2 : isInt32 VK_STRUCTURE_TYPE_MEMORY_REQUIREMENTS_2 := by
  unfold isInt32 VK_STRUCTURE_TYPE_MEMORY_REQUIREMENTS_2; decide

theorem pnextMarkerBytes_length (c : List VkBaseInStructure) :
    (pnextMarkerBytes c).length = 12 * (recognisedLinks c).length + 8 := by
  induction c with
  | nil => simp [pnextMarkerBytes, recognisedLinks, leBytes_length]
  | cons l next ih =>
    by_cases h : l.sType = VK_STRUCTURE_TYPE_MEMORY_DEDICATED_REQUIREMENTS
    · have hr : recognisedLinks (l :: next) = l :: recognisedLinks next := by
        simp [recognisedLinks, h]
      simp only [pnextMarkerBytes, h, if_true, hr, List.length_append, leBytes_length, ih,
        List.length_cons]
      omega
    · have hr : recognisedLinks (l :: next) = recognisedLinks next := by
        simp [recognisedLinks, h]
      simp only [pnextMarkerBytes, h, if_false, hr, ih]

/-- The partial chain decoder of `VkMemoryRequirements2` on the markers written for `c`. -/
theorem decode_VkMemoryRequirements2_pnext_partial_temp_markers (c : List VkBaseInStructure)
    (rest : List Byte) (a : Arena)
    (hroom : a.used + sizeof_VkMemoryDedicatedRequirements * (recognisedLinks c).length
      ≤ a.capacity)
    (o : List (VkObjectType × Nat × Nat)) :
    vn_decode_VkMemoryRequirements2_pnext_partial_temp
        ⟨pnextMarkerBytes c ++ rest, false, a, o⟩
      = (⟨rest, false,
          ⟨a.capacity,
            a.used + sizeof_VkMemoryDedicatedRequirements * (recognisedLinks c).length,
            a.allocs + (recognisedLinks c).length⟩, o⟩,
         (recognisedLinks c).map
           (fun l => ⟨l.sType, VkRecordBody.memoryDedicatedRequirements 0 0⟩)) := by
  unfold vn_decode_VkMemoryRequirements2_pnext_partial_temp
  apply decode_VkMemoryRequirements2_pnext_markers c _ _ rest a hroom o
  simp only [List.length_append, pnextMarkerBytes_length]
  omega

/-- C4 (as amended). For the struct types that have an encoder and whose only decoder is
the partial one, the partial decoder, run in the ok state on the bytes the
encoder writes for a value, consumes in order only the type tag and the chain's
pointer markers and link tags, never a field value, and leaves fatal clear:
for `VkMemoryRequirements`, `VkLayerProperties` and `VkSparseImageFormatProperties`
the decoder is returned unchanged with every written byte still after the
cursor; for `VkMemoryDedicatedRequirements` the cursor stops at the two booleans
written by the self encoder; for `VkMemoryRequirements2`, provided the arena has
room for one record per recognised link, the cursor stops at the booleans of the
recognised links followed by the bytes of `memoryRequirements`. The last two
conjuncts give the bytes written: the tag, the markers and tags of the chain,
then the field values that the decoder leaves unread. -/
theorem C4_partial_decoders_leave_field_values
    (mr mr' : VkMemoryRequirements) (lp lp' : VkLayerProperties)
    (sp sp' : VkSparseImageFormatProperties)
    (dr dr' : VkMemoryDedicatedRequirements) (mr2 mr2' : VkMemoryRequirements2)
    (rest : List Byte) (a : Arena) (o : List (VkObjectType × Nat × Nat))
    (hroom : a.used + sizeof_VkMemoryDedicatedRequirements * (recognisedLinks mr2.pNext).length
      ≤ a.capacity) :
    (vn_decode_VkMemoryRequirements_partial_temp
        ⟨(vn_encode_VkMemoryRequirements ⟨[]⟩ mr).buf ++ rest, false, a, o⟩ mr').1
      = ⟨(vn_encode_VkMemoryRequirements ⟨[]⟩ mr).buf ++ rest, false, a, o⟩ ∧
    (vn_decode_VkLayerProperties_partial_temp
        ⟨(vn_encode_VkLayerProperties ⟨[]⟩ lp).buf ++ rest, false, a, o⟩ lp').1
      = ⟨(vn_encode_VkLayerProperties ⟨[]⟩ lp).buf ++ rest, false, a, o⟩ ∧
    (vn_decode_VkSparseImageFormatProperties_partial_temp
        ⟨(vn_encode_VkSparseImageFormatProperties ⟨[]⟩ sp).buf ++ rest, false, a, o⟩ sp').1
      = ⟨(vn_encode_VkSparseImageFormatProperties ⟨[]⟩ sp).buf ++ rest, false, a, o⟩ ∧
    (vn_decode_VkMemoryDedicatedRequirements_partial_temp
        ⟨(vn_encode_VkMemoryDedicatedRequirements ⟨[]⟩ dr).buf ++ rest, false, a, o⟩ dr').1
      = ⟨(vn_encode_VkMemoryDedicatedRequirements_self ⟨[]⟩ dr).buf ++ rest, false, a, o⟩ ∧
    ((vn_decode_VkMemoryRequirements2_partial_temp
        ⟨(vn_encode_VkMemoryRequirements2 ⟨[]⟩ mr2).buf ++ rest, false, a, o⟩ mr2').1.cur
      = pnextFieldBytes mr2.pNext ++ ((vn_encode_VkMemoryRequirements2_self ⟨[]⟩ mr2).buf ++ rest)
     ∧ (vn_decode_VkMemoryRequirements2_partial_temp
        ⟨(vn_encode_VkMemoryRequirements2 ⟨[]⟩ mr2).buf ++ rest, false, a, o⟩ mr2').1.fatal
      = false) ∧
    (vn_encode_VkMemoryDedicatedRequirements ⟨[]⟩ dr).buf
      = leBytes 4 (int32Bits VK_STRUCTURE_TYPE_MEMORY_DEDICATED_REQUIREMENTS) ++
          (leBytes 8 0 ++ (vn_encode_VkMemoryDedicatedRequirements_self ⟨[]⟩ dr).buf) ∧
    (vn_encode_VkMemoryRequirements2 ⟨[]⟩ mr2).buf
      = leBytes 4 (int32Bits VK_STRUCTURE_TYPE_MEMORY_REQUIREMENTS_2) ++
          (pnextMarkerBytes mr2.pNext ++ (pnextFieldBytes mr2.pNext ++
            (vn_encode_VkMemoryRequirements2_self ⟨[]⟩ mr2).buf)) := by
  refine ⟨rfl, rfl, rfl, ?_, ?_, ?_, ?_⟩
  · simp only [vn_encode_VkMemoryDedicatedRequirements,
      vn_encode_VkMemoryDedicatedRequirements_pnext,
      encode_VkMemoryDedicatedRequirements_self_buf, encode_simple_pointer_buf,
      encode_VkStructureType_buf, List.nil_append, List.append_assoc,
      vn_decode_VkMemoryDedicatedRequirements_partial_temp, vn_decode_VkStructureType,
      decode_int32_t_bytes _ isInt32_MEMORY_DEDICATED_REQUIREMENTS,
      vn_decode_VkMemoryDedicatedRequirements_pnext_partial_temp,
      vn_decode_VkMemoryDedicatedRequirements_self_partial_temp]
    simp [simple_pointer_absent]
  · simp only [vn_encode_VkMemoryRequirements2, vn_encode_VkMemoryRequirements2_self,
      encode_VkMemoryRequirements_buf, encode_VkMemoryRequirements2_pnext_buf,
      encode_VkStructureType_buf, List.nil_append, List.append_assoc,
      vn_decode_VkMemoryRequirements2_partial_temp, vn_decode_VkStructureType,
      decode_int32_t_bytes _ isInt32_MEMORY_REQUIREMENTS_2,
      decode_VkMemoryRequirements2_pnext_partial_temp_markers mr2.pNext _ a hroom o,
      vn_decode_VkMemoryRequirements2_self_partial_temp,
      vn_decode_VkMemoryRequirements_partial_temp, ne_eq, not_true_eq_false, if_false,
      and_self]
  · simp [vn_encode_VkMemoryDedicatedRequirements, vn_encode_VkMemoryDedicatedRequirements_pnext,
      encode_VkMemoryDedicatedRequirements_self_buf, encode_simple_pointer_buf,
      encode_VkStructureType_buf]
  · simp [vn_encode_VkMemoryRequirements2, vn_encode_VkMemoryRequirements2_self,
      encode_VkMemoryRequirements_buf, encode_VkMemoryRequirements2_pnext_buf,
      encode_VkStructureType_buf]

/-- Witness of C4 (as amended): a `VkMemoryRequirements2` whose chain holds a dedicated
requirements link followed by an unrecognised one, an arena of 64 bytes, one
byte following in the stream. -/
theorem C4_partial_decoders_leave_field_values_witness :
    (vn_decode_VkMemoryRequirements2_partial_temp
        ⟨(vn_encode_VkMemoryRequirements2 ⟨[]⟩
            ⟨VK_STRUCTURE_TYPE_MEMORY_REQUIREMENTS_2,
              [⟨VK_STRUCTURE_TYPE_MEMORY_DEDICATED_REQUIREMENTS,
                 VkRecordBody.memoryDedicatedRequirements 1 0⟩, ⟨0, VkRecordBody.other []⟩],
              ⟨4096, 256, 3⟩⟩).buf ++ [9], false, ⟨64, 0, 0⟩, []⟩ default).1.cur
      = pnextFieldBytes
          [⟨VK_STRUCTURE_TYPE_MEMORY_DEDICATED_REQUIREMENTS,
             VkRecordBody.memoryDedicatedRequirements 1 0⟩, ⟨0, VkRecordBody.other []⟩] ++
        ((vn_encode_VkMemoryRequirements2_self ⟨[]⟩
            ⟨VK_STRUCTURE_TYPE_MEMORY_REQUIREMENTS_2,
              [⟨VK_STRUCTURE_TYPE_MEMORY_DEDICATED_REQUIREMENTS,
                 VkRecordBody.memoryDedicatedRequirements 1 0⟩, ⟨0, VkRecordBody.other []⟩],
              ⟨4096, 256, 3⟩⟩).buf ++ [9])
     ∧ (vn_decode_VkMemoryRequirements2_partial_temp
        ⟨(vn_encode_VkMemoryRequirements2 ⟨[]⟩
            ⟨VK_STRUCTURE_TYPE_MEMORY_REQUIREMENTS_2,
              [⟨VK_STRUCTURE_TYPE_MEMORY_DEDICATED_REQUIREMENTS,
                 VkRecordBody.memoryDedicatedRequirements 1 0⟩, ⟨0, VkRecordBody.other []⟩],
              ⟨4096, 256, 3⟩⟩).buf ++ [9], false, ⟨64, 0, 0⟩, []⟩ default).1.fatal = false :=
  (C4_partial_decoders_leave_field_values default default default default default default
    default default
    ⟨VK_STRUCTURE_TYPE_MEMORY_REQUIREMENTS_2,
      [⟨VK_STRUCTURE_TYPE_MEMORY_DEDICATED_REQUIREMENTS,
         VkRecordBody.memoryDedicatedRequirements 1 0⟩, ⟨0, VkRecordBody.other []⟩],
      ⟨4096, 256, 3⟩⟩ default [9] ⟨64, 0, 0⟩ [] (by decide)).2.2.2.2.1

/-- Counterexample to C4 as stated: after `vn_decode_VkMemoryRequirements_partial_temp`
on exactly the bytes written for size 4096, alignment 256, type bits 3, the
cursor is not at the end of the written bytes. -/
theorem C4_counterexample :
    (vn_decode_VkMemoryRequirements_partial_temp
      ⟨(vn_encode_VkMemoryRequirements ⟨[]⟩ ⟨4096, 256, 3⟩).buf, false, ⟨64, 0, 0⟩, []⟩
      ⟨0, 0, 0⟩).1.cur ≠ [] := by
  decide

/-! ## C5: an unrecognised link tag -/

theorem read_arena (dec : vn_cs_decoder) (n : Nat) :
    (vn_cs_decoder_read dec n).1.arena = dec.arena := by
  unfold vn_cs_decoder_read
  split
  · rfl
  · split <;> rfl

/-- C5. For `vn_decode_VkWriteDescriptorSet_pnext_temp` and
`vn_decode_VkMemoryRequirements2_pnext_partial_temp`: whenever the pointer marker
read is present and the tag read after it is not the chain's recognised tag
(`WRITE_DESCRIPTOR_SET_INLINE_UNIFORM_BLOCK`, respectively
`MEMORY_DEDICATED_REQUIREMENTS`), fatal is set on return, the returned chain is
null, and the arena is as it was before the call: nothing has been allocated. -/
theorem C5_unrecognised_tag_is_fatal (dec : vn_cs_decoder)
    (hp : (vn_decode_simple_pointer dec).2 = true) :
    ((vn_decode_VkStructureType (vn_decode_simple_pointer dec).1).2
        ≠ VK_STRUCTURE_TYPE_WRITE_DESCRIPTOR_SET_INLINE_UNIFORM_BLOCK →
      (vn_decode_VkWriteDescriptorSet_pnext_temp dec).1.fatal = true ∧
      (vn_decode_VkWriteDescriptorSet_pnext_temp dec).2 = [] ∧
      (vn_decode_VkWriteDescriptorSet_pnext_temp dec).1.arena = dec.arena) ∧
    ((vn_decode_VkStructureType (vn_decode_simple_pointer dec).1).2
        ≠ VK_STRUCTURE_TYPE_MEMORY_DEDICATED_REQUIREMENTS →
      (vn_decode_VkMemoryRequirements2_pnext_partial_temp dec).1.fatal = true ∧
      (vn_decode_VkMemoryRequirements2_pnext_partial_temp dec).2 = [] ∧
      (vn_decode_VkMemoryRequirements2_pnext_partial_temp dec).1.arena = dec.arena) := by
  have ha : (vn_cs_decoder_set_fatal
      (vn_decode_VkStructureType (vn_decode_simple_pointer dec).1).1).arena = dec.arena := by
    simp [vn_cs_decoder_set_fatal, vn_decode_VkStructureType, vn_decode_int32_t,
      vn_decode_simple_pointer, read_arena]
  constructor
  · intro ht
    have e : vn_decode_VkWriteDescriptorSet_pnext_temp dec
        = (vn_cs_decoder_set_fatal
            (vn_decode_VkStructureType (vn_decode_simple_pointer dec).1).1, []) := by
      simp [vn_decode_VkWriteDescriptorSet_pnext_temp,
        vn_decode_VkWriteDescriptorSet_pnext_temp_fuel, hp, ht]
    rw [e]
    exact ⟨rfl, rfl, ha⟩
  · intro ht
    have e : vn_decode_VkMemoryRequirements2_pnext_partial_temp dec
        = (vn_cs_decoder_set_fatal
            (vn_decode_VkStructureType (vn_decode_simple_pointer dec).1).1, []) := by
      simp [vn_decode_VkMemoryRequirements2_pnext_partial_temp,
        vn_decode_VkMemoryRequirements2_pnext_partial_temp_fuel, hp, ht]
    rw [e]
    exact ⟨rfl, rfl, ha⟩

/-- Witness of C5: a present marker followed by the tag 7 and four more bytes, with
an arena that has room: the chain decoder of `VkWriteDescriptorSet` ends fatal
with a null chain and an untouched arena. -/
theorem C5_unrecognised_tag_is_fatal_witness :
    (vn_decode_VkWriteDescriptorSet_pnext_temp
      ⟨[1, 0, 0, 0, 0, 0, 0, 0, 7, 0, 0, 0, 1, 2, 3, 4], false, ⟨256, 0, 0⟩, []⟩).1.fatal = true ∧
    (vn_decode_VkWriteDescriptorSet_pnext_temp
      ⟨[1, 0, 0, 0, 0, 0, 0, 0, 7, 0, 0, 0, 1, 2, 3, 4], false, ⟨256, 0, 0⟩, []⟩).2 = [] ∧
    (vn_decode_VkWriteDescriptorSet_pnext_temp
      ⟨[1, 0, 0, 0, 0, 0, 0, 0, 7, 0, 0, 0, 1, 2, 3, 4], false, ⟨256, 0, 0⟩, []⟩).1.arena
        = ⟨256, 0, 0⟩ :=
  (C5_unrecognised_tag_is_fatal
    ⟨[1, 0, 0, 0, 0, 0, 0, 0, 7, 0, 0, 0, 1, 2, 3, 4], false, ⟨256, 0, 0⟩, []⟩
    (by decide)).1 (by decide)

/-! ## C6, C7: unrecognised links on the encode side -/

/-- C6 (as amended). `vn_encode_VkMemoryRequirements2_pnext`, on reaching a link whose
tag is unrecognised, skips it and goes on with the next link: for every chain
whose first link has a tag other than `MEMORY_DEDICATED_REQUIREMENTS`, the
output is the output for the chain without that link; it is exactly one absent
marker when no later link is tagged `MEMORY_DEDICATED_REQUIREMENTS`. -/
theorem C6_unrecognised_link_is_skipped (enc : vn_cs_encoder) (l : VkBaseInStructure)
    (next : List VkBaseInStructure)
    (h : l.sType ≠ VK_STRUCTURE_TYPE_MEMORY_DEDICATED_REQUIREMENTS) :
    vn_encode_VkMemoryRequirements2_pnext enc (l :: next)
        = vn_encode_VkMemoryRequirements2_pnext enc next ∧
    ((∀ m ∈ next, m.sType ≠ VK_STRUCTURE_TYPE_MEMORY_DEDICATED_REQUIREMENTS) →
      vn_encode_VkMemoryRequirements2_pnext enc (l :: next)
        = vn_encode_simple_pointer enc false) := by
  have h1 : vn_encode_VkMemoryRequirements2_pnext enc (l :: next)
      = vn_encode_VkMemoryRequirements2_pnext enc next := by
    simp [vn_encode_VkMemoryRequirements2_pnext, h]
  refine ⟨h1, ?_⟩
  intro hall
  rw [h1]
  clear h1 h
  induction next with
  | nil => rfl
  | cons m ms ih =>
    have hm := hall m (List.mem_cons_self _ _)
    simp only [vn_encode_VkMemoryRequirements2_pnext, hm, if_false]
    exact ih (fun x hx => hall x (List.mem_cons_of_mem _ hx))

/-- Witness of C6 (as amended): an unrecognised link (tag 0) in front of a dedicated
requirements link. -/
theorem C6_unrecognised_link_is_skipped_witness :
    vn_encode_VkMemoryRequirements2_pnext ⟨[]⟩
        [⟨0, VkRecordBody.other []⟩,
         ⟨VK_STRUCTURE_TYPE_MEMORY_DEDICATED_REQUIREMENTS,
           VkRecordBody.memoryDedicatedRequirements 1 0⟩]
      = vn_encode_VkMemoryRequirements2_pnext ⟨[]⟩
        [⟨VK_STRUCTURE_TYPE_MEMORY_DEDICATED_REQUIREMENTS,
           VkRecordBody.memoryDedicatedRequirements 1 0⟩] :=
  (C6_unrecognised_link_is_skipped ⟨[]⟩ ⟨0, VkRecordBody.other []⟩
    [⟨VK_STRUCTURE_TYPE_MEMORY_DEDICATED_REQUIREMENTS,
       VkRecordBody.memoryDedicatedRequirements 1 0⟩] (by decide)).1

/-- Counterexample to C6 as stated: the chain whose first link is unrecognised (tag
0) and whose second link is a dedicated requirements link is not encoded as
one absent marker. -/
theorem C6_counterexample :
    vn_encode_VkMemoryRequirements2_pnext ⟨[]⟩
        [⟨0, VkRecordBody.other []⟩,
         ⟨VK_STRUCTURE_TYPE_MEMORY_DEDICATED_REQUIREMENTS,
           VkRecordBody.memoryDedicatedRequirements 1 0⟩]
      ≠ vn_encode_simple_pointer ⟨[]⟩ false := by
  decide

/-- C7. For every `VkMemoryDedicatedRequirements` link `r` (tagged
`MEMORY_DEDICATED_REQUIREMENTS`) and every finite sequence `u` of links with
unrecognised tags, `vn_encode_VkMemoryRequirements2_pnext` on the chain `r`
followed by `u` returns the encoder it returns for the chain made of `r` alone:
the same bytes are written, and the encoder, a total function, has no failure
to report. -/
theorem C7_chain_truncated_after_recognised_link (enc : vn_cs_encoder)
    (r : VkMemoryDedicatedRequirements) (u : List VkBaseInStructure)
    (hr : r.sType = VK_STRUCTURE_TYPE_MEMORY_DEDICATED_REQUIREMENTS)
    (hu : ∀ m ∈ u, m.sType ≠ VK_STRUCTURE_TYPE_MEMORY_DEDICATED_REQUIREMENTS) :
    vn_encode_VkMemoryRequirements2_pnext enc ({ r with pNext := u }).toChain
      = vn_encode_VkMemoryRequirements2_pnext enc ({ r with pNext := [] }).toChain := by
  have hskip : ∀ e : vn_cs_encoder, vn_encode_VkMemoryRequirements2_pnext e u
      = vn_encode_VkMemoryRequirements2_pnext e [] := by
    intro e
    induction u with
    | nil => rfl
    | cons m ms ih =>
      have hm := hu m (List.mem_cons_self _ _)
      simp only [vn_encode_VkMemoryRequirements2_pnext, hm, if_false]
      exact ih (fun x hx => hu x (List.mem_cons_of_mem _ hx))
  simp only [VkMemoryDedicatedRequirements.toChain, vn_encode_VkMemoryRequirements2_pnext, hr,
    if_true, hskip, VkBaseOutStructure.asMemoryDedicatedRequirements,
    vn_encode_VkMemoryDedicatedRequirements_self]

/-- Witness of C7: a dedicated requirements link followed by two unrecognised links
(tags 0 and 7). -/
theorem C7_chain_truncated_after_recognised_link_witness :
    vn_encode_VkMemoryRequirements2_pnext ⟨[]⟩
        ({ ({ sType := VK_STRUCTURE_TYPE_MEMORY_DEDICATED_REQUIREMENTS, pNext := [],
              prefersDedicatedAllocation := 1, requiresDedicatedAllocation := 0 } :
            VkMemoryDedicatedRequirements) with
          pNext := [⟨0, VkRecordBody.other []⟩, ⟨7, VkRecordBody.other [1]⟩] }).toChain
      = vn_encode_VkMemoryRequirements2_pnext ⟨[]⟩
        ({ ({ sType := VK_STRUCTURE_TYPE_MEMORY_DEDICATED_REQUIREMENTS, pNext := [],
              prefersDedicatedAllocation := 1, requiresDedicatedAllocation := 0 } :
            VkMemoryDedicatedRequirements) with pNext := [] }).toChain :=
  C7_chain_truncated_after_recognised_link ⟨[]⟩
    { sType := VK_STRUCTURE_TYPE_MEMORY_DEDICATED_REQUIREMENTS, pNext := [],
      prefersDedicatedAllocation := 1, requiresDedicatedAllocation := 0 }
    [⟨0, VkRecordBody.other []⟩, ⟨7, VkRecordBody.other [1]⟩] rfl (by decide)

/-! ## The recursion bound of the chain decoders -/

theorem read_cur_length_le (dec : vn_cs_decoder) (n : Nat) :
    (vn_cs_decoder_read dec n).1.cur.length ≤ dec.cur.length :=
  (read_cur_suffix dec n).length_le

theorem simple_pointer_present_consumes (dec : vn_cs_decoder)
    (h : (vn_decode_simple_pointer dec).2 = true) :
    (vn_decode_simple_pointer dec).1.cur.length + 8 ≤ dec.cur.length := by
  unfold vn_decode_simple_pointer vn_cs_decoder_read at h ⊢
  simp only [MARKER_SIZE] at h ⊢
  split at h
  · simp at h
  · split at h
    · simp at h
    · rename_i h1 h2
      simp only [h1, h2, if_false, Bool.false_eq_true, List.length_drop]
      omega

theorem alloc_temp_cur (dec : vn_cs_decoder) (size : Nat) :
    (vn_cs_decoder_alloc_temp dec size).1.cur = dec.cur := by
  unfold vn_cs_decoder_alloc_temp
  split <;> rfl

/-- The recursion bound of `vn_decode_VkWriteDescriptorSet_pnext_temp_fuel` is never
reached: any two bounds above the number of remaining bytes give the same result. -/
theorem vn_decode_VkWriteDescriptorSet_pnext_temp_fuel_stable (fuel1 fuel2 : Nat)
    (dec : vn_cs_decoder) (h1 : dec.cur.length < fuel1) (h2 : dec.cur.length < fuel2) :
    vn_decode_VkWriteDescriptorSet_pnext_temp_fuel fuel1 dec
      = vn_decode_VkWriteDescriptorSet_pnext_temp_fuel fuel2 dec := by
  induction fuel1 generalizing fuel2 dec with
  | zero => omega
  | succ n ih =>
    cases fuel2 with
    | zero => omega
    | succ m =>
      simp only [vn_decode_VkWriteDescriptorSet_pnext_temp_fuel]
      by_cases hp : (vn_decode_simple_pointer dec).2 = true
      · have hc := simple_pointer_present_consumes dec hp
        have hs := read_cur_length_le (vn_decode_simple_pointer dec).1 4
        have ha := alloc_temp_cur (vn_decode_VkStructureType (vn_decode_simple_pointer dec).1).1
          sizeof_VkWriteDescriptorSetInlineUniformBlock
        have hlen : (vn_cs_decoder_alloc_temp
            (vn_decode_VkStructureType (vn_decode_simple_pointer dec).1).1
            sizeof_VkWriteDescriptorSetInlineUniformBlock).1.cur.length + 8 ≤ dec.cur.length := by
          rw [ha]
          simp only [vn_decode_VkStructureType, vn_decode_int32_t]
          omega
        rw [ih m _ (by omega) (by omega)]
      · simp [hp]

/-- The recursion bound of `vn_decode_VkMemoryRequirements2_pnext_partial_temp_fuel` is
never reached: any two bounds above the number of remaining bytes give the same
result. -/
theorem vn_decode_VkMemoryRequirements2_pnext_partial_temp_fuel_stable (fuel1 fuel2 : Nat)
    (dec : vn_cs_decoder) (h1 : dec.cur.length < fuel1) (h2 : dec.cur.length < fuel2) :
    vn_decode_VkMemoryRequirements2_pnext_partial_temp_fuel fuel1 dec
      = vn_decode_VkMemoryRequirements2_pnext_partial_temp_fuel fuel2 dec := by
  induction fuel1 generalizing fuel2 dec with
  | zero => omega
  | succ n ih =>
    cases fuel2 with
    | zero => omega
    | succ m =>
      simp only [vn_decode_VkMemoryRequirements2_pnext_partial_temp_fuel]
      by_cases hp : (vn_decode_simple_pointer dec).2 = true
      · have hc := simple_pointer_present_consumes dec hp
        have hs := read_cur_length_le (vn_decode_simple_pointer dec).1 4
        have ha := alloc_temp_cur (vn_decode_VkStructureType (vn_decode_simple_pointer dec).1).1
          sizeof_VkMemoryDedicatedRequirements
        have hlen : (vn_cs_decoder_alloc_temp
            (vn_decode_VkStructureType (vn_decode_simple_pointer dec).1).1
            sizeof_VkMemoryDedicatedRequirements).1.cur.length + 8 ≤ dec.cur.length := by
          rw [ha]
          simp only [vn_decode_VkStructureType, vn_decode_int32_t]
          omega
        rw [ih m _ (by omega) (by omega)]
      · simp [hp]

/-! ## C8: the type tag of a chain-capable struct -/

/-- C8. For every chain-capable struct decoder of the file (the `vn_decode_*_temp`
of `VkWriteDescriptorSet`, `VkSemaphoreTypeCreateInfo`, `VkImageFormatListCreateInfo`,
`VkImageStencilUsageCreateInfo`, `VkSamplerYcbcrConversionInfo`,
`VkShaderModuleCreateInfo`, `VkMutableDescriptorTypeCreateInfoEXT`,
`VkWriteDescriptorSetInlineUniformBlock`, `VkMemoryBarrier2`, and the
`vn_decode_*_partial_temp` of `VkMemoryDedicatedRequirements` and
`VkMemoryRequirements2`): if the type tag read from the stream differs from the
tag the struct expects, fatal is set when the call returns, whatever the decoder
state, the rest of the stream and the destination. -/
theorem C8_tag_mismatch_is_fatal (dec : vn_cs_decoder) :
    ((vn_decode_VkStructureType dec).2
        ≠ VK_STRUCTURE_TYPE_WRITE_DESCRIPTOR_SET →
      ∀ v, (vn_decode_VkWriteDescriptorSet_temp dec v).1.fatal = true) ∧
    ((vn_decode_VkStructureType dec).2
        ≠ VK_STRUCTURE_TYPE_SEMAPHORE_TYPE_CREATE_INFO →
      ∀ v, (vn_decode_VkSemaphoreTypeCreateInfo_temp dec v).1.fatal = true) ∧
    ((vn_decode_VkStructureType dec).2
        ≠ VK_STRUCTURE_TYPE_IMAGE_FORMAT_LIST_CREATE_INFO →
      ∀ v, (vn_decode_VkImageFormatListCreateInfo_temp dec v).1.fatal = true) ∧
    ((vn_decode_VkStructureType dec).2
        ≠ VK_STRUCTURE_TYPE_IMAGE_STENCIL_USAGE_CREATE_INFO →
      ∀ v, (vn_decode_VkImageStencilUsageCreateInfo_temp dec v).1.fatal = true) ∧
    ((vn_decode_VkStructureType dec).2
        ≠ VK_STRUCTURE_TYPE_SAMPLER_YCBCR_CONVERSION_INFO →
      ∀ v, (vn_decode_VkSamplerYcbcrConversionInfo_temp dec v).1.fatal = true) ∧
    ((vn_decode_VkStructureType dec).2
        ≠ VK_STRUCTURE_TYPE_SHADER_MODULE_CREATE_INFO →
      ∀ v, (vn_decode_VkShaderModuleCreateInfo_temp dec v).1.fatal = true) ∧
    ((vn_decode_VkStructureType dec).2
        ≠ VK_STRUCTURE_TYPE_MUTABLE_DESCRIPTOR_TYPE_CREATE_INFO_EXT →
      ∀ v, (vn_decode_VkMutableDescriptorTypeCreateInfoEXT_temp dec v).1.fatal = true) ∧
    ((vn_decode_VkStructureType dec).2
        ≠ VK_STRUCTURE_TYPE_WRITE_DESCRIPTOR_SET_INLINE_UNIFORM_BLOCK →
      ∀ v, (vn_decode_VkWriteDescriptorSetInlineUniformBlock_temp dec v).1.fatal = true) ∧
    ((vn_decode_VkStructureType dec).2
        ≠ VK_STRUCTURE_TYPE_MEMORY_BARRIER_2 →
      ∀ v, (vn_decode_VkMemoryBarrier2_temp dec v).1.fatal = true) ∧
    ((vn_decode_VkStructureType dec).2
        ≠ VK_STRUCTURE_TYPE_MEMORY_DEDICATED_REQUIREMENTS →
      ∀ v, (vn_decode_VkMemoryDedicatedRequirements_partial_temp dec v).1.fatal = true) ∧
    ((vn_decode_VkStructureType dec).2
        ≠ VK_STRUCTURE_TYPE_MEMORY_REQUIREMENTS_2 →
      ∀ v, (vn_decode_VkMemoryRequirements2_partial_temp dec v).1.fatal = true) := by
  have hf : (vn_cs_decoder_set_fatal (vn_decode_VkStructureType dec).1).fatal = true := rfl
  refine ⟨?_, ?_, ?_, ?_, ?_, ?_, ?_, ?_, ?_, ?_, ?_⟩
  · intro hne v
    simp only [vn_decode_VkWriteDescriptorSet_temp, ne_eq, hne,
      not_false_eq_true, if_true]
    rw [vn_decode_VkWriteDescriptorSet_pnext_temp_of_fatal _ hf,
      vn_decode_VkWriteDescriptorSet_self_temp_of_fatal _ hf]
    exact hf
  · intro hne v
    simp only [vn_decode_VkSemaphoreTypeCreateInfo_temp, ne_eq, hne,
      not_false_eq_true, if_true]
    rw [vn_decode_VkSemaphoreTypeCreateInfo_pnext_temp_of_fatal _ hf,
      vn_decode_VkSemaphoreTypeCreateInfo_self_temp_of_fatal _ hf]
    exact hf
  · intro hne v
    simp only [vn_decode_VkImageFormatListCreateInfo_temp, ne_eq, hne,
      not_false_eq_true, if_true]
    rw [vn_decode_VkImageFormatListCreateInfo_pnext_temp_of_fatal _ hf,
      vn_decode_VkImageFormatListCreateInfo_self_temp_of_fatal _ hf]
    exact hf
  · intro hne v
    simp only [vn_decode_VkImageStencilUsageCreateInfo_temp, ne_eq, hne,
      not_false_eq_true, if_true]
    rw [vn_decode_VkImageStencilUsageCreateInfo_pnext_temp_of_fatal _ hf,
      vn_decode_VkImageStencilUsageCreateInfo_self_temp_of_fatal _ hf]
    exact hf
  · intro hne v
    simp only [vn_decode_VkSamplerYcbcrConversionInfo_temp, ne_eq, hne,
      not_false_eq_true, if_true]
    rw [vn_decode_VkSamplerYcbcrConversionInfo_pnext_temp_of_fatal _ hf,
      vn_decode_VkSamplerYcbcrConversionInfo_self_temp_of_fatal _ hf]
    exact hf
  · intro hne v
    simp only [vn_decode_VkShaderModuleCreateInfo_temp, ne_eq, hne,
      not_false_eq_true, if_true]
    rw [vn_decode_VkShaderModuleCreateInfo_pnext_temp_of_fatal _ hf,
      vn_decode_VkShaderModuleCreateInfo_self_temp_of_fatal _ hf]
    exact hf
  · intro hne v
    simp only [vn_decode_VkMutableDescriptorTypeCreateInfoEXT_temp, ne_eq, hne,
      not_false_eq_true, if_true]
    rw [vn_decode_VkMutableDescriptorTypeCreateInfoEXT_pnext_temp_of_fatal _ hf,
      vn_decode_VkMutableDescriptorTypeCreateInfoEXT_self_temp_of_fatal _ hf]
    exact hf
  · intro hne v
    simp only [vn_decode_VkWriteDescriptorSetInlineUniformBlock_temp, ne_eq, hne,
      not_false_eq_true, if_true]
    rw [vn_decode_VkWriteDescriptorSetInlineUniformBlock_pnext_temp_of_fatal _ hf,
      vn_decode_VkWriteDescriptorSetInlineUniformBlock_self_temp_of_fatal _ hf]
    exact hf
  · intro hne v
    simp only [vn_decode_VkMemoryBarrier2_temp, ne_eq, hne,
      not_false_eq_true, if_true]
    rw [vn_decode_VkMemoryBarrier2_pnext_temp_of_fatal _ hf,
      vn_decode_VkMemoryBarrier2_self_temp_of_fatal _ hf]
    exact hf
  · intro hne v
    simp only [vn_decode_VkMemoryDedicatedRequirements_partial_temp, ne_eq, hne,
      not_false_eq_true, if_true]
    rw [vn_decode_VkMemoryDedicatedRequirements_pnext_partial_temp_of_fatal _ hf,
      vn_decode_VkMemoryDedicatedRequirements_self_partial_temp_of_fatal _ hf]
    exact hf
  · intro hne v
    simp only [vn_decode_VkMemoryRequirements2_partial_temp, ne_eq, hne,
      not_false_eq_true, if_true]
    rw [vn_decode_VkMemoryRequirements2_pnext_partial_temp_of_fatal _ hf,
      vn_decode_VkMemoryRequirements2_self_partial_temp_of_fatal _ hf]
    exact hf

/-- Witness of C8: the stream starts with the tag 1 where `VkWriteDescriptorSet`
expects 35; the decoder ends fatal. -/
theorem C8_tag_mismatch_is_fatal_witness :
    (vn_decode_VkWriteDescriptorSet_temp
      ⟨[1, 0, 0, 0, 0, 0, 0, 0, 0, 0, 0, 0], false, ⟨256, 0, 0⟩, []⟩ default).1.fatal = true :=
  (C8_tag_mismatch_is_fatal ⟨[1, 0, 0, 0, 0, 0, 0, 0, 0, 0, 0, 0], false, ⟨256, 0, 0⟩, []⟩).1
    (by decide) default

/-! ## C9: fatal is sticky -/

/-- C9. Every decode function of `vn_protocol_renderer_structs.h` preserves a set
fatal flag: for every decoder state in which fatal is set, every remaining
stream and every destination, fatal is still set when the function returns. The
conjunction runs over all the `vn_decode_*` functions of the file, the chain
decoders last. -/
theorem C9_fatal_is_sticky (dec : vn_cs_decoder) (h : dec.fatal = true) :
    (∀ v, (vn_decode_VkWriteDescriptorSet_temp dec v).1.fatal = true) ∧
    (∀ v, (vn_decode_VkExtent3D_temp dec v).1.fatal = true) ∧
    (∀ v, (vn_decode_VkExtent3D_partial_temp dec v).1.fatal = true) ∧
    (∀ v, (vn_decode_VkLayerProperties_partial_temp dec v).1.fatal = true) ∧
    (∀ v, (vn_decode_VkExtensionProperties_temp dec v).1.fatal = true) ∧
    (∀ v, (vn_decode_VkExtensionProperties_partial_temp dec v).1.fatal = true) ∧
    (∀ v, (vn_decode_VkMemoryRequirements_partial_temp dec v).1.fatal = true) ∧
    (∀ v, (vn_decode_VkSparseImageFormatProperties_partial_temp dec v).1.fatal = true) ∧
    (∀ v, (vn_decode_VkImageSubresource_temp dec v).1.fatal = true) ∧
    (∀ v, (vn_decode_VkOffset3D_temp dec v).1.fatal = true) ∧
    (∀ v, (vn_decode_VkSemaphoreTypeCreateInfo_self_temp dec v).1.fatal = true) ∧
    (∀ v, (vn_decode_VkSemaphoreTypeCreateInfo_temp dec v).1.fatal = true) ∧
    (∀ v, (vn_decode_VkImageFormatListCreateInfo_self_temp dec v).1.fatal = true) ∧
    (∀ v, (vn_decode_VkImageFormatListCreateInfo_temp dec v).1.fatal = true) ∧
    (∀ v, (vn_decode_VkImageStencilUsageCreateInfo_self_temp dec v).1.fatal = true) ∧
    (∀ v, (vn_decode_VkImageStencilUsageCreateInfo_temp dec v).1.fatal = true) ∧
    (∀ v, (vn_decode_VkComponentMapping_temp dec v).1.fatal = true) ∧
    (∀ v, (vn_decode_VkComponentMapping_partial_temp dec v).1.fatal = true) ∧
    (∀ v, (vn_decode_VkImageSubresourceRange_temp dec v).1.fatal = true) ∧
    (∀ v, (vn_decode_VkSamplerYcbcrConversionInfo_self_temp dec v).1.fatal = true) ∧
    (∀ v, (vn_decode_VkSamplerYcbcrConversionInfo_temp dec v).1.fatal = true) ∧
    (∀ v, (vn_decode_VkShaderModuleCreateInfo_self_temp dec v).1.fatal = true) ∧
    (∀ v, (vn_decode_VkShaderModuleCreateInfo_temp dec v).1.fatal = true) ∧
    (∀ v, (vn_decode_VkViewport_temp dec v).1.fatal = true) ∧
    (∀ v, (vn_decode_VkOffset2D_temp dec v).1.fatal = true) ∧
    (∀ v, (vn_decode_VkOffset2D_partial_temp dec v).1.fatal = true) ∧
    (∀ v, (vn_decode_VkExtent2D_temp dec v).1.fatal = true) ∧
    (∀ v, (vn_decode_VkExtent2D_partial_temp dec v).1.fatal = true) ∧
    (∀ v, (vn_decode_VkRect2D_temp dec v).1.fatal = true) ∧
    (∀ v, (vn_decode_VkRect2D_partial_temp dec v).1.fatal = true) ∧
    (∀ v, (vn_decode_VkClearColorValue_temp dec v).1.fatal = true) ∧
    (∀ v, (vn_decode_VkMutableDescriptorTypeListEXT_temp dec v).1.fatal = true) ∧
    (∀ v, (vn_decode_VkMutableDescriptorTypeCreateInfoEXT_self_temp dec v).1.fatal = true) ∧
    (∀ v, (vn_decode_VkMutableDescriptorTypeCreateInfoEXT_temp dec v).1.fatal = true) ∧
    (∀ v, (vn_decode_VkDescriptorImageInfo_temp dec v).1.fatal = true) ∧
    (∀ v, (vn_decode_VkDescriptorBufferInfo_temp dec v).1.fatal = true) ∧
    (∀ v, (vn_decode_VkWriteDescriptorSetInlineUniformBlock_self_temp dec v).1.fatal = true) ∧
    (∀ v, (vn_decode_VkWriteDescriptorSetInlineUniformBlock_temp dec v).1.fatal = true) ∧
    (∀ v, (vn_decode_VkWriteDescriptorSet_self_temp dec v).1.fatal = true) ∧
    (∀ v, (vn_decode_VkMemoryDedicatedRequirements_self_partial_temp dec v).1.fatal = true) ∧
    (∀ v, (vn_decode_VkMemoryDedicatedRequirements_partial_temp dec v).1.fatal = true) ∧
    (∀ v, (vn_decode_VkMemoryRequirements2_self_partial_temp dec v).1.fatal = true) ∧
    (∀ v, (vn_decode_VkMemoryRequirements2_partial_temp dec v).1.fatal = true) ∧
    (∀ v, (vn_decode_VkMemoryBarrier2_self_temp dec v).1.fatal = true) ∧
    (∀ v, (vn_decode_VkMemoryBarrier2_temp dec v).1.fatal = true) ∧
    (vn_decode_VkSemaphoreTypeCreateInfo_pnext_temp dec).1.fatal = true ∧
    (vn_decode_VkImageFormatListCreateInfo_pnext_temp dec).1.fatal = true ∧
    (vn_decode_VkImageStencilUsageCreateInfo_pnext_temp dec).1.fatal = true ∧
    (vn_decode_VkSamplerYcbcrConversionInfo_pnext_temp dec).1.fatal = true ∧
    (vn_decode_VkShaderModuleCreateInfo_pnext_temp dec).1.fatal = true ∧
    (vn_decode_VkMutableDescriptorTypeCreateInfoEXT_pnext_temp dec).1.fatal = true ∧
    (vn_decode_VkWriteDescriptorSetInlineUniformBlock_pnext_temp dec).1.fatal = true ∧
    (vn_decode_VkWriteDescriptorSet_pnext_temp dec).1.fatal = true ∧
    (vn_decode_VkMemoryDedicatedRequirements_pnext_partial_temp dec).1.fatal = true ∧
    (vn_decode_VkMemoryRequirements2_pnext_partial_temp dec).1.fatal = true ∧
    (vn_decode_VkMemoryBarrier2_pnext_temp dec).1.fatal = true :=
  ⟨fun v => (congrArg vn_cs_decoder.fatal
      (vn_decode_VkWriteDescriptorSet_temp_of_fatal dec h v)).trans h,
    fun v => (congrArg vn_cs_decoder.fatal
      (vn_decode_VkExtent3D_temp_of_fatal dec h v)).trans h,
    fun v => (congrArg vn_cs_decoder.fatal
      (vn_decode_VkExtent3D_partial_temp_of_fatal dec h v)).trans h,
    fun v => (congrArg vn_cs_decoder.fatal
      (vn_decode_VkLayerProperties_partial_temp_of_fatal dec h v)).trans h,
    fun v => (congrArg vn_cs_decoder.fatal
      (vn_decode_VkExtensionProperties_temp_of_fatal dec h v)).trans h,
    fun v => (congrArg vn_cs_decoder.fatal
      (vn_decode_VkExtensionProperties_partial_temp_of_fatal dec h v)).trans h,
    fun v => (congrArg vn_cs_decoder.fatal
      (vn_decode_VkMemoryRequirements_partial_temp_of_fatal dec h v)).trans h,
    fun v => (congrArg vn_cs_decoder.fatal
      (vn_decode_VkSparseImageFormatProperties_partial_temp_of_fatal dec h v)).trans h,
    fun v => (congrArg vn_cs_decoder.fatal
      (vn_decode_VkImageSubresource_temp_of_fatal dec h v)).trans h,
    fun v => (congrArg vn_cs_decoder.fatal
      (vn_decode_VkOffset3D_temp_of_fatal dec h v)).trans h,
    fun v => (congrArg vn_cs_decoder.fatal
      (vn_decode_VkSemaphoreTypeCreateInfo_self_temp_of_fatal dec h v)).trans h,
    fun v => (congrArg vn_cs_decoder.fatal
      (vn_decode_VkSemaphoreTypeCreateInfo_temp_of_fatal dec h v)).trans h,
    fun v => (congrArg vn_cs_decoder.fatal
      (vn_decode_VkImageFormatListCreateInfo_self_temp_of_fatal dec h v)).trans h,
    fun v => (congrArg vn_cs_decoder.fatal
      (vn_decode_VkImageFormatListCreateInfo_temp_of_fatal dec h v)).trans h,
    fun v => (congrArg vn_cs_decoder.fatal
      (vn_decode_VkImageStencilUsageCreateInfo_self_temp_of_fatal dec h v)).trans h,
    fun v => (congrArg vn_cs_decoder.fatal
      (vn_decode_VkImageStencilUsageCreateInfo_temp_of_fatal dec h v)).trans h,
    fun v => (congrArg vn_cs_decoder.fatal
      (vn_decode_VkComponentMapping_temp_of_fatal dec h v)).trans h,
    fun v => (congrArg vn_cs_decoder.fatal
      (vn_decode_VkComponentMapping_partial_temp_of_fatal dec h v)).trans h,
    fun v => (congrArg vn_cs_decoder.fatal
      (vn_decode_VkImageSubresourceRange_temp_of_fatal dec h v)).trans h,
    fun v => (congrArg vn_cs_decoder.fatal
      (vn_decode_VkSamplerYcbcrConversionInfo_self_temp_of_fatal dec h v)).trans h,
    fun v => (congrArg vn_cs_decoder.fatal
      (vn_decode_VkSamplerYcbcrConversionInfo_temp_of_fatal dec h v)).trans h,
    fun v => (congrArg vn_cs_decoder.fatal
      (vn_decode_VkShaderModuleCreateInfo_self_temp_of_fatal dec h v)).trans h,
    fun v => (congrArg vn_cs_decoder.fatal
      (vn_decode_VkShaderModuleCreateInfo_temp_of_fatal dec h v)).trans h,
    fun v => (congrArg vn_cs_decoder.fatal
      (vn_decode_VkViewport_temp_of_fatal dec h v)).trans h,
    fun v => (congrArg vn_cs_decoder.fatal
      (vn_decode_VkOffset2D_temp_of_fatal dec h v)).trans h,
    fun v => (congrArg vn_cs_decoder.fatal
      (vn_decode_VkOffset2D_partial_temp_of_fatal dec h v)).trans h,
    fun v => (congrArg vn_cs_decoder.fatal
      (vn_decode_VkExtent2D_temp_of_fatal dec h v)).trans h,
    fun v => (congrArg vn_cs_decoder.fatal
      (vn_decode_VkExtent2D_partial_temp_of_fatal dec h v)).trans h,
    fun v => (congrArg vn_cs_decoder.fatal
      (vn_decode_VkRect2D_temp_of_fatal dec h v)).trans h,
    fun v => (congrArg vn_cs_decoder.fatal
      (vn_decode_VkRect2D_partial_temp_of_fatal dec h v)).trans h,
    fun v => (congrArg vn_cs_decoder.fatal
      (vn_decode_VkClearColorValue_temp_of_fatal dec h v)).trans h,
    fun v => (congrArg vn_cs_decoder.fatal
      (vn_decode_VkMutableDescriptorTypeListEXT_temp_of_fatal dec h v)).trans h,
    fun v => (congrArg vn_cs_decoder.fatal
      (vn_decode_VkMutableDescriptorTypeCreateInfoEXT_self_temp_of_fatal dec h v)).trans h,
    fun v => (congrArg vn_cs_decoder.fatal
      (vn_decode_VkMutableDescriptorTypeCreateInfoEXT_temp_of_fatal dec h v)).trans h,
    fun v => (congrArg vn_cs_decoder.fatal
      (vn_decode_VkDescriptorImageInfo_temp_of_fatal dec h v)).trans h,
    fun v => (congrArg vn_cs_decoder.fatal
      (vn_decode_VkDescriptorBufferInfo_temp_of_fatal dec h v)).trans h,
    fun v => (congrArg vn_cs_decoder.fatal
      (vn_decode_VkWriteDescriptorSetInlineUniformBlock_self_temp_of_fatal dec h v)).trans h,
    fun v => (congrArg vn_cs_decoder.fatal
      (vn_decode_VkWriteDescriptorSetInlineUniformBlock_temp_of_fatal dec h v)).trans h,
    fun v => (congrArg vn_cs_decoder.fatal
      (vn_decode_VkWriteDescriptorSet_self_temp_of_fatal dec h v)).trans h,
    fun v => (congrArg vn_cs_decoder.fatal
      (vn_decode_VkMemoryDedicatedRequirements_self_partial_temp_of_fatal dec h v)).trans h,
    fun v => (congrArg vn_cs_decoder.fatal
      (vn_decode_VkMemoryDedicatedRequirements_partial_temp_of_fatal dec h v)).trans h,
    fun v => (congrArg vn_cs_decoder.fatal
      (vn_decode_VkMemoryRequirements2_self_partial_temp_of_fatal dec h v)).trans h,
    fun v => (congrArg vn_cs_decoder.fatal
      (vn_decode_VkMemoryRequirements2_partial_temp_of_fatal dec h v)).trans h,
    fun v => (congrArg vn_cs_decoder.fatal
      (vn_decode_VkMemoryBarrier2_self_temp_of_fatal dec h v)).trans h,
    fun v => (congrArg vn_cs_decoder.fatal
      (vn_decode_VkMemoryBarrier2_temp_of_fatal dec h v)).trans h,
    (congrArg (fun r => r.1.fatal)
      (vn_decode_VkSemaphoreTypeCreateInfo_pnext_temp_of_fatal dec h)).trans h,
    (congrArg (fun r => r.1.fatal)
      (vn_decode_VkImageFormatListCreateInfo_pnext_temp_of_fatal dec h)).trans h,
    (congrArg (fun r => r.1.fatal)
      (vn_decode_VkImageStencilUsageCreateInfo_pnext_temp_of_fatal dec h)).trans h,
    (congrArg (fun r => r.1.fatal)
      (vn_decode_VkSamplerYcbcrConversionInfo_pnext_temp_of_fatal dec h)).trans h,
    (congrArg (fun r => r.1.fatal)
      (vn_decode_VkShaderModuleCreateInfo_pnext_temp_of_fatal dec h)).trans h,
    (congrArg (fun r => r.1.fatal)
      (vn_decode_VkMutableDescriptorTypeCreateInfoEXT_pnext_temp_of_fatal dec h)).trans h,
    (congrArg (fun r => r.1.fatal)
      (vn_decode_VkWriteDescriptorSetInlineUniformBlock_pnext_temp_of_fatal dec h)).trans h,
    (congrArg (fun r => r.1.fatal)
      (vn_decode_VkWriteDescriptorSet_pnext_temp_of_fatal dec h)).trans h,
    (congrArg (fun r => r.1.fatal)
      (vn_decode_VkMemoryDedicatedRequirements_pnext_partial_temp_of_fatal dec h)).trans h,
    (congrArg (fun r => r.1.fatal)
      (vn_decode_VkMemoryRequirements2_pnext_partial_temp_of_fatal dec h)).trans h,
    (congrArg (fun r => r.1.fatal)
      (vn_decode_VkMemoryBarrier2_pnext_temp_of_fatal dec h)).trans h⟩

/-- Witness of C9: a decoder already fatal, with bytes left that would otherwise
decode, stays fatal through `vn_decode_VkWriteDescriptorSet_temp`. -/
theorem C9_fatal_is_sticky_witness :
    (vn_decode_VkWriteDescriptorSet_temp
      ⟨[35, 0, 0, 0, 0, 0, 0, 0, 0, 0, 0, 0], true, ⟨256, 0, 0⟩, []⟩ default).1.fatal = true :=
  (C9_fatal_is_sticky ⟨[35, 0, 0, 0, 0, 0, 0, 0, 0, 0, 0, 0], true, ⟨256, 0, 0⟩, []⟩ rfl).1
    default

/-! ## C10: decoding a `VkWriteDescriptorSet` in the fatal state -/

/-- C10. If fatal is already set when `vn_decode_VkWriteDescriptorSet_temp` is
called, then for every remaining stream content and every previous content of
the destination the call returns the decoder as it was (so nothing is taken from
the arena and the cursor does not move) and leaves the destination zeroed:
`sType` is 0, `pNext` is null, `dstSet` is the null handle, the scalars are 0,
and `pImageInfo`, `pBufferInfo` and `pTexelBufferView` are null. -/
theorem C10_fatal_decode_zeroes_VkWriteDescriptorSet (dec : vn_cs_decoder)
    (h : dec.fatal = true) (v : VkWriteDescriptorSet) :
    vn_decode_VkWriteDescriptorSet_temp dec v
      = (dec, { sType := 0, pNext := [], dstSet := none, dstBinding := 0, dstArrayElement := 0,
                descriptorCount := 0, descriptorType := 0, pImageInfo := none,
                pBufferInfo := none, pTexelBufferView := none }) := by
  simp [vn_decode_VkWriteDescriptorSet_temp, vn_decode_VkStructureType, int32_t_of_fatal,
    set_fatal_of_fatal, vn_decode_VkWriteDescriptorSet_pnext_temp_of_fatal,
    vn_decode_VkWriteDescriptorSet_self_temp,
    vn_decode_VkWriteDescriptorSet_self_temp_pImageInfo,
    vn_decode_VkWriteDescriptorSet_self_temp_pBufferInfo,
    vn_decode_VkWriteDescriptorSet_self_temp_pTexelBufferView,
    vn_decode_VkDescriptorSet_lookup, handle_lookup_of_fatal, vn_decode_uint32_t, read_of_fatal,
    vn_decode_VkDescriptorType, peek_array_size_of_fatal, array_size_unchecked_of_fatal, h]

/-- Witness of C10: a fatal decoder whose stream holds a well-formed tag and a
destination full of stale pointers and handles. -/
theorem C10_fatal_decode_zeroes_VkWriteDescriptorSet_witness :
    vn_decode_VkWriteDescriptorSet_temp
        ⟨[35, 0, 0, 0, 1, 0, 0, 0, 0, 0, 0, 0], true, ⟨256, 16, 1⟩, [(VkObjectType.buffer, 0, 9)]⟩
        { sType := 35, pNext := [⟨7, VkRecordBody.other [1]⟩], dstSet := some 4, dstBinding := 1,
          dstArrayElement := 2, descriptorCount := 3, descriptorType := 6,
          pImageInfo := some [], pBufferInfo := some [⟨some 9, 0, 16⟩],
          pTexelBufferView := some [some 9] }
      = (⟨[35, 0, 0, 0, 1, 0, 0, 0, 0, 0, 0, 0], true, ⟨256, 16, 1⟩,
            [(VkObjectType.buffer, 0, 9)]⟩,
          { sType := 0, pNext := [], dstSet := none, dstBinding := 0, dstArrayElement := 0,
            descriptorCount := 0, descriptorType := 0, pImageInfo := none,
            pBufferInfo := none, pTexelBufferView := none }) :=
  C10_fatal_decode_zeroes_VkWriteDescriptorSet _ rfl _

/-! ## Size markers, the arena and the element loop -/

theorem peek_array_size_bytes (t : Nat) (rest : List Byte) (a : Arena)
    (o : List (VkObjectType × Nat × Nat)) :
    vn_peek_array_size ⟨leBytes 8 t ++ rest, false, a, o⟩ = (t % 256 ^ 8 != 0) := by
  have hl := leBytes_length 8 t
  simp [vn_peek_array_size, vn_cs_decoder_peek, MARKER_SIZE, hl, leValue_leBytes]

theorem peek_array_size_present (rest : List Byte) (a : Arena)
    (o : List (VkObjectType × Nat × Nat)) :
    vn_peek_array_size ⟨leBytes 8 1 ++ rest, false, a, o⟩ = true := by
  rw [peek_array_size_bytes]; decide

theorem peek_array_size_absent (rest : List Byte) (a : Arena)
    (o : List (VkObjectType × Nat × Nat)) :
    vn_peek_array_size ⟨leBytes 8 0 ++ rest, false, a, o⟩ = false := by
  rw [peek_array_size_bytes]; decide

theorem decode_array_size_absent (max : Nat) (rest : List Byte) (a : Arena)
    (o : List (VkObjectType × Nat × Nat)) :
    vn_decode_array_size ⟨leBytes 8 0 ++ rest, false, a, o⟩ max = (⟨rest, false, a, o⟩, 0) := by
  simp [vn_decode_array_size, vn_decode_array_size_unchecked, MARKER_SIZE, read_leBytes]

theorem isUint32_zero : isUint32 0 := by unfold isUint32; decide

theorem isUint64_zero : isUint64 0 := by unfold isUint64; decide

theorem alloc_temp_ok (dec : vn_cs_decoder) (size : Nat)
    (h : dec.arena.used + size ≤ dec.arena.capacity) :
    vn_cs_decoder_alloc_temp dec size
      = ({ dec with arena := { dec.arena with used := dec.arena.used + size,
                                              allocs := dec.arena.allocs + 1 } }, true) := by
  simp [vn_cs_decoder_alloc_temp, h]

theorem alloc_temp_of_null (dec : vn_cs_decoder) (size : Nat)
    (h : (vn_cs_decoder_alloc_temp dec size).2 = false) :
    vn_cs_decoder_alloc_temp dec size = (vn_cs_decoder_set_fatal dec, false) := by
  unfold vn_cs_decoder_alloc_temp at h ⊢
  split
  · rename_i hc
    simp [hc] at h
  · rfl

theorem alloc_temp_fatal_mono (dec : vn_cs_decoder) (size : Nat) (h : dec.fatal = true) :
    (vn_cs_decoder_alloc_temp dec size).1.fatal = true := by
  unfold vn_cs_decoder_alloc_temp
  split
  · exact h
  · rfl

theorem decode_array_of_fatal {α : Type} (elem : vn_cs_decoder → α → vn_cs_decoder × α)
    (init : α) (dec : vn_cs_decoder) (helem : ∀ v, (elem dec v).1 = dec) (n : Nat) :
    (vn_decode_array elem init n dec).1 = dec := by
  induction n with
  | zero => rfl
  | succ n ih => simp [vn_decode_array, helem, ih]

theorem decode_array_length {α : Type} (elem : vn_cs_decoder → α → vn_cs_decoder × α)
    (init : α) (n : Nat) (dec : vn_cs_decoder) :
    (vn_decode_array elem init n dec).2.length = n := by
  induction n generalizing dec with
  | zero => rfl
  | succ n ih => simp [vn_decode_array, ih]

theorem decode_array_add {α : Type} (elem : vn_cs_decoder → α → vn_cs_decoder × α)
    (init : α) (i k : Nat) (dec : vn_cs_decoder) :
    vn_decode_array elem init (i + k) dec
      = ((vn_decode_array elem init k (vn_decode_array elem init i dec).1).1,
         (vn_decode_array elem init i dec).2
           ++ (vn_decode_array elem init k (vn_decode_array elem init i dec).1).2) := by
  induction i generalizing dec with
  | zero => simp [vn_decode_array]
  | succ i ih =>
    rw [Nat.succ_add]
    simp only [vn_decode_array, ih, List.cons_append]

/-- Element `i` of a decoded array is what the element decoder yields from the state
reached after `i` elements, and the loop ends in the state reached from there by the
remaining elements. -/
theorem decode_array_element {α : Type} (elem : vn_cs_decoder → α → vn_cs_decoder × α)
    (init : α) (n i : Nat) (hi : i < n) (dec : vn_cs_decoder) :
    (vn_decode_array elem init n dec).2[i]?
        = some (elem (vn_decode_array elem init i dec).1 init).2 ∧
    (vn_decode_array elem init n dec).1
        = (vn_decode_array elem init (n - i - 1)
            (elem (vn_decode_array elem init i dec).1 init).1).1 := by
  have hn : n = i + ((n - i - 1) + 1) := by omega
  generalize n - i - 1 = m at hn
  subst hn
  rw [decode_array_add]
  simp only [vn_decode_array]
  constructor
  · rw [List.getElem?_append_right (by rw [decode_array_length])]
    simp [decode_array_length]
  · trivial

theorem VkFormat_array_fatal_mono (dec : vn_cs_decoder) (n : Nat) (h : dec.fatal = true) :
    (vn_decode_VkFormat_array dec n).1.fatal = true := by
  unfold vn_decode_VkFormat_array
  rw [decode_array_of_fatal _ _ dec (fun _ => by simp [int32_t_of_fatal, h])]
  exact h

theorem read_objects (dec : vn_cs_decoder) (n : Nat) :
    (vn_cs_decoder_read dec n).1.objects = dec.objects := by
  unfold vn_cs_decoder_read
  split
  · rfl
  · split <;> rfl

/-- A wire id that the registry does not resolve: the lookup decoder ends fatal and
yields the null handle. -/
theorem handle_lookup_unresolved (dec : vn_cs_decoder) (t : VkObjectType)
    (h : vn_cs_decoder_lookup_object dec t (vn_cs_decoder_read dec 8).2 = none) :
    (vn_decode_handle_lookup dec t).1.fatal = true ∧
    (vn_decode_handle_lookup dec t).2 = none := by
  have ho : vn_cs_decoder_lookup_object (vn_cs_decoder_read dec 8).1 t
      (vn_cs_decoder_read dec 8).2 = none := by
    unfold vn_cs_decoder_lookup_object at h ⊢
    rw [read_objects]
    exact h
  unfold vn_decode_handle_lookup
  simp only
  split
  · rename_i hf
    exact ⟨hf, rfl⟩
  · rw [ho]
    exact ⟨rfl, rfl⟩

/-- A lookup miss at element `i` of a handle array: the loop ends fatal and element `i`
is null. -/
theorem handle_array_unresolved (t : VkObjectType) (n i : Nat) (hi : i < n)
    (dec : vn_cs_decoder)
    (h : vn_cs_decoder_lookup_object
        (vn_decode_array (fun d _ => vn_decode_handle_lookup d t) none i dec).1 t
        (vn_cs_decoder_read
          (vn_decode_array (fun d _ => vn_decode_handle_lookup d t) none i dec).1 8).2
        = none) :
    (vn_decode_array (fun d _ => vn_decode_handle_lookup d t) none n dec).1.fatal = true ∧
    (vn_decode_array (fun d _ => vn_decode_handle_lookup d t) none n dec).2[i]?
      = some none := by
  obtain ⟨he, hs⟩ :=
    decode_array_element (fun d _ => vn_decode_handle_lookup d t) none n i hi dec
  obtain ⟨hf, hn⟩ := handle_lookup_unresolved _ t h
  constructor
  · rw [hs, decode_array_of_fatal _ _ _ (fun _ => by
      simp only [handle_lookup_of_fatal _ hf])]
    exact hf
  · rw [he]
    simp only [hn]

theorem simple_pointer_absent_of_token (dec : vn_cs_decoder) (hf : dec.fatal = false)
    (h8 : MARKER_SIZE ≤ dec.cur.length) (h0 : leValue (dec.cur.take MARKER_SIZE) = 0) :
    vn_decode_simple_pointer dec = ({ dec with cur := dec.cur.drop MARKER_SIZE }, false) := by
  simp [vn_decode_simple_pointer, vn_cs_decoder_read, hf, Nat.not_lt.mpr h8, h0]

/-! ## C11: a wire id that does not resolve -/

/-- Once fatal is set, the array blocks of `vn_decode_VkWriteDescriptorSet_self_temp`
consume nothing and null the three pointers. -/
theorem self_temp_pImageInfo_of_fatal (dec : vn_cs_decoder) (h : dec.fatal = true)
    (v : VkWriteDescriptorSet) :
    vn_decode_VkWriteDescriptorSet_self_temp_pImageInfo dec v
      = (dec, { v with pImageInfo := none, pBufferInfo := none, pTexelBufferView := none }) := by
  simp [vn_decode_VkWriteDescriptorSet_self_temp_pImageInfo,
    vn_decode_VkWriteDescriptorSet_self_temp_pBufferInfo,
    vn_decode_VkWriteDescriptorSet_self_temp_pTexelBufferView,
    peek_array_size_of_fatal, array_size_unchecked_of_fatal, h]

theorem self_temp_scalars_of_fatal_lookup (dec : vn_cs_decoder) (val : VkWriteDescriptorSet)
    (h : (vn_decode_VkDescriptorSet_lookup dec).1.fatal = true) :
    vn_decode_VkWriteDescriptorSet_self_temp_scalars dec val
      = ((vn_decode_VkDescriptorSet_lookup dec).1,
         { val with dstSet := (vn_decode_VkDescriptorSet_lookup dec).2, dstBinding := 0,
                    dstArrayElement := 0, descriptorCount := 0, descriptorType := 0 }) := by
  simp [vn_decode_VkWriteDescriptorSet_self_temp_scalars, vn_decode_uint32_t, read_of_fatal,
    vn_decode_VkDescriptorType, int32_t_of_fatal, h]

/-- A call of `vn_decode_VkWriteDescriptorSet_self_temp` either returns early with fatal set
or returns what its `pTexelBufferView` block returns. -/
theorem self_temp_reaches_pTexelBufferView (dec : vn_cs_decoder) (val : VkWriteDescriptorSet) :
    (vn_decode_VkWriteDescriptorSet_self_temp dec val).1.fatal = true ∨
    ∃ d v, vn_decode_VkWriteDescriptorSet_self_temp dec val
      = vn_decode_VkWriteDescriptorSet_self_temp_pTexelBufferView d v := by
  have hb : ∀ d v, (vn_decode_VkWriteDescriptorSet_self_temp_pBufferInfo d v).1.fatal = true ∨
      ∃ d2 v2, vn_decode_VkWriteDescriptorSet_self_temp_pBufferInfo d v
        = vn_decode_VkWriteDescriptorSet_self_temp_pTexelBufferView d2 v2 := by
    intro d v
    unfold vn_decode_VkWriteDescriptorSet_self_temp_pBufferInfo
    simp only
    split
    · split
      · rename_i hp
        left
        unfold vn_cs_decoder_alloc_temp_array at hp ⊢
        rw [alloc_temp_of_null _ _ (by simpa using hp)]
        rfl
      · exact Or.inr ⟨_, _, rfl⟩
    · exact Or.inr ⟨_, _, rfl⟩
  show (vn_decode_VkWriteDescriptorSet_self_temp_pImageInfo _ _).1.fatal = true ∨
    ∃ d v, vn_decode_VkWriteDescriptorSet_self_temp_pImageInfo _ _ = _
  unfold vn_decode_VkWriteDescriptorSet_self_temp_pImageInfo
  simp only
  split
  · split
    · rename_i hp
      left
      unfold vn_cs_decoder_alloc_temp_array at hp ⊢
      rw [alloc_temp_of_null _ _ (by simpa using hp)]
      rfl
    · exact hb _ _
  · exact hb _ _

/-- C11. A wire id that does not resolve in the session's object registry, at any handle
field that is decoded with a lookup: `buffer` of `vn_decode_VkDescriptorBufferInfo_temp`,
`sampler` and `imageView` of `vn_decode_VkDescriptorImageInfo_temp` (the id of `imageView`
is read in the state `s` that the `sampler` lookup leaves), `conversion` of
`vn_decode_VkSamplerYcbcrConversionInfo_self_temp`, `dstSet` of
`vn_decode_VkWriteDescriptorSet_self_temp`, and element `i` of `pTexelBufferView` (read in
the state `s` reached after `i` elements of the loop, in the block that starts at the size
marker of `pTexelBufferView`). In each case fatal is set when the call returns and the
field is the null handle. The last conjunct ties the `pTexelBufferView` block to the whole
function: a call either returns early with fatal set or returns what that block returns. -/
theorem C11_unresolved_handle_sets_fatal_and_null (dec : vn_cs_decoder) :
    (∀ val, vn_cs_decoder_lookup_object dec VkObjectType.buffer
        (vn_cs_decoder_read dec 8).2 = none →
      (vn_decode_VkDescriptorBufferInfo_temp dec val).1.fatal = true ∧
      (vn_decode_VkDescriptorBufferInfo_temp dec val).2.buffer = none) ∧
    (∀ val, vn_cs_decoder_lookup_object dec VkObjectType.sampler
        (vn_cs_decoder_read dec 8).2 = none →
      (vn_decode_VkDescriptorImageInfo_temp dec val).1.fatal = true ∧
      (vn_decode_VkDescriptorImageInfo_temp dec val).2.sampler = none) ∧
    (∀ val s, s = (vn_decode_VkSampler_lookup dec).1 →
      vn_cs_decoder_lookup_object s VkObjectType.imageView (vn_cs_decoder_read s 8).2 = none →
      (vn_decode_VkDescriptorImageInfo_temp dec val).1.fatal = true ∧
      (vn_decode_VkDescriptorImageInfo_temp dec val).2.imageView = none) ∧
    (∀ val, vn_cs_decoder_lookup_object dec VkObjectType.samplerYcbcrConversion
        (vn_cs_decoder_read dec 8).2 = none →
      (vn_decode_VkSamplerYcbcrConversionInfo_self_temp dec val).1.fatal = true ∧
      (vn_decode_VkSamplerYcbcrConversionInfo_self_temp dec val).2.conversion = none) ∧
    (∀ val, vn_cs_decoder_lookup_object dec VkObjectType.descriptorSet
        (vn_cs_decoder_read dec 8).2 = none →
      (vn_decode_VkWriteDescriptorSet_self_temp dec val).1.fatal = true ∧
      (vn_decode_VkWriteDescriptorSet_self_temp dec val).2.dstSet = none) ∧
    (∀ val a p i s, a = vn_decode_array_size dec val.descriptorCount →
      p = vn_cs_decoder_alloc_temp_array a.1 sizeof_VkBufferView (a.2 % 4294967296) →
      s = (vn_decode_array (fun d _ => vn_decode_VkBufferView_lookup d) none i p.1).1 →
      vn_peek_array_size dec = true → p.2 = true → i < a.2 % 4294967296 →
      vn_cs_decoder_lookup_object s VkObjectType.bufferView (vn_cs_decoder_read s 8).2 = none →
      (vn_decode_VkWriteDescriptorSet_self_temp_pTexelBufferView dec val).1.fatal = true ∧
      ∃ l, (vn_decode_VkWriteDescriptorSet_self_temp_pTexelBufferView dec val).2.pTexelBufferView
          = some l ∧ l[i]? = some none) ∧
    (∀ val, (vn_decode_VkWriteDescriptorSet_self_temp dec val).1.fatal = true ∨
      ∃ d v, vn_decode_VkWriteDescriptorSet_self_temp dec val
        = vn_decode_VkWriteDescriptorSet_self_temp_pTexelBufferView d v) := by
  refine ⟨?_, ?_, ?_, ?_, ?_, ?_, self_temp_reaches_pTexelBufferView dec⟩
  · intro val h
    obtain ⟨hf, hn⟩ := handle_lookup_unresolved dec _ h
    simp only [vn_decode_VkDescriptorBufferInfo_temp, vn_decode_VkBuffer_lookup,
      vn_decode_VkDeviceSize, vn_decode_uint64_t, read_of_fatal _ _ hf, hn]
    exact ⟨hf, trivial⟩
  · intro val h
    obtain ⟨hf, hn⟩ := handle_lookup_unresolved dec _ h
    simp only [vn_decode_VkDescriptorImageInfo_temp, vn_decode_VkSampler_lookup,
      vn_decode_VkImageView_lookup, vn_decode_VkImageLayout, handle_lookup_of_fatal _ hf,
      int32_t_of_fatal _ hf, hn]
    exact ⟨hf, trivial⟩
  · intro val s hs h
    subst hs
    obtain ⟨hf, hn⟩ := handle_lookup_unresolved _ _ h
    simp only [vn_decode_VkDescriptorImageInfo_temp,
      vn_decode_VkImageView_lookup, vn_decode_VkImageLayout,
      int32_t_of_fatal _ hf, hn]
    exact ⟨hf, trivial⟩
  · intro val h
    obtain ⟨hf, hn⟩ := handle_lookup_unresolved dec _ h
    simp only [vn_decode_VkSamplerYcbcrConversionInfo_self_temp,
      vn_decode_VkSamplerYcbcrConversion_lookup, hn]
    exact ⟨hf, trivial⟩
  · intro val h
    obtain ⟨hf, hn⟩ := handle_lookup_unresolved dec _ h
    have hf2 : (vn_decode_VkDescriptorSet_lookup dec).1.fatal = true := hf
    have hn2 : (vn_decode_VkDescriptorSet_lookup dec).2 = none := hn
    have e : vn_decode_VkWriteDescriptorSet_self_temp dec val
        = vn_decode_VkWriteDescriptorSet_self_temp_pImageInfo
            (vn_decode_VkWriteDescriptorSet_self_temp_scalars dec val).1
            (vn_decode_VkWriteDescriptorSet_self_temp_scalars dec val).2 := rfl
    rw [e, self_temp_scalars_of_fatal_lookup dec val hf2,
      self_temp_pImageInfo_of_fatal _ hf2, hn2]
    exact ⟨hf2, rfl⟩
  · intro val a p i s ha hp hs hpeek halloc hi hmiss
    subst ha hp hs
    obtain ⟨hfat, hel⟩ := handle_array_unresolved VkObjectType.bufferView _ i hi _ hmiss
    unfold vn_decode_VkWriteDescriptorSet_self_temp_pTexelBufferView
    simp only [hpeek, if_true, halloc, Bool.not_true, Bool.false_eq_true, if_false]
    exact ⟨hfat, _, rfl, hel⟩

/-- Witness of C11: a buffer id 5 against a registry that only knows buffer 4, and a
`pTexelBufferView` array of two ids, 4 and 5, against a registry that only knows buffer
view 4. -/
theorem C11_unresolved_handle_sets_fatal_and_null_witness :
    ((vn_decode_VkDescriptorBufferInfo_temp
        ⟨leBytes 8 5 ++ leBytes 8 0 ++ leBytes 8 16, false,
          ⟨256, 0, 0⟩, [(VkObjectType.buffer, 4, 9)]⟩ ⟨some 3, 1, 2⟩).1.fatal = true ∧
      (vn_decode_VkDescriptorBufferInfo_temp
        ⟨leBytes 8 5 ++ leBytes 8 0 ++ leBytes 8 16, false,
          ⟨256, 0, 0⟩, [(VkObjectType.buffer, 4, 9)]⟩ ⟨some 3, 1, 2⟩).2.buffer = none) ∧
    ((vn_decode_VkWriteDescriptorSet_self_temp_pTexelBufferView
        ⟨leBytes 8 1 ++ leBytes 8 2 ++ leBytes 8 4 ++ leBytes 8 5, false, ⟨256, 0, 0⟩,
          [(VkObjectType.bufferView, 4, 9)]⟩
        { (default : VkWriteDescriptorSet) with descriptorCount := 2 }).1.fatal = true ∧
      ∃ l, (vn_decode_VkWriteDescriptorSet_self_temp_pTexelBufferView
        ⟨leBytes 8 1 ++ leBytes 8 2 ++ leBytes 8 4 ++ leBytes 8 5, false, ⟨256, 0, 0⟩,
          [(VkObjectType.bufferView, 4, 9)]⟩
        { (default : VkWriteDescriptorSet) with descriptorCount := 2 }).2.pTexelBufferView
          = some l ∧ l[1]? = some none) :=
  ⟨(C11_unresolved_handle_sets_fatal_and_null
      ⟨leBytes 8 5 ++ leBytes 8 0 ++ leBytes 8 16, false,
        ⟨256, 0, 0⟩, [(VkObjectType.buffer, 4, 9)]⟩).1 ⟨some 3, 1, 2⟩ (by decide),
   (C11_unresolved_handle_sets_fatal_and_null
      ⟨leBytes 8 1 ++ leBytes 8 2 ++ leBytes 8 4 ++ leBytes 8 5, false, ⟨256, 0, 0⟩,
        [(VkObjectType.bufferView, 4, 9)]⟩).2.2.2.2.2.1
      { (default : VkWriteDescriptorSet) with descriptorCount := 2 } _ _ 1 _ rfl rfl rfl
      (by decide) (by decide) (by decide) (by decide)⟩

/-! ## C12: a failed allocation for `pImageInfo` -/

/-- C12. In `vn_decode_VkWriteDescriptorSet_self_temp`, let `s` be the decoder and the
destination after the five leading fields and `a` the result of reading the size marker
of `pImageInfo`. If the marker is present and the arena allocation for the array fails,
the call returns right there: fatal is set, `pImageInfo` is null, the cursor and the
arena are those left by the size marker (no element is decoded, no further byte
consumed), and `pBufferInfo` and `pTexelBufferView` keep the values they had before the
call. -/
theorem C12_failed_pImageInfo_allocation_returns_at_once (dec : vn_cs_decoder)
    (val : VkWriteDescriptorSet) (s : vn_cs_decoder × VkWriteDescriptorSet)
    (a : vn_cs_decoder × Nat)
    (hs : s = vn_decode_VkWriteDescriptorSet_self_temp_scalars dec val)
    (ha : a = vn_decode_array_size s.1 s.2.descriptorCount)
    (hpeek : vn_peek_array_size s.1 = true)
    (halloc : (vn_cs_decoder_alloc_temp_array a.1 sizeof_VkDescriptorImageInfo
      (a.2 % 4294967296)).2 = false) :
    vn_decode_VkWriteDescriptorSet_self_temp dec val
      = (vn_cs_decoder_set_fatal a.1, { s.2 with pImageInfo := none }) ∧
    (vn_decode_VkWriteDescriptorSet_self_temp dec val).1.fatal = true ∧
    (vn_decode_VkWriteDescriptorSet_self_temp dec val).2.pImageInfo = none ∧
    (vn_decode_VkWriteDescriptorSet_self_temp dec val).1.cur = a.1.cur ∧
    (vn_decode_VkWriteDescriptorSet_self_temp dec val).1.arena = a.1.arena ∧
    (vn_decode_VkWriteDescriptorSet_self_temp dec val).2.pBufferInfo = val.pBufferInfo ∧
    (vn_decode_VkWriteDescriptorSet_self_temp dec val).2.pTexelBufferView
      = val.pTexelBufferView := by
  subst hs ha
  have e : vn_decode_VkWriteDescriptorSet_self_temp dec val
      = (vn_cs_decoder_set_fatal
          (vn_decode_array_size (vn_decode_VkWriteDescriptorSet_self_temp_scalars dec val).1
            (vn_decode_VkWriteDescriptorSet_self_temp_scalars dec val).2.descriptorCount).1,
         { (vn_decode_VkWriteDescriptorSet_self_temp_scalars dec val).2 with
           pImageInfo := none }) := by
    have e0 : vn_decode_VkWriteDescriptorSet_self_temp dec val
        = vn_decode_VkWriteDescriptorSet_self_temp_pImageInfo
            (vn_decode_VkWriteDescriptorSet_self_temp_scalars dec val).1
            (vn_decode_VkWriteDescriptorSet_self_temp_scalars dec val).2 := rfl
    rw [e0]
    unfold vn_cs_decoder_alloc_temp_array at halloc
    have hn := alloc_temp_of_null _ _ halloc
    unfold vn_decode_VkWriteDescriptorSet_self_temp_pImageInfo
    simp only [hpeek, if_true, vn_cs_decoder_alloc_temp_array, hn, Bool.not_false]
  rw [e]
  exact ⟨rfl, rfl, rfl, rfl, rfl, rfl, rfl⟩

/-- Witness of C12: a registered `dstSet` (wire id 4), `descriptorCount` 1, a present
marker with count 1, two more bytes, and an arena of 16 bytes, too small for one 24-byte
`VkDescriptorImageInfo`. -/
theorem C12_failed_pImageInfo_allocation_returns_at_once_witness :
    (vn_decode_VkWriteDescriptorSet_self_temp
        ⟨leBytes 8 4 ++ leBytes 4 0 ++ leBytes 4 0 ++ leBytes 4 1 ++ leBytes 4 0 ++
            leBytes 8 1 ++ leBytes 8 1 ++ [7, 7], false, ⟨16, 0, 0⟩,
          [(VkObjectType.descriptorSet, 4, 9)]⟩
        { (default : VkWriteDescriptorSet) with pBufferInfo := some [] }).1.fatal = true ∧
    (vn_decode_VkWriteDescriptorSet_self_temp
        ⟨leBytes 8 4 ++ leBytes 4 0 ++ leBytes 4 0 ++ leBytes 4 1 ++ leBytes 4 0 ++
            leBytes 8 1 ++ leBytes 8 1 ++ [7, 7], false, ⟨16, 0, 0⟩,
          [(VkObjectType.descriptorSet, 4, 9)]⟩
        { (default : VkWriteDescriptorSet) with pBufferInfo := some [] }).2.pBufferInfo
      = some [] :=
  ⟨(C12_failed_pImageInfo_allocation_returns_at_once
      ⟨leBytes 8 4 ++ leBytes 4 0 ++ leBytes 4 0 ++ leBytes 4 1 ++ leBytes 4 0 ++
          leBytes 8 1 ++ leBytes 8 1 ++ [7, 7], false, ⟨16, 0, 0⟩,
        [(VkObjectType.descriptorSet, 4, 9)]⟩
      { (default : VkWriteDescriptorSet) with pBufferInfo := some [] } _ _ rfl rfl
      (by decide) (by decide)).2.1,
   (C12_failed_pImageInfo_allocation_returns_at_once
      ⟨leBytes 8 4 ++ leBytes 4 0 ++ leBytes 4 0 ++ leBytes 4 1 ++ leBytes 4 0 ++
          leBytes 8 1 ++ leBytes 8 1 ++ [7, 7], false, ⟨16, 0, 0⟩,
        [(VkObjectType.descriptorSet, 4, 9)]⟩
      { (default : VkWriteDescriptorSet) with pBufferInfo := some [] } _ _ rfl rfl
      (by decide) (by decide)).2.2.2.2.2.1⟩

/-! ## C13, C14: the size marker of `pViewFormats` -/

/-- C13. In `vn_decode_VkImageFormatListCreateInfo_self_temp` the size marker of
`pViewFormats` is checked against `viewFormatCount`, the field decoded just before it: if
the count of the marker exceeds `viewFormatCount`, fatal is set when the call returns; and
whenever the call returns without fatal, a non-null `pViewFormats` holds at most
`viewFormatCount` decoded elements. -/
theorem C13_pViewFormats_count_checked_against_viewFormatCount (dec : vn_cs_decoder)
    (val : VkImageFormatListCreateInfo) :
    ((vn_decode_uint32_t dec).2
        < (vn_decode_array_size_unchecked (vn_decode_uint32_t dec).1).2 →
      (vn_decode_VkImageFormatListCreateInfo_self_temp dec val).1.fatal = true) ∧
    ((vn_decode_VkImageFormatListCreateInfo_self_temp dec val).1.fatal = false →
      (vn_decode_VkImageFormatListCreateInfo_self_temp dec val).2.viewFormatCount
          = (vn_decode_uint32_t dec).2 ∧
      ∀ l, (vn_decode_VkImageFormatListCreateInfo_self_temp dec val).2.pViewFormats = some l →
        l.length
          ≤ (vn_decode_VkImageFormatListCreateInfo_self_temp dec val).2.viewFormatCount) := by
  have hsize : ∀ d : vn_cs_decoder, ∀ max : Nat,
      (vn_decode_array_size d max).2 = (vn_decode_array_size_unchecked d).2 := by
    intro d max
    unfold vn_decode_array_size
    simp only
    split <;> rfl
  have hfat : ∀ d : vn_cs_decoder, ∀ max : Nat, max < (vn_decode_array_size_unchecked d).2 →
      (vn_decode_array_size d max).1.fatal = true := by
    intro d max h
    unfold vn_decode_array_size
    simp only [h, if_true]
    rfl
  have part1 : (vn_decode_uint32_t dec).2
        < (vn_decode_array_size_unchecked (vn_decode_uint32_t dec).1).2 →
      (vn_decode_VkImageFormatListCreateInfo_self_temp dec val).1.fatal = true := by
    intro h
    have hf := hfat _ _ h
    unfold vn_decode_VkImageFormatListCreateInfo_self_temp
    simp only
    split
    · split
      · exact alloc_temp_fatal_mono _ _ hf
      · exact VkFormat_array_fatal_mono _ _ (alloc_temp_fatal_mono _ _ hf)
    · exact hf
  refine ⟨part1, ?_⟩
  intro hnf
  have hK : ¬ (vn_decode_uint32_t dec).2
      < (vn_decode_array_size_unchecked (vn_decode_uint32_t dec).1).2 := by
    intro h
    rw [part1 h] at hnf
    exact Bool.noConfusion hnf
  constructor
  · unfold vn_decode_VkImageFormatListCreateInfo_self_temp
    simp only
    split
    · split <;> rfl
    · rfl
  · intro l hl
    unfold vn_decode_VkImageFormatListCreateInfo_self_temp at hl ⊢
    simp only at hl ⊢
    split at hl
    · split at hl
      · simp at hl
      · simp only [Option.some.injEq] at hl
        subst hl
        rename_i h1 h2
        simp only [h1, h2, if_true, if_false, Bool.false_eq_true]
        simp only [vn_decode_VkFormat_array, decode_array_length, hsize]
        omega
    · simp at hl

/-- Witness of C13: `viewFormatCount` 1 followed by a present marker with count 2. -/
theorem C13_pViewFormats_count_checked_against_viewFormatCount_witness :
    (vn_decode_VkImageFormatListCreateInfo_self_temp
      ⟨[1, 0, 0, 0, 1, 0, 0, 0, 0, 0, 0, 0, 2, 0, 0, 0, 0, 0, 0, 0, 37, 0, 0, 0, 44, 0, 0, 0],
        false, ⟨256, 0, 0⟩, []⟩ default).1.fatal = true :=
  (C13_pViewFormats_count_checked_against_viewFormatCount
    ⟨[1, 0, 0, 0, 1, 0, 0, 0, 0, 0, 0, 0, 2, 0, 0, 0, 0, 0, 0, 0, 37, 0, 0, 0, 44, 0, 0, 0],
      false, ⟨256, 0, 0⟩, []⟩ default).1 (by decide)

/-- C14. `vn_decode_VkImageFormatListCreateInfo_self_temp` on `viewFormatCount` = 0 with an
arena that does not run out. After the count, the size marker that the encoder writes for
an array of 0 elements ("present, count 0") yields a non-null, empty `pViewFormats`; an
absent marker yields a null `pViewFormats`. In both cases no element is decoded, the
cursor ends right after the marker, and fatal is not set. -/
theorem C14_present_zero_versus_absent_pViewFormats (val : VkImageFormatListCreateInfo)
    (rest : List Byte) (a : Arena) (o : List (VkObjectType × Nat × Nat))
    (ha : a.used ≤ a.capacity) :
    vn_decode_VkImageFormatListCreateInfo_self_temp
        ⟨leBytes 4 0 ++ ((vn_encode_array_size ⟨[]⟩ 0).buf ++ rest), false, a, o⟩ val
      = (⟨rest, false, { a with allocs := a.allocs + 1 }, o⟩,
         { val with viewFormatCount := 0, pViewFormats := some [] }) ∧
    vn_decode_VkImageFormatListCreateInfo_self_temp
        ⟨leBytes 4 0 ++ (leBytes MARKER_SIZE 0 ++ rest), false, a, o⟩ val
      = (⟨rest, false, a, o⟩, { val with viewFormatCount := 0, pViewFormats := none }) := by
  constructor
  · have hb : (vn_encode_array_size ⟨[]⟩ 0).buf ++ rest
        = leBytes 8 1 ++ (leBytes 8 0 ++ rest) := by
      simp [vn_encode_array_size, MARKER_SIZE, write_buf]
    rw [hb]
    simp only [vn_decode_VkImageFormatListCreateInfo_self_temp]
    rw [decode_uint32_t_bytes 0 isUint32_zero]
    simp only []
    rw [peek_array_size_present, decode_array_size_present 0 0 isUint64_zero (Nat.le_refl 0)]
    simp only [vn_cs_decoder_alloc_temp_array, Nat.mul_zero]
    rw [alloc_temp_ok _ 0 (by simpa using ha)]
    simp [vn_decode_VkFormat_array, vn_decode_array]
  · simp only [MARKER_SIZE, vn_decode_VkImageFormatListCreateInfo_self_temp]
    rw [decode_uint32_t_bytes 0 isUint32_zero]
    simp only []
    rw [peek_array_size_absent, decode_array_size_absent]
    simp only [Bool.false_eq_true, if_false]

/-- Witness of C14: a fresh arena of 256 bytes, a destination with a stale pointer, and
two bytes left on the stream after the marker. -/
theorem C14_present_zero_versus_absent_pViewFormats_witness :
    vn_decode_VkImageFormatListCreateInfo_self_temp
        ⟨leBytes 4 0 ++ ((vn_encode_array_size ⟨[]⟩ 0).buf ++ [7, 7]), false, ⟨256, 0, 0⟩, []⟩
        ⟨1000147000, [], 3, some [37]⟩
      = (⟨[7, 7], false, ⟨256, 0, 1⟩, []⟩, ⟨1000147000, [], 0, some []⟩) ∧
    vn_decode_VkImageFormatListCreateInfo_self_temp
        ⟨leBytes 4 0 ++ (leBytes MARKER_SIZE 0 ++ [7, 7]), false, ⟨256, 0, 0⟩, []⟩
        ⟨1000147000, [], 3, some [37]⟩
      = (⟨[7, 7], false, ⟨256, 0, 0⟩, []⟩, ⟨1000147000, [], 0, none⟩) :=
  C14_present_zero_versus_absent_pViewFormats ⟨1000147000, [], 3, some [37]⟩ [7, 7]
    ⟨256, 0, 0⟩ [] (by decide)

/-! ## C15: the chain of `VkMemoryRequirements2` through encoder and decoder -/

/-- C15. For every finite chain `c` and an arena with room for one record per recognised
link, `vn_decode_VkMemoryRequirements2_pnext_partial_temp` on the bytes written by
`vn_encode_VkMemoryRequirements2_pnext` for `c` returns a chain with exactly one link per
`MEMORY_DEDICATED_REQUIREMENTS` link of `c`, whose tags are those links' tags in the order
the encoder emitted them, and fatal is not set. -/
theorem C15_chain_roundtrip_VkMemoryRequirements2 (c : List VkBaseInStructure)
    (rest : List Byte) (a : Arena) (o : List (VkObjectType × Nat × Nat))
    (hroom : a.used + sizeof_VkMemoryDedicatedRequirements * (recognisedLinks c).length
      ≤ a.capacity) :
    (vn_decode_VkMemoryRequirements2_pnext_partial_temp
        ⟨(vn_encode_VkMemoryRequirements2_pnext ⟨[]⟩ c).buf ++ rest, false, a, o⟩).2.length
      = (recognisedLinks c).length ∧
    (vn_decode_VkMemoryRequirements2_pnext_partial_temp
        ⟨(vn_encode_VkMemoryRequirements2_pnext ⟨[]⟩ c).buf ++ rest, false, a, o⟩).2.map
          (fun l => l.sType)
      = (recognisedLinks c).map (fun l => l.sType) ∧
    (vn_decode_VkMemoryRequirements2_pnext_partial_temp
        ⟨(vn_encode_VkMemoryRequirements2_pnext ⟨[]⟩ c).buf ++ rest, false, a, o⟩).1.fatal
      = false := by
  simp only [encode_VkMemoryRequirements2_pnext_buf, List.nil_append, List.append_assoc,
    decode_VkMemoryRequirements2_pnext_partial_temp_markers c _ a hroom o]
  simp [Function.comp_def]

/-- Witness of C15: two recognised links around an unrecognised one, and an arena of 256
bytes. -/
theorem C15_chain_roundtrip_VkMemoryRequirements2_witness :
    (vn_decode_VkMemoryRequirements2_pnext_partial_temp
        ⟨(vn_encode_VkMemoryRequirements2_pnext ⟨[]⟩
          [⟨VK_STRUCTURE_TYPE_MEMORY_DEDICATED_REQUIREMENTS,
              VkRecordBody.memoryDedicatedRequirements 1 0⟩,
            ⟨7, VkRecordBody.other [1]⟩,
            ⟨VK_STRUCTURE_TYPE_MEMORY_DEDICATED_REQUIREMENTS,
              VkRecordBody.memoryDedicatedRequirements 0 1⟩]).buf ++ [],
          false, ⟨256, 0, 0⟩, []⟩).2.length = 2 :=
  (C15_chain_roundtrip_VkMemoryRequirements2
    [⟨VK_STRUCTURE_TYPE_MEMORY_DEDICATED_REQUIREMENTS,
        VkRecordBody.memoryDedicatedRequirements 1 0⟩,
      ⟨7, VkRecordBody.other [1]⟩,
      ⟨VK_STRUCTURE_TYPE_MEMORY_DEDICATED_REQUIREMENTS,
        VkRecordBody.memoryDedicatedRequirements 0 1⟩]
    [] ⟨256, 0, 0⟩ [] (by decide)).1

/-! ## C16: the chain decoder of `VkWriteDescriptorSet` -/
theorem isInt32_WRITE_DESCRIPTOR_SET_INLINE_UNIFORM_BLOCK :
    isInt32 VK_STRUCTURE_TYPE_WRITE_DESCRIPTOR_SET_INLINE_UNIFORM_BLOCK := by
  unfold isInt32 VK_STRUCTURE_TYPE_WRITE_DESCRIPTOR_SET_INLINE_UNIFORM_BLOCK; decide

/-- The self decoder of an inline uniform block on the wire image of a link with a
non-null `pData`. -/
theorem decode_inlineUniformBlock_self_some (dataSize : Nat) (data : List Nat)
    (hd : isUint32 dataSize) (hl : data.length ≤ dataSize) (hb : ∀ b ∈ data, b < 256)
    (val : VkWriteDescriptorSetInlineUniformBlock)
    (rest : List Byte) (a : Arena) (o : List (VkObjectType × Nat × Nat))
    (hroom : a.used + data.length ≤ a.capacity) :
    vn_decode_VkWriteDescriptorSetInlineUniformBlock_self_temp
        ⟨inlineUniformBlockFieldBytes
          (VkRecordBody.writeDescriptorSetInlineUniformBlock dataSize (some data)) ++ rest,
          false, a, o⟩ val
      = (⟨rest, false, ⟨a.capacity, a.used + data.length, a.allocs + 1⟩, o⟩,
         { val with dataSize := dataSize, pData := some data }) := by
  have h64 : isUint64 data.length := by
    unfold isUint64
    unfold isUint32 at hd
    omega
  have hb2 : ∀ c ∈ data, c < 256 ^ 1 := by simpa using hb
  simp only [inlineUniformBlockFieldBytes, List.append_assoc,
    vn_decode_VkWriteDescriptorSetInlineUniformBlock_self_temp]
  rw [decode_uint32_t_bytes dataSize hd]
  simp only []
  rw [peek_array_size_present, decode_array_size_present data.length dataSize h64 hl]
  simp only [if_true]
  rw [alloc_temp_ok _ _ (by simpa using hroom)]
  simp only [Bool.not_true, Bool.false_eq_true, if_false, vn_decode_blob_array]
  rw [decode_scalar_array_bytes 1 data.length data rfl hb2]

/-- The self decoder of an inline uniform block on the wire image of a link with a null
`pData`. -/
theorem decode_inlineUniformBlock_self_none (dataSize : Nat)
    (hd : isUint32 dataSize) (val : VkWriteDescriptorSetInlineUniformBlock)
    (rest : List Byte) (a : Arena) (o : List (VkObjectType × Nat × Nat)) :
    vn_decode_VkWriteDescriptorSetInlineUniformBlock_self_temp
        ⟨inlineUniformBlockFieldBytes
          (VkRecordBody.writeDescriptorSetInlineUniformBlock dataSize none) ++ rest,
          false, a, o⟩ val
      = (⟨rest, false, a, o⟩, { val with dataSize := dataSize, pData := none }) := by
  simp only [inlineUniformBlockFieldBytes, List.append_assoc,
    vn_decode_VkWriteDescriptorSetInlineUniformBlock_self_temp]
  rw [decode_uint32_t_bytes dataSize hd]
  simp only []
  rw [peek_array_size_absent, decode_array_size_absent]
  simp only [Bool.false_eq_true, if_false]

theorem wireChainMarkerBytes_length (c : List VkBaseOutStructure) :
    (wireChainMarkerBytes c).length = 12 * c.length + 8 := by
  induction c with
  | nil => simp [wireChainMarkerBytes, leBytes_length]
  | cons l next ih =>
    simp only [wireChainMarkerBytes, List.length_append, leBytes_length, ih, List.length_cons]
    omega

/-- The chain that `vn_decode_VkWriteDescriptorSet_pnext_temp` builds from the wire image
of a chain of well-formed inline uniform blocks. -/
theorem decode_VkWriteDescriptorSet_pnext_wire (c : List VkBaseOutStructure)
    (hwf : ∀ l ∈ c, wellFormedInlineUniformBlock l) (fuel : Nat) (hfuel : c.length < fuel)
    (rest : List Byte) (a : Arena)
    (hroom : a.used + inlineUniformBlockArenaBytes c ≤ a.capacity)
    (o : List (VkObjectType × Nat × Nat)) :
    vn_decode_VkWriteDescriptorSet_pnext_temp_fuel fuel
        ⟨wireChainMarkerBytes c ++ (wireChainFieldBytes c ++ rest), false, a, o⟩
      = (⟨rest, false,
          ⟨a.capacity, a.used + inlineUniformBlockArenaBytes c,
            a.allocs + inlineUniformBlockArenaAllocs c⟩, o⟩, c) := by
  induction c generalizing fuel a rest with
  | nil =>
    cases fuel with
    | zero => simp at hfuel
    | succ n =>
      simp [vn_decode_VkWriteDescriptorSet_pnext_temp_fuel, wireChainMarkerBytes,
        wireChainFieldBytes, simple_pointer_absent, inlineUniformBlockArenaBytes,
        inlineUniformBlockArenaAllocs]
  | cons l next ih =>
    cases fuel with
    | zero => simp at hfuel
    | succ n =>
      have hn : next.length < n := by simpa using hfuel
      have hl := hwf l (List.mem_cons_self _ _)
      have hnext : ∀ x ∈ next, wellFormedInlineUniformBlock x :=
        fun x hx => hwf x (List.mem_cons_of_mem _ hx)
      obtain ⟨ht, hbody⟩ := hl
      have hs : sizeof_VkWriteDescriptorSetInlineUniformBlock = 32 := rfl
      obtain ⟨st, body⟩ := l
      simp only at ht hbody
      subst ht
      cases body with
      | writeDescriptorSetInlineUniformBlock dataSize pData =>
        cases pData with
        | none =>
          simp only at hbody
          simp only [inlineUniformBlockArenaBytes, hs, Nat.add_zero] at hroom
          have hroom1 : a.used + 32 ≤ a.capacity := by omega
          have ih2 := ih hnext n hn
            (inlineUniformBlockFieldBytes
              (VkRecordBody.writeDescriptorSetInlineUniformBlock dataSize none) ++ rest)
            ⟨a.capacity, a.used + 32, a.allocs + 1⟩ (by simp only; omega)
          simp only [wireChainMarkerBytes, wireChainFieldBytes, List.append_assoc,
            vn_decode_VkWriteDescriptorSet_pnext_temp_fuel, simple_pointer_present,
            vn_decode_VkStructureType,
            decode_int32_t_bytes _ isInt32_WRITE_DESCRIPTOR_SET_INLINE_UNIFORM_BLOCK,
            vn_cs_decoder_alloc_temp, hs, hroom1, Bool.not_true,
            VkWriteDescriptorSetInlineUniformBlock.toChain,
            inlineUniformBlockArenaBytes, inlineUniformBlockArenaAllocs]
          simp only [Bool.false_eq_true, if_false, if_true]
          rw [ih2]
          simp only []
          rw [decode_inlineUniformBlock_self_none dataSize hbody]
          simp only [Prod.mk.injEq, List.cons.injEq,
            vn_cs_decoder.mk.injEq, Arena.mk.injEq, and_true, true_and]
          constructor <;> omega
        | some data =>
          simp only at hbody
          obtain ⟨hd, hlen, hb⟩ := hbody
          simp only [inlineUniformBlockArenaBytes, hs] at hroom
          have hroom1 : a.used + 32 ≤ a.capacity := by omega
          have ih2 := ih hnext n hn
            (inlineUniformBlockFieldBytes
              (VkRecordBody.writeDescriptorSetInlineUniformBlock dataSize (some data)) ++ rest)
            ⟨a.capacity, a.used + 32, a.allocs + 1⟩ (by simp only; omega)
          simp only [wireChainMarkerBytes, wireChainFieldBytes, List.append_assoc,
            vn_decode_VkWriteDescriptorSet_pnext_temp_fuel, simple_pointer_present,
            vn_decode_VkStructureType,
            decode_int32_t_bytes _ isInt32_WRITE_DESCRIPTOR_SET_INLINE_UNIFORM_BLOCK,
            vn_cs_decoder_alloc_temp, hs, hroom1, Bool.not_true,
            VkWriteDescriptorSetInlineUniformBlock.toChain,
            inlineUniformBlockArenaBytes, inlineUniformBlockArenaAllocs]
          simp only [Bool.false_eq_true, if_false, if_true]
          rw [ih2]
          simp only []
          rw [decode_inlineUniformBlock_self_some dataSize data hd hlen hb _ _ _ _
            (by simp only; omega)]
          simp only [Prod.mk.injEq, List.cons.injEq,
            vn_cs_decoder.mk.injEq, Arena.mk.injEq, and_true, true_and]
          constructor <;> omega
      | memoryDedicatedRequirements p r => exact absurd hbody (by simp)
      | writeDescriptorSet _ _ _ _ _ _ _ _ => exact absurd hbody (by simp)
      | other w => exact absurd hbody (by simp)

/-- C16. `vn_decode_VkWriteDescriptorSet_pnext_temp` on the wire image of a chain `c` of
well-formed inline uniform blocks, with an arena that has room for the records and the
`pData` storage. The wire image is a present marker and the tag per link, in link order,
then one absent marker, and after that the own fields (`dataSize`, `pData`) of the links
with the last link first. The decoder returns exactly `c`: as many links as the wire
holds, in wire order, each with the fields found at its place in the reversed field
sequence. It consumes exactly that image, allocates one record per link and one block
per non-null `pData`, and does not set fatal. -/
theorem C16_chain_in_wire_order_fields_in_reverse (c : List VkBaseOutStructure)
    (hwf : ∀ l ∈ c, wellFormedInlineUniformBlock l)
    (rest : List Byte) (a : Arena)
    (hroom : a.used + inlineUniformBlockArenaBytes c ≤ a.capacity)
    (o : List (VkObjectType × Nat × Nat)) :
    vn_decode_VkWriteDescriptorSet_pnext_temp
        ⟨wireChainMarkerBytes c ++ (wireChainFieldBytes c ++ rest), false, a, o⟩
      = (⟨rest, false,
          ⟨a.capacity, a.used + inlineUniformBlockArenaBytes c,
            a.allocs + inlineUniformBlockArenaAllocs c⟩, o⟩, c) := by
  unfold vn_decode_VkWriteDescriptorSet_pnext_temp
  apply decode_VkWriteDescriptorSet_pnext_wire c hwf _ _ rest a hroom o
  simp only [List.length_append, wireChainMarkerBytes_length]
  omega

/-- Witness of C16: two links, the first with four bytes of data, the second with a null
`pData`; the fields of the second link come first on the wire. -/
theorem C16_chain_in_wire_order_fields_in_reverse_witness :
    vn_decode_VkWriteDescriptorSet_pnext_temp
        ⟨wireChainMarkerBytes
            [⟨VK_STRUCTURE_TYPE_WRITE_DESCRIPTOR_SET_INLINE_UNIFORM_BLOCK,
                VkRecordBody.writeDescriptorSetInlineUniformBlock 4 (some [1, 2, 3, 4])⟩,
              ⟨VK_STRUCTURE_TYPE_WRITE_DESCRIPTOR_SET_INLINE_UNIFORM_BLOCK,
                VkRecordBody.writeDescriptorSetInlineUniformBlock 9 none⟩] ++
          (wireChainFieldBytes
            [⟨VK_STRUCTURE_TYPE_WRITE_DESCRIPTOR_SET_INLINE_UNIFORM_BLOCK,
                VkRecordBody.writeDescriptorSetInlineUniformBlock 4 (some [1, 2, 3, 4])⟩,
              ⟨VK_STRUCTURE_TYPE_WRITE_DESCRIPTOR_SET_INLINE_UNIFORM_BLOCK,
                VkRecordBody.writeDescriptorSetInlineUniformBlock 9 none⟩] ++ [7]),
          false, ⟨256, 0, 0⟩, []⟩
      = (⟨[7], false, ⟨256, 68, 3⟩, []⟩,
          [⟨VK_STRUCTURE_TYPE_WRITE_DESCRIPTOR_SET_INLINE_UNIFORM_BLOCK,
              VkRecordBody.writeDescriptorSetInlineUniformBlock 4 (some [1, 2, 3, 4])⟩,
            ⟨VK_STRUCTURE_TYPE_WRITE_DESCRIPTOR_SET_INLINE_UNIFORM_BLOCK,
              VkRecordBody.writeDescriptorSetInlineUniformBlock 9 none⟩]) :=
  C16_chain_in_wire_order_fields_in_reverse
    [⟨VK_STRUCTURE_TYPE_WRITE_DESCRIPTOR_SET_INLINE_UNIFORM_BLOCK,
        VkRecordBody.writeDescriptorSetInlineUniformBlock 4 (some [1, 2, 3, 4])⟩,
      ⟨VK_STRUCTURE_TYPE_WRITE_DESCRIPTOR_SET_INLINE_UNIFORM_BLOCK,
        VkRecordBody.writeDescriptorSetInlineUniformBlock 9 none⟩]
    (by
      intro l hl
      simp only [List.mem_cons, List.mem_singleton, List.not_mem_nil, or_false] at hl
      rcases hl with h | h <;> subst h
      · exact ⟨rfl, by unfold isUint32; decide, by decide, by decide⟩
      · exact ⟨rfl, by unfold isUint32; decide⟩)
    [7] ⟨256, 0, 0⟩ (by decide) []

/-! ## C17: an absent pointer marker -/

/-- C17. Every chain decoder of the file (the nine `vn_decode_*_pnext_temp` and the two
`vn_decode_*_pnext_partial_temp`), called with fatal clear on a stream that starts with an
absent pointer marker (a marker of value 0), returns the empty chain and the decoder with
only the cursor moved past that marker: nothing is allocated and fatal stays clear. -/
theorem C17_absent_marker_gives_empty_chain (dec : vn_cs_decoder) (hf : dec.fatal = false)
    (h8 : MARKER_SIZE ≤ dec.cur.length) (h0 : leValue (dec.cur.take MARKER_SIZE) = 0) :
    vn_decode_VkSemaphoreTypeCreateInfo_pnext_temp dec
      = ({ dec with cur := dec.cur.drop MARKER_SIZE }, []) ∧
    vn_decode_VkImageFormatListCreateInfo_pnext_temp dec
      = ({ dec with cur := dec.cur.drop MARKER_SIZE }, []) ∧
    vn_decode_VkImageStencilUsageCreateInfo_pnext_temp dec
      = ({ dec with cur := dec.cur.drop MARKER_SIZE }, []) ∧
    vn_decode_VkSamplerYcbcrConversionInfo_pnext_temp dec
      = ({ dec with cur := dec.cur.drop MARKER_SIZE }, []) ∧
    vn_decode_VkShaderModuleCreateInfo_pnext_temp dec
      = ({ dec with cur := dec.cur.drop MARKER_SIZE }, []) ∧
    vn_decode_VkMutableDescriptorTypeCreateInfoEXT_pnext_temp dec
      = ({ dec with cur := dec.cur.drop MARKER_SIZE }, []) ∧
    vn_decode_VkWriteDescriptorSetInlineUniformBlock_pnext_temp dec
      = ({ dec with cur := dec.cur.drop MARKER_SIZE }, []) ∧
    vn_decode_VkWriteDescriptorSet_pnext_temp dec
      = ({ dec with cur := dec.cur.drop MARKER_SIZE }, []) ∧
    vn_decode_VkMemoryDedicatedRequirements_pnext_partial_temp dec
      = ({ dec with cur := dec.cur.drop MARKER_SIZE }, []) ∧
    vn_decode_VkMemoryRequirements2_pnext_partial_temp dec
      = ({ dec with cur := dec.cur.drop MARKER_SIZE }, []) ∧
    vn_decode_VkMemoryBarrier2_pnext_temp dec
      = ({ dec with cur := dec.cur.drop MARKER_SIZE }, []) := by
  have hs := simple_pointer_absent_of_token dec hf h8 h0
  refine ⟨?_, ?_, ?_, ?_, ?_, ?_, ?_, ?_, ?_, ?_, ?_⟩
  · simp [vn_decode_VkSemaphoreTypeCreateInfo_pnext_temp, hs]
  · simp [vn_decode_VkImageFormatListCreateInfo_pnext_temp, hs]
  · simp [vn_decode_VkImageStencilUsageCreateInfo_pnext_temp, hs]
  · simp [vn_decode_VkSamplerYcbcrConversionInfo_pnext_temp, hs]
  · simp [vn_decode_VkShaderModuleCreateInfo_pnext_temp, hs]
  · simp [vn_decode_VkMutableDescriptorTypeCreateInfoEXT_pnext_temp, hs]
  · simp [vn_decode_VkWriteDescriptorSetInlineUniformBlock_pnext_temp, hs]
  · simp [vn_decode_VkWriteDescriptorSet_pnext_temp,
      vn_decode_VkWriteDescriptorSet_pnext_temp_fuel, hs]
  · simp [vn_decode_VkMemoryDedicatedRequirements_pnext_partial_temp, hs]
  · simp [vn_decode_VkMemoryRequirements2_pnext_partial_temp,
      vn_decode_VkMemoryRequirements2_pnext_partial_temp_fuel, hs]
  · simp [vn_decode_VkMemoryBarrier2_pnext_temp, hs]

/-- Witness of C17: an absent marker followed by one more byte. -/
theorem C17_absent_marker_gives_empty_chain_witness :
    vn_decode_VkWriteDescriptorSet_pnext_temp
        ⟨[0, 0, 0, 0, 0, 0, 0, 0, 9], false, ⟨256, 16, 1⟩, []⟩
      = (⟨[9], false, ⟨256, 16, 1⟩, []⟩, []) :=
  (C17_absent_marker_gives_empty_chain ⟨[0, 0, 0, 0, 0, 0, 0, 0, 9], false, ⟨256, 16, 1⟩, []⟩
    rfl (by decide) (by decide)).2.2.2.2.2.2.2.1

/-! ## C18, C19: the handle pass over a `VkWriteDescriptorSet` -/

/-- C20 as stated does not hold: for a `VkMemoryRequirements2` with a null `pNext` the
bytes written by `vn_encode_VkMemoryRequirements2` differ from the layout "tag, own
fields, chain": the code writes the absent pointer marker of the chain before the
fields. -/
theorem C20_counterexample :
    vn_encode_VkMemoryRequirements2 ⟨[]⟩
        ⟨VK_STRUCTURE_TYPE_MEMORY_REQUIREMENTS_2, [], ⟨4096, 256, 3⟩⟩
      ≠ encode_VkMemoryRequirements2_fields_then_chain ⟨[]⟩
        ⟨VK_STRUCTURE_TYPE_MEMORY_REQUIREMENTS_2, [], ⟨4096, 256, 3⟩⟩ := by
  decide

/-- C20 (as amended). `vn_encode_VkMemoryRequirements2` appends, for every value, the type
tag `MEMORY_REQUIREMENTS_2` first, then the encoding of the extension chain, and only then
the struct's own fields in declared order: `memoryRequirements.size`, `.alignment`,
`.memoryTypeBits`. -/
theorem C20_tag_then_chain_then_fields (enc : vn_cs_encoder) (val : VkMemoryRequirements2) :
    (vn_encode_VkMemoryRequirements2 enc val).buf
      = enc.buf ++ (leBytes 4 (int32Bits VK_STRUCTURE_TYPE_MEMORY_REQUIREMENTS_2) ++
          ((vn_encode_VkMemoryRequirements2_pnext ⟨[]⟩ val.pNext).buf ++
            (leBytes 8 val.memoryRequirements.size ++
              (leBytes 8 val.memoryRequirements.alignment ++
                leBytes 4 val.memoryRequirements.memoryTypeBits)))) := by
  simp [vn_encode_VkMemoryRequirements2, vn_encode_VkMemoryRequirements2_self,
    encode_VkMemoryRequirements_buf, encode_VkMemoryRequirements2_pnext_buf,
    encode_VkStructureType_buf]

/-! ## C21: fixed-length character arrays on the wire -/

theorem scalarArrayBytes_length (size n : Nat) (vals : List Nat) :
    (scalarArrayBytes size n vals).length = size * n := by
  induction n generalizing vals with
  | zero => simp [scalarArrayBytes]
  | succ n ih =>
    simp only [scalarArrayBytes, List.length_append, leBytes_length, ih]
    rw [Nat.mul_succ]
    omega

theorem encode_array_size_buf (enc : vn_cs_encoder) (n : Nat) :
    (vn_encode_array_size enc n).buf = enc.buf ++ (leBytes 8 1 ++ leBytes 8 n) := by
  simp [vn_encode_array_size, MARKER_SIZE, write_buf]

theorem encode_VkLayerProperties_buf (enc : vn_cs_encoder) (x : VkLayerProperties) :
    (vn_encode_VkLayerProperties enc x).buf = enc.buf ++ (leBytes 8 1 ++ (leBytes 8 256 ++
      (scalarArrayBytes 1 256 x.layerName ++ (leBytes 4 x.specVersion ++
        (leBytes 4 x.implementationVersion ++ (leBytes 8 1 ++ (leBytes 8 256 ++
          scalarArrayBytes 1 256 x.description))))))) := by
  simp [vn_encode_VkLayerProperties, vn_encode_array_size, vn_encode_char_array,
    vn_encode_uint32_t, MARKER_SIZE, VK_MAX_EXTENSION_NAME_SIZE, VK_MAX_DESCRIPTION_SIZE,
    write_buf, encode_scalar_array_buf]

theorem encode_VkExtensionProperties_elements_only_buf (enc : vn_cs_encoder)
    (x : VkExtensionProperties) :
    (encode_VkExtensionProperties_elements_only enc x).buf
      = enc.buf ++ (scalarArrayBytes 1 256 x.extensionName ++ leBytes 4 x.specVersion) := by
  simp [encode_VkExtensionProperties_elements_only, vn_encode_char_array, vn_encode_uint32_t,
    VK_MAX_EXTENSION_NAME_SIZE, write_buf, encode_scalar_array_buf]

theorem encode_VkLayerProperties_elements_only_buf (enc : vn_cs_encoder)
    (x : VkLayerProperties) :
    (encode_VkLayerProperties_elements_only enc x).buf
      = enc.buf ++ (scalarArrayBytes 1 256 x.layerName ++ (leBytes 4 x.specVersion ++
          (leBytes 4 x.implementationVersion ++ scalarArrayBytes 1 256 x.description))) := by
  simp [encode_VkLayerProperties_elements_only, vn_encode_char_array, vn_encode_uint32_t,
    VK_MAX_EXTENSION_NAME_SIZE, VK_MAX_DESCRIPTION_SIZE, write_buf, encode_scalar_array_buf]

/-- C21 as stated does not hold: for a `VkExtensionProperties` and a `VkLayerProperties`
with 256-character names, what the encoders write differs from the layout "the N
elements of each character array with no size marker before them": the code writes a
size marker before every character array. -/
theorem C21_counterexample :
    vn_encode_VkExtensionProperties ⟨[]⟩ ⟨List.replicate 256 65, 1⟩
      ≠ encode_VkExtensionProperties_elements_only ⟨[]⟩ ⟨List.replicate 256 65, 1⟩ ∧
    vn_encode_VkLayerProperties ⟨[]⟩ ⟨List.replicate 256 65, 1, 2, List.replicate 256 66⟩
      ≠ encode_VkLayerProperties_elements_only ⟨[]⟩
          ⟨List.replicate 256 65, 1, 2, List.replicate 256 66⟩ := by
  constructor
  · intro h
    have hl := congrArg (fun e => e.buf.length) h
    simp only [encode_VkExtensionProperties_buf, encode_VkExtensionProperties_elements_only_buf,
      List.length_append, leBytes_length, scalarArrayBytes_length, List.length_nil] at hl
    omega
  · intro h
    have hl := congrArg (fun e => e.buf.length) h
    simp only [encode_VkLayerProperties_buf, encode_VkLayerProperties_elements_only_buf,
      List.length_append, leBytes_length, scalarArrayBytes_length, List.length_nil] at hl
    omega

/-- C21 (as amended). `vn_encode_VkExtensionProperties` and `vn_encode_VkLayerProperties`
write each fixed-length character array (`extensionName`, `layerName`, `description`) as
the size marker for its length N, a present marker with count N, followed by its N
consecutive one-byte elements; the scalar fields stand between and after the arrays in
declared order. The last two conjuncts spell the marker (16 bytes) and the length of the
element block out. -/
theorem C21_fixed_char_arrays_follow_a_size_marker (enc : vn_cs_encoder)
    (x : VkExtensionProperties) (y : VkLayerProperties) :
    (vn_encode_VkExtensionProperties enc x).buf
      = enc.buf ++ ((vn_encode_array_size ⟨[]⟩ VK_MAX_EXTENSION_NAME_SIZE).buf ++
          (scalarArrayBytes 1 VK_MAX_EXTENSION_NAME_SIZE x.extensionName ++
            leBytes 4 x.specVersion)) ∧
    (vn_encode_VkLayerProperties enc y).buf
      = enc.buf ++ ((vn_encode_array_size ⟨[]⟩ VK_MAX_EXTENSION_NAME_SIZE).buf ++
          (scalarArrayBytes 1 VK_MAX_EXTENSION_NAME_SIZE y.layerName ++
            (leBytes 4 y.specVersion ++ (leBytes 4 y.implementationVersion ++
              ((vn_encode_array_size ⟨[]⟩ VK_MAX_DESCRIPTION_SIZE).buf ++
                scalarArrayBytes 1 VK_MAX_DESCRIPTION_SIZE y.description))))) ∧
    (∀ n, (vn_encode_array_size ⟨[]⟩ n).buf = leBytes 8 1 ++ leBytes 8 n) ∧
    (∀ n vals, (scalarArrayBytes 1 n vals).length = n) := by
  refine ⟨?_, ?_, ?_, ?_⟩
  · simp [encode_VkExtensionProperties_buf, encode_array_size_buf, VK_MAX_EXTENSION_NAME_SIZE]
  · simp [encode_VkLayerProperties_buf, encode_array_size_buf, VK_MAX_EXTENSION_NAME_SIZE,
      VK_MAX_DESCRIPTION_SIZE]
  · intro n
    simp [encode_array_size_buf]
  · intro n vals
    simp [scalarArrayBytes_length]


/-! ## C22: the chain encoder on every finite chain -/

theorem recognisedLinks_cons_of_tag (l : VkBaseInStructure) (next : List VkBaseInStructure)
    (h : l.sType = VK_STRUCTURE_TYPE_MEMORY_DEDICATED_REQUIREMENTS) :
    recognisedLinks (l :: next) = l :: recognisedLinks next := by
  simp [recognisedLinks, h]

theorem recognisedLinks_cons_of_other (l : VkBaseInStructure) (next : List VkBaseInStructure)
    (h : l.sType ≠ VK_STRUCTURE_TYPE_MEMORY_DEDICATED_REQUIREMENTS) :
    recognisedLinks (l :: next) = recognisedLinks next := by
  simp [recognisedLinks, h]

theorem recognisedLinks_idem (c : List VkBaseInStructure) :
    recognisedLinks (recognisedLinks c) = recognisedLinks c := by
  simp [recognisedLinks]

/-- The markers and tags written for a chain, link by recognised link. -/
theorem pnextMarkerBytes_eq (c : List VkBaseInStructure) :
    pnextMarkerBytes c
      = (recognisedLinks c).flatMap (fun _ => leBytes 8 1 ++
          leBytes 4 (int32Bits VK_STRUCTURE_TYPE_MEMORY_DEDICATED_REQUIREMENTS))
        ++ leBytes 8 0 := by
  induction c with
  | nil => simp [pnextMarkerBytes, recognisedLinks]
  | cons l next ih =>
    by_cases h : l.sType = VK_STRUCTURE_TYPE_MEMORY_DEDICATED_REQUIREMENTS
    · rw [recognisedLinks_cons_of_tag l next h]
      simp only [pnextMarkerBytes, h, if_true, ih, List.flatMap_cons, List.append_assoc]
    · rw [recognisedLinks_cons_of_other l next h]
      simp only [pnextMarkerBytes, h, if_false, ih]

/-- The booleans written for a chain: those of the recognised links, last link first. -/
theorem pnextFieldBytes_eq (c : List VkBaseInStructure) :
    pnextFieldBytes c
      = (recognisedLinks c).reverse.flatMap (fun l =>
          leBytes 4 (l.asMemoryDedicatedRequirements []).prefersDedicatedAllocation ++
          leBytes 4 (l.asMemoryDedicatedRequirements []).requiresDedicatedAllocation) := by
  induction c with
  | nil => simp [pnextFieldBytes, recognisedLinks]
  | cons l next ih =>
    by_cases h : l.sType = VK_STRUCTURE_TYPE_MEMORY_DEDICATED_REQUIREMENTS
    · rw [recognisedLinks_cons_of_tag l next h]
      have hb : ∀ n : List VkBaseOutStructure,
          (l.asMemoryDedicatedRequirements n).prefersDedicatedAllocation
            = (l.asMemoryDedicatedRequirements []).prefersDedicatedAllocation ∧
          (l.asMemoryDedicatedRequirements n).requiresDedicatedAllocation
            = (l.asMemoryDedicatedRequirements []).requiresDedicatedAllocation := by
        intro n
        unfold VkBaseOutStructure.asMemoryDedicatedRequirements
        split <;> exact ⟨rfl, rfl⟩
      simp only [pnextFieldBytes, h, if_true, ih, List.reverse_cons, List.flatMap_append,
        List.flatMap_cons, List.flatMap_nil, List.append_nil,
        encode_VkMemoryDedicatedRequirements_self_buf, List.nil_append, (hb next).1,
        (hb next).2]
    · rw [recognisedLinks_cons_of_other l next h]
      simp only [pnextFieldBytes, h, if_false, ih]

theorem encoder_ext (a b : vn_cs_encoder) (h : a.buf = b.buf) : a = b := by
  cases a; cases b; simp_all


theorem pnextFieldBytes_length (c : List VkBaseInStructure) :
    (pnextFieldBytes c).length = 8 * (recognisedLinks c).length := by
  induction c with
  | nil => simp [pnextFieldBytes, recognisedLinks]
  | cons l next ih =>
    by_cases h : l.sType = VK_STRUCTURE_TYPE_MEMORY_DEDICATED_REQUIREMENTS
    · rw [recognisedLinks_cons_of_tag l next h]
      simp only [pnextFieldBytes, h, if_true, List.length_append, ih,
        encode_VkMemoryDedicatedRequirements_self_buf, List.nil_append, leBytes_length,
        List.length_cons]
      omega
    · rw [recognisedLinks_cons_of_other l next h]
      simp only [pnextFieldBytes, h, if_false, ih]

/-- C22. `vn_encode_VkMemoryRequirements2_pnext` returns on every finite chain, whatever
tags its links carry: the encoder it returns keeps the bytes written before the call and
has 8 bytes more for the absent marker and 20 more for every
`MEMORY_DEDICATED_REQUIREMENTS` link. On a chain made only of unrecognised links it
writes the absent marker and nothing else. The encoder has no failure state. -/
theorem C22_chain_encoder_is_total (enc : vn_cs_encoder) (c : List VkBaseInStructure) :
    (∃ out, vn_encode_VkMemoryRequirements2_pnext enc c = out ∧
      out.buf.take enc.buf.length = enc.buf ∧
      out.buf.length = enc.buf.length + 20 * (recognisedLinks c).length + 8) ∧
    ((∀ l ∈ c, l.sType ≠ VK_STRUCTURE_TYPE_MEMORY_DEDICATED_REQUIREMENTS) →
      (vn_encode_VkMemoryRequirements2_pnext enc c).buf = enc.buf ++ leBytes 8 0) := by
  constructor
  · refine ⟨_, rfl, ?_, ?_⟩
    · rw [encode_VkMemoryRequirements2_pnext_buf]
      simp
    · rw [encode_VkMemoryRequirements2_pnext_buf]
      simp only [List.length_append, pnextMarkerBytes_length, pnextFieldBytes_length]
      omega
  · intro h
    have hr : recognisedLinks c = [] := by
      unfold recognisedLinks
      rw [List.filter_eq_nil_iff]
      intro l hl
      simpa using h l hl
    rw [encode_VkMemoryRequirements2_pnext_buf, pnextMarkerBytes_eq, pnextFieldBytes_eq, hr]
    simp

/-- Witness of C22: a chain of two links, neither of them recognised. -/
theorem C22_chain_encoder_is_total_witness :
    (vn_encode_VkMemoryRequirements2_pnext ⟨[9]⟩
        [⟨0, VkRecordBody.other []⟩, ⟨7, VkRecordBody.other [1]⟩]).buf
      = [9] ++ leBytes 8 0 :=
  (C22_chain_encoder_is_total ⟨[9]⟩
    [⟨0, VkRecordBody.other []⟩, ⟨7, VkRecordBody.other [1]⟩]).2 (by decide)

/-! ## C23: the depth of the chain decoder's recursion -/

theorem int32_t_nonzero_consumes (dec : vn_cs_decoder) (h : (vn_decode_int32_t dec).2 ≠ 0) :
    (vn_decode_int32_t dec).1.cur.length + 4 ≤ dec.cur.length := by
  unfold vn_decode_int32_t vn_cs_decoder_read at h ⊢
  simp only at h ⊢
  split at h
  · simp [int32OfBits] at h
  · split at h
    · simp [int32OfBits] at h
    · rename_i h1 h2
      simp only [h1, h2, if_false, Bool.false_eq_true, List.length_drop]
      omega

theorem pnext_temp_unfold (dec : vn_cs_decoder) (fuel : Nat) (h : dec.cur.length < fuel) :
    vn_decode_VkWriteDescriptorSet_pnext_temp_fuel fuel dec
      = vn_decode_VkWriteDescriptorSet_pnext_temp dec :=
  vn_decode_VkWriteDescriptorSet_pnext_temp_fuel_stable fuel (dec.cur.length + 1) dec h
    (Nat.lt_succ_self _)

/-- With a depth allowance above a twelfth of the remaining bytes, the depth-counting
chain decoder returns, and returns what `vn_decode_VkWriteDescriptorSet_pnext_temp`
returns. -/
theorem pnext_temp_bounded_eq (depth : Nat) (dec : vn_cs_decoder)
    (h : dec.cur.length < 12 * depth) :
    vn_decode_VkWriteDescriptorSet_pnext_temp_bounded depth dec
      = some (vn_decode_VkWriteDescriptorSet_pnext_temp dec) := by
  induction depth generalizing dec with
  | zero => omega
  | succ n ih =>
    rw [← pnext_temp_unfold dec (dec.cur.length + 1) (Nat.lt_succ_self _)]
    simp only [vn_decode_VkWriteDescriptorSet_pnext_temp_bounded,
      vn_decode_VkWriteDescriptorSet_pnext_temp_fuel]
    by_cases hp : (vn_decode_simple_pointer dec).2 = true
    · simp only [hp, Bool.not_true, Bool.false_eq_true, if_false]
      by_cases ht : (vn_decode_VkStructureType (vn_decode_simple_pointer dec).1).2
          = VK_STRUCTURE_TYPE_WRITE_DESCRIPTOR_SET_INLINE_UNIFORM_BLOCK
      · simp only [ht, if_true]
        by_cases ha : (vn_cs_decoder_alloc_temp
            (vn_decode_VkStructureType (vn_decode_simple_pointer dec).1).1
            sizeof_VkWriteDescriptorSetInlineUniformBlock).2 = true
        · simp only [ha, if_true]
          have hc := simple_pointer_present_consumes dec hp
          have hnz : (vn_decode_int32_t (vn_decode_simple_pointer dec).1).2 ≠ 0 := by
            have := ht
            unfold vn_decode_VkStructureType at this
            rw [this]
            decide
          have hs := int32_t_nonzero_consumes _ hnz
          have hcur := alloc_temp_cur
            (vn_decode_VkStructureType (vn_decode_simple_pointer dec).1).1
            sizeof_VkWriteDescriptorSetInlineUniformBlock
          have hlen : (vn_cs_decoder_alloc_temp
              (vn_decode_VkStructureType (vn_decode_simple_pointer dec).1).1
              sizeof_VkWriteDescriptorSetInlineUniformBlock).1.cur.length + 12
                ≤ dec.cur.length := by
            rw [hcur]
            unfold vn_decode_VkStructureType
            omega
          rw [ih _ (by omega), pnext_temp_unfold _ _ (by omega)]
        · simp [ha]
      · simp [ht]
    · simp [hp]

theorem inlineUniformBlock_self_temp_pNext (dec : vn_cs_decoder)
    (v : VkWriteDescriptorSetInlineUniformBlock) :
    (vn_decode_VkWriteDescriptorSetInlineUniformBlock_self_temp dec v).2.pNext = v.pNext := by
  unfold vn_decode_VkWriteDescriptorSetInlineUniformBlock_self_temp
  simp only
  split
  · split <;> rfl
  · rfl

/-- Every link that the chain decoder returns stands for a present marker and a tag, twelve
bytes, taken from the stream. -/
theorem pnext_temp_bounded_length (depth : Nat) (dec : vn_cs_decoder)
    (r : vn_cs_decoder × List VkBaseOutStructure)
    (h : vn_decode_VkWriteDescriptorSet_pnext_temp_bounded depth dec = some r) :
    12 * r.2.length ≤ dec.cur.length := by
  induction depth generalizing dec r with
  | zero => simp [vn_decode_VkWriteDescriptorSet_pnext_temp_bounded] at h
  | succ n ih =>
    simp only [vn_decode_VkWriteDescriptorSet_pnext_temp_bounded] at h
    by_cases hp : (vn_decode_simple_pointer dec).2 = true
    · simp only [hp, Bool.not_true, Bool.false_eq_true, if_false] at h
      by_cases ht : (vn_decode_VkStructureType (vn_decode_simple_pointer dec).1).2
          = VK_STRUCTURE_TYPE_WRITE_DESCRIPTOR_SET_INLINE_UNIFORM_BLOCK
      · simp only [ht, if_true] at h
        by_cases ha : (vn_cs_decoder_alloc_temp
            (vn_decode_VkStructureType (vn_decode_simple_pointer dec).1).1
            sizeof_VkWriteDescriptorSetInlineUniformBlock).2 = true
        · simp only [ha, if_true] at h
          have hc := simple_pointer_present_consumes dec hp
          have hnz : (vn_decode_int32_t (vn_decode_simple_pointer dec).1).2 ≠ 0 := by
            have := ht
            unfold vn_decode_VkStructureType at this
            rw [this]
            decide
          have hs := int32_t_nonzero_consumes _ hnz
          have hcur := alloc_temp_cur
            (vn_decode_VkStructureType (vn_decode_simple_pointer dec).1).1
            sizeof_VkWriteDescriptorSetInlineUniformBlock
          cases hrec : vn_decode_VkWriteDescriptorSet_pnext_temp_bounded n
              (vn_cs_decoder_alloc_temp
                (vn_decode_VkStructureType (vn_decode_simple_pointer dec).1).1
                sizeof_VkWriteDescriptorSetInlineUniformBlock).1 with
          | none => simp [hrec] at h
          | some q =>
            have hq := ih _ q hrec
            rw [hcur] at hq
            unfold vn_decode_VkStructureType at hq
            simp only [hrec, Option.some.injEq] at h
            subst h
            simp only [VkWriteDescriptorSetInlineUniformBlock.toChain, List.length_cons,
              inlineUniformBlock_self_temp_pNext]
            omega
        · simp only [ha, Bool.false_eq_true, if_false, Option.some.injEq] at h
          subst h
          simp
      · simp only [ht, if_false, Option.some.injEq] at h
        subst h
        simp
    · simp only [hp, Bool.not_false, if_true, Option.some.injEq] at h
      subst h
      simp

/-- C23. `vn_decode_VkWriteDescriptorSet_temp` returns on every byte stream and every
arena state. With the nested calls of `vn_decode_VkWriteDescriptorSet_pnext_temp`
counted, any allowance `depth` above a twelfth of the remaining bytes is enough for both
functions to return, and they return what the functions of the embedding return (with
fatal set or not): every nested call follows a present marker (8 bytes) and a tag (4
bytes) taken from the stream. The chain returned has at most one link per 12 bytes of
the stream. -/
theorem C23_decode_completes_within_stream_length (dec : vn_cs_decoder)
    (val : VkWriteDescriptorSet) (depth : Nat) (h : dec.cur.length < 12 * depth) :
    vn_decode_VkWriteDescriptorSet_temp_bounded depth dec val
      = some (vn_decode_VkWriteDescriptorSet_temp dec val) ∧
    vn_decode_VkWriteDescriptorSet_pnext_temp_bounded depth dec
      = some (vn_decode_VkWriteDescriptorSet_pnext_temp dec) ∧
    12 * (vn_decode_VkWriteDescriptorSet_pnext_temp dec).2.length ≤ dec.cur.length := by
  have h2 := pnext_temp_bounded_eq depth dec h
  refine ⟨?_, h2, pnext_temp_bounded_length depth dec _ h2⟩
  have hlen : ∀ d : vn_cs_decoder, d.cur.length ≤ dec.cur.length →
      vn_decode_VkWriteDescriptorSet_pnext_temp_bounded depth d
        = some (vn_decode_VkWriteDescriptorSet_pnext_temp d) :=
    fun d hd => pnext_temp_bounded_eq depth d (by omega)
  have hr := read_cur_length_le dec 4
  have hd : (if (vn_decode_VkStructureType dec).2 ≠ VK_STRUCTURE_TYPE_WRITE_DESCRIPTOR_SET
      then vn_cs_decoder_set_fatal (vn_decode_VkStructureType dec).1
      else (vn_decode_VkStructureType dec).1).cur.length ≤ dec.cur.length := by
    split <;> exact hr
  unfold vn_decode_VkWriteDescriptorSet_temp_bounded vn_decode_VkWriteDescriptorSet_temp
  simp only [hlen _ hd]

/-- Witness of C23: a stream that ends three bytes after a present marker. -/
theorem C23_decode_completes_within_stream_length_witness :
    vn_decode_VkWriteDescriptorSet_temp_bounded 2
        ⟨leBytes 4 35 ++ leBytes 8 1 ++ [1, 2, 3], false, ⟨256, 0, 0⟩, []⟩ default
      = some (vn_decode_VkWriteDescriptorSet_temp
        ⟨leBytes 4 35 ++ leBytes 8 1 ++ [1, 2, 3], false, ⟨256, 0, 0⟩, []⟩ default) :=
  (C23_decode_completes_within_stream_length
    ⟨leBytes 4 35 ++ leBytes 8 1 ++ [1, 2, 3], false, ⟨256, 0, 0⟩, []⟩ default 2
    (by decide)).1

/-! ## C24: `vn_encode_VkSparseImageFormatProperties` -/

/-- C24. `vn_encode_VkSparseImageFormatProperties` appends, for every value, `aspectMask`,
`imageGranularity.width`, `.height`, `.depth` and `flags`, each as a 4-byte scalar in
that order: exactly 20 bytes, whatever the field values are. The encoder has no failure
state. -/
theorem C24_VkSparseImageFormatProperties_is_twenty_bytes (enc : vn_cs_encoder)
    (val : VkSparseImageFormatProperties) :
    (vn_encode_VkSparseImageFormatProperties enc val).buf
      = enc.buf ++ (leBytes 4 val.aspectMask ++ (leBytes 4 val.imageGranularity.width ++
          (leBytes 4 val.imageGranularity.height ++ (leBytes 4 val.imageGranularity.depth ++
            leBytes 4 val.flags)))) ∧
    (vn_encode_VkSparseImageFormatProperties enc val).buf.length = enc.buf.length + 20 := by
  have h : (vn_encode_VkSparseImageFormatProperties enc val).buf
      = enc.buf ++ (leBytes 4 val.aspectMask ++ (leBytes 4 val.imageGranularity.width ++
          (leBytes 4 val.imageGranularity.height ++ (leBytes 4 val.imageGranularity.depth ++
            leBytes 4 val.flags)))) := by
    simp [vn_encode_VkSparseImageFormatProperties, vn_encode_VkFlags, vn_encode_uint32_t,
      encode_VkExtent3D_buf, write_buf]
  refine ⟨h, ?_⟩
  rw [h]
  simp only [List.length_append, leBytes_length]

/-! ## C26: chains without a known extension -/

theorem simple_pointer_of_marker (dec : vn_cs_decoder) (hf : dec.fatal = false)
    (h8 : MARKER_SIZE ≤ dec.cur.length) :
    vn_decode_simple_pointer dec
      = ({ dec with cur := dec.cur.drop MARKER_SIZE },
         leValue (dec.cur.take MARKER_SIZE) != 0) := by
  simp [vn_decode_simple_pointer, vn_cs_decoder_read, hf, Nat.not_lt.mpr h8]

/-- C26. The nine chain decoders of structs without a known extension. Each returns the
null chain in every state. Started with fatal clear on a stream that holds a whole
pointer marker, each consumes exactly that marker, leaves the arena as it was, and ends
with fatal set if and only if the marker is present (its value is not 0): the tag after
a present marker stays on the stream. -/
theorem C26_no_known_extension_chain (dec : vn_cs_decoder) :
    (     (vn_decode_VkSemaphoreTypeCreateInfo_pnext_temp dec).2 = [] ∧
     (vn_decode_VkImageFormatListCreateInfo_pnext_temp dec).2 = [] ∧
     (vn_decode_VkImageStencilUsageCreateInfo_pnext_temp dec).2 = [] ∧
     (vn_decode_VkSamplerYcbcrConversionInfo_pnext_temp dec).2 = [] ∧
     (vn_decode_VkShaderModuleCreateInfo_pnext_temp dec).2 = [] ∧
     (vn_decode_VkMutableDescriptorTypeCreateInfoEXT_pnext_temp dec).2 = [] ∧
     (vn_decode_VkWriteDescriptorSetInlineUniformBlock_pnext_temp dec).2 = [] ∧
     (vn_decode_VkMemoryDedicatedRequirements_pnext_partial_temp dec).2 = [] ∧
     (vn_decode_VkMemoryBarrier2_pnext_temp dec).2 = []) ∧
    (dec.fatal = false → MARKER_SIZE ≤ dec.cur.length →
      vn_decode_VkSemaphoreTypeCreateInfo_pnext_temp dec
        = ({ dec with cur := dec.cur.drop MARKER_SIZE,
                      fatal := leValue (dec.cur.take MARKER_SIZE) != 0 }, []) ∧
      vn_decode_VkImageFormatListCreateInfo_pnext_temp dec
        = ({ dec with cur := dec.cur.drop MARKER_SIZE,
                      fatal := leValue (dec.cur.take MARKER_SIZE) != 0 }, []) ∧
      vn_decode_VkImageStencilUsageCreateInfo_pnext_temp dec
        = ({ dec with cur := dec.cur.drop MARKER_SIZE,
                      fatal := leValue (dec.cur.take MARKER_SIZE) != 0 }, []) ∧
      vn_decode_VkSamplerYcbcrConversionInfo_pnext_temp dec
        = ({ dec with cur := dec.cur.drop MARKER_SIZE,
                      fatal := leValue (dec.cur.take MARKER_SIZE) != 0 }, []) ∧
      vn_decode_VkShaderModuleCreateInfo_pnext_temp dec
        = ({ dec with cur := dec.cur.drop MARKER_SIZE,
                      fatal := leValue (dec.cur.take MARKER_SIZE) != 0 }, []) ∧
      vn_decode_VkMutableDescriptorTypeCreateInfoEXT_pnext_temp dec
        = ({ dec with cur := dec.cur.drop MARKER_SIZE,
                      fatal := leValue (dec.cur.take MARKER_SIZE) != 0 }, []) ∧
      vn_decode_VkWriteDescriptorSetInlineUniformBlock_pnext_temp dec
        = ({ dec with cur := dec.cur.drop MARKER_SIZE,
                      fatal := leValue (dec.cur.take MARKER_SIZE) != 0 }, []) ∧
      vn_decode_VkMemoryDedicatedRequirements_pnext_partial_temp dec
        = ({ dec with cur := dec.cur.drop MARKER_SIZE,
                      fatal := leValue (dec.cur.take MARKER_SIZE) != 0 }, []) ∧
      vn_decode_VkMemoryBarrier2_pnext_temp dec
        = ({ dec with cur := dec.cur.drop MARKER_SIZE,
                      fatal := leValue (dec.cur.take MARKER_SIZE) != 0 }, [])) := by
  constructor
  · refine ⟨?_, ?_, ?_, ?_, ?_, ?_, ?_, ?_, ?_⟩
    · simp only [vn_decode_VkSemaphoreTypeCreateInfo_pnext_temp]; split <;> rfl
    · simp only [vn_decode_VkImageFormatListCreateInfo_pnext_temp]; split <;> rfl
    · simp only [vn_decode_VkImageStencilUsageCreateInfo_pnext_temp]; split <;> rfl
    · simp only [vn_decode_VkSamplerYcbcrConversionInfo_pnext_temp]; split <;> rfl
    · simp only [vn_decode_VkShaderModuleCreateInfo_pnext_temp]; split <;> rfl
    · simp only [vn_decode_VkMutableDescriptorTypeCreateInfoEXT_pnext_temp]; split <;> rfl
    · simp only [vn_decode_VkWriteDescriptorSetInlineUniformBlock_pnext_temp]; split <;> rfl
    · simp only [vn_decode_VkMemoryDedicatedRequirements_pnext_partial_temp]; split <;> rfl
    · simp only [vn_decode_VkMemoryBarrier2_pnext_temp]; split <;> rfl
  · intro hf h8
    have hs := simple_pointer_of_marker dec hf h8
    have hk : ∀ f : vn_cs_decoder → vn_cs_decoder × List VkBaseOutStructure,
        (∀ d, f d = if (vn_decode_simple_pointer d).2
          then (vn_cs_decoder_set_fatal (vn_decode_simple_pointer d).1, [])
          else ((vn_decode_simple_pointer d).1, [])) →
        f dec = ({ dec with cur := dec.cur.drop MARKER_SIZE,
                            fatal := leValue (dec.cur.take MARKER_SIZE) != 0 }, []) := by
      intro f hfd
      rw [hfd dec, hs]
      simp only
      cases hb : (leValue (dec.cur.take MARKER_SIZE) != 0)
      · simp only [Bool.false_eq_true, if_false, Prod.mk.injEq, and_true]
        cases dec
        simp_all
      · simp only [if_true, vn_cs_decoder_set_fatal]
    refine ⟨?_, ?_, ?_, ?_, ?_, ?_, ?_, ?_, ?_⟩
    · exact hk _ (fun d => rfl)
    · exact hk _ (fun d => rfl)
    · exact hk _ (fun d => rfl)
    · exact hk _ (fun d => rfl)
    · exact hk _ (fun d => rfl)
    · exact hk _ (fun d => rfl)
    · exact hk _ (fun d => rfl)
    · exact hk _ (fun d => rfl)
    · exact hk _ (fun d => rfl)

/-- Witness of C26: a present marker followed by a tag. -/
theorem C26_no_known_extension_chain_witness :
    vn_decode_VkSemaphoreTypeCreateInfo_pnext_temp
        ⟨leBytes 8 1 ++ leBytes 4 35, false, ⟨256, 0, 0⟩, []⟩
      = (⟨leBytes 4 35, true, ⟨256, 0, 0⟩, []⟩, []) :=
  ((C26_no_known_extension_chain
    ⟨leBytes 8 1 ++ leBytes 4 35, false, ⟨256, 0, 0⟩, []⟩).2 rfl (by decide)).1

/-! ## C27: the bytes of an encoded chain -/

/-- C27. For every finite chain `c`, `vn_encode_VkMemoryRequirements2_pnext` appends
exactly: for each link of `c` tagged `MEMORY_DEDICATED_REQUIREMENTS`, in chain order, a
present marker and the tag; then one absent marker; then `prefersDedicatedAllocation` and
`requiresDedicatedAllocation` of each such link, the last link first. Links with any
other tag contribute no byte wherever they stand: the result is the result for `c`
without them. -/
theorem C27_chain_encoding_layout (enc : vn_cs_encoder) (c : List VkBaseInStructure) :
    (vn_encode_VkMemoryRequirements2_pnext enc c).buf
      = enc.buf ++
        (((recognisedLinks c).flatMap (fun _ => leBytes 8 1 ++
            leBytes 4 (int32Bits VK_STRUCTURE_TYPE_MEMORY_DEDICATED_REQUIREMENTS))
          ++ leBytes 8 0) ++
         (recognisedLinks c).reverse.flatMap (fun l =>
            leBytes 4 (l.asMemoryDedicatedRequirements []).prefersDedicatedAllocation ++
            leBytes 4 (l.asMemoryDedicatedRequirements []).requiresDedicatedAllocation)) ∧
    vn_encode_VkMemoryRequirements2_pnext enc c
      = vn_encode_VkMemoryRequirements2_pnext enc (recognisedLinks c) := by
  constructor
  · rw [encode_VkMemoryRequirements2_pnext_buf, pnextMarkerBytes_eq, pnextFieldBytes_eq]
  · apply encoder_ext
    rw [encode_VkMemoryRequirements2_pnext_buf, encode_VkMemoryRequirements2_pnext_buf,
      pnextMarkerBytes_eq, pnextFieldBytes_eq, pnextMarkerBytes_eq (recognisedLinks c),
      pnextFieldBytes_eq (recognisedLinks c), recognisedLinks_idem]

/-! ## C28: the arrays of a decoded `VkWriteDescriptorSet` -/

theorem array_size_value (d : vn_cs_decoder) (max : Nat) :
    (vn_decode_array_size d max).2 = (vn_decode_array_size_unchecked d).2 := by
  unfold vn_decode_array_size
  simp only
  split <;> rfl

theorem array_size_fatal_of_gt (d : vn_cs_decoder) (max : Nat)
    (h : max < (vn_decode_array_size_unchecked d).2) :
    (vn_decode_array_size d max).1.fatal = true := by
  unfold vn_decode_array_size
  simp only [h, if_true]
  rfl

theorem array_size_le_of_ok (d : vn_cs_decoder) (max : Nat)
    (h : (vn_decode_array_size d max).1.fatal = false) :
    (vn_decode_array_size d max).2 ≤ max := by
  by_cases hk : max < (vn_decode_array_size_unchecked d).2
  · rw [array_size_fatal_of_gt d max hk] at h
    exact Bool.noConfusion h
  · rw [array_size_value]
    omega

theorem alloc_temp_array_fatal_mono (dec : vn_cs_decoder) (size count : Nat)
    (h : dec.fatal = true) : (vn_cs_decoder_alloc_temp_array dec size count).1.fatal = true :=
  alloc_temp_fatal_mono dec _ h

theorem alloc_temp_array_of_null (dec : vn_cs_decoder) (size count : Nat)
    (h : (vn_cs_decoder_alloc_temp_array dec size count).2 = false) :
    (vn_cs_decoder_alloc_temp_array dec size count).1.fatal = true := by
  unfold vn_cs_decoder_alloc_temp_array at h ⊢
  rw [alloc_temp_of_null _ _ h]
  rfl

theorem bool_false_of_ne_true {b : Bool} (h : ¬ b = true) : b = false := by
  cases b
  · rfl
  · exact absurd rfl h

/-- An array block of `vn_decode_VkWriteDescriptorSet_self_temp` that ends without fatal
after a present marker holds at most `max` elements. -/
theorem decoded_array_length_le {α : Type} (elem : vn_cs_decoder → α → vn_cs_decoder × α)
    (init : α) (helem : ∀ d v, d.fatal = true → (elem d v).1 = d)
    (d : vn_cs_decoder) (max size : Nat)
    (h : (vn_decode_array elem init ((vn_decode_array_size d max).2 % 4294967296)
      (vn_cs_decoder_alloc_temp_array (vn_decode_array_size d max).1 size
        ((vn_decode_array_size d max).2 % 4294967296)).1).1.fatal = false) :
    (vn_decode_array elem init ((vn_decode_array_size d max).2 % 4294967296)
      (vn_cs_decoder_alloc_temp_array (vn_decode_array_size d max).1 size
        ((vn_decode_array_size d max).2 % 4294967296)).1).2.length ≤ max := by
  rw [decode_array_length]
  have hok : (vn_decode_array_size d max).1.fatal = false := by
    apply bool_false_of_ne_true
    intro hf
    have hp := alloc_temp_array_fatal_mono _ size
      ((vn_decode_array_size d max).2 % 4294967296) hf
    rw [decode_array_of_fatal elem init _ (fun v => helem _ v hp), hp] at h
    exact Bool.noConfusion h
  have := array_size_le_of_ok d max hok
  have hm := Nat.mod_le (vn_decode_array_size d max).2 4294967296
  omega

theorem pTexelBufferView_block_of_fatal (d : vn_cs_decoder) (h : d.fatal = true)
    (v : VkWriteDescriptorSet) :
    (vn_decode_VkWriteDescriptorSet_self_temp_pTexelBufferView d v).1 = d := by
  simp [vn_decode_VkWriteDescriptorSet_self_temp_pTexelBufferView,
    peek_array_size_of_fatal, array_size_unchecked_of_fatal, h]

theorem pBufferInfo_block_of_fatal (d : vn_cs_decoder) (h : d.fatal = true)
    (v : VkWriteDescriptorSet) :
    (vn_decode_VkWriteDescriptorSet_self_temp_pBufferInfo d v).1 = d := by
  simp [vn_decode_VkWriteDescriptorSet_self_temp_pBufferInfo,
    vn_decode_VkWriteDescriptorSet_self_temp_pTexelBufferView,
    peek_array_size_of_fatal, array_size_unchecked_of_fatal, h]

theorem pTexelBufferView_block_ok (d : vn_cs_decoder) (v : VkWriteDescriptorSet)
    (h : (vn_decode_VkWriteDescriptorSet_self_temp_pTexelBufferView d v).1.fatal = false) :
    d.fatal = false := by
  apply bool_false_of_ne_true
  intro hf
  rw [pTexelBufferView_block_of_fatal d hf, hf] at h
  exact Bool.noConfusion h

theorem pBufferInfo_block_ok (d : vn_cs_decoder) (v : VkWriteDescriptorSet)
    (h : (vn_decode_VkWriteDescriptorSet_self_temp_pBufferInfo d v).1.fatal = false) :
    d.fatal = false := by
  apply bool_false_of_ne_true
  intro hf
  rw [pBufferInfo_block_of_fatal d hf, hf] at h
  exact Bool.noConfusion h

/-- What the `pTexelBufferView` block leaves in the destination. -/
theorem pTexelBufferView_block_fields (d : vn_cs_decoder) (v : VkWriteDescriptorSet) :
    (vn_decode_VkWriteDescriptorSet_self_temp_pTexelBufferView d v).2.descriptorCount
      = v.descriptorCount ∧
    (vn_decode_VkWriteDescriptorSet_self_temp_pTexelBufferView d v).2.pImageInfo
      = v.pImageInfo ∧
    (vn_decode_VkWriteDescriptorSet_self_temp_pTexelBufferView d v).2.pBufferInfo
      = v.pBufferInfo ∧
    ((vn_decode_VkWriteDescriptorSet_self_temp_pTexelBufferView d v).1.fatal = false →
      ∀ l, (vn_decode_VkWriteDescriptorSet_self_temp_pTexelBufferView d v).2.pTexelBufferView
        = some l → l.length ≤ v.descriptorCount) := by
  unfold vn_decode_VkWriteDescriptorSet_self_temp_pTexelBufferView
  simp only
  split
  · split
    · exact ⟨rfl, rfl, rfl, fun _ l hl => by simp at hl⟩
    · refine ⟨rfl, rfl, rfl, fun hnf l hl => ?_⟩
      simp only [Option.some.injEq] at hl
      subst hl
      exact decoded_array_length_le _ _
        (fun d _ hd => by simp only [vn_decode_VkBufferView_lookup,
          handle_lookup_of_fatal d hd]) d v.descriptorCount sizeof_VkBufferView hnf
  · exact ⟨rfl, rfl, rfl, fun _ l hl => by simp at hl⟩

/-- The `pTexelBufferView` block reads nothing of the destination but
`descriptorCount`. -/
theorem pTexelBufferView_block_assigns (d : vn_cs_decoder) (v v2 : VkWriteDescriptorSet)
    (h : v2.descriptorCount = v.descriptorCount) :
    (vn_decode_VkWriteDescriptorSet_self_temp_pTexelBufferView d v2).1
      = (vn_decode_VkWriteDescriptorSet_self_temp_pTexelBufferView d v).1 ∧
    (vn_decode_VkWriteDescriptorSet_self_temp_pTexelBufferView d v2).2.pTexelBufferView
      = (vn_decode_VkWriteDescriptorSet_self_temp_pTexelBufferView d v).2.pTexelBufferView := by
  obtain ⟨s1, n1, ds1, b1, ae1, dc1, dt1, pi1, pb1, pt1⟩ := v
  obtain ⟨s2, n2, ds2, b2, ae2, dc2, dt2, pi2, pb2, pt2⟩ := v2
  simp only at h
  subst h
  unfold vn_decode_VkWriteDescriptorSet_self_temp_pTexelBufferView
  simp only
  split
  · split <;> exact ⟨rfl, rfl⟩
  · exact ⟨rfl, rfl⟩

/-- What the `pBufferInfo` block and the block after it leave in the destination. -/
theorem pBufferInfo_block_fields (d : vn_cs_decoder) (v : VkWriteDescriptorSet) :
    (vn_decode_VkWriteDescriptorSet_self_temp_pBufferInfo d v).2.descriptorCount
      = v.descriptorCount ∧
    (vn_decode_VkWriteDescriptorSet_self_temp_pBufferInfo d v).2.pImageInfo
      = v.pImageInfo ∧
    ((vn_decode_VkWriteDescriptorSet_self_temp_pBufferInfo d v).1.fatal = false →
      (∀ l, (vn_decode_VkWriteDescriptorSet_self_temp_pBufferInfo d v).2.pBufferInfo
        = some l → l.length ≤ v.descriptorCount) ∧
      (∀ l, (vn_decode_VkWriteDescriptorSet_self_temp_pBufferInfo d v).2.pTexelBufferView
        = some l → l.length ≤ v.descriptorCount)) := by
  unfold vn_decode_VkWriteDescriptorSet_self_temp_pBufferInfo
  simp only
  split
  · split
    · rename_i hp
      refine ⟨rfl, rfl, fun hnf => ?_⟩
      rw [alloc_temp_array_of_null _ _ _ (by simpa using hp)] at hnf
      exact Bool.noConfusion hnf
    · obtain ⟨h1, h2, h3, h4⟩ := pTexelBufferView_block_fields
        (vn_decode_array vn_decode_VkDescriptorBufferInfo_temp default
          ((vn_decode_array_size d v.descriptorCount).2 % 4294967296)
          (vn_cs_decoder_alloc_temp_array (vn_decode_array_size d v.descriptorCount).1
            sizeof_VkDescriptorBufferInfo
            ((vn_decode_array_size d v.descriptorCount).2 % 4294967296)).1).1
        { v with pBufferInfo := some (vn_decode_array vn_decode_VkDescriptorBufferInfo_temp
          default ((vn_decode_array_size d v.descriptorCount).2 % 4294967296)
          (vn_cs_decoder_alloc_temp_array (vn_decode_array_size d v.descriptorCount).1
            sizeof_VkDescriptorBufferInfo
            ((vn_decode_array_size d v.descriptorCount).2 % 4294967296)).1).2 }
      refine ⟨h1, h2, fun hnf => ⟨fun l hl => ?_, h4 hnf⟩⟩
      rw [h3] at hl
      simp only [Option.some.injEq] at hl
      subst hl
      exact decoded_array_length_le _ _
        (fun d v hd => vn_decode_VkDescriptorBufferInfo_temp_of_fatal d hd v)
        d v.descriptorCount sizeof_VkDescriptorBufferInfo
        (pTexelBufferView_block_ok _ _ hnf)
  · obtain ⟨h1, h2, h3, h4⟩ := pTexelBufferView_block_fields
      (vn_decode_array_size_unchecked d).1 { v with pBufferInfo := none }
    refine ⟨h1, h2, fun hnf => ⟨fun l hl => ?_, h4 hnf⟩⟩
    rw [h3] at hl
    simp at hl

theorem pTexelBufferView_block_pBufferInfo (d : vn_cs_decoder) (v : VkWriteDescriptorSet) :
    (vn_decode_VkWriteDescriptorSet_self_temp_pTexelBufferView d v).2.pBufferInfo
      = v.pBufferInfo :=
  (pTexelBufferView_block_fields d v).2.2.1

theorem pTexelBufferView_block_pImageInfo (d : vn_cs_decoder) (v : VkWriteDescriptorSet) :
    (vn_decode_VkWriteDescriptorSet_self_temp_pTexelBufferView d v).2.pImageInfo
      = v.pImageInfo :=
  (pTexelBufferView_block_fields d v).2.1

/-- The `pBufferInfo` block and the block after it read nothing of the destination but
`descriptorCount`. -/
theorem pBufferInfo_block_assigns (d : vn_cs_decoder) (v v2 : VkWriteDescriptorSet)
    (h : v2.descriptorCount = v.descriptorCount) :
    (vn_decode_VkWriteDescriptorSet_self_temp_pBufferInfo d v2).1
      = (vn_decode_VkWriteDescriptorSet_self_temp_pBufferInfo d v).1 ∧
    (vn_decode_VkWriteDescriptorSet_self_temp_pBufferInfo d v2).2.pBufferInfo
      = (vn_decode_VkWriteDescriptorSet_self_temp_pBufferInfo d v).2.pBufferInfo ∧
    ((vn_decode_VkWriteDescriptorSet_self_temp_pBufferInfo d v).1.fatal = false →
      (vn_decode_VkWriteDescriptorSet_self_temp_pBufferInfo d v2).2.pTexelBufferView
        = (vn_decode_VkWriteDescriptorSet_self_temp_pBufferInfo d v).2.pTexelBufferView) := by
  obtain ⟨s1, n1, ds1, b1, ae1, dc1, dt1, pi1, pb1, pt1⟩ := v
  obtain ⟨s2, n2, ds2, b2, ae2, dc2, dt2, pi2, pb2, pt2⟩ := v2
  simp only at h
  subst h
  unfold vn_decode_VkWriteDescriptorSet_self_temp_pBufferInfo
  simp only
  split
  · split
    · rename_i hp
      refine ⟨rfl, rfl, fun hnf => ?_⟩
      rw [alloc_temp_array_of_null _ _ _ (by simpa using hp)] at hnf
      exact Bool.noConfusion hnf
    · refine ⟨?_, ?_, fun _ => ?_⟩
      · refine (pTexelBufferView_block_assigns _ _ _ ?_).1
        rfl
      · simp only [pTexelBufferView_block_pBufferInfo]
      · refine (pTexelBufferView_block_assigns _ _ _ ?_).2
        rfl
  · refine ⟨?_, ?_, fun _ => ?_⟩
    · refine (pTexelBufferView_block_assigns _ _ _ ?_).1
      rfl
    · simp only [pTexelBufferView_block_pBufferInfo]
    · refine (pTexelBufferView_block_assigns _ _ _ ?_).2
      rfl

theorem pBufferInfo_block_pImageInfo (d : vn_cs_decoder) (v : VkWriteDescriptorSet) :
    (vn_decode_VkWriteDescriptorSet_self_temp_pBufferInfo d v).2.pImageInfo = v.pImageInfo :=
  (pBufferInfo_block_fields d v).2.1

/-- What the three array blocks leave in the destination. -/
theorem pImageInfo_block_fields (d : vn_cs_decoder) (v : VkWriteDescriptorSet) :
    (vn_decode_VkWriteDescriptorSet_self_temp_pImageInfo d v).2.descriptorCount
      = v.descriptorCount ∧
    ((vn_decode_VkWriteDescriptorSet_self_temp_pImageInfo d v).1.fatal = false →
      (∀ l, (vn_decode_VkWriteDescriptorSet_self_temp_pImageInfo d v).2.pImageInfo
        = some l → l.length ≤ v.descriptorCount) ∧
      (∀ l, (vn_decode_VkWriteDescriptorSet_self_temp_pImageInfo d v).2.pBufferInfo
        = some l → l.length ≤ v.descriptorCount) ∧
      (∀ l, (vn_decode_VkWriteDescriptorSet_self_temp_pImageInfo d v).2.pTexelBufferView
        = some l → l.length ≤ v.descriptorCount)) := by
  unfold vn_decode_VkWriteDescriptorSet_self_temp_pImageInfo
  simp only
  split
  · split
    · rename_i hp
      refine ⟨rfl, fun hnf => ?_⟩
      rw [alloc_temp_array_of_null _ _ _ (by simpa using hp)] at hnf
      exact Bool.noConfusion hnf
    · obtain ⟨h1, h2, h3⟩ := pBufferInfo_block_fields
        (vn_decode_array vn_decode_VkDescriptorImageInfo_temp default
          ((vn_decode_array_size d v.descriptorCount).2 % 4294967296)
          (vn_cs_decoder_alloc_temp_array (vn_decode_array_size d v.descriptorCount).1
            sizeof_VkDescriptorImageInfo
            ((vn_decode_array_size d v.descriptorCount).2 % 4294967296)).1).1
        { v with pImageInfo := some (vn_decode_array vn_decode_VkDescriptorImageInfo_temp
          default ((vn_decode_array_size d v.descriptorCount).2 % 4294967296)
          (vn_cs_decoder_alloc_temp_array (vn_decode_array_size d v.descriptorCount).1
            sizeof_VkDescriptorImageInfo
            ((vn_decode_array_size d v.descriptorCount).2 % 4294967296)).1).2 }
      refine ⟨h1, fun hnf => ⟨fun l hl => ?_, (h3 hnf).1, (h3 hnf).2⟩⟩
      rw [h2] at hl
      simp only [Option.some.injEq] at hl
      subst hl
      exact decoded_array_length_le _ _
        (fun d v hd => vn_decode_VkDescriptorImageInfo_temp_of_fatal d hd v)
        d v.descriptorCount sizeof_VkDescriptorImageInfo
        (pBufferInfo_block_ok _ _ hnf)
  · obtain ⟨h1, h2, h3⟩ := pBufferInfo_block_fields
      (vn_decode_array_size_unchecked d).1 { v with pImageInfo := none }
    refine ⟨h1, fun hnf => ⟨fun l hl => ?_, (h3 hnf).1, (h3 hnf).2⟩⟩
    rw [h2] at hl
    simp at hl

/-- The three array blocks read nothing of the destination but `descriptorCount`. -/
theorem pImageInfo_block_assigns (d : vn_cs_decoder) (v v2 : VkWriteDescriptorSet)
    (h : v2.descriptorCount = v.descriptorCount) :
    (vn_decode_VkWriteDescriptorSet_self_temp_pImageInfo d v2).1
      = (vn_decode_VkWriteDescriptorSet_self_temp_pImageInfo d v).1 ∧
    (vn_decode_VkWriteDescriptorSet_self_temp_pImageInfo d v2).2.pImageInfo
      = (vn_decode_VkWriteDescriptorSet_self_temp_pImageInfo d v).2.pImageInfo ∧
    ((vn_decode_VkWriteDescriptorSet_self_temp_pImageInfo d v).1.fatal = false →
      (vn_decode_VkWriteDescriptorSet_self_temp_pImageInfo d v2).2.pBufferInfo
        = (vn_decode_VkWriteDescriptorSet_self_temp_pImageInfo d v).2.pBufferInfo ∧
      (vn_decode_VkWriteDescriptorSet_self_temp_pImageInfo d v2).2.pTexelBufferView
        = (vn_decode_VkWriteDescriptorSet_self_temp_pImageInfo d v).2.pTexelBufferView) := by
  obtain ⟨s1, n1, ds1, b1, ae1, dc1, dt1, pi1, pb1, pt1⟩ := v
  obtain ⟨s2, n2, ds2, b2, ae2, dc2, dt2, pi2, pb2, pt2⟩ := v2
  simp only at h
  subst h
  unfold vn_decode_VkWriteDescriptorSet_self_temp_pImageInfo
  simp only
  split
  · split
    · rename_i hp
      refine ⟨rfl, rfl, fun hnf => ?_⟩
      rw [alloc_temp_array_of_null _ _ _ (by simpa using hp)] at hnf
      exact Bool.noConfusion hnf
    · refine ⟨?_, ?_, fun hnf => ⟨?_, ?_⟩⟩
      · refine (pBufferInfo_block_assigns _ _ _ ?_).1
        rfl
      · simp only [pBufferInfo_block_pImageInfo]
      · refine (pBufferInfo_block_assigns _ _ _ ?_).2.1
        rfl
      · refine (pBufferInfo_block_assigns _ _ _ ?_).2.2 hnf
        rfl
  · refine ⟨?_, ?_, fun hnf => ⟨?_, ?_⟩⟩
    · refine (pBufferInfo_block_assigns _ _ _ ?_).1
      rfl
    · simp only [pBufferInfo_block_pImageInfo]
    · refine (pBufferInfo_block_assigns _ _ _ ?_).2.1
      rfl
    · refine (pBufferInfo_block_assigns _ _ _ ?_).2.2 hnf
      rfl

theorem replace_array_of_length {α : Type} (f : α → α) (n : Nat) (arr : List α)
    (h : arr.length = n) : vn_replace_array f n arr = arr.map f := by
  induction n generalizing arr with
  | zero =>
    have : arr = [] := List.length_eq_zero.mp h
    subst this
    rfl
  | succ n ih =>
    cases arr with
    | nil => simp at h
    | cons x xs =>
      simp only [vn_replace_array, List.map_cons]
      rw [ih xs (by simpa using h)]

/-- Whenever `vn_decode_VkWriteDescriptorSet_self_temp` returns without fatal, each of
`pImageInfo`, `pBufferInfo` and `pTexelBufferView` is null or an array of at most
`descriptorCount` decoded elements, and each has been assigned: its value does not
depend on what the destination held before the call. The loop of the handle pass, which
runs `i` from 0 to `descriptorCount`, rewrites exactly the elements of an array that
holds `descriptorCount` elements. -/
theorem self_temp_arrays_within_descriptorCount (dec : vn_cs_decoder)
    (val : VkWriteDescriptorSet)
    (hnf : (vn_decode_VkWriteDescriptorSet_self_temp dec val).1.fatal = false) :
    ((∀ l, (vn_decode_VkWriteDescriptorSet_self_temp dec val).2.pImageInfo = some l →
        l.length ≤ (vn_decode_VkWriteDescriptorSet_self_temp dec val).2.descriptorCount) ∧
      (∀ l, (vn_decode_VkWriteDescriptorSet_self_temp dec val).2.pBufferInfo = some l →
        l.length ≤ (vn_decode_VkWriteDescriptorSet_self_temp dec val).2.descriptorCount) ∧
      (∀ l, (vn_decode_VkWriteDescriptorSet_self_temp dec val).2.pTexelBufferView = some l →
        l.length ≤ (vn_decode_VkWriteDescriptorSet_self_temp dec val).2.descriptorCount)) ∧
    (∀ val2,
      (vn_decode_VkWriteDescriptorSet_self_temp dec val2).2.pImageInfo
        = (vn_decode_VkWriteDescriptorSet_self_temp dec val).2.pImageInfo ∧
      (vn_decode_VkWriteDescriptorSet_self_temp dec val2).2.pBufferInfo
        = (vn_decode_VkWriteDescriptorSet_self_temp dec val).2.pBufferInfo ∧
      (vn_decode_VkWriteDescriptorSet_self_temp dec val2).2.pTexelBufferView
        = (vn_decode_VkWriteDescriptorSet_self_temp dec val).2.pTexelBufferView) ∧
    (∀ (α : Type) (f : α → α) (l : List α),
      l.length = (vn_decode_VkWriteDescriptorSet_self_temp dec val).2.descriptorCount →
      vn_replace_array f (vn_decode_VkWriteDescriptorSet_self_temp dec val).2.descriptorCount l
        = l.map f) := by
  have e : ∀ w, vn_decode_VkWriteDescriptorSet_self_temp dec w
      = vn_decode_VkWriteDescriptorSet_self_temp_pImageInfo
          (vn_decode_VkWriteDescriptorSet_self_temp_scalars dec w).1
          (vn_decode_VkWriteDescriptorSet_self_temp_scalars dec w).2 := fun _ => rfl
  have hs : ∀ w, (vn_decode_VkWriteDescriptorSet_self_temp_scalars dec w).1
      = (vn_decode_VkWriteDescriptorSet_self_temp_scalars dec val).1 ∧
      (vn_decode_VkWriteDescriptorSet_self_temp_scalars dec w).2.descriptorCount
        = (vn_decode_VkWriteDescriptorSet_self_temp_scalars dec val).2.descriptorCount :=
    fun _ => ⟨rfl, rfl⟩
  rw [e val] at hnf
  obtain ⟨hdc, hlen⟩ := pImageInfo_block_fields
    (vn_decode_VkWriteDescriptorSet_self_temp_scalars dec val).1
    (vn_decode_VkWriteDescriptorSet_self_temp_scalars dec val).2
  refine ⟨?_, ?_, ?_⟩
  · rw [e val, hdc]
    exact hlen hnf
  · intro val2
    rw [e val, e val2, (hs val2).1]
    obtain ⟨_, h2, h3⟩ := pImageInfo_block_assigns
      (vn_decode_VkWriteDescriptorSet_self_temp_scalars dec val).1
      (vn_decode_VkWriteDescriptorSet_self_temp_scalars dec val).2
      (vn_decode_VkWriteDescriptorSet_self_temp_scalars dec val2).2 (hs val2).2
    exact ⟨h2, (h3 hnf).1, (h3 hnf).2⟩
  · intro α f l hl
    exact replace_array_of_length f _ l hl

/-- The loop with checked accesses gives the result of `vn_replace_array` when the array
holds `count` elements or more, and reaches an element outside the array otherwise. -/
theorem replace_array_checked_eq {α : Type} (f : α → α) (n : Nat) (arr : List α) :
    vn_replace_array_checked f n arr
      = if n ≤ arr.length then some (vn_replace_array f n arr) else none := by
  induction n generalizing arr with
  | zero => simp [vn_replace_array_checked, vn_replace_array]
  | succ n ih =>
    cases arr with
    | nil => simp [vn_replace_array_checked]
    | cons x xs =>
      simp only [vn_replace_array_checked, vn_replace_array, ih, List.length_cons,
        Nat.add_le_add_iff_right]
      split <;> rfl

/-- The same for one pointer block: a null pointer is never indexed. -/
theorem replace_pointer_checked_eq {α : Type} (f : α → α) (n : Nat) (p : Option (List α)) :
    vn_replace_pointer_checked f n p
      = if (∀ l, p = some l → n ≤ l.length) then some (p.map (vn_replace_array f n))
        else none := by
  cases p with
  | none => simp [vn_replace_pointer_checked]
  | some arr =>
    simp only [vn_replace_pointer_checked, replace_array_checked_eq, Option.some.injEq,
      forall_eq', Option.map_some']
    split <;> rfl

/-- The handle pass with checked accesses: it gives the result of
`vn_replace_VkWriteDescriptorSet_handle_self` when every non-null array holds
`descriptorCount` elements or more, and reaches an element outside an array as soon as
one of them is shorter. -/
theorem replace_self_checked_outcome (rep : VkObjectType → Option Nat → Option Nat)
    (val : VkWriteDescriptorSet) :
    vn_replace_VkWriteDescriptorSet_handle_self_checked rep val
      = if (∀ l, val.pImageInfo = some l → val.descriptorCount ≤ l.length) ∧
          (∀ l, val.pBufferInfo = some l → val.descriptorCount ≤ l.length) ∧
          (∀ l, val.pTexelBufferView = some l → val.descriptorCount ≤ l.length)
        then some (vn_replace_VkWriteDescriptorSet_handle_self rep val) else none := by
  unfold vn_replace_VkWriteDescriptorSet_handle_self_checked
    vn_replace_VkWriteDescriptorSet_handle_self
  simp only [replace_pointer_checked_eq]
  by_cases h1 : ∀ l, val.pImageInfo = some l → val.descriptorCount ≤ l.length
  · have c1 := eq_true h1
    by_cases h2 : ∀ l, val.pBufferInfo = some l → val.descriptorCount ≤ l.length
    · have c2 := eq_true h2
      by_cases h3 : ∀ l, val.pTexelBufferView = some l → val.descriptorCount ≤ l.length
      · have c3 := eq_true h3
        simp only [c1, c2, c3, if_true, and_self]
      · have c3 := eq_false h3
        simp only [c1, c2, c3, if_true, if_false, and_false]
    · have c2 := eq_false h2
      simp only [c1, c2, if_true, if_false, and_false, false_and]
  · have c1 := eq_false h1
    simp only [c1, if_false, false_and]

theorem decode_array_size_unchecked_absent (rest : List Byte) (a : Arena)
    (o : List (VkObjectType × Nat × Nat)) :
    vn_decode_array_size_unchecked ⟨leBytes 8 0 ++ rest, false, a, o⟩
      = (⟨rest, false, a, o⟩, 0) := by
  simp [vn_decode_array_size_unchecked, MARKER_SIZE, read_leBytes]

/-- C29. In `vn_decode_VkWriteDescriptorSet_self_temp`, when the five leading fields have
been decoded without fatal into `v` (whatever `descriptorCount` they gave) and the stream
goes on with three absent size markers, the call consumes exactly those three markers,
leaves `pImageInfo`, `pBufferInfo` and `pTexelBufferView` null, takes nothing from the
arena and does not set fatal: an absent marker is not checked against
`descriptorCount`. -/
theorem C29_absent_markers_skip_descriptorCount (dec : vn_cs_decoder)
    (val v : VkWriteDescriptorSet) (rest : List Byte) (a : Arena)
    (o : List (VkObjectType × Nat × Nat))
    (h : vn_decode_VkWriteDescriptorSet_self_temp_scalars dec val
      = (⟨leBytes MARKER_SIZE 0 ++ (leBytes MARKER_SIZE 0 ++ (leBytes MARKER_SIZE 0 ++ rest)),
          false, a, o⟩, v)) :
    vn_decode_VkWriteDescriptorSet_self_temp dec val
      = (⟨rest, false, a, o⟩,
         { v with pImageInfo := none, pBufferInfo := none, pTexelBufferView := none }) := by
  have e : vn_decode_VkWriteDescriptorSet_self_temp dec val
      = vn_decode_VkWriteDescriptorSet_self_temp_pImageInfo
          (vn_decode_VkWriteDescriptorSet_self_temp_scalars dec val).1
          (vn_decode_VkWriteDescriptorSet_self_temp_scalars dec val).2 := rfl
  rw [e, h]
  simp only [MARKER_SIZE]
  unfold vn_decode_VkWriteDescriptorSet_self_temp_pImageInfo
  rw [peek_array_size_absent]
  simp only [Bool.false_eq_true, if_false]
  rw [decode_array_size_unchecked_absent]
  unfold vn_decode_VkWriteDescriptorSet_self_temp_pBufferInfo
  rw [peek_array_size_absent]
  simp only [Bool.false_eq_true, if_false]
  rw [decode_array_size_unchecked_absent]
  unfold vn_decode_VkWriteDescriptorSet_self_temp_pTexelBufferView
  rw [peek_array_size_absent]
  simp only [Bool.false_eq_true, if_false]
  rw [decode_array_size_unchecked_absent]

/-- Witness of C29: `descriptorCount` 3, three absent markers, one more byte. -/
theorem C29_absent_markers_skip_descriptorCount_witness :
    vn_decode_VkWriteDescriptorSet_self_temp
        ⟨leBytes 8 4 ++ leBytes 4 1 ++ leBytes 4 2 ++ leBytes 4 3 ++ leBytes 4 6 ++
            (leBytes MARKER_SIZE 0 ++ (leBytes MARKER_SIZE 0 ++ (leBytes MARKER_SIZE 0 ++ [7]))),
          false, ⟨256, 0, 0⟩, [(VkObjectType.descriptorSet, 4, 9)]⟩
        { (default : VkWriteDescriptorSet) with pImageInfo := some [] }
      = (⟨[7], false, ⟨256, 0, 0⟩, [(VkObjectType.descriptorSet, 4, 9)]⟩,
         { (default : VkWriteDescriptorSet) with
           dstSet := some 9, dstBinding := 1, dstArrayElement := 2, descriptorCount := 3,
           descriptorType := 6 }) :=
  C29_absent_markers_skip_descriptorCount _ _
    { (default : VkWriteDescriptorSet) with
      dstSet := some 9, dstBinding := 1, dstArrayElement := 2, descriptorCount := 3,
      descriptorType := 6, pImageInfo := some [] } [7] ⟨256, 0, 0⟩
    [(VkObjectType.descriptorSet, 4, 9)] (by decide)


/-! ## C30: the bound of `pCode` -/

/-- C30. In `vn_decode_VkShaderModuleCreateInfo_self_temp` the size marker of `pCode` is
checked against `codeSize / 4` (division of naturals, rounding down), `codeSize` being
the field decoded just before: a marker count above it ends with fatal set, and whenever
the call returns without fatal a non-null `pCode` holds at most `codeSize / 4` words, so
four times their number does not exceed `codeSize`, and none at all when `codeSize` is
below 4. -/
theorem C30_pCode_words_within_codeSize (dec : vn_cs_decoder) (val : VkShaderModuleCreateInfo) :
    ((vn_decode_size_t (vn_decode_VkFlags dec).1).2 / 4
        < (vn_decode_array_size_unchecked (vn_decode_size_t (vn_decode_VkFlags dec).1).1).2 →
      (vn_decode_VkShaderModuleCreateInfo_self_temp dec val).1.fatal = true) ∧
    ((vn_decode_VkShaderModuleCreateInfo_self_temp dec val).1.fatal = false →
      (vn_decode_VkShaderModuleCreateInfo_self_temp dec val).2.codeSize
          = (vn_decode_size_t (vn_decode_VkFlags dec).1).2 ∧
      ∀ l, (vn_decode_VkShaderModuleCreateInfo_self_temp dec val).2.pCode = some l →
        l.length ≤ (vn_decode_VkShaderModuleCreateInfo_self_temp dec val).2.codeSize / 4 ∧
        4 * l.length ≤ (vn_decode_VkShaderModuleCreateInfo_self_temp dec val).2.codeSize ∧
        ((vn_decode_VkShaderModuleCreateInfo_self_temp dec val).2.codeSize < 4 → l = [])) := by
  have hmono : ∀ d : vn_cs_decoder, ∀ n : Nat, d.fatal = true →
      (vn_decode_uint32_t_array d n).1.fatal = true := by
    intro d n hd
    unfold vn_decode_uint32_t_array vn_decode_scalar_array
    rw [decode_array_of_fatal _ _ d (fun _ => by simp [read_of_fatal, hd])]
    exact hd
  have part1 : (vn_decode_size_t (vn_decode_VkFlags dec).1).2 / 4
        < (vn_decode_array_size_unchecked (vn_decode_size_t (vn_decode_VkFlags dec).1).1).2 →
      (vn_decode_VkShaderModuleCreateInfo_self_temp dec val).1.fatal = true := by
    intro h
    have hf := array_size_fatal_of_gt _ _ h
    unfold vn_decode_VkShaderModuleCreateInfo_self_temp
    simp only
    split
    · split
      · exact alloc_temp_array_fatal_mono _ _ _ hf
      · exact hmono _ _ (alloc_temp_array_fatal_mono _ _ _ hf)
    · exact hf
  refine ⟨part1, ?_⟩
  intro hnf
  have hK : ¬ (vn_decode_size_t (vn_decode_VkFlags dec).1).2 / 4
      < (vn_decode_array_size_unchecked (vn_decode_size_t (vn_decode_VkFlags dec).1).1).2 := by
    intro h
    rw [part1 h] at hnf
    exact Bool.noConfusion hnf
  have hcs : (vn_decode_VkShaderModuleCreateInfo_self_temp dec val).2.codeSize
      = (vn_decode_size_t (vn_decode_VkFlags dec).1).2 := by
    unfold vn_decode_VkShaderModuleCreateInfo_self_temp
    simp only
    split
    · split <;> rfl
    · rfl
  refine ⟨hcs, ?_⟩
  intro l hl
  have hlen : l.length ≤ (vn_decode_size_t (vn_decode_VkFlags dec).1).2 / 4 := by
    unfold vn_decode_VkShaderModuleCreateInfo_self_temp at hl
    simp only at hl
    split at hl
    · split at hl
      · simp at hl
      · simp only [Option.some.injEq] at hl
        subst hl
        simp only [vn_decode_uint32_t_array, vn_decode_scalar_array, decode_array_length,
          array_size_value]
        omega
    · simp at hl
  rw [hcs]
  refine ⟨hlen, by omega, fun h4 => ?_⟩
  have : l.length = 0 := by omega
  exact List.length_eq_zero.mp this

/-- Witness of C30: `codeSize` 7 followed by a present marker with count 2. -/
theorem C30_pCode_words_within_codeSize_witness :
    (vn_decode_VkShaderModuleCreateInfo_self_temp
      ⟨leBytes 4 0 ++ leBytes 8 7 ++ leBytes 8 1 ++ leBytes 8 2 ++ leBytes 4 1 ++ leBytes 4 2,
        false, ⟨256, 0, 0⟩, []⟩ default).1.fatal = true :=
  (C30_pCode_words_within_codeSize
    ⟨leBytes 4 0 ++ leBytes 8 7 ++ leBytes 8 1 ++ leBytes 8 2 ++ leBytes 4 1 ++ leBytes 4 2,
      false, ⟨256, 0, 0⟩, []⟩ default).1 (by decide)

/-! ## C31: the tags of a decoded `VkWriteDescriptorSet` -/

theorem inlineUniformBlock_self_temp_sType (dec : vn_cs_decoder)
    (v : VkWriteDescriptorSetInlineUniformBlock) :
    (vn_decode_VkWriteDescriptorSetInlineUniformBlock_self_temp dec v).2.sType = v.sType := by
  unfold vn_decode_VkWriteDescriptorSetInlineUniformBlock_self_temp
  simp only
  split
  · split <;> rfl
  · rfl

/-- Every link that `vn_decode_VkWriteDescriptorSet_pnext_temp` returns is an inline
uniform block record under the inline uniform block tag. -/
theorem pnext_temp_fuel_links (fuel : Nat) (dec : vn_cs_decoder) :
    ∀ l ∈ (vn_decode_VkWriteDescriptorSet_pnext_temp_fuel fuel dec).2,
      l.sType = VK_STRUCTURE_TYPE_WRITE_DESCRIPTOR_SET_INLINE_UNIFORM_BLOCK ∧
      ∃ n p, l.body = VkRecordBody.writeDescriptorSetInlineUniformBlock n p := by
  induction fuel generalizing dec with
  | zero =>
    intro l hl
    simp [vn_decode_VkWriteDescriptorSet_pnext_temp_fuel] at hl
  | succ fuel ih =>
    unfold vn_decode_VkWriteDescriptorSet_pnext_temp_fuel
    simp only
    split
    · intro l hl
      simp at hl
    · split
      · rename_i hs
        split
        · intro l hl
          simp only [VkWriteDescriptorSetInlineUniformBlock.toChain, List.mem_cons] at hl
          rcases hl with hl | hl
          · subst hl
            refine ⟨?_, _, _, rfl⟩
            simp only [inlineUniformBlock_self_temp_sType]
            exact hs
          · rw [inlineUniformBlock_self_temp_pNext] at hl
            exact ih _ l hl
        · intro l hl
          simp at hl
      · intro l hl
        simp at hl

/-- The three array blocks of `vn_decode_VkWriteDescriptorSet_self_temp` leave `sType` and
`pNext` as they are. -/
theorem pTexelBufferView_block_header (d : vn_cs_decoder) (v : VkWriteDescriptorSet) :
    (vn_decode_VkWriteDescriptorSet_self_temp_pTexelBufferView d v).2.sType = v.sType ∧
    (vn_decode_VkWriteDescriptorSet_self_temp_pTexelBufferView d v).2.pNext = v.pNext := by
  unfold vn_decode_VkWriteDescriptorSet_self_temp_pTexelBufferView
  simp only
  split
  · split <;> exact ⟨rfl, rfl⟩
  · exact ⟨rfl, rfl⟩

theorem pBufferInfo_block_header (d : vn_cs_decoder) (v : VkWriteDescriptorSet) :
    (vn_decode_VkWriteDescriptorSet_self_temp_pBufferInfo d v).2.sType = v.sType ∧
    (vn_decode_VkWriteDescriptorSet_self_temp_pBufferInfo d v).2.pNext = v.pNext := by
  unfold vn_decode_VkWriteDescriptorSet_self_temp_pBufferInfo
  simp only
  split
  · split
    · exact ⟨rfl, rfl⟩
    · exact pTexelBufferView_block_header _ _
  · exact pTexelBufferView_block_header _ _

theorem pImageInfo_block_header (d : vn_cs_decoder) (v : VkWriteDescriptorSet) :
    (vn_decode_VkWriteDescriptorSet_self_temp_pImageInfo d v).2.sType = v.sType ∧
    (vn_decode_VkWriteDescriptorSet_self_temp_pImageInfo d v).2.pNext = v.pNext := by
  unfold vn_decode_VkWriteDescriptorSet_self_temp_pImageInfo
  simp only
  split
  · split
    · exact ⟨rfl, rfl⟩
    · exact pBufferInfo_block_header _ _
  · exact pBufferInfo_block_header _ _

theorem self_temp_header (d : vn_cs_decoder) (v : VkWriteDescriptorSet) :
    (vn_decode_VkWriteDescriptorSet_self_temp d v).2.sType = v.sType ∧
    (vn_decode_VkWriteDescriptorSet_self_temp d v).2.pNext = v.pNext := by
  unfold vn_decode_VkWriteDescriptorSet_self_temp
  exact pImageInfo_block_header _ _

/-- The loop of `vn_replace_VkWriteDescriptorSet_handle` leaves a link under the inline
uniform block tag as it is. -/
theorem replace_link_of_inlineUniformBlock (rep : VkObjectType → Option Nat → Option Nat)
    (l : VkBaseOutStructure) (next : List VkBaseOutStructure)
    (h : l.sType = VK_STRUCTURE_TYPE_WRITE_DESCRIPTOR_SET_INLINE_UNIFORM_BLOCK) :
    vn_replace_VkWriteDescriptorSet_handle_link rep l next = l := by
  have hne : l.sType ≠ VK_STRUCTURE_TYPE_WRITE_DESCRIPTOR_SET := by
    rw [h]
    decide
  unfold vn_replace_VkWriteDescriptorSet_handle_link
  rw [if_neg hne, if_pos h]
  obtain ⟨st, body⟩ := l
  cases body <;> rfl

theorem replace_chain_of_inlineUniformBlock (rep : VkObjectType → Option Nat → Option Nat)
    (c : List VkBaseOutStructure)
    (h : ∀ l ∈ c, l.sType = VK_STRUCTURE_TYPE_WRITE_DESCRIPTOR_SET_INLINE_UNIFORM_BLOCK) :
    vn_replace_VkWriteDescriptorSet_handle_chain rep c = c := by
  induction c with
  | nil => rfl
  | cons l next ih =>
    simp only [vn_replace_VkWriteDescriptorSet_handle_chain]
    rw [replace_link_of_inlineUniformBlock rep l next (h l (List.mem_cons_self _ _)),
      ih (fun x hx => h x (List.mem_cons_of_mem _ hx))]

theorem replace_self_pNext (rep : VkObjectType → Option Nat → Option Nat)
    (v : VkWriteDescriptorSet) :
    (vn_replace_VkWriteDescriptorSet_handle_self rep v).pNext = v.pNext := rfl

/-- C31. Whenever `vn_decode_VkWriteDescriptorSet_temp` returns without fatal, the decoded
struct has `sType` `VK_STRUCTURE_TYPE_WRITE_DESCRIPTOR_SET` and every link of its `pNext`
chain is an inline uniform block record whose `sType` is
`VK_STRUCTURE_TYPE_WRITE_DESCRIPTOR_SET_INLINE_UNIFORM_BLOCK`. Both tags are case labels
of the `switch` of `vn_replace_VkWriteDescriptorSet_handle`, so its `default` arm is not
taken on that output: the loop leaves the chain as decoded, the inline uniform block arm
skipping every field, and the whole pass is the self pass on the decoded struct. -/
theorem C31_nonfatal_decode_has_only_handled_tags
    (rep : VkObjectType → Option Nat → Option Nat) (dec : vn_cs_decoder)
    (val : VkWriteDescriptorSet)
    (h : (vn_decode_VkWriteDescriptorSet_temp dec val).1.fatal = false) :
    (vn_decode_VkWriteDescriptorSet_temp dec val).2.sType
      = VK_STRUCTURE_TYPE_WRITE_DESCRIPTOR_SET ∧
    (∀ l ∈ (vn_decode_VkWriteDescriptorSet_temp dec val).2.pNext,
      l.sType = VK_STRUCTURE_TYPE_WRITE_DESCRIPTOR_SET_INLINE_UNIFORM_BLOCK ∧
      ∃ n p, l.body = VkRecordBody.writeDescriptorSetInlineUniformBlock n p) ∧
    vn_replace_VkWriteDescriptorSet_handle_chain rep
        (vn_decode_VkWriteDescriptorSet_temp dec val).2.pNext
      = (vn_decode_VkWriteDescriptorSet_temp dec val).2.pNext ∧
    vn_replace_VkWriteDescriptorSet_handle rep (vn_decode_VkWriteDescriptorSet_temp dec val).2
      = vn_replace_VkWriteDescriptorSet_handle_self rep
          (vn_decode_VkWriteDescriptorSet_temp dec val).2 := by
  have hlinks : ∀ l ∈ (vn_decode_VkWriteDescriptorSet_temp dec val).2.pNext,
      l.sType = VK_STRUCTURE_TYPE_WRITE_DESCRIPTOR_SET_INLINE_UNIFORM_BLOCK ∧
      ∃ n p, l.body = VkRecordBody.writeDescriptorSetInlineUniformBlock n p := by
    unfold vn_decode_VkWriteDescriptorSet_temp
    simp only
    rw [(self_temp_header _ _).2]
    exact pnext_temp_fuel_links _ _
  have hst : (vn_decode_VkWriteDescriptorSet_temp dec val).2.sType
      = VK_STRUCTURE_TYPE_WRITE_DESCRIPTOR_SET := by
    by_contra hne
    have hs : (vn_decode_VkStructureType dec).2 ≠ VK_STRUCTURE_TYPE_WRITE_DESCRIPTOR_SET := by
      intro e
      apply hne
      unfold vn_decode_VkWriteDescriptorSet_temp
      simp only
      rw [(self_temp_header _ _).1]
      exact e
    have hf : (vn_decode_VkWriteDescriptorSet_temp dec val).1.fatal = true := by
      unfold vn_decode_VkWriteDescriptorSet_temp
      simp only
      rw [if_pos hs]
      rw [vn_decode_VkWriteDescriptorSet_pnext_temp_of_fatal _ rfl]
      rw [vn_decode_VkWriteDescriptorSet_self_temp_of_fatal _ rfl]
      rfl
    rw [hf] at h
    exact Bool.noConfusion h
  have hchain := replace_chain_of_inlineUniformBlock rep
    (vn_decode_VkWriteDescriptorSet_temp dec val).2.pNext (fun l hl => (hlinks l hl).1)
  refine ⟨hst, hlinks, hchain, ?_⟩
  unfold vn_replace_VkWriteDescriptorSet_handle
  simp only
  rw [if_pos hst, replace_self_pNext, hchain]
  rfl

/-- Witness of C31: a `VkWriteDescriptorSet` with one inline uniform block link of no
data, one registered descriptor set and three absent arrays. -/
theorem C31_nonfatal_decode_has_only_handled_tags_witness :
    (vn_decode_VkWriteDescriptorSet_temp
        ⟨leBytes 4 35 ++ leBytes 8 1 ++ leBytes 4 1000138002 ++ leBytes 8 0 ++ leBytes 4 0 ++
            leBytes 8 0 ++ leBytes 8 4 ++ leBytes 4 1 ++ leBytes 4 2 ++ leBytes 4 0 ++
            leBytes 4 6 ++ leBytes 8 0 ++ leBytes 8 0 ++ leBytes 8 0,
          false, ⟨256, 0, 0⟩, [(VkObjectType.descriptorSet, 4, 9)]⟩ default).2.sType
      = VK_STRUCTURE_TYPE_WRITE_DESCRIPTOR_SET :=
  (C31_nonfatal_decode_has_only_handled_tags (fun _ x => x) _ default (by decide)).1

/-! ## C32: the handle pass over the structs without handles -/

/-- The element loop with an element function that changes nothing. -/
theorem replace_array_skipped {α : Type} (f : α → α) (hf : ∀ x, f x = x) (n : Nat)
    (arr : List α) : vn_replace_array f n arr = arr := by
  induction n generalizing arr with
  | zero => simp [vn_replace_array]
  | succ n ih =>
    cases arr with
    | nil => simp [vn_replace_array]
    | cons x xs => simp [vn_replace_array, hf, ih]

theorem vn_replace_VkSemaphoreTypeCreateInfo_handle_chain_eq
    (c : List VkBaseOutStructure) :
    vn_replace_VkSemaphoreTypeCreateInfo_handle_chain c = c := by
  induction c with
  | nil => rfl
  | cons l next ih =>
    simp only [vn_replace_VkSemaphoreTypeCreateInfo_handle_chain, vn_replace_link_skipped, ih,
      ite_self]

theorem vn_replace_VkImageFormatListCreateInfo_handle_chain_eq
    (c : List VkBaseOutStructure) :
    vn_replace_VkImageFormatListCreateInfo_handle_chain c = c := by
  induction c with
  | nil => rfl
  | cons l next ih =>
    simp only [vn_replace_VkImageFormatListCreateInfo_handle_chain, vn_replace_link_skipped, ih,
      ite_self]

theorem vn_replace_VkImageStencilUsageCreateInfo_handle_chain_eq
    (c : List VkBaseOutStructure) :
    vn_replace_VkImageStencilUsageCreateInfo_handle_chain c = c := by
  induction c with
  | nil => rfl
  | cons l next ih =>
    simp only [vn_replace_VkImageStencilUsageCreateInfo_handle_chain, vn_replace_link_skipped, ih,
      ite_self]

theorem vn_replace_VkShaderModuleCreateInfo_handle_chain_eq
    (c : List VkBaseOutStructure) :
    vn_replace_VkShaderModuleCreateInfo_handle_chain c = c := by
  induction c with
  | nil => rfl
  | cons l next ih =>
    simp only [vn_replace_VkShaderModuleCreateInfo_handle_chain, vn_replace_link_skipped, ih,
      ite_self]

theorem vn_replace_VkMutableDescriptorTypeCreateInfoEXT_handle_chain_eq
    (c : List VkBaseOutStructure) :
    vn_replace_VkMutableDescriptorTypeCreateInfoEXT_handle_chain c = c := by
  induction c with
  | nil => rfl
  | cons l next ih =>
    simp only [vn_replace_VkMutableDescriptorTypeCreateInfoEXT_handle_chain,
      vn_replace_link_skipped, ih, ite_self]

theorem vn_replace_VkWriteDescriptorSetInlineUniformBlock_handle_chain_eq
    (c : List VkBaseOutStructure) :
    vn_replace_VkWriteDescriptorSetInlineUniformBlock_handle_chain c = c := by
  induction c with
  | nil => rfl
  | cons l next ih =>
    simp only [vn_replace_VkWriteDescriptorSetInlineUniformBlock_handle_chain,
      vn_replace_link_skipped, ih, ite_self]

theorem vn_replace_VkMemoryBarrier2_handle_chain_eq
    (c : List VkBaseOutStructure) :
    vn_replace_VkMemoryBarrier2_handle_chain c = c := by
  induction c with
  | nil => rfl
  | cons l next ih =>
    simp only [vn_replace_VkMemoryBarrier2_handle_chain, vn_replace_link_skipped, ih,
      ite_self]

/-- C32. On the structs without handles the handle pass changes nothing. For `VkExtent3D`,
`VkOffset2D`, `VkExtent2D`, `VkRect2D`, `VkComponentMapping` and for
`VkSemaphoreTypeCreateInfo`, `VkImageFormatListCreateInfo`,
`VkImageStencilUsageCreateInfo`, `VkShaderModuleCreateInfo`,
`VkMutableDescriptorTypeCreateInfoEXT`, `VkWriteDescriptorSetInlineUniformBlock` and
`VkMemoryBarrier2` the function returns its argument, whatever the field values, the tags
and the chain are: every field of the struct and of every link, and the order of the
links, are as before. The loops over the chain go one step per link of the finite chain,
so they end on every chain. -/
theorem C32_replace_is_the_identity_without_handles
    (v0 : VkExtent3D)
    (v1 : VkOffset2D)
    (v2 : VkExtent2D)
    (v3 : VkRect2D)
    (v4 : VkComponentMapping)
    (v5 : VkSemaphoreTypeCreateInfo)
    (v6 : VkImageFormatListCreateInfo)
    (v7 : VkImageStencilUsageCreateInfo)
    (v8 : VkShaderModuleCreateInfo)
    (v9 : VkMutableDescriptorTypeCreateInfoEXT)
    (v10 : VkWriteDescriptorSetInlineUniformBlock)
    (v11 : VkMemoryBarrier2) :
    vn_replace_VkExtent3D_handle v0 = v0 ∧
    vn_replace_VkOffset2D_handle v1 = v1 ∧
    vn_replace_VkExtent2D_handle v2 = v2 ∧
    vn_replace_VkRect2D_handle v3 = v3 ∧
    vn_replace_VkComponentMapping_handle v4 = v4 ∧
    vn_replace_VkSemaphoreTypeCreateInfo_handle v5 = v5 ∧
    vn_replace_VkImageFormatListCreateInfo_handle v6 = v6 ∧
    vn_replace_VkImageStencilUsageCreateInfo_handle v7 = v7 ∧
    vn_replace_VkShaderModuleCreateInfo_handle v8 = v8 ∧
    vn_replace_VkMutableDescriptorTypeCreateInfoEXT_handle v9 = v9 ∧
    vn_replace_VkWriteDescriptorSetInlineUniformBlock_handle v10 = v10 ∧
    vn_replace_VkMemoryBarrier2_handle v11 = v11 := by
  have hl : ∀ (n : Nat) (l : List VkMutableDescriptorTypeListEXT),
      vn_replace_array vn_replace_VkMutableDescriptorTypeListEXT_handle n l = l :=
    fun n l => replace_array_skipped _ (fun _ => rfl) n l
  have hm : ∀ v : VkMutableDescriptorTypeCreateInfoEXT,
      vn_replace_VkMutableDescriptorTypeCreateInfoEXT_handle_self v = v := by
    intro v
    unfold vn_replace_VkMutableDescriptorTypeCreateInfoEXT_handle_self
    cases h : v.pMutableDescriptorTypeLists with
    | none =>
      cases v
      simp_all
    | some l =>
      cases v
      simp_all
  refine ⟨rfl, rfl, rfl, rfl, rfl, ?_, ?_, ?_, ?_, ?_, ?_, ?_⟩
  · simp only [vn_replace_VkSemaphoreTypeCreateInfo_handle,
      vn_replace_VkSemaphoreTypeCreateInfo_handle_self, ite_self,
      vn_replace_VkSemaphoreTypeCreateInfo_handle_chain_eq]
  · simp only [vn_replace_VkImageFormatListCreateInfo_handle,
      vn_replace_VkImageFormatListCreateInfo_handle_self, ite_self,
      vn_replace_VkImageFormatListCreateInfo_handle_chain_eq]
  · simp only [vn_replace_VkImageStencilUsageCreateInfo_handle,
      vn_replace_VkImageStencilUsageCreateInfo_handle_self, ite_self,
      vn_replace_VkImageStencilUsageCreateInfo_handle_chain_eq]
  · simp only [vn_replace_VkShaderModuleCreateInfo_handle,
      vn_replace_VkShaderModuleCreateInfo_handle_self, ite_self,
      vn_replace_VkShaderModuleCreateInfo_handle_chain_eq]
  · simp only [vn_replace_VkMutableDescriptorTypeCreateInfoEXT_handle, hm, ite_self,
      vn_replace_VkMutableDescriptorTypeCreateInfoEXT_handle_chain_eq]
  · simp only [vn_replace_VkWriteDescriptorSetInlineUniformBlock_handle,
      vn_replace_VkWriteDescriptorSetInlineUniformBlock_handle_self, ite_self,
      vn_replace_VkWriteDescriptorSetInlineUniformBlock_handle_chain_eq]
  · simp only [vn_replace_VkMemoryBarrier2_handle,
      vn_replace_VkMemoryBarrier2_handle_self, ite_self,
      vn_replace_VkMemoryBarrier2_handle_chain_eq]

/-! ## C33: `vn_decode_VkClearColorValue_temp` -/

/-- The scalar array readers consume nothing in fatal state. -/
theorem scalar_array_of_fatal (size n : Nat) (dec : vn_cs_decoder) (h : dec.fatal = true) :
    (vn_decode_scalar_array size n dec).1 = dec := by
  unfold vn_decode_scalar_array
  exact decode_array_of_fatal _ _ dec (fun _ => by simp only [read_of_fatal dec size h]) n

/-- C33. `vn_decode_VkClearColorValue_temp` reads a 4-byte tag. For the tags 0, 1 and 2 it
reads a size marker bounded by 4 and that many 4-byte elements into the union, through the
float, the int32 or the uint32 array reader: on a stream that holds the tag, a present
size marker with a count `K ≤ 4` and `K` elements it consumes exactly these bytes, the
same for the three tags, and stores the elements at the front of the union; a count above
4 ends with fatal set. For every other tag it sets fatal, consumes nothing after the tag
and leaves the union as it was. -/
theorem C33_VkClearColorValue_by_tag (d : vn_cs_decoder) (val : VkClearColorValue)
    (tag K : Nat) (vals : List Nat) (rest : List Byte) (a : Arena)
    (o : List (VkObjectType × Nat × Nat))
    (htag : tag ≤ 2) (hK : K ≤ 4) (hl : vals.length = K) (hv : ∀ c ∈ vals, c < 256 ^ 4) :
    vn_decode_VkClearColorValue_temp
        ⟨leBytes 4 tag ++ (leBytes 8 1 ++ (leBytes 8 K ++ (scalarArrayBytes 4 K vals ++ rest))),
          false, a, o⟩ val
      = (⟨rest, false, a, o⟩, { val with words := storeArray val.words vals }) ∧
    ((vn_decode_uint32_t d).2 ≤ 2 →
      vn_decode_VkClearColorValue_temp d val
        = ((vn_decode_scalar_array 4 (vn_decode_array_size (vn_decode_uint32_t d).1 4).2
              (vn_decode_array_size (vn_decode_uint32_t d).1 4).1).1,
           VkClearColorValue.mk (storeArray val.words
              (vn_decode_scalar_array 4 (vn_decode_array_size (vn_decode_uint32_t d).1 4).2
                (vn_decode_array_size (vn_decode_uint32_t d).1 4).1).2))) ∧
    ((vn_decode_uint32_t d).2 ≤ 2 →
      4 < (vn_decode_array_size_unchecked (vn_decode_uint32_t d).1).2 →
      (vn_decode_VkClearColorValue_temp d val).1.fatal = true) ∧
    (2 < (vn_decode_uint32_t d).2 →
      vn_decode_VkClearColorValue_temp d val
        = (vn_cs_decoder_set_fatal (vn_decode_uint32_t d).1, val) ∧
      (vn_decode_VkClearColorValue_temp d val).1.fatal = true ∧
      (vn_decode_VkClearColorValue_temp d val).1.cur = (vn_decode_uint32_t d).1.cur ∧
      (vn_decode_VkClearColorValue_temp d val).2 = val) := by
  have hgen : (vn_decode_uint32_t d).2 ≤ 2 →
      vn_decode_VkClearColorValue_temp d val
        = ((vn_decode_scalar_array 4 (vn_decode_array_size (vn_decode_uint32_t d).1 4).2
              (vn_decode_array_size (vn_decode_uint32_t d).1 4).1).1,
           VkClearColorValue.mk (storeArray val.words
              (vn_decode_scalar_array 4 (vn_decode_array_size (vn_decode_uint32_t d).1 4).2
                (vn_decode_array_size (vn_decode_uint32_t d).1 4).1).2)) := by
    intro ht
    unfold vn_decode_VkClearColorValue_temp
    simp only [vn_decode_float_array, vn_decode_int32_t_array, vn_decode_uint32_t_array]
    split
    · rfl
    · split
      · rfl
      · split
        · rfl
        · omega
  have hother : 2 < (vn_decode_uint32_t d).2 →
      vn_decode_VkClearColorValue_temp d val
        = (vn_cs_decoder_set_fatal (vn_decode_uint32_t d).1, val) := by
    intro ht
    unfold vn_decode_VkClearColorValue_temp
    simp only
    rw [if_neg (by omega), if_neg (by omega), if_neg (by omega)]
  refine ⟨?_, hgen, ?_, ?_⟩
  · have h32 : isUint32 tag := by
      unfold isUint32
      omega
    have h64 : isUint64 K := by
      unfold isUint64
      omega
    have e1 := decode_uint32_t_bytes tag h32
      (leBytes 8 1 ++ (leBytes 8 K ++ (scalarArrayBytes 4 K vals ++ rest))) a o
    have e2 := decode_array_size_present K 4 h64 hK (scalarArrayBytes 4 K vals ++ rest) a o
    have e3 := decode_scalar_array_bytes 4 K vals hl hv rest a o
    unfold vn_decode_VkClearColorValue_temp
    simp only [vn_decode_float_array, vn_decode_int32_t_array, vn_decode_uint32_t_array]
    rw [e1]
    simp only []
    rw [e2]
    simp only []
    rw [e3]
    split
    · rfl
    · split
      · rfl
      · split
        · rfl
        · omega
  · intro ht hk
    rw [hgen ht]
    simp only
    rw [scalar_array_of_fatal _ _ _ (array_size_fatal_of_gt _ 4 hk)]
    exact array_size_fatal_of_gt _ 4 hk
  · intro ht
    rw [hother ht]
    exact ⟨rfl, rfl, rfl, rfl⟩

/-- Witness of C33: tag 1 with two elements, stored over the first two words of the
union; the byte after them stays in the stream. -/
theorem C33_VkClearColorValue_by_tag_witness :
    vn_decode_VkClearColorValue_temp
        ⟨leBytes 4 1 ++ (leBytes 8 1 ++ (leBytes 8 2 ++ (scalarArrayBytes 4 2 [5, 6] ++ [9]))),
          false, ⟨256, 0, 0⟩, []⟩ ⟨[1, 2, 3, 4]⟩
      = (⟨[9], false, ⟨256, 0, 0⟩, []⟩, ⟨[5, 6, 3, 4]⟩) :=
  (C33_VkClearColorValue_by_tag ⟨[], false, ⟨0, 0, 0⟩, []⟩ ⟨[1, 2, 3, 4]⟩ 1 2 [5, 6] [9]
    ⟨256, 0, 0⟩ []
    (by decide) (by decide) rfl (by decide)).1

end Venus

/-! ## C25: registering categories -/

namespace Ctrace

/-- The tag loop from index `pre.length` on: the tags still to be written are replaced by
the argument's tags at the same indices. -/
theorem copy_tags_append (cpre cmid crest pre post : List CString)
    (hp : pre.length = cpre.length) (hm : post.length = cmid.length) :
    copy_tags (cpre ++ (cmid ++ crest)) cmid.length pre.length (pre ++ post)
      = some (pre ++ cmid) := by
  induction cmid generalizing cpre pre post with
  | nil =>
    have : post = [] := List.length_eq_zero.mp hm
    subst this
    simp [copy_tags]
  | cons x cmid ih =>
    cases post with
    | nil => simp at hm
    | cons y post =>
      have hg : (cpre ++ (x :: cmid ++ crest))[pre.length]? = some x := by
        rw [hp, List.getElem?_append_right (Nat.le_refl _)]
        simp
      have hset : (pre ++ y :: post).set pre.length x = (pre ++ [x]) ++ post := by
        rw [List.set_append_right _ _ (Nat.le_refl _)]
        simp
      simp only [List.length_cons, copy_tags, hg, hset]
      have hc : cpre ++ (x :: cmid ++ crest) = (cpre ++ [x]) ++ (cmid ++ crest) := by simp
      have hl : pre.length + 1 = (pre ++ [x]).length := by simp
      rw [hc, hl, ih (cpre ++ [x]) (pre ++ [x]) post (by simp [hp]) (by simpa using hm)]
      simp

theorem copy_tags_all (c_tags tags : List CString) (h : tags.length = c_tags.length) :
    copy_tags c_tags tags.length 0 tags = some c_tags := by
  have := copy_tags_append [] c_tags [] [] tags rfl h
  simp only [List.nil_append, List.append_nil, List.length_nil] at this
  rw [h]
  exact this

/-- The registration loop on slots `smid` and arguments `cmid` of equal number, when every
slot has as many tags as every argument (`tags[4]`): the slots become copies of the
arguments, in order, and `g_num_categories` advances by their number. -/
theorem register_loop_append (cpre cmid crest : List ctrace_category)
    (spre smid srest : List Category) (num rc : Nat)
    (hs : spre.length = num) (hm : smid.length = cmid.length)
    (hst : ∀ s ∈ smid, s.tags.length = 4) (hct : ∀ c ∈ cmid, c.tags.length = 4) :
    register_loop (cpre ++ (cmid ++ crest)) cmid.length cpre.length
        ⟨num, spre ++ (smid ++ srest), rc⟩
      = some ⟨num + cmid.length,
          spre ++ (cmid.map (fun c =>
            ({ name := c.name, instances_callback := c.instances_callback,
               client_index := c.client_index, description := c.description,
               tags := c.tags } : Category)) ++ srest), rc⟩ := by
  induction cmid generalizing cpre spre smid num with
  | nil =>
    have : smid = [] := List.length_eq_zero.mp hm
    subst this
    simp [register_loop]
  | cons x cmid ih =>
    cases smid with
    | nil => simp at hm
    | cons y smid =>
      have hg : (cpre ++ (x :: cmid ++ crest))[cpre.length]? = some x := by
        rw [List.getElem?_append_right (Nat.le_refl _)]
        simp
      have hy : (spre ++ (y :: smid ++ srest))[num]? = some y := by
        rw [← hs, List.getElem?_append_right (Nat.le_refl _)]
        simp
      have hty : y.tags.length = x.tags.length := by
        rw [hst y (List.mem_cons_self _ _), hct x (List.mem_cons_self _ _)]
      have hset : ∀ z : Category, (spre ++ (y :: smid ++ srest)).set num z
          = (spre ++ [z]) ++ (smid ++ srest) := by
        intro z
        rw [← hs, List.set_append_right _ _ (Nat.le_refl _)]
        simp
      simp only [List.length_cons, register_loop, hg, hy, copy_tags_all x.tags y.tags hty,
        hset]
      have hc : cpre ++ (x :: cmid ++ crest) = (cpre ++ [x]) ++ (cmid ++ crest) := by simp
      have hl : cpre.length + 1 = (cpre ++ [x]).length := by simp
      rw [hc, hl, ih (cpre ++ [x]) _ smid (num + 1) (by simp [hs]) (by simpa using hm)
        (fun s h => hst s (List.mem_cons_of_mem _ h))
        (fun c h => hct c (List.mem_cons_of_mem _ h))]
      simp only [List.map_cons, List.length_cons, List.append_assoc, List.singleton_append,
        List.cons_append, List.nil_append, Option.some.injEq, Globals.mk.injEq, and_true]
      omega

/-- Within the capacity of `g_categories`, `ctrace_register_categories` returns the old
count, stores copies of its first `max` arguments from that index on, in order, leaves
every other slot as it was, and sets both counts to the old count plus `max`. -/
theorem register_within_capacity (g : Globals) (c_cats : List ctrace_category) (max : Nat)
    (hcap : g.g_num_categories + max ≤ g.g_categories.length)
    (hmax : max ≤ c_cats.length)
    (hst : ∀ s ∈ g.g_categories, s.tags.length = 4)
    (hct : ∀ c ∈ c_cats, c.tags.length = 4) :
    ctrace_register_categories g c_cats max
      = some (⟨g.g_num_categories + max,
          g.g_categories.take g.g_num_categories ++
            ((c_cats.take max).map (fun c =>
              ({ name := c.name, instances_callback := c.instances_callback,
                 client_index := c.client_index, description := c.description,
                 tags := c.tags } : Category)) ++
             g.g_categories.drop (g.g_num_categories + max)),
          g.g_num_categories + max⟩, g.g_num_categories) := by
  obtain ⟨num, slots, rc⟩ := g
  simp only at hcap hst ⊢
  have hslots : slots
      = slots.take num ++ ((slots.drop num).take max ++ slots.drop (num + max)) := by
    rw [← List.drop_drop, List.take_append_drop, List.take_append_drop]
  have hcats : c_cats = [] ++ (c_cats.take max ++ c_cats.drop max) := by simp
  have hlen : (c_cats.take max).length = max := by simp [hmax]
  have h := register_loop_append [] (c_cats.take max) (c_cats.drop max) (slots.take num)
    ((slots.drop num).take max) (slots.drop (num + max)) num rc
    (by simp; omega) (by simp [hlen]; omega)
    (fun s hs => hst s (List.mem_of_mem_drop (List.mem_of_mem_take hs)))
    (fun c hc => hct c (List.mem_of_mem_take hc))
  rw [← hslots, ← hcats, hlen] at h
  simp only [ctrace_register_categories, List.length_nil] at h ⊢
  rw [h]
  simp [SetCount]

/-- Past the capacity of `g_categories` the loop reaches a store outside the array,
whatever the arguments are. -/
theorem register_loop_overflow (c_cats : List ctrace_category) (n count : Nat) (g : Globals)
    (hnum : g.g_num_categories ≤ g.g_categories.length)
    (hover : g.g_categories.length < g.g_num_categories + n) :
    register_loop c_cats n count g = none := by
  induction n generalizing count g with
  | zero => omega
  | succ n ih =>
    simp only [register_loop]
    cases hc : c_cats[count]? with
    | none => rfl
    | some c_cat =>
      simp only
      cases hs : g.g_categories[g.g_num_categories]? with
      | none => rfl
      | some cat =>
        simp only
        cases ht : copy_tags c_cat.tags cat.tags.length 0 cat.tags with
        | none => rfl
        | some tags =>
          simp only
          have hlt : g.g_num_categories < g.g_categories.length := by
            by_contra hge
            rw [List.getElem?_eq_none (by omega)] at hs
            exact Option.noConfusion hs
          apply ih
          · simp only [List.length_set]
            omega
          · simp only [List.length_set]
            omega

/-- C25. `ctrace_register_categories` cannot be called any number of times. On the globals
of program start, one call with 256 categories reaches a store outside
`g_categories[kMaxCategories]`; and after a first call that registers 255 categories and
returns base 0, a second call with a single category does the same. -/
theorem C25_register_past_kMaxCategories :
    ctrace_register_categories (initial ⟨some [], none, 0, none, [none, none, none, none]⟩ 0)
        (List.replicate 256 ⟨7, some 1, some [99], some [100], [none, none, none, none]⟩) 256
      = none ∧
    ∃ g, ctrace_register_categories
          (initial ⟨some [], none, 0, none, [none, none, none, none]⟩ 0)
          (List.replicate 255 ⟨7, some 1, some [99], some [100], [none, none, none, none]⟩) 255
        = some (g, 0) ∧
      g.g_num_categories = 255 ∧ g.registry_count = 255 ∧
      ctrace_register_categories g
          [⟨8, some 1, some [101], some [102], [none, none, none, none]⟩] 1 = none := by
  have hlen : ∀ e : Category, (initial e 0).g_categories.length = 255 := by
    intro e
    show (List.replicate kMaxCategories e).length = 255
    rw [List.length_replicate]
    rfl
  constructor
  · unfold ctrace_register_categories
    rw [register_loop_overflow _ _ _ _ (Nat.zero_le _) (by rw [hlen]; decide)]
  · have h := register_within_capacity
      (initial ⟨some [], none, 0, none, [none, none, none, none]⟩ 0)
      (List.replicate 255 ⟨7, some 1, some [99], some [100], [none, none, none, none]⟩) 255
      (by rw [hlen]; decide) (by rw [List.length_replicate])
      (by
        intro s hs
        simp only [initial, List.mem_replicate] at hs
        rw [hs.2]
        rfl)
      (by
        intro c hc
        simp only [List.mem_replicate] at hc
        rw [hc.2]
        rfl)
    refine ⟨_, h, rfl, rfl, ?_⟩
    unfold ctrace_register_categories
    rw [register_loop_overflow _ _ _ _
      (by
        simp only [List.length_append, List.length_take, List.length_map, List.length_drop,
          List.length_replicate, hlen]
        decide)
      (by
        simp only [List.length_append, List.length_take, List.length_map, List.length_drop,
          List.length_replicate, hlen]
        decide)]

/-! ## C34: the stores of `ctrace_register_categories` -/

/-- A call of `ctrace_register_categories` on globals within capacity reaches a store
outside `g_categories` exactly when the categories registered so far and `max` together
exceed `kMaxCategories`; otherwise the count grows by `max` and stays within it. -/
theorem register_outcome (g : Globals) (c_cats : List ctrace_category)
    (max : Nat) (hlen : g.g_categories.length = kMaxCategories)
    (hnum : g.g_num_categories ≤ kMaxCategories) (hmax : max ≤ c_cats.length)
    (hst : ∀ s ∈ g.g_categories, s.tags.length = 4)
    (hct : ∀ c ∈ c_cats, c.tags.length = 4) :
    (ctrace_register_categories g c_cats max = none ↔
      kMaxCategories < g.g_num_categories + max) ∧
    (∀ r, ctrace_register_categories g c_cats max = some r →
      r.1.g_num_categories = g.g_num_categories + max ∧
      r.1.g_num_categories ≤ kMaxCategories ∧
      r.1.g_categories.length = kMaxCategories) := by
  by_cases hover : kMaxCategories < g.g_num_categories + max
  · have hnone : ctrace_register_categories g c_cats max = none := by
      unfold ctrace_register_categories
      rw [register_loop_overflow c_cats max 0 g (by omega) (by omega)]
    refine ⟨⟨fun _ => hover, fun _ => hnone⟩, ?_⟩
    intro r hr
    rw [hnone] at hr
    exact Option.noConfusion hr
  · have hsome := register_within_capacity g c_cats max (by omega) hmax hst hct
    refine ⟨⟨fun h => ?_, fun h => absurd h hover⟩, ?_⟩
    · rw [hsome] at h
      exact Option.noConfusion h
    · intro r hr
      rw [hsome] at hr
      cases hr
      refine ⟨rfl, by simp only; omega, ?_⟩
      simp only [List.length_append, List.length_take, List.length_map, List.length_drop]
      omega

/-- C34. Not every store of `ctrace_register_categories` is below `kMaxCategories`. From
the globals of program start a first call registers 200 categories and returns base 0;
a second call with 100 categories then reaches `g_categories[255]`, a store outside the
255 slots of `g_categories`, with `g_num_categories` counted past `kMaxCategories`. -/
theorem C34_store_outside_g_categories :
    ∃ g, ctrace_register_categories
          (initial ⟨some [], none, 0, none, [none, none, none, none]⟩ 0)
          (List.replicate 200 ⟨7, some 1, some [99], some [100], [none, none, none, none]⟩) 200
        = some (g, 0) ∧
      g.g_num_categories = 200 ∧ g.g_categories.length = kMaxCategories ∧
      kMaxCategories < g.g_num_categories + 100 ∧
      ctrace_register_categories g
          (List.replicate 100 ⟨8, some 1, some [101], some [102], [none, none, none, none]⟩)
          100 = none := by
  have hlen : ∀ e : Category, (initial e 0).g_categories.length = 255 := by
    intro e
    show (List.replicate kMaxCategories e).length = 255
    rw [List.length_replicate]
    rfl
  have h := register_within_capacity
    (initial ⟨some [], none, 0, none, [none, none, none, none]⟩ 0)
    (List.replicate 200 ⟨7, some 1, some [99], some [100], [none, none, none, none]⟩) 200
    (by rw [hlen]; decide) (by rw [List.length_replicate])
    (by
      intro s hs
      simp only [initial, List.mem_replicate] at hs
      rw [hs.2]
      rfl)
    (by
      intro c hc
      simp only [List.mem_replicate] at hc
      rw [hc.2]
      rfl)
  have hl : ∀ e : Category, ∀ c : ctrace_category, ∀ f : ctrace_category → Category,
      (List.take (initial e 0).g_num_categories (initial e 0).g_categories ++
        (List.map f (List.take 200 (List.replicate 200 c)) ++
          List.drop ((initial e 0).g_num_categories + 200) (initial e 0).g_categories)).length
        = 255 := by
    intro e c f
    have h0 : (initial e 0).g_num_categories = 0 := rfl
    simp only [List.length_append, List.length_take, List.length_map, List.length_drop,
      List.length_replicate, hlen, h0]
    decide
  refine ⟨_, h, rfl, ?_, by decide, ?_⟩
  · exact hl _ _ _
  · unfold ctrace_register_categories
    rw [register_loop_overflow _ _ _ _
      (by
        show (0 : Nat) + 200 ≤ _
        rw [hl]
        decide)
      (by
        show _ < (0 : Nat) + 200 + 100
        rw [hl]
        decide)]

/-! ## C35, C36: `string_eq` and `idx_for_category_name` -/

/-- `string_eq` on two NUL-terminated strings, whatever lies behind the terminators. -/
theorem string_eq_terminated (s t m1 m2 : List Nat) (hs : ∀ c ∈ s, c ≠ 0)
    (ht : ∀ c ∈ t, c ≠ 0) :
    string_eq (s ++ 0 :: m1) (t ++ 0 :: m2) = some (decide (s = t)) := by
  induction s generalizing t with
  | nil =>
    cases t with
    | nil => simp [string_eq]
    | cons y t =>
      have hy : y ≠ 0 := ht y (List.mem_cons_self _ _)
      have hy2 : ¬ (0 = y) := fun h => hy h.symm
      simp [string_eq, hy2]
  | cons x s ih =>
    have hx : x ≠ 0 := hs x (List.mem_cons_self _ _)
    cases t with
    | nil => simp [string_eq, hx]
    | cons y t =>
      have hy : y ≠ 0 := ht y (List.mem_cons_self _ _)
      by_cases hxy : x = y
      · subst hxy
        simp only [List.cons_append, string_eq, ne_eq, not_true_eq_false, if_false, hx,
          or_self]
        have h := ih t (fun c hc => hs c (List.mem_cons_of_mem _ hc))
          (fun c hc => ht c (List.mem_cons_of_mem _ hc))
        show string_eq (s ++ 0 :: m1) (t ++ 0 :: m2) = some (decide (x :: s = x :: t))
        rw [h]
        simp
      · simp [string_eq, hxy]

/-- C35. On two NUL-terminated strings `s` and `t`, none of whose characters is NUL,
`string_eq` returns a value, and the value is true exactly when `s = t`: the same length
and the same characters. It reads nothing behind either terminator: the call gives its
result with no memory behind the terminators, and memory behind them does not change
it. -/
theorem C35_string_eq_decides_equality (s t m1 m2 : List Nat)
    (hs : ∀ c ∈ s, c ≠ 0) (ht : ∀ c ∈ t, c ≠ 0) :
    string_eq (s ++ [0]) (t ++ [0]) = some (decide (s = t)) ∧
    string_eq (s ++ 0 :: m1) (t ++ 0 :: m2) = string_eq (s ++ [0]) (t ++ [0]) ∧
    (string_eq (s ++ [0]) (t ++ [0]) = some true ↔ s = t) := by
  have h1 := string_eq_terminated s t [] [] hs ht
  have h2 := string_eq_terminated s t m1 m2 hs ht
  refine ⟨h1, by rw [h1, h2], ?_⟩
  rw [h1]
  simp

/-- Witness of C35: "cat" against "ca". -/
theorem C35_string_eq_decides_equality_witness :
    string_eq ([99, 97, 116] ++ [0]) ([99, 97] ++ [0]) = some (decide ([99, 97, 116] = [99, 97])) :=
  (C35_string_eq_decides_equality [99, 97, 116] [99, 97] [] [] (by decide) (by decide)).1

/-- The comparison of two names of the embedding. -/
theorem string_eq_chars (s t : List Nat) (hs : ∀ c ∈ s, c ≠ 0) (ht : ∀ c ∈ t, c ≠ 0) :
    string_eq (chars (some s)) (chars (some t)) = some (decide (s = t)) :=
  string_eq_terminated s t [] [] hs ht

/-- The search from `index` on returns the first index whose entry has the name looked
for, when every entry up to it has a string for a name. -/
theorem idx_for_category_name_impl_fuel_finds (asserts : Bool) (s : List Nat) (max : Nat)
    (catlist : List ctrace_category) (i : Nat) (hs : ∀ c ∈ s, c ≠ 0) (hi : i < max)
    (hproper : ∀ j, j ≤ i → ∃ c sj, catlist[j]? = some c ∧ c.name = some sj ∧
      ∀ ch ∈ sj, ch ≠ 0)
    (hmatch : ∃ c, catlist[i]? = some c ∧ c.name = some s)
    (hleast : ∀ j, j < i → ∀ c, catlist[j]? = some c → c.name ≠ some s)
    (fuel index : Nat) (hidx : index ≤ i) (hfuel : i - index < fuel) :
    idx_for_category_name_impl_fuel asserts (some s) max catlist fuel index = some i := by
  induction fuel generalizing index with
  | zero => omega
  | succ n ih =>
    have hlt : index < max := by omega
    obtain ⟨c, sj, hc, hn, hsj⟩ := hproper index hidx
    have hnot : ¬ index ≥ max := by omega
    simp only [idx_for_category_name_impl_fuel, hlt, decide_True, Bool.not_true,
      Bool.and_false, Bool.false_eq_true, if_false, hnot, hc, hn, string_eq_chars sj s hsj hs]
    by_cases heq : sj = s
    · subst heq
      have : index = i := by
        by_contra hne
        exact hleast index (by omega) c hc hn
      subst this
      simp
    · have hne : index ≠ i := by
        intro h
        subst h
        obtain ⟨c2, hc2, hn2⟩ := hmatch
        rw [hc] at hc2
        cases hc2
        rw [hn] at hn2
        cases hn2
        exact heq rfl
      simp only [heq, decide_False]
      exact ih (index + 1) (by omega) (by omega)

/-- C36. For `max ≥ 1`, a category list of at least `max` entries whose first `max` names
are strings, and a name `s` that is the name of entry `i < max` and of no entry before
it, `idx_for_category_name` returns `i`, with the `assert` compiled in or not. The same
holds on the list cut down to its first `max` entries, where a read at index `max` or
above has no result: no such read is made. -/
theorem C36_idx_for_category_name_finds_least (asserts : Bool) (s : List Nat) (max : Nat)
    (catlist : List ctrace_category) (i : Nat)
    (hmax : 1 ≤ max) (hlen : max ≤ catlist.length) (hs : ∀ c ∈ s, c ≠ 0)
    (hproper : ∀ c ∈ catlist.take max, ∃ sj, c.name = some sj ∧ ∀ ch ∈ sj, ch ≠ 0)
    (hi : i < max)
    (hmatch : ∃ c, catlist[i]? = some c ∧ c.name = some s)
    (hleast : ∀ j, j < i → ∀ c, catlist[j]? = some c → c.name ≠ some s) :
    idx_for_category_name asserts (some s) max catlist = some i ∧
    idx_for_category_name asserts (some s) max (catlist.take max) = some i := by
  have htake : ∀ j, j < max → (catlist.take max)[j]? = catlist[j]? := by
    intro j hj
    rw [List.getElem?_take_of_lt hj]
  have hp : ∀ j, j ≤ i → ∃ c sj, catlist[j]? = some c ∧ c.name = some sj ∧
      ∀ ch ∈ sj, ch ≠ 0 := by
    intro j hj
    have hjl : j < catlist.length := by omega
    have hmem : catlist[j] ∈ catlist.take max := by
      rw [List.mem_take_iff_getElem]
      exact ⟨j, by omega, rfl⟩
    obtain ⟨sj, h1, h2⟩ := hproper _ hmem
    exact ⟨catlist[j], sj, List.getElem?_eq_getElem hjl, h1, h2⟩
  constructor
  · exact idx_for_category_name_impl_fuel_finds asserts s max catlist i hs hi hp hmatch hleast
      _ 0 (Nat.zero_le _) (by omega)
  · refine idx_for_category_name_impl_fuel_finds asserts s max (catlist.take max) i hs hi ?_ ?_
      ?_ _ 0 (Nat.zero_le _) (by omega)
    · intro j hj
      rw [htake j (by omega)]
      exact hp j hj
    · rw [htake i hi]
      exact hmatch
    · intro j hj c hc
      rw [htake j (by omega)] at hc
      exact hleast j hj c hc

/-- Witness of C36: the names "a", "b", "b" and a fourth entry with a null name; "b" is
found at index 1 with `max` 3. -/
theorem C36_idx_for_category_name_finds_least_witness :
    idx_for_category_name true (some [98]) 3
        [⟨0, none, some [97], none, []⟩, ⟨1, none, some [98], none, []⟩,
          ⟨2, none, some [98], none, []⟩, ⟨3, none, none, none, []⟩]
      = some 1 :=
  (C36_idx_for_category_name_finds_least true [98] 3
    [⟨0, none, some [97], none, []⟩, ⟨1, none, some [98], none, []⟩,
      ⟨2, none, some [98], none, []⟩, ⟨3, none, none, none, []⟩] 1
    (by decide) (by decide) (by decide)
    (by
      intro c hc
      simp only [List.take_succ_cons, List.take_zero, List.mem_cons, List.mem_nil_iff,
        or_false] at hc
      rcases hc with h | h | h <;> subst h
      · exact ⟨[97], rfl, by decide⟩
      · exact ⟨[98], rfl, by decide⟩
      · exact ⟨[98], rfl, by decide⟩)
    (by decide) ⟨_, rfl, rfl⟩
    (by
      intro j hj c hc
      have hj0 : j = 0 := by omega
      subst hj0
      simp only [List.getElem?_cons_zero, Option.some.injEq] at hc
      subst hc
      decide)).1

end Ctrace
